import Mathlib

/-!
# AT-09 / ZS-040 (HM-10 clone) BLE driver: the AT command exchange engine

A shallow embedding of `Src/AT-09_zs040_ble_driver.c`.

* The UART is an arbitrary deterministic state machine `UART σ` offering the two
  HAL primitives the driver uses (`HAL_UART_Transmit`, `HAL_UART_Receive`).
* The module-level variables of the driver (`p_huart`, `TxRx_Buffer`,
  `resp_attempts`) and the caller-owned output parameters are the fields of `Driver`.
  A ghost `trace` records every HAL call and every store to `resp_attempts`.
* Every function that can recurse without bound (the RX flush, the byte-by-byte name
  read) or that retries by calling itself takes a `fuel : Nat`; running out of fuel is
  reported as `none`/`false` together with the state reached so far.
* Bytes and status codes are natural numbers; 8-bit counters wrap with `% 256`.
-/

namespace AT09

/-! ## HAL side -/

/-- The status enumeration of the STM32 HAL (`HAL_OK = 0`, `HAL_ERROR = 1`,
`HAL_BUSY = 2`, `HAL_TIMEOUT = 3`). -/
inductive HAL_StatusTypeDef where
  | HAL_OK
  | HAL_ERROR
  | HAL_BUSY
  | HAL_TIMEOUT
  deriving DecidableEq, Repr

/-- Integer value of a HAL status, as stored in the `int16_t ret` locals. -/
def HAL_StatusTypeDef.toNat : HAL_StatusTypeDef → Nat
  | .HAL_OK => 0
  | .HAL_ERROR => 1
  | .HAL_BUSY => 2
  | .HAL_TIMEOUT => 3

/-- Integer value of `HAL_OK`, against which the driver compares `ret`. -/
def HAL_OK : Nat := HAL_StatusTypeDef.HAL_OK.toNat

/-- The UART behind `p_huart`: a deterministic machine with link state `σ`.
`HAL_UART_Transmit s pData Timeout` sends the bytes `pData` (its length is the `Size`
argument) and gives the status and the next link state; `HAL_UART_Receive s Size Timeout`
gives the status, the bytes stored into the destination (at most `Size` are used) and the
next link state. -/
structure UART (σ : Type) where
  HAL_UART_Transmit : σ → List Nat → Nat → HAL_StatusTypeDef × σ
  HAL_UART_Receive : σ → Nat → Nat → HAL_StatusTypeDef × List Nat × σ

/-! ## Constants of the driver -/

/-- Constants that the driver takes from `AT-09_zs040_ble_driver.h` and from the
application configuration, neither of which is part of the sources: the values of the
`HM10_Clone_Status`, `HM10_Clone_Role` and `HM10_Clone_Pin_Code_Mode` enumerators, the
name and pin sizes, and the HAL timeout. They are parameters of the development. -/
structure Header where
  HM10_Clone_EC_OK : Nat
  HM10_Clone_EC_NR : Nat
  HM10_Clone_EC_ERR : Nat
  HM10_Clone_Role_Peripheral : Nat
  HM10_Clone_Role_Central : Nat
  HM10_Clone_Pin_Code_DISABLED : Nat
  HM10_Clone_Pin_Code_ENABLED : Nat
  HM10_CLONE_MAX_BLE_NAME_SIZE : Nat
  HM10_CLONE_PIN_VALUE_SIZE : Nat
  HM10_CLONE_CUSTOM_HAL_TIMEOUT : Nat
  deriving DecidableEq, Repr

def HM10_CLONE_MAX_AT_COMMAND_SIZE : Nat := 21
def HM10_CLONE_TEST_CMD_SIZE : Nat := 4
def HM10_CLONE_RESET_CMD_SIZE : Nat := 10
def HM10_CLONE_NAME_RESPONSE_SIZE_WITHOUT_REQUESTED_NAME : Nat := 8
def HM10_CLONE_GET_NAME_CMD_SIZE : Nat := 9
def HM10_CLONE_SET_ROLE_CMD_SIZE : Nat := 10
def HM10_CLONE_GET_ROLE_CMD_SIZE : Nat := 9
def HM10_CLONE_ROLE_RESPONSE_SIZE : Nat := 9
def HM10_CLONE_SET_PIN_CMD_SIZE : Nat := 14
def HM10_CLONE_GET_PIN_CMD_SIZE : Nat := 8
def HM10_CLONE_PIN_RESPONSE_SIZE : Nat := 13
def HM10_CLONE_SET_TYPE_CMD_SIZE : Nat := 10
def HM10_CLONE_GET_TYPE_CMD_SIZE : Nat := 9
def HM10_CLONE_TYPE_RESPONSE_SIZE : Nat := 9
def HM10_CLONE_OK_RESPONSE_SIZE : Nat := 4
def CR_AND_LF_SIZE : Nat := 2

/-- The bytes `+NAME=`. -/
def HM10_Clone_Name_resp : List Nat := [43, 78, 65, 77, 69, 61]
/-- The bytes `+ROLE=`. -/
def HM10_Clone_Role_resp : List Nat := [43, 82, 79, 76, 69, 61]
/-- The bytes `+PIN=`. -/
def HM10_Clone_Pin_resp : List Nat := [43, 80, 73, 78, 61]
/-- The bytes `+TYPE=`. -/
def HM10_Clone_Type_resp : List Nat := [43, 84, 89, 80, 69, 61]
/-- The bytes `OK\r\n`. -/
def HM10_Clone_OK_resp : List Nat := [79, 75, 13, 10]

/-! ## Driver state -/

/-- Ghost record of what the driver did: HAL calls with their outcome, and stores to
`resp_attempts`. -/
inductive Event where
  | tx (pData : List Nat) (Timeout : Nat) (status : HAL_StatusTypeDef)
  | rx (Size Timeout : Nat) (status : HAL_StatusTypeDef) (data : List Nat)
  | attempts (value : Nat)
  deriving DecidableEq, Repr

/-- The state the driver works on: the UART behind `p_huart`, the scratch buffer, the
retry counter, the memory behind the output pointers of the getters, and the ghost trace. -/
structure Driver (σ : Type) where
  huart : σ
  TxRx_Buffer : Nat → Nat
  resp_attempts : Nat
  hm10_name : List Nat
  size : Nat
  ble_role : Nat
  pin : List Nat
  pin_code_mode : Nat
  trace : List Event

variable {σ : Type}

/-- The store `TxRx_Buffer[i] = v`. -/
def Driver.store (d : Driver σ) (i v : Nat) : Driver σ :=
  { d with TxRx_Buffer := fun k => if k = i then v else d.TxRx_Buffer k }

/-- The first `n` bytes of the scratch buffer from index `off` on. -/
def Driver.bytes (d : Driver σ) (off n : Nat) : List Nat :=
  (List.range n).map fun k => d.TxRx_Buffer (off + k)

/-- The store `resp_attempts = v` (8-bit). -/
def Driver.set_attempts (d : Driver σ) (v : Nat) : Driver σ :=
  { d with resp_attempts := v % 256, trace := d.trace ++ [Event.attempts (v % 256)] }

/-- The call `HAL_UART_Transmit(p_huart, TxRx_Buffer, Size, Timeout)`. -/
def Driver.Transmit (u : UART σ) (d : Driver σ) (Size Timeout : Nat) :
    HAL_StatusTypeDef × Driver σ :=
  let r := u.HAL_UART_Transmit d.huart (d.bytes 0 Size) Timeout
  (r.1, { d with huart := r.2, trace := d.trace ++ [Event.tx (d.bytes 0 Size) Timeout r.1] })

/-- The call `HAL_UART_Receive(p_huart, &TxRx_Buffer[off], Size, Timeout)`: the bytes the
UART delivers (at most `Size`) are stored from index `off` on. -/
def Driver.Receive (u : UART σ) (d : Driver σ) (off Size Timeout : Nat) :
    HAL_StatusTypeDef × Driver σ :=
  let r := u.HAL_UART_Receive d.huart Size Timeout
  let data := r.2.1.take Size
  (r.1, { d with
    huart := r.2.2
    TxRx_Buffer := fun k =>
      if off ≤ k ∧ k < off + data.length then data.getD (k - off) 0 else d.TxRx_Buffer k
    trace := d.trace ++ [Event.rx Size Timeout r.1 r.2.1] })

/-! ## The driver functions -/

/-- Function `HAL_ret_handler`: `HAL_BUSY` and `HAL_TIMEOUT` give `HM10_Clone_EC_NR`, `HAL_ERROR`
gives `HM10_Clone_EC_ERR`, anything else is returned unchanged. -/
def HAL_ret_handler (hd : Header) (HAL_status : HAL_StatusTypeDef) : Nat :=
  match HAL_status with
  | .HAL_BUSY => hd.HM10_Clone_EC_NR
  | .HAL_TIMEOUT => hd.HM10_Clone_EC_NR
  | .HAL_ERROR => hd.HM10_Clone_EC_ERR
  | s => s.toNat

/-- Function `HAL_uart_rx_flush`: receive one byte, and again, until a receive reports
`HAL_TIMEOUT`. The flag is `false` when the fuel ran out first. -/
def HAL_uart_rx_flush (u : UART σ) (hd : Header) : Nat → Driver σ → Bool × Driver σ
  | 0, d => (false, d)
  | fuel + 1, d =>
    let r := d.Receive u 0 1 hd.HM10_CLONE_CUSTOM_HAL_TIMEOUT
    if r.1 ≠ HAL_StatusTypeDef.HAL_TIMEOUT then HAL_uart_rx_flush u hd fuel r.2
    else (true, r.2)

/-- The validation loop `for (i = 0; i < n; i++) if (TxRx_Buffer[i] != expected[i]) return ERR`:
true when some compared byte differs. -/
def Driver.differs (d : Driver σ) (expected : List Nat) (n : Nat) : Bool :=
  (List.range n).any fun i => d.TxRx_Buffer i != expected.getD i 0

/-- Function `send_test_cmd`: flush, send `AT\r\n`, expect `OK\r\n`. -/
def send_test_cmd (u : UART σ) (hd : Header) :
    Nat → Driver σ → Option Nat × Driver σ
  | 0, d => (none, d)
  | fuel + 1, d =>
    let f := HAL_uart_rx_flush u hd fuel d
    if f.1 = false then (none, f.2) else
    let d := f.2
    let d := d.store 0 65
    let d := d.store 1 84
    let d := d.store 2 13
    let d := d.store 3 10
    let r := d.Transmit u HM10_CLONE_TEST_CMD_SIZE hd.HM10_CLONE_CUSTOM_HAL_TIMEOUT
    let ret := HAL_ret_handler hd r.1
    let d := r.2
    if ret ≠ HAL_OK then
      if d.resp_attempts = 0 then
        send_test_cmd u hd fuel (d.set_attempts (d.resp_attempts + 1))
      else (some ret, d)
    else
    let r := d.Receive u 0 HM10_CLONE_OK_RESPONSE_SIZE hd.HM10_CLONE_CUSTOM_HAL_TIMEOUT
    let ret := HAL_ret_handler hd r.1
    let d := r.2
    if ret ≠ HAL_OK then
      if d.resp_attempts = 0 then
        send_test_cmd u hd fuel (d.set_attempts (d.resp_attempts + 1))
      else (some ret, d)
    else
    if d.differs HM10_Clone_OK_resp HM10_CLONE_OK_RESPONSE_SIZE then
      (some hd.HM10_Clone_EC_ERR, d)
    else
    (some hd.HM10_Clone_EC_OK, d)

/-- Function `send_hm10clone_test_cmd`: reset the retry counter and run `send_test_cmd`. -/
def send_hm10clone_test_cmd (u : UART σ) (hd : Header) (fuel : Nat) (d : Driver σ) :
    Option Nat × Driver σ :=
  send_test_cmd u hd fuel (d.set_attempts 0)

/-- Function `send_reset_cmd`: flush, send `AT+RESET\r\n`, expect `OK\r\n`. -/
def send_reset_cmd (u : UART σ) (hd : Header) :
    Nat → Driver σ → Option Nat × Driver σ
  | 0, d => (none, d)
  | fuel + 1, d =>
    let f := HAL_uart_rx_flush u hd fuel d
    if f.1 = false then (none, f.2) else
    let d := f.2
    let d := d.store 0 65
    let d := d.store 1 84
    let d := d.store 2 43
    let d := d.store 3 82
    let d := d.store 4 69
    let d := d.store 5 83
    let d := d.store 6 69
    let d := d.store 7 84
    let d := d.store 8 13
    let d := d.store 9 10
    let r := d.Transmit u HM10_CLONE_RESET_CMD_SIZE hd.HM10_CLONE_CUSTOM_HAL_TIMEOUT
    let ret := HAL_ret_handler hd r.1
    let d := r.2
    if ret ≠ HAL_OK then
      if d.resp_attempts = 0 then
        send_reset_cmd u hd fuel (d.set_attempts (d.resp_attempts + 1))
      else (some ret, d)
    else
    let r := d.Receive u 0 HM10_CLONE_OK_RESPONSE_SIZE hd.HM10_CLONE_CUSTOM_HAL_TIMEOUT
    let ret := HAL_ret_handler hd r.1
    let d := r.2
    if ret ≠ HAL_OK then
      if d.resp_attempts = 0 then
        send_reset_cmd u hd fuel (d.set_attempts (d.resp_attempts + 1))
      else (some ret, d)
    else
    if d.differs HM10_Clone_OK_resp HM10_CLONE_OK_RESPONSE_SIZE then
      (some hd.HM10_Clone_EC_ERR, d)
    else
    (some hd.HM10_Clone_EC_OK, d)

/-- Function `send_hm10clone_reset_cmd`: reset the retry counter and run `send_reset_cmd`. -/
def send_hm10clone_reset_cmd (u : UART σ) (hd : Header) (fuel : Nat) (d : Driver σ) :
    Option Nat × Driver σ :=
  send_reset_cmd u hd fuel (d.set_attempts 0)

/-- The copy loops `for (i = 0; bp < limit; i++) TxRx_Buffer[bp++] = src[i]` of
`send_set_name_cmd` and `send_set_pin_cmd`, run for the `limit - bp` iterations the loop
condition allows; gives the final `bp` and the state. -/
def copy_loop (src : List Nat) : Nat → Nat → Nat → Driver σ → Nat × Driver σ
  | 0, _, bp, d => (bp, d)
  | n + 1, i, bp, d => copy_loop src n (i + 1) (bp + 1) (d.store bp (src.getD i 0))

/-- The comparing loops `for (i = 0; bc < limit; i++) if (TxRx_Buffer[bc++] != src[i]) return ERR`
of `send_set_name_cmd` and `send_set_pin_cmd`, run for the `limit - bc` iterations the loop
condition allows: whether a byte differed, and the final `bc`. -/
def compare_loop (d : Driver σ) (src : List Nat) : Nat → Nat → Nat → Bool × Nat
  | 0, _, bc => (false, bc)
  | n + 1, i, bc =>
    if d.TxRx_Buffer bc ≠ src.getD i 0 then (true, bc + 1)
    else compare_loop d src n (i + 1) (bc + 1)

/-- Function `send_set_name_cmd`: flush, reject a `size` above the maximum, send `AT+NAME<name>\r\n`,
expect `+NAME=<name>\r\n` and then `OK\r\n`. -/
def send_set_name_cmd (u : UART σ) (hd : Header) (hm10_name : List Nat) (size : Nat) :
    Nat → Driver σ → Option Nat × Driver σ
  | 0, d => (none, d)
  | fuel + 1, d =>
    let f := HAL_uart_rx_flush u hd fuel d
    if f.1 = false then (none, f.2) else
    let d := f.2
    if size > hd.HM10_CLONE_MAX_BLE_NAME_SIZE then (some hd.HM10_Clone_EC_ERR, d) else
    let d := d.store 0 65
    let d := d.store 1 84
    let d := d.store 2 43
    let d := d.store 3 78
    let d := d.store 4 65
    let d := d.store 5 77
    let d := d.store 6 69
    let bytes_populated_in_TxRx_Buffer := 7
    let size_with_offset := (size + bytes_populated_in_TxRx_Buffer) % 256
    let c := copy_loop hm10_name (size_with_offset - bytes_populated_in_TxRx_Buffer) 0
      bytes_populated_in_TxRx_Buffer d
    let bytes_populated_in_TxRx_Buffer := c.1
    let d := c.2
    let d := d.store bytes_populated_in_TxRx_Buffer 13
    let d := d.store ((bytes_populated_in_TxRx_Buffer + 1) % 256) 10
    let bytes_populated_in_TxRx_Buffer := (bytes_populated_in_TxRx_Buffer + 2) % 256
    let r := d.Transmit u bytes_populated_in_TxRx_Buffer hd.HM10_CLONE_CUSTOM_HAL_TIMEOUT
    let ret := HAL_ret_handler hd r.1
    let d := r.2
    if ret ≠ HAL_OK then
      if d.resp_attempts = 0 then
        send_set_name_cmd u hd hm10_name size fuel (d.set_attempts (d.resp_attempts + 1))
      else (some ret, d)
    else
    let bytes_populated_in_TxRx_Buffer :=
      (HM10_CLONE_NAME_RESPONSE_SIZE_WITHOUT_REQUESTED_NAME + size) % 256
    let r := d.Receive u 0 bytes_populated_in_TxRx_Buffer hd.HM10_CLONE_CUSTOM_HAL_TIMEOUT
    let ret := HAL_ret_handler hd r.1
    let d := r.2
    if ret ≠ HAL_OK then
      if d.resp_attempts = 0 then
        send_set_name_cmd u hd hm10_name size fuel (d.set_attempts (d.resp_attempts + 1))
      else (some ret, d)
    else
    let name_resp_size_without_cr_and_lf :=
      HM10_CLONE_NAME_RESPONSE_SIZE_WITHOUT_REQUESTED_NAME - CR_AND_LF_SIZE
    if d.differs HM10_Clone_Name_resp name_resp_size_without_cr_and_lf then
      (some hd.HM10_Clone_EC_ERR, d)
    else
    let bytes_compared := name_resp_size_without_cr_and_lf
    let size_with_offset := (size + bytes_compared) % 256
    let c := compare_loop d hm10_name (size_with_offset - bytes_compared) 0 bytes_compared
    if c.1 then (some hd.HM10_Clone_EC_ERR, d) else
    let bytes_compared := c.2
    if d.TxRx_Buffer bytes_compared ≠ 13 ∨ d.TxRx_Buffer (bytes_compared + 1) ≠ 10 then
      (some hd.HM10_Clone_EC_ERR, d)
    else
    let r := d.Receive u 0 HM10_CLONE_OK_RESPONSE_SIZE hd.HM10_CLONE_CUSTOM_HAL_TIMEOUT
    let ret := HAL_ret_handler hd r.1
    let d := r.2
    if ret ≠ HAL_OK then
      if d.resp_attempts = 0 then
        send_set_name_cmd u hd hm10_name size fuel (d.set_attempts (d.resp_attempts + 1))
      else (some ret, d)
    else
    if d.differs HM10_Clone_OK_resp HM10_CLONE_OK_RESPONSE_SIZE then
      (some hd.HM10_Clone_EC_ERR, d)
    else
    (some hd.HM10_Clone_EC_OK, d)

/-- Function `set_hm10clone_name`: reset the retry counter and run `send_set_name_cmd`. -/
def set_hm10clone_name (u : UART σ) (hd : Header) (hm10_name : List Nat) (size : Nat)
    (fuel : Nat) (d : Driver σ) :
    Option Nat × Driver σ :=
  send_set_name_cmd u hd hm10_name size fuel (d.set_attempts 0)

/-- The `do ... while (1)` loop of `send_get_name_cmd`, which receives the name one byte at
a time into `TxRx_Buffer[bytes_populated_in_TxRx_Buffer++]`, with what follows it (the
`memcpy` into the name output and `return HM10_Clone_EC_OK`). `again` is the recursive call
`send_get_name_cmd(hm10_name, size)`. -/
def get_name_loop (u : UART σ) (hd : Header) (again : Driver σ → Option Nat × Driver σ)
    (name_resp_size_without_cr_and_lf : Nat) : Nat → Nat → Driver σ → Option Nat × Driver σ
  | 0, _, d => (none, d)
  | fuel + 1, bytes_populated_in_TxRx_Buffer, d =>
    let r := d.Receive u bytes_populated_in_TxRx_Buffer 1 hd.HM10_CLONE_CUSTOM_HAL_TIMEOUT
    let bytes_populated_in_TxRx_Buffer := (bytes_populated_in_TxRx_Buffer + 1) % 256
    let d := r.2
    let d := { d with size := (d.size + 1) % 256 }
    let ret := HAL_ret_handler hd r.1
    if ret ≠ HAL_OK then
      if d.resp_attempts = 0 then
        let x := again (d.set_attempts (d.resp_attempts + 1))
        match x.1 with
        | none => x
        | some ret => (some ret, { x.2 with size := 0 })
      else (some ret, { d with size := 0 })
    else
    if d.TxRx_Buffer (bytes_populated_in_TxRx_Buffer - 2) = 13
        ∧ d.TxRx_Buffer (bytes_populated_in_TxRx_Buffer - 1) = 10 then
      (some hd.HM10_Clone_EC_OK,
        { d with hm10_name :=
            d.bytes name_resp_size_without_cr_and_lf d.size ++ d.hm10_name.drop d.size })
    else
    if bytes_populated_in_TxRx_Buffer
        = hd.HM10_CLONE_MAX_BLE_NAME_SIZE
          + HM10_CLONE_NAME_RESPONSE_SIZE_WITHOUT_REQUESTED_NAME then
      if d.resp_attempts = 0 then
        again (d.set_attempts (d.resp_attempts + 1))
      else (some hd.HM10_Clone_EC_ERR, d)
    else get_name_loop u hd again name_resp_size_without_cr_and_lf fuel
      bytes_populated_in_TxRx_Buffer d

/-- Function `send_get_name_cmd`: flush, send `AT+NAME\r\n`, receive the first 8 bytes of the
response, check `+NAME=`, then read on byte by byte until `\r\n`. -/
def send_get_name_cmd (u : UART σ) (hd : Header) :
    Nat → Driver σ → Option Nat × Driver σ
  | 0, d => (none, d)
  | fuel + 1, d =>
    let f := HAL_uart_rx_flush u hd fuel d
    if f.1 = false then (none, f.2) else
    let d := f.2
    let d := d.store 0 65
    let d := d.store 1 84
    let d := d.store 2 43
    let d := d.store 3 78
    let d := d.store 4 65
    let d := d.store 5 77
    let d := d.store 6 69
    let d := d.store 7 13
    let d := d.store 8 10
    let r := d.Transmit u HM10_CLONE_GET_NAME_CMD_SIZE hd.HM10_CLONE_CUSTOM_HAL_TIMEOUT
    let ret := HAL_ret_handler hd r.1
    let d := r.2
    if ret ≠ HAL_OK then
      if d.resp_attempts = 0 then
        send_get_name_cmd u hd fuel (d.set_attempts (d.resp_attempts + 1))
      else (some ret, d)
    else
    let r := d.Receive u 0 HM10_CLONE_NAME_RESPONSE_SIZE_WITHOUT_REQUESTED_NAME hd.HM10_CLONE_CUSTOM_HAL_TIMEOUT
    let ret := HAL_ret_handler hd r.1
    let d := r.2
    if ret ≠ HAL_OK then
      if d.resp_attempts = 0 then
        send_get_name_cmd u hd fuel (d.set_attempts (d.resp_attempts + 1))
      else (some ret, d)
    else
    let name_resp_size_without_cr_and_lf :=
      HM10_CLONE_NAME_RESPONSE_SIZE_WITHOUT_REQUESTED_NAME - CR_AND_LF_SIZE
    if d.differs HM10_Clone_Name_resp name_resp_size_without_cr_and_lf then
      (some hd.HM10_Clone_EC_ERR, d)
    else
    let bytes_populated_in_TxRx_Buffer := name_resp_size_without_cr_and_lf
    let d := { d with size := 0 }
    let bytes_populated_in_TxRx_Buffer := bytes_populated_in_TxRx_Buffer + 2
    get_name_loop u hd (send_get_name_cmd u hd fuel) name_resp_size_without_cr_and_lf fuel
      bytes_populated_in_TxRx_Buffer d

/-- Function `get_hm10clone_name`: reset the retry counter and run `send_get_name_cmd`. -/
def get_hm10clone_name (u : UART σ) (hd : Header) (fuel : Nat) (d : Driver σ) :
    Option Nat × Driver σ :=
  send_get_name_cmd u hd fuel (d.set_attempts 0)

/-- Function `send_set_role_cmd`: flush, reject an unknown role, send `AT+ROLE<role>\r\n`, expect
`+ROLE=<role>\r\n`. -/
def send_set_role_cmd (u : UART σ) (hd : Header) (ble_role : Nat) :
    Nat → Driver σ → Option Nat × Driver σ
  | 0, d => (none, d)
  | fuel + 1, d =>
    let f := HAL_uart_rx_flush u hd fuel d
    if f.1 = false then (none, f.2) else
    let d := f.2
    if ¬ (ble_role = hd.HM10_Clone_Role_Peripheral ∨ ble_role = hd.HM10_Clone_Role_Central) then
      (some hd.HM10_Clone_EC_ERR, d)
    else
    let d := d.store 0 65
    let d := d.store 1 84
    let d := d.store 2 43
    let d := d.store 3 82
    let d := d.store 4 79
    let d := d.store 5 76
    let d := d.store 6 69
    let d := d.store 7 (ble_role % 256)
    let d := d.store 8 13
    let d := d.store 9 10
    let r := d.Transmit u HM10_CLONE_SET_ROLE_CMD_SIZE hd.HM10_CLONE_CUSTOM_HAL_TIMEOUT
    let ret := HAL_ret_handler hd r.1
    let d := r.2
    if ret ≠ HAL_OK then
      if d.resp_attempts = 0 then
        send_set_role_cmd u hd ble_role fuel (d.set_attempts (d.resp_attempts + 1))
      else (some ret, d)
    else
    let r := d.Receive u 0 HM10_CLONE_ROLE_RESPONSE_SIZE hd.HM10_CLONE_CUSTOM_HAL_TIMEOUT
    let ret := HAL_ret_handler hd r.1
    let d := r.2
    if ret ≠ HAL_OK then
      if d.resp_attempts = 0 then
        send_set_role_cmd u hd ble_role fuel (d.set_attempts (d.resp_attempts + 1))
      else (some ret, d)
    else
    let role_resp_size_without_role_cr_and_lf := HM10_CLONE_ROLE_RESPONSE_SIZE - 3
    if d.differs HM10_Clone_Role_resp role_resp_size_without_role_cr_and_lf then
      (some hd.HM10_Clone_EC_ERR, d)
    else
    let bytes_compared := role_resp_size_without_role_cr_and_lf
    if d.TxRx_Buffer bytes_compared ≠ ble_role ∨ d.TxRx_Buffer (bytes_compared + 1) ≠ 13
        ∨ d.TxRx_Buffer (bytes_compared + 2) ≠ 10 then
      (some hd.HM10_Clone_EC_ERR, d)
    else (some hd.HM10_Clone_EC_OK, d)

/-- Function `set_hm10clone_role`: reset the retry counter and run `send_set_role_cmd`. -/
def set_hm10clone_role (u : UART σ) (hd : Header) (ble_role : Nat)
    (fuel : Nat) (d : Driver σ) :
    Option Nat × Driver σ :=
  send_set_role_cmd u hd ble_role fuel (d.set_attempts 0)

/-- Function `send_get_role_cmd`: flush, send `AT+ROLE\r\n`, expect `+ROLE=<role>\r\n` with a known
role, which is stored through the output pointer. -/
def send_get_role_cmd (u : UART σ) (hd : Header) :
    Nat → Driver σ → Option Nat × Driver σ
  | 0, d => (none, d)
  | fuel + 1, d =>
    let f := HAL_uart_rx_flush u hd fuel d
    if f.1 = false then (none, f.2) else
    let d := f.2
    let d := d.store 0 65
    let d := d.store 1 84
    let d := d.store 2 43
    let d := d.store 3 82
    let d := d.store 4 79
    let d := d.store 5 76
    let d := d.store 6 69
    let d := d.store 7 13
    let d := d.store 8 10
    let r := d.Transmit u HM10_CLONE_GET_ROLE_CMD_SIZE hd.HM10_CLONE_CUSTOM_HAL_TIMEOUT
    let ret := HAL_ret_handler hd r.1
    let d := r.2
    if ret ≠ HAL_OK then
      if d.resp_attempts = 0 then
        send_get_role_cmd u hd fuel (d.set_attempts (d.resp_attempts + 1))
      else (some ret, d)
    else
    let r := d.Receive u 0 HM10_CLONE_ROLE_RESPONSE_SIZE hd.HM10_CLONE_CUSTOM_HAL_TIMEOUT
    let ret := HAL_ret_handler hd r.1
    let d := r.2
    if ret ≠ HAL_OK then
      if d.resp_attempts = 0 then
        send_get_role_cmd u hd fuel (d.set_attempts (d.resp_attempts + 1))
      else (some ret, d)
    else
    let role_resp_size_without_role_cr_and_lf := HM10_CLONE_ROLE_RESPONSE_SIZE - 3
    if d.differs HM10_Clone_Role_resp role_resp_size_without_role_cr_and_lf then
      (some hd.HM10_Clone_EC_ERR, d)
    else
    let bytes_compared := role_resp_size_without_role_cr_and_lf
    if ¬ (d.TxRx_Buffer bytes_compared = hd.HM10_Clone_Role_Peripheral
        ∨ d.TxRx_Buffer bytes_compared = hd.HM10_Clone_Role_Central) then
      (some hd.HM10_Clone_EC_ERR, d)
    else
    let bytes_compared := bytes_compared + 1
    if d.TxRx_Buffer bytes_compared ≠ 13 ∨ d.TxRx_Buffer (bytes_compared + 1) ≠ 10 then
      (some hd.HM10_Clone_EC_ERR, d)
    else
    (some hd.HM10_Clone_EC_OK,
      { d with ble_role := d.TxRx_Buffer role_resp_size_without_role_cr_and_lf })

/-- Function `get_hm10clone_role`: reset the retry counter and run `send_get_role_cmd`. -/
def get_hm10clone_role (u : UART σ) (hd : Header) (fuel : Nat) (d : Driver σ) :
    Option Nat × Driver σ :=
  send_get_role_cmd u hd fuel (d.set_attempts 0)

/-- The ASCII codes of the digits, the enumeration `Numbers_in_ASCII`. -/
def Numbers_in_ASCII : List Nat := [48, 49, 50, 51, 52, 53, 54, 55, 56, 57]

/-- The 8-bit value of `HM10_CLONE_PIN_RESPONSE_SIZE - HM10_CLONE_PIN_VALUE_SIZE - CR_AND_LF_SIZE`. -/
def pin_resp_size_without_pin_cr_and_lf (hd : Header) : Nat :=
  (((HM10_CLONE_PIN_RESPONSE_SIZE : Int) - hd.HM10_CLONE_PIN_VALUE_SIZE - CR_AND_LF_SIZE) % 256).toNat

/-- Function `send_set_pin_cmd`: flush, reject a pin with a byte that is not an ASCII digit, send
`AT+PIN<pin>\r\n`, expect `+PIN=<pin>\r\n` and then `OK\r\n`. -/
def send_set_pin_cmd (u : UART σ) (hd : Header) (pin : List Nat) :
    Nat → Driver σ → Option Nat × Driver σ
  | 0, d => (none, d)
  | fuel + 1, d =>
    let f := HAL_uart_rx_flush u hd fuel d
    if f.1 = false then (none, f.2) else
    let d := f.2
    if (List.range hd.HM10_CLONE_PIN_VALUE_SIZE).any
        (fun current_pin_character => decide (pin.getD current_pin_character 0 ∉ Numbers_in_ASCII)) then
      (some hd.HM10_Clone_EC_ERR, d)
    else
    let pin_cmd_size_without_cr_and_lf := HM10_CLONE_SET_PIN_CMD_SIZE - CR_AND_LF_SIZE
    let d := d.store 0 65
    let d := d.store 1 84
    let d := d.store 2 43
    let d := d.store 3 80
    let d := d.store 4 73
    let d := d.store 5 78
    let bytes_populated_in_TxRx_Buffer := 6
    let c := copy_loop pin (pin_cmd_size_without_cr_and_lf - bytes_populated_in_TxRx_Buffer) 0
      bytes_populated_in_TxRx_Buffer d
    let bytes_populated_in_TxRx_Buffer := c.1
    let d := c.2
    let d := d.store bytes_populated_in_TxRx_Buffer 13
    let d := d.store (bytes_populated_in_TxRx_Buffer + 1) 10
    let r := d.Transmit u HM10_CLONE_SET_PIN_CMD_SIZE hd.HM10_CLONE_CUSTOM_HAL_TIMEOUT
    let ret := HAL_ret_handler hd r.1
    let d := r.2
    if ret ≠ HAL_OK then
      if d.resp_attempts = 0 then
        send_set_pin_cmd u hd pin fuel (d.set_attempts (d.resp_attempts + 1))
      else (some ret, d)
    else
    let r := d.Receive u 0 HM10_CLONE_PIN_RESPONSE_SIZE hd.HM10_CLONE_CUSTOM_HAL_TIMEOUT
    let ret := HAL_ret_handler hd r.1
    let d := r.2
    if ret ≠ HAL_OK then
      if d.resp_attempts = 0 then
        send_set_pin_cmd u hd pin fuel (d.set_attempts (d.resp_attempts + 1))
      else (some ret, d)
    else
    let pin_resp_size_without_cr_and_lf := HM10_CLONE_PIN_RESPONSE_SIZE - CR_AND_LF_SIZE
    if d.differs HM10_Clone_Pin_resp (pin_resp_size_without_pin_cr_and_lf hd) then
      (some hd.HM10_Clone_EC_ERR, d)
    else
    let bytes_compared := pin_resp_size_without_pin_cr_and_lf hd
    let c := compare_loop d pin (pin_resp_size_without_cr_and_lf - bytes_compared) 0 bytes_compared
    if c.1 then (some hd.HM10_Clone_EC_ERR, d) else
    let bytes_compared := c.2
    if d.TxRx_Buffer bytes_compared ≠ 13 ∨ d.TxRx_Buffer (bytes_compared + 1) ≠ 10 then
      (some hd.HM10_Clone_EC_ERR, d)
    else
    let r := d.Receive u 0 HM10_CLONE_OK_RESPONSE_SIZE hd.HM10_CLONE_CUSTOM_HAL_TIMEOUT
    let ret := HAL_ret_handler hd r.1
    let d := r.2
    if ret ≠ HAL_OK then
      if d.resp_attempts = 0 then
        send_set_pin_cmd u hd pin fuel (d.set_attempts (d.resp_attempts + 1))
      else (some ret, d)
    else
    if d.differs HM10_Clone_OK_resp HM10_CLONE_OK_RESPONSE_SIZE then
      (some hd.HM10_Clone_EC_ERR, d)
    else
    (some hd.HM10_Clone_EC_OK, d)

/-- Function `set_hm10clone_pin`: reset the retry counter and run `send_set_pin_cmd`. -/
def set_hm10clone_pin (u : UART σ) (hd : Header) (pin : List Nat)
    (fuel : Nat) (d : Driver σ) :
    Option Nat × Driver σ :=
  send_set_pin_cmd u hd pin fuel (d.set_attempts 0)

/-- Function `send_get_pin_cmd`: flush, send `AT+PIN\r\n`, expect `+PIN=<pin>\r\n` with a pin of
ASCII digits, which is copied to the pin output. -/
def send_get_pin_cmd (u : UART σ) (hd : Header) :
    Nat → Driver σ → Option Nat × Driver σ
  | 0, d => (none, d)
  | fuel + 1, d =>
    let f := HAL_uart_rx_flush u hd fuel d
    if f.1 = false then (none, f.2) else
    let d := f.2
    let d := d.store 0 65
    let d := d.store 1 84
    let d := d.store 2 43
    let d := d.store 3 80
    let d := d.store 4 73
    let d := d.store 5 78
    let d := d.store 6 13
    let d := d.store 7 10
    let r := d.Transmit u HM10_CLONE_GET_PIN_CMD_SIZE hd.HM10_CLONE_CUSTOM_HAL_TIMEOUT
    let ret := HAL_ret_handler hd r.1
    let d := r.2
    if ret ≠ HAL_OK then
      if d.resp_attempts = 0 then
        send_get_pin_cmd u hd fuel (d.set_attempts (d.resp_attempts + 1))
      else (some ret, d)
    else
    let r := d.Receive u 0 HM10_CLONE_PIN_RESPONSE_SIZE hd.HM10_CLONE_CUSTOM_HAL_TIMEOUT
    let ret := HAL_ret_handler hd r.1
    let d := r.2
    if ret ≠ HAL_OK then
      if d.resp_attempts = 0 then
        send_get_pin_cmd u hd fuel (d.set_attempts (d.resp_attempts + 1))
      else (some ret, d)
    else
    if d.differs HM10_Clone_Pin_resp (pin_resp_size_without_pin_cr_and_lf hd) then
      (some hd.HM10_Clone_EC_ERR, d)
    else
    let bytes_compared := pin_resp_size_without_pin_cr_and_lf hd
    if (List.range hd.HM10_CLONE_PIN_VALUE_SIZE).any
        (fun current_pin_character =>
          decide (d.TxRx_Buffer ((bytes_compared + current_pin_character) % 256)
            ∉ Numbers_in_ASCII)) then
      (some hd.HM10_Clone_EC_ERR, d)
    else
    let bytes_compared := (bytes_compared + hd.HM10_CLONE_PIN_VALUE_SIZE) % 256
    if d.TxRx_Buffer bytes_compared ≠ 13 ∨ d.TxRx_Buffer (bytes_compared + 1) ≠ 10 then
      (some hd.HM10_Clone_EC_ERR, d)
    else
    (some hd.HM10_Clone_EC_OK,
      { d with pin :=
          d.bytes (pin_resp_size_without_pin_cr_and_lf hd) hd.HM10_CLONE_PIN_VALUE_SIZE
            ++ d.pin.drop hd.HM10_CLONE_PIN_VALUE_SIZE })

/-- Function `get_hm10clone_pin`: reset the retry counter and run `send_get_pin_cmd`. -/
def get_hm10clone_pin (u : UART σ) (hd : Header) (fuel : Nat) (d : Driver σ) :
    Option Nat × Driver σ :=
  send_get_pin_cmd u hd fuel (d.set_attempts 0)

/-- Function `send_set_type_cmd`: flush, reject an unknown pin code mode, send `AT+TYPE<mode>\r\n`,
expect `+TYPE=<mode>\r\n` and then `OK\r\n`. -/
def send_set_type_cmd (u : UART σ) (hd : Header) (pin_code_mode : Nat) :
    Nat → Driver σ → Option Nat × Driver σ
  | 0, d => (none, d)
  | fuel + 1, d =>
    let f := HAL_uart_rx_flush u hd fuel d
    if f.1 = false then (none, f.2) else
    let d := f.2
    if ¬ (pin_code_mode = hd.HM10_Clone_Pin_Code_DISABLED
        ∨ pin_code_mode = hd.HM10_Clone_Pin_Code_ENABLED) then
      (some hd.HM10_Clone_EC_ERR, d)
    else
    let d := d.store 0 65
    let d := d.store 1 84
    let d := d.store 2 43
    let d := d.store 3 84
    let d := d.store 4 89
    let d := d.store 5 80
    let d := d.store 6 69
    let d := d.store 7 (pin_code_mode % 256)
    let d := d.store 8 13
    let d := d.store 9 10
    let r := d.Transmit u HM10_CLONE_SET_TYPE_CMD_SIZE hd.HM10_CLONE_CUSTOM_HAL_TIMEOUT
    let ret := HAL_ret_handler hd r.1
    let d := r.2
    if ret ≠ HAL_OK then
      if d.resp_attempts = 0 then
        send_set_type_cmd u hd pin_code_mode fuel (d.set_attempts (d.resp_attempts + 1))
      else (some ret, d)
    else
    let r := d.Receive u 0 HM10_CLONE_TYPE_RESPONSE_SIZE hd.HM10_CLONE_CUSTOM_HAL_TIMEOUT
    let ret := HAL_ret_handler hd r.1
    let d := r.2
    if ret ≠ HAL_OK then
      if d.resp_attempts = 0 then
        send_set_type_cmd u hd pin_code_mode fuel (d.set_attempts (d.resp_attempts + 1))
      else (some ret, d)
    else
    let type_resp_size_without_pin_cr_and_lf := HM10_CLONE_TYPE_RESPONSE_SIZE - 3
    if d.differs HM10_Clone_Type_resp type_resp_size_without_pin_cr_and_lf then
      (some hd.HM10_Clone_EC_ERR, d)
    else
    let bytes_compared := type_resp_size_without_pin_cr_and_lf
    if d.TxRx_Buffer bytes_compared ≠ pin_code_mode then (some hd.HM10_Clone_EC_ERR, d) else
    let bytes_compared := bytes_compared + 1
    if d.TxRx_Buffer bytes_compared ≠ 13 ∨ d.TxRx_Buffer (bytes_compared + 1) ≠ 10 then
      (some hd.HM10_Clone_EC_ERR, d)
    else
    let r := d.Receive u 0 HM10_CLONE_OK_RESPONSE_SIZE hd.HM10_CLONE_CUSTOM_HAL_TIMEOUT
    let ret := HAL_ret_handler hd r.1
    let d := r.2
    if ret ≠ HAL_OK then
      if d.resp_attempts = 0 then
        send_set_type_cmd u hd pin_code_mode fuel (d.set_attempts (d.resp_attempts + 1))
      else (some ret, d)
    else
    if d.differs HM10_Clone_OK_resp HM10_CLONE_OK_RESPONSE_SIZE then
      (some hd.HM10_Clone_EC_ERR, d)
    else
    (some hd.HM10_Clone_EC_OK, d)

/-- Function `set_hm10clone_pin_code_mode`: reset the retry counter and run `send_set_type_cmd`. -/
def set_hm10clone_pin_code_mode (u : UART σ) (hd : Header) (pin_code_mode : Nat)
    (fuel : Nat) (d : Driver σ) :
    Option Nat × Driver σ :=
  send_set_type_cmd u hd pin_code_mode fuel (d.set_attempts 0)

/-- Function `send_get_type_cmd`: flush, send `AT+TYPE\r\n`, expect `+TYPE=<mode>\r\n` with a known
pin code mode, which is stored through the output pointer. -/
def send_get_type_cmd (u : UART σ) (hd : Header) :
    Nat → Driver σ → Option Nat × Driver σ
  | 0, d => (none, d)
  | fuel + 1, d =>
    let f := HAL_uart_rx_flush u hd fuel d
    if f.1 = false then (none, f.2) else
    let d := f.2
    let d := d.store 0 65
    let d := d.store 1 84
    let d := d.store 2 43
    let d := d.store 3 84
    let d := d.store 4 89
    let d := d.store 5 80
    let d := d.store 6 69
    let d := d.store 7 13
    let d := d.store 8 10
    let r := d.Transmit u HM10_CLONE_GET_TYPE_CMD_SIZE hd.HM10_CLONE_CUSTOM_HAL_TIMEOUT
    let ret := HAL_ret_handler hd r.1
    let d := r.2
    if ret ≠ HAL_OK then
      if d.resp_attempts = 0 then
        send_get_type_cmd u hd fuel (d.set_attempts (d.resp_attempts + 1))
      else (some ret, d)
    else
    let r := d.Receive u 0 HM10_CLONE_TYPE_RESPONSE_SIZE hd.HM10_CLONE_CUSTOM_HAL_TIMEOUT
    let ret := HAL_ret_handler hd r.1
    let d := r.2
    if ret ≠ HAL_OK then
      if d.resp_attempts = 0 then
        send_get_type_cmd u hd fuel (d.set_attempts (d.resp_attempts + 1))
      else (some ret, d)
    else
    let type_resp_size_without_type_cr_and_lf := HM10_CLONE_TYPE_RESPONSE_SIZE - 3
    if d.differs HM10_Clone_Type_resp type_resp_size_without_type_cr_and_lf then
      (some hd.HM10_Clone_EC_ERR, d)
    else
    let bytes_compared := type_resp_size_without_type_cr_and_lf
    if ¬ (d.TxRx_Buffer bytes_compared = hd.HM10_Clone_Pin_Code_DISABLED
        ∨ d.TxRx_Buffer bytes_compared = hd.HM10_Clone_Pin_Code_ENABLED) then
      (some hd.HM10_Clone_EC_ERR, d)
    else
    let bytes_compared := bytes_compared + 1
    if d.TxRx_Buffer bytes_compared ≠ 13 ∨ d.TxRx_Buffer (bytes_compared + 1) ≠ 10 then
      (some hd.HM10_Clone_EC_ERR, d)
    else
    (some hd.HM10_Clone_EC_OK,
      { d with pin_code_mode := d.TxRx_Buffer type_resp_size_without_type_cr_and_lf })

/-- Function `get_hm10clone_pin_code_mode`: reset the retry counter and run `send_get_type_cmd`. -/
def get_hm10clone_pin_code_mode (u : UART σ) (hd : Header) (fuel : Nat) (d : Driver σ) :
    Option Nat × Driver σ :=
  send_get_type_cmd u hd fuel (d.set_attempts 0)

/-! ## The ten commands as one type -/

/-- The public AT commands with their input arguments. -/
inductive Cmd where
  | test
  | reset
  | set_name (hm10_name : List Nat) (size : Nat)
  | get_name
  | set_role (ble_role : Nat)
  | get_role
  | set_pin (pin : List Nat)
  | get_pin
  | set_pin_code_mode (pin_code_mode : Nat)
  | get_pin_code_mode
  deriving DecidableEq, Repr

/-- The static function behind each public command. -/
def Cmd.send (u : UART σ) (hd : Header) : Cmd → Nat → Driver σ → Option Nat × Driver σ
  | .test => send_test_cmd u hd
  | .reset => send_reset_cmd u hd
  | .set_name hm10_name size => send_set_name_cmd u hd hm10_name size
  | .get_name => send_get_name_cmd u hd
  | .set_role ble_role => send_set_role_cmd u hd ble_role
  | .get_role => send_get_role_cmd u hd
  | .set_pin pin => send_set_pin_cmd u hd pin
  | .get_pin => send_get_pin_cmd u hd
  | .set_pin_code_mode pin_code_mode => send_set_type_cmd u hd pin_code_mode
  | .get_pin_code_mode => send_get_type_cmd u hd

/-- The public function of each command. -/
def Cmd.run (u : UART σ) (hd : Header) : Cmd → Nat → Driver σ → Option Nat × Driver σ
  | .test => send_hm10clone_test_cmd u hd
  | .reset => send_hm10clone_reset_cmd u hd
  | .set_name hm10_name size => set_hm10clone_name u hd hm10_name size
  | .get_name => get_hm10clone_name u hd
  | .set_role ble_role => set_hm10clone_role u hd ble_role
  | .get_role => get_hm10clone_role u hd
  | .set_pin pin => set_hm10clone_pin u hd pin
  | .get_pin => get_hm10clone_pin u hd
  | .set_pin_code_mode pin_code_mode => set_hm10clone_pin_code_mode u hd pin_code_mode
  | .get_pin_code_mode => get_hm10clone_pin_code_mode u hd

/-! ## Vocabulary of the statements -/

/-- Number of `HAL_UART_Transmit` calls recorded in a trace. -/
def tx_count : List Event → Nat
  | [] => 0
  | Event.tx _ _ _ :: t => tx_count t + 1
  | _ :: t => tx_count t

/-- The values stored to `resp_attempts`, in order. -/
def attempts_log : List Event → List Nat
  | [] => []
  | Event.attempts v :: t => v :: attempts_log t
  | _ :: t => attempts_log t

/-- What the flush does to the link alone: one-byte receives until one reports
`HAL_TIMEOUT`; `none` when `n` receives were not enough. -/
def UART.drain (u : UART σ) (Timeout : Nat) : Nat → σ → Option σ
  | 0, _ => none
  | n + 1, s =>
    let r := u.HAL_UART_Receive s 1 Timeout
    if r.1 ≠ HAL_StatusTypeDef.HAL_TIMEOUT then u.drain Timeout n r.2.2 else some r.2.2

/-- What the driver relies on about the status enumerators of its header: `HM10_Clone_EC_OK`
has the value of `HAL_OK` (a mapped status is compared with `HAL_OK`, and `HAL_ret_handler`
returns a successful HAL status unchanged), and the two failure codes differ from it. -/
def Header.codes_ok (hd : Header) : Prop :=
  hd.HM10_Clone_EC_OK = HAL_OK ∧ hd.HM10_Clone_EC_NR ≠ HAL_OK ∧ hd.HM10_Clone_EC_ERR ≠ HAL_OK

instance (hd : Header) : Decidable hd.codes_ok := by
  unfold Header.codes_ok; infer_instance

/-- A header for the examples: status codes 0, 2, 4, roles and pin code modes as ASCII
digits, names of at most 12 bytes, pins of 6 bytes, a timeout of 120 ms. -/
def example_header : Header :=
  { HM10_Clone_EC_OK := 0
    HM10_Clone_EC_NR := 2
    HM10_Clone_EC_ERR := 4
    HM10_Clone_Role_Peripheral := 48
    HM10_Clone_Role_Central := 49
    HM10_Clone_Pin_Code_DISABLED := 48
    HM10_Clone_Pin_Code_ENABLED := 50
    HM10_CLONE_MAX_BLE_NAME_SIZE := 12
    HM10_CLONE_PIN_VALUE_SIZE := 6
    HM10_CLONE_CUSTOM_HAL_TIMEOUT := 120 }

/-- The state of a driver that has not run yet, on a link in state `s`. -/
def Driver.init (s : σ) : Driver σ :=
  { huart := s
    TxRx_Buffer := fun _ => 0
    resp_attempts := 0
    hm10_name := []
    size := 0
    ble_role := 0
    pin := []
    pin_code_mode := 0
    trace := [] }

/-- A simulated link: the bytes waiting in the receiver, and for each coming transmit the
status it reports together with the bytes the module then sends back. A receive of `n`
bytes succeeds when `n` bytes are waiting, and otherwise times out having taken what was
there; a transmit with nothing scripted reports `HAL_OK`. -/
structure Sim where
  pending : List Nat
  script : List (HAL_StatusTypeDef × List Nat)
  deriving DecidableEq, Repr

/-- The UART of the simulated link. -/
def sim : UART Sim where
  HAL_UART_Transmit s _ _ :=
    match s.script with
    | [] => (HAL_StatusTypeDef.HAL_OK, s)
    | (st, reply) :: rest => (st, { pending := s.pending ++ reply, script := rest })
  HAL_UART_Receive s Size _ :=
    if Size ≤ s.pending.length then
      (HAL_StatusTypeDef.HAL_OK, s.pending.take Size, { s with pending := s.pending.drop Size })
    else (HAL_StatusTypeDef.HAL_TIMEOUT, s.pending, { s with pending := [] })

/-- Example link: the first transmit times out, the second is answered `+NAME=AB\r\n`. -/
def name_link_0 : Sim :=
  ⟨[], [(HAL_StatusTypeDef.HAL_TIMEOUT, []),
    (HAL_StatusTypeDef.HAL_OK, [43, 78, 65, 77, 69, 61, 65, 66, 13, 10])]⟩

/-- Example link: `name_link_0` after its first transmit. -/
def name_link_1 : Sim :=
  ⟨[], [(HAL_StatusTypeDef.HAL_OK, [43, 78, 65, 77, 69, 61, 65, 66, 13, 10])]⟩

/-- Example link: `name_link_0` after its second transmit, `+NAME=AB\r\n` pending. -/
def name_link_2 : Sim := ⟨[43, 78, 65, 77, 69, 61, 65, 66, 13, 10], []⟩

/-- Example link: the transmit is answered `+ROLF=0\r\n`, which does not start with `+ROLE=`. -/
def role_link_0 : Sim :=
  ⟨[], [(HAL_StatusTypeDef.HAL_OK, [43, 82, 79, 76, 70, 61, 48, 13, 10])]⟩

/-- Example link: `role_link_0` after its transmit. -/
def role_link_1 : Sim := ⟨[43, 82, 79, 76, 70, 61, 48, 13, 10], []⟩

/-- Example link: the first two transmits time out. -/
def mute_link_0 : Sim :=
  ⟨[], [(HAL_StatusTypeDef.HAL_TIMEOUT, []), (HAL_StatusTypeDef.HAL_TIMEOUT, [])]⟩

/-- Example link: `mute_link_0` after its first transmit. -/
def mute_link_1 : Sim := ⟨[], [(HAL_StatusTypeDef.HAL_TIMEOUT, [])]⟩

/-! ## A common form of the ten commands

All ten `send_*_cmd` functions have the same skeleton: flush, validate the arguments, store
and transmit the request, then a sequence of fixed-size receives each followed by a
validation, then (only `send_get_name_cmd`) a final part of their own. `exchange` is that
skeleton, `Cmd.shape` what each command puts into it, and `Cmd.send_eq_exchange` shows that
every `send_*_cmd` is its instance. The retry logic is then reasoned about once. -/

/-- What one command puts into the common skeleton: whether its arguments are rejected, the
stores of the request (giving the number of bytes to transmit), the size and validation of
each fixed-size receive (`true` when the response is refused), and the final part, which
gets the recursive call and the fuel. -/
structure Shape (σ : Type) where
  reject : Bool
  populate : Driver σ → Nat × Driver σ
  steps : List (Nat × (Driver σ → Bool))
  tail : (Driver σ → Option Nat × Driver σ) → Nat → Driver σ → Option Nat × Driver σ

/-- The receive-and-validate sequence of the skeleton. -/
def exchange_steps (u : UART σ) (hd : Header) (again tail : Driver σ → Option Nat × Driver σ) :
    List (Nat × (Driver σ → Bool)) → Driver σ → Option Nat × Driver σ
  | [], d => tail d
  | (n, bad) :: rest, d =>
    let r := d.Receive u 0 n hd.HM10_CLONE_CUSTOM_HAL_TIMEOUT
    let ret := HAL_ret_handler hd r.1
    let d := r.2
    if ret ≠ HAL_OK then
      if d.resp_attempts = 0 then again (d.set_attempts (d.resp_attempts + 1))
      else (some ret, d)
    else if bad d then (some hd.HM10_Clone_EC_ERR, d)
    else exchange_steps u hd again tail rest d

/-- The common skeleton of the `send_*_cmd` functions. -/
def exchange (u : UART σ) (hd : Header) (sh : Shape σ) : Nat → Driver σ → Option Nat × Driver σ
  | 0, d => (none, d)
  | fuel + 1, d =>
    let f := HAL_uart_rx_flush u hd fuel d
    if f.1 = false then (none, f.2) else
    let d := f.2
    if sh.reject then (some hd.HM10_Clone_EC_ERR, d) else
    let p := sh.populate d
    let r := p.2.Transmit u p.1 hd.HM10_CLONE_CUSTOM_HAL_TIMEOUT
    let ret := HAL_ret_handler hd r.1
    let d := r.2
    if ret ≠ HAL_OK then
      if d.resp_attempts = 0 then exchange u hd sh fuel (d.set_attempts (d.resp_attempts + 1))
      else (some ret, d)
    else exchange_steps u hd (exchange u hd sh fuel) (sh.tail (exchange u hd sh fuel) fuel)
      sh.steps d

/-- Stores of consecutive bytes from index `i` on. -/
def Driver.stores (d : Driver σ) : Nat → List Nat → Driver σ
  | _, [] => d
  | i, b :: bs => (d.store i b).stores (i + 1) bs

/-- The final part of the commands without output: `return HM10_Clone_EC_OK`. -/
def tail_ok (hd : Header) (out : Driver σ → Driver σ) :
    (Driver σ → Option Nat × Driver σ) → Nat → Driver σ → Option Nat × Driver σ :=
  fun _ _ d => (some hd.HM10_Clone_EC_OK, out d)

/-- The validation of the `OK\r\n` response. -/
def ok_step : Nat × (Driver σ → Bool) :=
  (HM10_CLONE_OK_RESPONSE_SIZE, fun d => d.differs HM10_Clone_OK_resp HM10_CLONE_OK_RESPONSE_SIZE)

/-- What each command puts into the skeleton. -/
def Cmd.shape (u : UART σ) (hd : Header) : Cmd → Shape σ
  | .test =>
    { reject := false
      populate := fun d => (HM10_CLONE_TEST_CMD_SIZE, d.stores 0 [65, 84, 13, 10])
      steps := [ok_step]
      tail := tail_ok hd id }
  | .reset =>
    { reject := false
      populate := fun d =>
        (HM10_CLONE_RESET_CMD_SIZE, d.stores 0 [65, 84, 43, 82, 69, 83, 69, 84, 13, 10])
      steps := [ok_step]
      tail := tail_ok hd id }
  | .set_name hm10_name size =>
    { reject := decide (size > hd.HM10_CLONE_MAX_BLE_NAME_SIZE)
      populate := fun d =>
        let c := copy_loop hm10_name ((size + 7) % 256 - 7) 0 7
          (d.stores 0 [65, 84, 43, 78, 65, 77, 69])
        ((c.1 + 2) % 256, (c.2.store c.1 13).store ((c.1 + 1) % 256) 10)
      steps :=
        [((HM10_CLONE_NAME_RESPONSE_SIZE_WITHOUT_REQUESTED_NAME + size) % 256, fun d =>
            d.differs HM10_Clone_Name_resp 6
            || (compare_loop d hm10_name ((size + 6) % 256 - 6) 0 6).1
            || decide (d.TxRx_Buffer (compare_loop d hm10_name ((size + 6) % 256 - 6) 0 6).2 ≠ 13
                ∨ d.TxRx_Buffer ((compare_loop d hm10_name ((size + 6) % 256 - 6) 0 6).2 + 1)
                  ≠ 10)),
          ok_step]
      tail := tail_ok hd id }
  | .get_name =>
    { reject := false
      populate := fun d =>
        (HM10_CLONE_GET_NAME_CMD_SIZE, d.stores 0 [65, 84, 43, 78, 65, 77, 69, 13, 10])
      steps :=
        [(HM10_CLONE_NAME_RESPONSE_SIZE_WITHOUT_REQUESTED_NAME,
          fun d => d.differs HM10_Clone_Name_resp 6)]
      tail := fun again fuel d => get_name_loop u hd again 6 fuel 8 { d with size := 0 } }
  | .set_role ble_role =>
    { reject := decide (¬ (ble_role = hd.HM10_Clone_Role_Peripheral
        ∨ ble_role = hd.HM10_Clone_Role_Central))
      populate := fun d =>
        (HM10_CLONE_SET_ROLE_CMD_SIZE,
          d.stores 0 [65, 84, 43, 82, 79, 76, 69, ble_role % 256, 13, 10])
      steps :=
        [(HM10_CLONE_ROLE_RESPONSE_SIZE, fun d =>
            d.differs HM10_Clone_Role_resp 6
            || decide (d.TxRx_Buffer 6 ≠ ble_role ∨ d.TxRx_Buffer 7 ≠ 13
                ∨ d.TxRx_Buffer 8 ≠ 10))]
      tail := tail_ok hd id }
  | .get_role =>
    { reject := false
      populate := fun d =>
        (HM10_CLONE_GET_ROLE_CMD_SIZE, d.stores 0 [65, 84, 43, 82, 79, 76, 69, 13, 10])
      steps :=
        [(HM10_CLONE_ROLE_RESPONSE_SIZE, fun d =>
            d.differs HM10_Clone_Role_resp 6
            || decide (¬ (d.TxRx_Buffer 6 = hd.HM10_Clone_Role_Peripheral
                ∨ d.TxRx_Buffer 6 = hd.HM10_Clone_Role_Central))
            || decide (d.TxRx_Buffer 7 ≠ 13 ∨ d.TxRx_Buffer 8 ≠ 10))]
      tail := tail_ok hd fun d => { d with ble_role := d.TxRx_Buffer 6 } }
  | .set_pin pin =>
    { reject := (List.range hd.HM10_CLONE_PIN_VALUE_SIZE).any
        fun current_pin_character =>
          decide (pin.getD current_pin_character 0 ∉ Numbers_in_ASCII)
      populate := fun d =>
        let c := copy_loop pin 6 0 6 (d.stores 0 [65, 84, 43, 80, 73, 78])
        (HM10_CLONE_SET_PIN_CMD_SIZE, (c.2.store c.1 13).store (c.1 + 1) 10)
      steps :=
        [(HM10_CLONE_PIN_RESPONSE_SIZE, fun d =>
            d.differs HM10_Clone_Pin_resp (pin_resp_size_without_pin_cr_and_lf hd)
            || (compare_loop d pin (11 - pin_resp_size_without_pin_cr_and_lf hd) 0
                  (pin_resp_size_without_pin_cr_and_lf hd)).1
            || decide (d.TxRx_Buffer (compare_loop d pin
                  (11 - pin_resp_size_without_pin_cr_and_lf hd) 0
                  (pin_resp_size_without_pin_cr_and_lf hd)).2 ≠ 13
                ∨ d.TxRx_Buffer ((compare_loop d pin
                  (11 - pin_resp_size_without_pin_cr_and_lf hd) 0
                  (pin_resp_size_without_pin_cr_and_lf hd)).2 + 1) ≠ 10)),
          ok_step]
      tail := tail_ok hd id }
  | .get_pin =>
    { reject := false
      populate := fun d =>
        (HM10_CLONE_GET_PIN_CMD_SIZE, d.stores 0 [65, 84, 43, 80, 73, 78, 13, 10])
      steps :=
        [(HM10_CLONE_PIN_RESPONSE_SIZE, fun d =>
            d.differs HM10_Clone_Pin_resp (pin_resp_size_without_pin_cr_and_lf hd)
            || (List.range hd.HM10_CLONE_PIN_VALUE_SIZE).any
                (fun current_pin_character =>
                  decide (d.TxRx_Buffer
                    ((pin_resp_size_without_pin_cr_and_lf hd + current_pin_character) % 256)
                    ∉ Numbers_in_ASCII))
            || decide (d.TxRx_Buffer
                  ((pin_resp_size_without_pin_cr_and_lf hd + hd.HM10_CLONE_PIN_VALUE_SIZE) % 256)
                  ≠ 13
                ∨ d.TxRx_Buffer
                  ((pin_resp_size_without_pin_cr_and_lf hd + hd.HM10_CLONE_PIN_VALUE_SIZE) % 256
                    + 1) ≠ 10))]
      tail := tail_ok hd fun d =>
        { d with pin :=
            d.bytes (pin_resp_size_without_pin_cr_and_lf hd) hd.HM10_CLONE_PIN_VALUE_SIZE
              ++ d.pin.drop hd.HM10_CLONE_PIN_VALUE_SIZE } }
  | .set_pin_code_mode pin_code_mode =>
    { reject := decide (¬ (pin_code_mode = hd.HM10_Clone_Pin_Code_DISABLED
        ∨ pin_code_mode = hd.HM10_Clone_Pin_Code_ENABLED))
      populate := fun d =>
        (HM10_CLONE_SET_TYPE_CMD_SIZE,
          d.stores 0 [65, 84, 43, 84, 89, 80, 69, pin_code_mode % 256, 13, 10])
      steps :=
        [(HM10_CLONE_TYPE_RESPONSE_SIZE, fun d =>
            d.differs HM10_Clone_Type_resp 6
            || decide (d.TxRx_Buffer 6 ≠ pin_code_mode)
            || decide (d.TxRx_Buffer 7 ≠ 13 ∨ d.TxRx_Buffer 8 ≠ 10)),
          ok_step]
      tail := tail_ok hd id }
  | .get_pin_code_mode =>
    { reject := false
      populate := fun d =>
        (HM10_CLONE_GET_TYPE_CMD_SIZE, d.stores 0 [65, 84, 43, 84, 89, 80, 69, 13, 10])
      steps :=
        [(HM10_CLONE_TYPE_RESPONSE_SIZE, fun d =>
            d.differs HM10_Clone_Type_resp 6
            || decide (¬ (d.TxRx_Buffer 6 = hd.HM10_Clone_Pin_Code_DISABLED
                ∨ d.TxRx_Buffer 6 = hd.HM10_Clone_Pin_Code_ENABLED))
            || decide (d.TxRx_Buffer 7 ≠ 13 ∨ d.TxRx_Buffer 8 ≠ 10))]
      tail := tail_ok hd fun d => { d with pin_code_mode := d.TxRx_Buffer 6 } }

/-! ## Relations and scenarios of the statements -/

/-- Between `d1` and `d2` the driver has made `k` transmit calls and no store to the retry
counter; the trace has only grown. The relation looks at the trace and at the retry
counter only. -/
structure Ran (k : Nat) (d1 d2 : Driver σ) : Prop where
  resp_attempts : d2.resp_attempts = d1.resp_attempts
  tx_count : tx_count d2.trace = tx_count d1.trace + k
  attempts_log : attempts_log d2.trace = attempts_log d1.trace
  grows : d1.trace <+: d2.trace

/-- The arguments of a command pass its validation. -/
def Cmd.accepted (hd : Header) : Cmd → Prop
  | .set_name _ size => size ≤ hd.HM10_CLONE_MAX_BLE_NAME_SIZE
  | .set_role ble_role =>
    ble_role = hd.HM10_Clone_Role_Peripheral ∨ ble_role = hd.HM10_Clone_Role_Central
  | .set_pin pin => ∀ i < hd.HM10_CLONE_PIN_VALUE_SIZE, pin.getD i 0 ∈ Numbers_in_ASCII
  | .set_pin_code_mode pin_code_mode =>
    pin_code_mode = hd.HM10_Clone_Pin_Code_DISABLED
      ∨ pin_code_mode = hd.HM10_Clone_Pin_Code_ENABLED
  | _ => True

/-- An event of the flush: a one-byte receive with the driver timeout. -/
def Event.is_flush_rx (hd : Header) : Event → Prop
  | .rx Size Timeout _ _ => Size = 1 ∧ Timeout = hd.HM10_CLONE_CUSTOM_HAL_TIMEOUT
  | _ => False

/-- What the statements about complete exchanges assume of the header: the status codes
are as the driver relies on them, a pin has 6 bytes, and the longest name is at most 12
bytes, so that every request and response fits the 21-byte buffer. -/
def Header.wf (hd : Header) : Prop :=
  hd.codes_ok ∧ hd.HM10_CLONE_PIN_VALUE_SIZE = 6 ∧ hd.HM10_CLONE_MAX_BLE_NAME_SIZE ≤ 12

instance (hd : Header) : Decidable hd.wf := by
  unfold Header.wf; infer_instance

/-- The request frame of each command: `AT`, the command name, the argument bytes, `\r\n`. -/
def Cmd.request : Cmd → List Nat
  | .test => [65, 84, 13, 10]
  | .reset => [65, 84, 43, 82, 69, 83, 69, 84, 13, 10]
  | .set_name hm10_name size =>
    [65, 84, 43, 78, 65, 77, 69] ++ (List.range size).map (fun i => hm10_name.getD i 0)
      ++ [13, 10]
  | .get_name => [65, 84, 43, 78, 65, 77, 69, 13, 10]
  | .set_role ble_role => [65, 84, 43, 82, 79, 76, 69, ble_role % 256, 13, 10]
  | .get_role => [65, 84, 43, 82, 79, 76, 69, 13, 10]
  | .set_pin pin =>
    [65, 84, 43, 80, 73, 78] ++ (List.range 6).map (fun i => pin.getD i 0) ++ [13, 10]
  | .get_pin => [65, 84, 43, 80, 73, 78, 13, 10]
  | .set_pin_code_mode pin_code_mode =>
    [65, 84, 43, 84, 89, 80, 69, pin_code_mode % 256, 13, 10]
  | .get_pin_code_mode => [65, 84, 43, 84, 89, 80, 69, 13, 10]

/-- Successive receives, one for each of the given byte sequences and of its length, that
all report `HAL_OK` and deliver exactly that sequence: the link state they end in. -/
def UART.receives (u : UART σ) (Timeout : Nat) : List (List Nat) → σ → Option σ
  | [], s => some s
  | b :: rest, s =>
    let r := u.HAL_UART_Receive s b.length Timeout
    if r.1 = HAL_StatusTypeDef.HAL_OK ∧ r.2.1 = b then u.receives Timeout rest r.2.2 else none

/-- The response on which each command succeeds, cut into the pieces in which the command
receives it. `value` is the value the module reports to a getter (the name, the role byte,
the pin, the mode byte); the setters expect their own argument back. -/
def Cmd.reply : Cmd → List Nat → List (List Nat)
  | .test, _ => [HM10_Clone_OK_resp]
  | .reset, _ => [HM10_Clone_OK_resp]
  | .set_name hm10_name size, _ =>
    [HM10_Clone_Name_resp ++ (List.range size).map (fun i => hm10_name.getD i 0) ++ [13, 10],
      HM10_Clone_OK_resp]
  | .get_name, value =>
    (HM10_Clone_Name_resp ++ value ++ [13, 10]).take 8
      :: ((HM10_Clone_Name_resp ++ value ++ [13, 10]).drop 8).map fun b => [b]
  | .set_role ble_role, _ => [HM10_Clone_Role_resp ++ [ble_role, 13, 10]]
  | .get_role, value => [HM10_Clone_Role_resp ++ value ++ [13, 10]]
  | .set_pin pin, _ =>
    [HM10_Clone_Pin_resp ++ (List.range 6).map (fun i => pin.getD i 0) ++ [13, 10],
      HM10_Clone_OK_resp]
  | .get_pin, value => [HM10_Clone_Pin_resp ++ value ++ [13, 10]]
  | .set_pin_code_mode pin_code_mode, _ =>
    [HM10_Clone_Type_resp ++ [pin_code_mode, 13, 10], HM10_Clone_OK_resp]
  | .get_pin_code_mode, value => [HM10_Clone_Type_resp ++ value ++ [13, 10]]

/-- The values a getter accepts: a name of 1 to `HM10_CLONE_MAX_BLE_NAME_SIZE` bytes with no
`\r\n` pair at offsets `(k, k + 1)`, `k ≥ 1`; a known role; six ASCII digits; a known pin
code mode. For the other commands there is no value. -/
def Cmd.value_ok (hd : Header) : Cmd → List Nat → Prop
  | .get_name, value =>
    1 ≤ value.length ∧ value.length ≤ hd.HM10_CLONE_MAX_BLE_NAME_SIZE
      ∧ ∀ k < value.length, 1 ≤ k → k + 1 < value.length →
          ¬ (value.getD k 0 = 13 ∧ value.getD (k + 1) 0 = 10)
  | .get_role, value =>
    ∃ r, value = [r] ∧ (r = hd.HM10_Clone_Role_Peripheral ∨ r = hd.HM10_Clone_Role_Central)
  | .get_pin, value => value.length = 6 ∧ ∀ b ∈ value, b ∈ Numbers_in_ASCII
  | .get_pin_code_mode, value =>
    ∃ m, value = [m]
      ∧ (m = hd.HM10_Clone_Pin_Code_DISABLED ∨ m = hd.HM10_Clone_Pin_Code_ENABLED)
  | _, _ => True

/-- What a successful command leaves in the output memory: a getter has stored the value
it received (the name with its length, the role, the pin, the mode). -/
def Cmd.delivered : Cmd → List Nat → Driver σ → Driver σ → Prop
  | .get_name, value, d, d1 =>
    d1.hm10_name = value ++ d.hm10_name.drop value.length ∧ d1.size = value.length
  | .get_role, value, _, d1 => d1.ble_role = value.getD 0 0
  | .get_pin, value, d, d1 => d1.pin = value ++ d.pin.drop 6
  | .get_pin_code_mode, value, _, d1 => d1.pin_code_mode = value.getD 0 0
  | _, _, _, _ => True

/-- The output memory of the getters is the same in `d1` and `d2`. -/
structure SameOut (d1 d2 : Driver σ) : Prop where
  hm10_name : d2.hm10_name = d1.hm10_name
  size : d2.size = d1.size
  ble_role : d2.ble_role = d1.ble_role
  pin : d2.pin = d1.pin
  pin_code_mode : d2.pin_code_mode = d1.pin_code_mode

/-- The tag with which the value response of a command starts; the commands answered by
`OK\r\n` alone have none. -/
def Cmd.tag : Cmd → List Nat
  | .set_name _ _ => HM10_Clone_Name_resp
  | .get_name => HM10_Clone_Name_resp
  | .set_role _ => HM10_Clone_Role_resp
  | .get_role => HM10_Clone_Role_resp
  | .set_pin _ => HM10_Clone_Pin_resp
  | .get_pin => HM10_Clone_Pin_resp
  | .set_pin_code_mode _ => HM10_Clone_Type_resp
  | .get_pin_code_mode => HM10_Clone_Type_resp
  | _ => []

/-- The number of bytes a command asks for in its first receive. -/
def Cmd.first_size : Cmd → Nat
  | .test => 4
  | .reset => 4
  | .set_name _ size => 8 + size
  | .get_name => 8
  | .set_role _ => 9
  | .get_role => 9
  | .set_pin _ => 13
  | .get_pin => 13
  | .set_pin_code_mode _ => 9
  | .get_pin_code_mode => 9

/-- The result `r` of a part of a command, run from `d` with `again` as the recursive call,
either was reached from `d` with `k` transmits and no retry, or is, as far as the trace and
the retry counter go, the result of the one retry that the part started: `again` called
with the counter raised from 0, in a state reached from `d` with `k` transmits. -/
def Retries (again : Driver σ → Option Nat × Driver σ) (k : Nat) (d r : Driver σ) : Prop :=
  Ran k d r
    ∨ ∃ d1, Ran k d d1 ∧ d1.resp_attempts = 0
        ∧ r.trace = (again (d1.set_attempts (d1.resp_attempts + 1))).2.trace
        ∧ r.resp_attempts = (again (d1.set_attempts (d1.resp_attempts + 1))).2.resp_attempts

/-- Example link: both transmits are answered `+NAME=\r\n`, the response for an empty name. -/
def empty_name_link : Sim :=
  ⟨[], [(HAL_StatusTypeDef.HAL_OK, [43, 78, 65, 77, 69, 61, 13, 10]),
    (HAL_StatusTypeDef.HAL_OK, [43, 78, 65, 77, 69, 61, 13, 10])]⟩

/-- Example link: the transmit is answered `+NAME=a\r\nb\r\n`, the response for the 4-byte
name `a\r\nb`. -/
def crlf_name_link : Sim :=
  ⟨[], [(HAL_StatusTypeDef.HAL_OK, [43, 78, 65, 77, 69, 61, 97, 13, 10, 98, 13, 10])]⟩

/-- Example link: the transmit is answered `+ROLE=0\r\n`. -/
def role_ok_link_0 : Sim :=
  ⟨[], [(HAL_StatusTypeDef.HAL_OK, [43, 82, 79, 76, 69, 61, 48, 13, 10])]⟩

/-- Example link: `role_ok_link_0` after its transmit. -/
def role_ok_link_1 : Sim := ⟨[43, 82, 79, 76, 69, 61, 48, 13, 10], []⟩

/-- Example link: the transmit is answered `+PIN=01234x\r\n`. -/
def pin_bad_link_0 : Sim :=
  ⟨[], [(HAL_StatusTypeDef.HAL_OK, [43, 80, 73, 78, 61, 48, 49, 50, 51, 52, 120, 13, 10])]⟩

/-- Example link: `pin_bad_link_0` after its transmit. -/
def pin_bad_link_1 : Sim := ⟨[43, 80, 73, 78, 61, 48, 49, 50, 51, 52, 120, 13, 10], []⟩

/-- Example link: the transmit is answered `+NAME=Hi\r\nOK\r\n`. -/
def name_ok_link_0 : Sim :=
  ⟨[], [(HAL_StatusTypeDef.HAL_OK, [43, 78, 65, 77, 69, 61, 72, 105, 13, 10, 79, 75, 13, 10])]⟩

/-- Example link: `name_ok_link_0` after its transmit. -/
def name_ok_link_1 : Sim := ⟨[43, 78, 65, 77, 69, 61, 72, 105, 13, 10, 79, 75, 13, 10], []⟩

/-- Example link: both transmits are answered `+PIN=012345\r\n` and nothing more. -/
def pin_link_0 : Sim :=
  ⟨[], [(HAL_StatusTypeDef.HAL_OK, [43, 80, 73, 78, 61, 48, 49, 50, 51, 52, 53, 13, 10]),
    (HAL_StatusTypeDef.HAL_OK, [43, 80, 73, 78, 61, 48, 49, 50, 51, 52, 53, 13, 10])]⟩

/-- Example link: the transmit is answered `+PIN=012345\r\nOK\r\n`. -/
def pin_link_1 : Sim :=
  ⟨[], [(HAL_StatusTypeDef.HAL_OK,
    [43, 80, 73, 78, 61, 48, 49, 50, 51, 52, 53, 13, 10, 79, 75, 13, 10])]⟩

/-- Example link: `pin_link_1` after its transmit. -/
def pin_link_2 : Sim :=
  ⟨[43, 80, 73, 78, 61, 48, 49, 50, 51, 52, 53, 13, 10, 79, 75, 13, 10], []⟩

/-- The commands whose exchange is one value response. -/
def Cmd.single_response : Cmd → Prop
  | .get_name => True
  | .set_role _ => True
  | .get_role => True
  | .get_pin => True
  | .get_pin_code_mode => True
  | _ => False

/-- The value bytes of the value response of a command: a setter is answered its own
argument, a getter the value `value` that the module reports. -/
def Cmd.echo : Cmd → List Nat → List Nat
  | .set_name hm10_name size, _ => (List.range size).map (fun i => hm10_name.getD i 0)
  | .set_role ble_role, _ => [ble_role]
  | .set_pin pin, _ => (List.range 6).map (fun i => pin.getD i 0)
  | .set_pin_code_mode pin_code_mode, _ => [pin_code_mode]
  | _, value => value

/-- The trace event of a receive that succeeded delivering `b`. -/
def rx_ok (hd : Header) (b : List Nat) : Event :=
  Event.rx b.length hd.HM10_CLONE_CUSTOM_HAL_TIMEOUT HAL_StatusTypeDef.HAL_OK b

/-- State of an ideal module: the settings it stores, and the bytes it has sent that the
driver has not received yet. -/
structure Module where
  name : List Nat
  role : Nat
  pin : List Nat
  mode : Nat
  pending : List Nat
  deriving DecidableEq, Repr

/-- What an ideal module does with a request frame. A frame `AT+NAME`, `AT+ROLE`, `AT+PIN` or
`AT+TYPE` with an argument before its `\r\n` stores the argument, without an argument it is
a query; both are answered with the value response (tag, value, `\r\n`). `AT\r\n` and
`AT+RESET\r\n` are answered `OK\r\n`. The value response of a set-name and of a set-type
request is followed by `OK\r\n`; `ack` tells whether that of a set-role and of a set-pin
request is followed by `OK\r\n` too (the comment on `HM10_Clone_OK_resp` in the driver says
that the module sends it whenever a request to set a setting was processed) or not (the
specification lists these two commands as concluding with the value response). -/
def Module.answer (ack : Bool) (s : Module) (frame : List Nat) : Module :=
  let arg7 := ((frame.drop 7).dropLast).dropLast
  let arg6 := ((frame.drop 6).dropLast).dropLast
  let ok := if ack then HM10_Clone_OK_resp else []
  if frame.take 7 = [65, 84, 43, 78, 65, 77, 69] then
    if arg7 = [] then
      { s with pending := s.pending ++ (HM10_Clone_Name_resp ++ s.name ++ [13, 10]) }
    else
      { s with
        name := arg7
        pending := s.pending ++ (HM10_Clone_Name_resp ++ arg7 ++ [13, 10] ++ HM10_Clone_OK_resp) }
  else if frame.take 7 = [65, 84, 43, 82, 79, 76, 69] then
    if arg7 = [] then
      { s with pending := s.pending ++ (HM10_Clone_Role_resp ++ [s.role] ++ [13, 10]) }
    else
      { s with
        role := arg7.headD 0
        pending := s.pending ++ (HM10_Clone_Role_resp ++ arg7 ++ [13, 10] ++ ok) }
  else if frame.take 7 = [65, 84, 43, 84, 89, 80, 69] then
    if arg7 = [] then
      { s with pending := s.pending ++ (HM10_Clone_Type_resp ++ [s.mode] ++ [13, 10]) }
    else
      { s with
        mode := arg7.headD 0
        pending := s.pending ++ (HM10_Clone_Type_resp ++ arg7 ++ [13, 10] ++ HM10_Clone_OK_resp) }
  else if frame.take 6 = [65, 84, 43, 80, 73, 78] then
    if arg6 = [] then
      { s with pending := s.pending ++ (HM10_Clone_Pin_resp ++ s.pin ++ [13, 10]) }
    else
      { s with
        pin := arg6
        pending := s.pending ++ (HM10_Clone_Pin_resp ++ arg6 ++ [13, 10] ++ ok) }
  else if frame = [65, 84, 13, 10] ∨ frame = [65, 84, 43, 82, 69, 83, 69, 84, 13, 10] then
    { s with pending := s.pending ++ HM10_Clone_OK_resp }
  else s

/-- A fault-free link to an ideal module: every transmit succeeds and is answered at once;
a receive of `n` bytes succeeds when `n` bytes are waiting, and otherwise times out having
taken what was there. -/
def ideal (ack : Bool) : UART Module where
  HAL_UART_Transmit s pData _ := (HAL_StatusTypeDef.HAL_OK, s.answer ack pData)
  HAL_UART_Receive s Size _ :=
    if Size ≤ s.pending.length then
      (HAL_StatusTypeDef.HAL_OK, s.pending.take Size, { s with pending := s.pending.drop Size })
    else (HAL_StatusTypeDef.HAL_TIMEOUT, s.pending, { s with pending := [] })

/-- The frames handed to `HAL_UART_Transmit`, in order, as recorded in a trace. -/
def tx_frames : List Event → List (List Nat)
  | [] => []
  | Event.tx pData _ _ :: t => pData :: tx_frames t
  | _ :: t => tx_frames t

/-- Between `d` and `r` every frame handed to `HAL_UART_Transmit` was `f`. -/
def Sent (f : List Nat) (d r : Driver σ) : Prop :=
  ∃ k, tx_frames r.trace = tx_frames d.trace ++ List.replicate k f

/-! ## The two functions that pass data through -/

/-- Function `send_hm10clone_ota_data`: one call `HAL_UART_Transmit(p_huart, ble_ota_data, size,
timeout)` and the mapped status. The bytes handed over are the first `size` bytes of the
caller's buffer. -/
def send_hm10clone_ota_data (u : UART σ) (hd : Header) (ble_ota_data : List Nat)
    (size timeout : Nat) (d : Driver σ) : Nat × Driver σ :=
  let pData := (List.range size).map fun i => ble_ota_data.getD i 0
  let r := u.HAL_UART_Transmit d.huart pData timeout
  let ret := HAL_ret_handler hd r.1
  (ret, { d with huart := r.2, trace := d.trace ++ [Event.tx pData timeout r.1] })

/-- Function `get_hm10clone_ota_data`: one call `HAL_UART_Receive(p_huart, ble_ota_data, size,
timeout)` and the mapped status. The bytes the UART delivers (at most `size`) are stored at
the start of the caller's buffer, which is returned with the status. -/
def get_hm10clone_ota_data (u : UART σ) (hd : Header) (ble_ota_data : List Nat)
    (size timeout : Nat) (d : Driver σ) : Nat × List Nat × Driver σ :=
  let r := u.HAL_UART_Receive d.huart size timeout
  let data := r.2.1.take size
  let ret := HAL_ret_handler hd r.1
  (ret, data ++ ble_ota_data.drop data.length,
    { d with huart := r.2.2, trace := d.trace ++ [Event.rx size timeout r.1 r.2.1] })

/-! ## More relations and scenarios of the statements -/

/-- Example link: the first transmit is answered `+NAME=AB` and nothing more, the second
`+NAME=AB\r\n`. -/
def name_cut_link : Sim :=
  ⟨[], [(HAL_StatusTypeDef.HAL_OK, [43, 78, 65, 77, 69, 61, 65, 66]),
    (HAL_StatusTypeDef.HAL_OK, [43, 78, 65, 77, 69, 61, 65, 66, 13, 10])]⟩

/-- Example link: the first transmit reports `HAL_TIMEOUT`, the second `HAL_ERROR`. -/
def fault_link_0 : Sim :=
  ⟨[], [(HAL_StatusTypeDef.HAL_TIMEOUT, []), (HAL_StatusTypeDef.HAL_ERROR, [])]⟩

/-- The bytes `+NAME=` and fourteen bytes `A`, with no `\r\n`. -/
def long_name_response : List Nat :=
  [43, 78, 65, 77, 69, 61, 65, 65, 65, 65, 65, 65, 65, 65, 65, 65, 65, 65, 65, 65]

/-- Example link: both transmits are answered `long_name_response`. -/
def long_name_link : Sim :=
  ⟨[], [(HAL_StatusTypeDef.HAL_OK, long_name_response),
    (HAL_StatusTypeDef.HAL_OK, long_name_response)]⟩

/-- Example link: `long_name_link` after its first transmit. -/
def long_name_link_1 : Sim :=
  ⟨long_name_response, [(HAL_StatusTypeDef.HAL_OK, long_name_response)]⟩

/-- Example link: `long_name_link_1` when the response has been received. -/
def long_name_link_2 : Sim := ⟨[], [(HAL_StatusTypeDef.HAL_OK, long_name_response)]⟩

/-- Example link: `long_name_link_2` after its transmit. -/
def long_name_link_3 : Sim := ⟨long_name_response, []⟩

/-- Example link: `long_name_link_3` when the response has been received. -/
def long_name_link_4 : Sim := ⟨[], []⟩

/-- How one pass through the body of a `send_*_cmd` ends: the fuel ran out (`starved`); a
`return` of a status that is not the mapped status of a HAL call: rejected arguments, a
refused response, success (`returned`); a HAL call of the exchange (the transmit or a
receive after it, not the flush) reported a status whose mapping differs from `HAL_OK`, in
the byte-by-byte name read or elsewhere (`fault`); the name read reached the maximum
number of bytes without the terminator (`overflow`). -/
inductive Outcome where
  | starved
  | returned (ret : Nat)
  | fault (status : HAL_StatusTypeDef) (in_name_read : Bool)
  | overflow
  deriving DecidableEq, Repr

/-- The status a pass gives when it is the last one. -/
def Outcome.result (hd : Header) : Outcome → Option Nat
  | .starved => none
  | .returned ret => some ret
  | .fault status _ => some (HAL_ret_handler hd status)
  | .overflow => some hd.HM10_Clone_EC_ERR

/-- Whether a pass ends at one of the `if (resp_attempts == 0)` blocks. -/
def Outcome.retry : Outcome → Bool
  | .fault _ _ => true
  | .overflow => true
  | _ => false

/-- The store `*size = 0` that follows the retry block of the byte-by-byte name read. -/
def Outcome.settle (o : Outcome) (d : Driver σ) : Driver σ :=
  match o with
  | .fault _ true => { d with size := 0 }
  | _ => d

/-- One pass through the receive-and-validate sequence of the skeleton: as
`exchange_steps`, up to the `if (resp_attempts == 0)` block of a receive. -/
def attempt_steps (u : UART σ) (hd : Header) (tail : Driver σ → Outcome × Driver σ) :
    List (Nat × (Driver σ → Bool)) → Driver σ → Outcome × Driver σ
  | [], d => tail d
  | (n, bad) :: rest, d =>
    let r := d.Receive u 0 n hd.HM10_CLONE_CUSTOM_HAL_TIMEOUT
    let ret := HAL_ret_handler hd r.1
    let d := r.2
    if ret ≠ HAL_OK then (Outcome.fault r.1 false, d)
    else if bad d then (Outcome.returned hd.HM10_Clone_EC_ERR, d)
    else attempt_steps u hd tail rest d

/-- One pass through the `do ... while (1)` loop of `send_get_name_cmd`: as `get_name_loop`,
up to its two `if (resp_attempts == 0)` blocks. -/
def name_read (u : UART σ) (hd : Header) (name_resp_size_without_cr_and_lf : Nat) :
    Nat → Nat → Driver σ → Outcome × Driver σ
  | 0, _, d => (Outcome.starved, d)
  | fuel + 1, bytes_populated_in_TxRx_Buffer, d =>
    let r := d.Receive u bytes_populated_in_TxRx_Buffer 1 hd.HM10_CLONE_CUSTOM_HAL_TIMEOUT
    let bytes_populated_in_TxRx_Buffer := (bytes_populated_in_TxRx_Buffer + 1) % 256
    let d := r.2
    let d := { d with size := (d.size + 1) % 256 }
    let ret := HAL_ret_handler hd r.1
    if ret ≠ HAL_OK then (Outcome.fault r.1 true, d)
    else
    if d.TxRx_Buffer (bytes_populated_in_TxRx_Buffer - 2) = 13
        ∧ d.TxRx_Buffer (bytes_populated_in_TxRx_Buffer - 1) = 10 then
      (Outcome.returned hd.HM10_Clone_EC_OK,
        { d with hm10_name :=
            d.bytes name_resp_size_without_cr_and_lf d.size ++ d.hm10_name.drop d.size })
    else
    if bytes_populated_in_TxRx_Buffer
        = hd.HM10_CLONE_MAX_BLE_NAME_SIZE
          + HM10_CLONE_NAME_RESPONSE_SIZE_WITHOUT_REQUESTED_NAME then
      (Outcome.overflow, d)
    else name_read u hd name_resp_size_without_cr_and_lf fuel bytes_populated_in_TxRx_Buffer d

/-- The store to the output parameter with which a getter ends; the name is stored by the
name read. -/
def Cmd.output (hd : Header) : Cmd → Driver σ → Driver σ
  | .get_role, d => { d with ble_role := d.TxRx_Buffer 6 }
  | .get_pin, d =>
    { d with pin :=
        d.bytes (pin_resp_size_without_pin_cr_and_lf hd) hd.HM10_CLONE_PIN_VALUE_SIZE
          ++ d.pin.drop hd.HM10_CLONE_PIN_VALUE_SIZE }
  | .get_pin_code_mode, d => { d with pin_code_mode := d.TxRx_Buffer 6 }
  | _, d => d

/-- The final part of one pass: the name read of `send_get_name_cmd`, the output store and
`return HM10_Clone_EC_OK` of the others. -/
def Cmd.last (u : UART σ) (hd : Header) : Cmd → Nat → Driver σ → Outcome × Driver σ
  | .get_name, fuel, d => name_read u hd 6 fuel 8 { d with size := 0 }
  | c, _, d => (Outcome.returned hd.HM10_Clone_EC_OK, c.output hd d)

/-- One pass through the body of the `send_*_cmd` of a command: the flush, the validation
of the arguments, the request, and the receives with their validations, up to the first
`return` or `if (resp_attempts == 0)` block. `send_attempt` shows that every `send_*_cmd`
is this pass followed by `finish`. -/
def Cmd.attempt (u : UART σ) (hd : Header) (c : Cmd) (fuel : Nat) (d : Driver σ) :
    Outcome × Driver σ :=
  let f := HAL_uart_rx_flush u hd fuel d
  if f.1 = false then (Outcome.starved, f.2) else
  let d := f.2
  if (c.shape u hd).reject then (Outcome.returned hd.HM10_Clone_EC_ERR, d) else
  let p := (c.shape u hd).populate d
  let r := p.2.Transmit u p.1 hd.HM10_CLONE_CUSTOM_HAL_TIMEOUT
  let ret := HAL_ret_handler hd r.1
  let d := r.2
  if ret ≠ HAL_OK then (Outcome.fault r.1 false, d)
  else attempt_steps u hd (c.last u hd fuel) (c.shape u hd).steps d

/-- What a `send_*_cmd` does after one pass that ended with the outcome `a.1` in the state
`a.2`: a `return`, or the `if (resp_attempts == 0)` block: with the counter at 0 the
counter is raised and the function calls itself (`again`), otherwise the status is
returned; after the block of the name read the size output is set to 0. -/
def finish (hd : Header) (again : Driver σ → Option Nat × Driver σ) (a : Outcome × Driver σ) :
    Option Nat × Driver σ :=
  if a.1.retry then
    if a.2.resp_attempts = 0 then
      let x := again (a.2.set_attempts (a.2.resp_attempts + 1))
      match x.1 with
      | none => x
      | some ret => (some ret, a.1.settle x.2)
    else (a.1.result hd, a.1.settle a.2)
  else (a.1.result hd, a.2)

/-- The HAL status that a trace event records. -/
def Event.status : Event → Option HAL_StatusTypeDef
  | .tx _ _ status => some status
  | .rx _ _ status _ => some status
  | .attempts _ => none

/-- The event is a call of `HAL_UART_Receive`. -/
def Event.is_rx : Event → Prop
  | .rx _ _ _ _ => True
  | _ => False

/-- The last event of `evs` is a HAL call that reported the status `st`. -/
def Ends_with (evs : List Event) (st : HAL_StatusTypeDef) : Prop :=
  ∃ init ev, evs = init ++ [ev] ∧ ev.status = some st

/-- Every transmit in `evs` comes right after a one-byte receive that reported
`HAL_TIMEOUT`. -/
def Flushed (hd : Header) (evs : List Event) : Prop :=
  ∀ pre pData Timeout status post, evs = pre ++ Event.tx pData Timeout status :: post →
    ∃ pre1 data, pre = pre1
      ++ [Event.rx 1 hd.HM10_CLONE_CUSTOM_HAL_TIMEOUT HAL_StatusTypeDef.HAL_TIMEOUT data]

/-- A public command as at most two passes through its `send_*_cmd`: the first with the
retry counter at 0; if it ends at a retry block, a second with the counter at 1, whose
status is returned whatever it is. `run_passes` shows that every public command is this. -/
def Cmd.passes (u : UART σ) (hd : Header) (c : Cmd) (fuel : Nat) (d : Driver σ) :
    Option Nat × Driver σ :=
  let a1 := c.attempt u hd (fuel + 1) (d.set_attempts 0)
  if a1.1.retry then
    let a2 := c.attempt u hd fuel (a1.2.set_attempts 1)
    (a2.1.result hd, if a2.1 = Outcome.starved then a2.2 else a1.1.settle (a2.1.settle a2.2))
  else (a1.1.result hd, a1.2)

/-! ## Relations and scenarios of the last statements -/

/-- A link that reports the statuses of a script: the state is the list of statuses still to
come; a receive reports the next one, delivering one byte when it is `HAL_OK`, and
`HAL_TIMEOUT` when none is left. -/
def status_line : UART (List HAL_StatusTypeDef) where
  HAL_UART_Transmit s _ _ := (HAL_StatusTypeDef.HAL_OK, s)
  HAL_UART_Receive s _ _ :=
    match s with
    | [] => (HAL_StatusTypeDef.HAL_TIMEOUT, [], [])
    | st :: rest => (st, if st = HAL_StatusTypeDef.HAL_OK then [0] else [], rest)

/-- A link on which every receive reports `HAL_BUSY`. -/
def busy_line : UART (List HAL_StatusTypeDef) where
  HAL_UART_Transmit s _ _ := (HAL_StatusTypeDef.HAL_OK, s)
  HAL_UART_Receive s _ _ := (HAL_StatusTypeDef.HAL_BUSY, [], s)

/-- Example link: the transmit is answered `+NAME=ABCDEFGHIJKL\r\n`, a name of 12 bytes. -/
def full_name_link_0 : Sim :=
  ⟨[], [(HAL_StatusTypeDef.HAL_OK,
    [43, 78, 65, 77, 69, 61, 65, 66, 67, 68, 69, 70, 71, 72, 73, 74, 75, 76, 13, 10])]⟩

/-- Example link: `full_name_link_0` after its transmit. -/
def full_name_link_1 : Sim :=
  ⟨[43, 78, 65, 77, 69, 61, 65, 66, 67, 68, 69, 70, 71, 72, 73, 74, 75, 76, 13, 10], []⟩

/-- Example link: `crlf_name_link` after its transmit. -/
def crlf_name_link_1 : Sim := ⟨[43, 78, 65, 77, 69, 61, 97, 13, 10, 98, 13, 10], []⟩

/-- The commands that set a value. -/
def Cmd.setter : Cmd → Prop
  | .set_name _ _ => True
  | .set_role _ => True
  | .set_pin _ => True
  | .set_pin_code_mode _ => True
  | _ => False

instance (c : Cmd) : Decidable c.setter := by
  cases c <;> unfold Cmd.setter <;> infer_instance

/-- Example link: the transmit is answered `+ROLE=1\r\n`. -/
def role_one_link_0 : Sim :=
  ⟨[], [(HAL_StatusTypeDef.HAL_OK, [43, 82, 79, 76, 69, 61, 49, 13, 10])]⟩

/-- Example link: `role_one_link_0` after its transmit. -/
def role_one_link_1 : Sim := ⟨[43, 82, 79, 76, 69, 61, 49, 13, 10], []⟩

/-- The driver state `d` with the scratch buffer replaced, from index `N` on, by `t`. -/
def Driver.graft (N : Nat) (d : Driver σ) (t : Nat → Nat) : Driver σ :=
  { d with TxRx_Buffer := fun k => if k < N then d.TxRx_Buffer k else t k }

/-- One more than the highest index of the scratch buffer that a command uses. -/
def Cmd.reach (hd : Header) : Cmd → Nat
  | .test => 4
  | .reset => 10
  | .set_name _ size => size + 9
  | .get_name => hd.HM10_CLONE_MAX_BLE_NAME_SIZE + 8
  | .set_role _ => 10
  | .get_role => 9
  | .set_pin _ => 14
  | .get_pin => 13
  | .set_pin_code_mode _ => 10
  | .get_pin_code_mode => 9

/-- An event fits the buffer of `HM10_CLONE_MAX_AT_COMMAND_SIZE` = 21 bytes: a transmit
hands over at most 21 bytes, a receive asks for at most 20. -/
def Event.fits : Event → Prop
  | .tx pData _ _ => pData.length ≤ 21
  | .rx Size _ _ _ => Size ≤ 20
  | .attempts _ => True

instance (e : Event) : Decidable e.fits := by
  cases e <;> unfold Event.fits <;> infer_instance

/-- From `d` to `r` the trace has grown by events that fit the scratch buffer. -/
def Fits (d r : Driver σ) : Prop :=
  ∃ evs, r.trace = d.trace ++ evs ∧ ∀ e ∈ evs, e.fits

/-- A header as `example_header`, but with names of at most 0 bytes. -/
def zero_name_header : Header :=
  { example_header with HM10_CLONE_MAX_BLE_NAME_SIZE := 0 }

/-- Example link: the transmit is answered `+NAME=` and 16 times `A`, with no `\r\n`. -/
def unending_name_link : Sim :=
  ⟨[], [(HAL_StatusTypeDef.HAL_OK,
    [43, 78, 65, 77, 69, 61, 65, 65, 65, 65, 65, 65, 65, 65, 65, 65, 65, 65, 65, 65, 65, 65])]⟩

/-- Example link: the transmit is answered `+TYPE=0\r\n`. -/
def mode_link_0 : Sim :=
  ⟨[], [(HAL_StatusTypeDef.HAL_OK, [43, 84, 89, 80, 69, 61, 48, 13, 10])]⟩

/-- Example link: `mode_link_0` after its transmit. -/
def mode_link_1 : Sim := ⟨[43, 84, 89, 80, 69, 61, 48, 13, 10], []⟩

/-- Example link: the transmit is answered `+TYPE=0\r\nOK\r\n`. -/
def mode_ok_link_0 : Sim :=
  ⟨[], [(HAL_StatusTypeDef.HAL_OK, [43, 84, 89, 80, 69, 61, 48, 13, 10, 79, 75, 13, 10])]⟩

/-- Example link: `mode_ok_link_0` after its transmit. -/
def mode_ok_link_1 : Sim := ⟨[43, 84, 89, 80, 69, 61, 48, 13, 10, 79, 75, 13, 10], []⟩

/-- Example link: the transmit is answered `+TYPE=0\r\nKO\r\n`. -/
def mode_ko_link_0 : Sim :=
  ⟨[], [(HAL_StatusTypeDef.HAL_OK, [43, 84, 89, 80, 69, 61, 48, 13, 10, 75, 79, 13, 10])]⟩

/-- Example link: `mode_ko_link_0` after its transmit. -/
def mode_ko_link_1 : Sim := ⟨[43, 84, 89, 80, 69, 61, 48, 13, 10, 75, 79, 13, 10], []⟩

/-- Example link: the transmit is answered `+NAME=Hi\r\nKO\r\n`. -/
def name_ko_link_0 : Sim :=
  ⟨[], [(HAL_StatusTypeDef.HAL_OK, [43, 78, 65, 77, 69, 61, 72, 105, 13, 10, 75, 79, 13, 10])]⟩

/-- Example link: `name_ko_link_0` after its transmit. -/
def name_ko_link_1 : Sim := ⟨[43, 78, 65, 77, 69, 61, 72, 105, 13, 10, 75, 79, 13, 10], []⟩

/-- Example link: the transmit is answered `+PIN=012345\r\nKO\r\n`. -/
def pin_ko_link_0 : Sim :=
  ⟨[], [(HAL_StatusTypeDef.HAL_OK,
    [43, 80, 73, 78, 61, 48, 49, 50, 51, 52, 53, 13, 10, 75, 79, 13, 10])]⟩

/-- Example link: `pin_ko_link_0` after its transmit. -/
def pin_ko_link_1 : Sim :=
  ⟨[43, 80, 73, 78, 61, 48, 49, 50, 51, 52, 53, 13, 10, 75, 79, 13, 10], []⟩

/-! ## Basic facts -/

/-- Every `send_*_cmd` is the skeleton filled with the shape of its command. -/
theorem Cmd.send_eq_exchange (u : UART σ) (hd : Header) (c : Cmd) (fuel : Nat) (d : Driver σ) :
    c.send u hd fuel d = exchange u hd (c.shape u hd) fuel d := by
  induction fuel generalizing d with
  | zero => cases c <;> rfl
  | succ fuel ih =>
    cases c
    case test =>
      have ih1 := fun d => ih d
      simp only [Cmd.send] at ih1 ⊢
      unfold send_test_cmd exchange
      simp only [ih1]
      simp only [Cmd.shape, exchange_steps, tail_ok, Driver.stores, ok_step,
        HM10_CLONE_NAME_RESPONSE_SIZE_WITHOUT_REQUESTED_NAME, CR_AND_LF_SIZE,
        HM10_CLONE_ROLE_RESPONSE_SIZE, HM10_CLONE_TYPE_RESPONSE_SIZE,
        HM10_CLONE_PIN_RESPONSE_SIZE, HM10_CLONE_SET_PIN_CMD_SIZE, Bool.or_eq_true,
        decide_eq_true_eq, Nat.reduceSub, Nat.reduceAdd, id, ite_or, Bool.false_eq_true,
        if_false]
    case reset =>
      have ih1 := fun d => ih d
      simp only [Cmd.send] at ih1 ⊢
      unfold send_reset_cmd exchange
      simp only [ih1]
      simp only [Cmd.shape, exchange_steps, tail_ok, Driver.stores, ok_step,
        HM10_CLONE_NAME_RESPONSE_SIZE_WITHOUT_REQUESTED_NAME, CR_AND_LF_SIZE,
        HM10_CLONE_ROLE_RESPONSE_SIZE, HM10_CLONE_TYPE_RESPONSE_SIZE,
        HM10_CLONE_PIN_RESPONSE_SIZE, HM10_CLONE_SET_PIN_CMD_SIZE, Bool.or_eq_true,
        decide_eq_true_eq, Nat.reduceSub, Nat.reduceAdd, id, ite_or, Bool.false_eq_true,
        if_false]
    case set_name n sz =>
      have ih1 := fun d => ih d
      simp only [Cmd.send] at ih1 ⊢
      unfold send_set_name_cmd exchange
      simp only [ih1]
      simp only [Cmd.shape, exchange_steps, tail_ok, Driver.stores, ok_step,
        HM10_CLONE_NAME_RESPONSE_SIZE_WITHOUT_REQUESTED_NAME, CR_AND_LF_SIZE,
        HM10_CLONE_ROLE_RESPONSE_SIZE, HM10_CLONE_TYPE_RESPONSE_SIZE,
        HM10_CLONE_PIN_RESPONSE_SIZE, HM10_CLONE_SET_PIN_CMD_SIZE, Bool.or_eq_true,
        decide_eq_true_eq, Nat.reduceSub, Nat.reduceAdd, id, ite_or, Bool.false_eq_true,
        if_false]
    case get_name =>
      have ih1 := fun d => ih d
      simp only [Cmd.send] at ih1 ⊢
      have ih2 := funext ih1
      unfold send_get_name_cmd exchange
      simp only [ih1, ih2]
      simp only [Cmd.shape, exchange_steps, tail_ok, Driver.stores, ok_step,
        HM10_CLONE_NAME_RESPONSE_SIZE_WITHOUT_REQUESTED_NAME, CR_AND_LF_SIZE,
        HM10_CLONE_ROLE_RESPONSE_SIZE, HM10_CLONE_TYPE_RESPONSE_SIZE,
        HM10_CLONE_PIN_RESPONSE_SIZE, HM10_CLONE_SET_PIN_CMD_SIZE, Bool.or_eq_true,
        decide_eq_true_eq, Nat.reduceSub, Nat.reduceAdd, id, ite_or, Bool.false_eq_true,
        if_false]
    case set_role r =>
      have ih1 := fun d => ih d
      simp only [Cmd.send] at ih1 ⊢
      unfold send_set_role_cmd exchange
      simp only [ih1]
      simp only [Cmd.shape, exchange_steps, tail_ok, Driver.stores, ok_step,
        HM10_CLONE_NAME_RESPONSE_SIZE_WITHOUT_REQUESTED_NAME, CR_AND_LF_SIZE,
        HM10_CLONE_ROLE_RESPONSE_SIZE, HM10_CLONE_TYPE_RESPONSE_SIZE,
        HM10_CLONE_PIN_RESPONSE_SIZE, HM10_CLONE_SET_PIN_CMD_SIZE, Bool.or_eq_true,
        decide_eq_true_eq, Nat.reduceSub, Nat.reduceAdd, id, ite_or, Bool.false_eq_true,
        if_false]
    case get_role =>
      have ih1 := fun d => ih d
      simp only [Cmd.send] at ih1 ⊢
      unfold send_get_role_cmd exchange
      simp only [ih1]
      simp only [Cmd.shape, exchange_steps, tail_ok, Driver.stores, ok_step,
        HM10_CLONE_NAME_RESPONSE_SIZE_WITHOUT_REQUESTED_NAME, CR_AND_LF_SIZE,
        HM10_CLONE_ROLE_RESPONSE_SIZE, HM10_CLONE_TYPE_RESPONSE_SIZE,
        HM10_CLONE_PIN_RESPONSE_SIZE, HM10_CLONE_SET_PIN_CMD_SIZE, Bool.or_eq_true,
        decide_eq_true_eq, Nat.reduceSub, Nat.reduceAdd, id, ite_or, Bool.false_eq_true,
        if_false]
    case set_pin p =>
      have ih1 := fun d => ih d
      simp only [Cmd.send] at ih1 ⊢
      unfold send_set_pin_cmd exchange
      simp only [ih1]
      simp only [Cmd.shape, exchange_steps, tail_ok, Driver.stores, ok_step,
        HM10_CLONE_NAME_RESPONSE_SIZE_WITHOUT_REQUESTED_NAME, CR_AND_LF_SIZE,
        HM10_CLONE_ROLE_RESPONSE_SIZE, HM10_CLONE_TYPE_RESPONSE_SIZE,
        HM10_CLONE_PIN_RESPONSE_SIZE, HM10_CLONE_SET_PIN_CMD_SIZE, Bool.or_eq_true,
        decide_eq_true_eq, Nat.reduceSub, Nat.reduceAdd, id, ite_or, Bool.false_eq_true,
        if_false]
    case get_pin =>
      have ih1 := fun d => ih d
      simp only [Cmd.send] at ih1 ⊢
      unfold send_get_pin_cmd exchange
      simp only [ih1]
      simp only [Cmd.shape, exchange_steps, tail_ok, Driver.stores, ok_step,
        HM10_CLONE_NAME_RESPONSE_SIZE_WITHOUT_REQUESTED_NAME, CR_AND_LF_SIZE,
        HM10_CLONE_ROLE_RESPONSE_SIZE, HM10_CLONE_TYPE_RESPONSE_SIZE,
        HM10_CLONE_PIN_RESPONSE_SIZE, HM10_CLONE_SET_PIN_CMD_SIZE, Bool.or_eq_true,
        decide_eq_true_eq, Nat.reduceSub, Nat.reduceAdd, id, ite_or, Bool.false_eq_true,
        if_false]
    case set_pin_code_mode m =>
      have ih1 := fun d => ih d
      simp only [Cmd.send] at ih1 ⊢
      unfold send_set_type_cmd exchange
      simp only [ih1]
      simp only [Cmd.shape, exchange_steps, tail_ok, Driver.stores, ok_step,
        HM10_CLONE_NAME_RESPONSE_SIZE_WITHOUT_REQUESTED_NAME, CR_AND_LF_SIZE,
        HM10_CLONE_ROLE_RESPONSE_SIZE, HM10_CLONE_TYPE_RESPONSE_SIZE,
        HM10_CLONE_PIN_RESPONSE_SIZE, HM10_CLONE_SET_PIN_CMD_SIZE, Bool.or_eq_true,
        decide_eq_true_eq, Nat.reduceSub, Nat.reduceAdd, id, ite_or, Bool.false_eq_true,
        if_false]
    case get_pin_code_mode =>
      have ih1 := fun d => ih d
      simp only [Cmd.send] at ih1 ⊢
      unfold send_get_type_cmd exchange
      simp only [ih1]
      simp only [Cmd.shape, exchange_steps, tail_ok, Driver.stores, ok_step,
        HM10_CLONE_NAME_RESPONSE_SIZE_WITHOUT_REQUESTED_NAME, CR_AND_LF_SIZE,
        HM10_CLONE_ROLE_RESPONSE_SIZE, HM10_CLONE_TYPE_RESPONSE_SIZE,
        HM10_CLONE_PIN_RESPONSE_SIZE, HM10_CLONE_SET_PIN_CMD_SIZE, Bool.or_eq_true,
        decide_eq_true_eq, Nat.reduceSub, Nat.reduceAdd, id, ite_or, Bool.false_eq_true,
        if_false]

theorem tx_count_append (a b : List Event) : tx_count (a ++ b) = tx_count a + tx_count b := by
  induction a with
  | nil => simp [tx_count]
  | cons e a ih =>
    cases e with
    | tx f t st =>
      show tx_count (a ++ b) + 1 = tx_count a + 1 + tx_count b
      rw [ih]; omega
    | rx n t st data => exact ih
    | attempts v => exact ih

theorem attempts_log_append (a b : List Event) :
    attempts_log (a ++ b) = attempts_log a ++ attempts_log b := by
  induction a with
  | nil => simp [attempts_log]
  | cons e a ih => cases e <;> simp [attempts_log, ih]

theorem ran_refl (d : Driver σ) : Ran 0 d d :=
  ⟨rfl, rfl, rfl, List.prefix_refl _⟩

theorem ran_trans {j k : Nat} {d1 d2 d3 : Driver σ} (h12 : Ran j d1 d2) (h23 : Ran k d2 d3) :
    Ran (j + k) d1 d3 :=
  ⟨h23.resp_attempts.trans h12.resp_attempts,
    by rw [h23.tx_count, h12.tx_count, Nat.add_assoc],
    h23.attempts_log.trans h12.attempts_log, h12.grows.trans h23.grows⟩

/-- Two states with the same trace and retry counter are interchangeable in `Ran`. -/
theorem ran_congr {k : Nat} {d1 d2 d3 : Driver σ} (h : Ran k d1 d2) (ht : d3.trace = d2.trace)
    (ha : d3.resp_attempts = d2.resp_attempts) : Ran k d1 d3 :=
  ⟨ha.trans h.resp_attempts, by rw [ht, h.tx_count], by rw [ht, h.attempts_log],
    by rw [ht]; exact h.grows⟩

theorem ran_store (d : Driver σ) (i v : Nat) : Ran 0 d (d.store i v) :=
  ⟨rfl, rfl, rfl, List.prefix_refl _⟩

theorem ran_Receive (u : UART σ) (d : Driver σ) (off n t : Nat) :
    Ran 0 d (d.Receive u off n t).2 :=
  ⟨rfl, by simp [Driver.Receive, tx_count_append, AT09.tx_count],
    by simp [Driver.Receive, attempts_log_append, AT09.attempts_log],
    by simp [Driver.Receive]⟩

theorem ran_Transmit (u : UART σ) (d : Driver σ) (n t : Nat) :
    Ran 1 d (d.Transmit u n t).2 :=
  ⟨rfl, by simp [Driver.Transmit, tx_count_append, AT09.tx_count],
    by simp [Driver.Transmit, attempts_log_append, AT09.attempts_log],
    by simp [Driver.Transmit]⟩

theorem Receive_huart (u : UART σ) (d : Driver σ) (off n t : Nat) :
    (d.Receive u off n t).2.huart = (u.HAL_UART_Receive d.huart n t).2.2 := rfl

theorem Receive_status (u : UART σ) (d : Driver σ) (off n t : Nat) :
    (d.Receive u off n t).1 = (u.HAL_UART_Receive d.huart n t).1 := rfl

/-- The flush touches nothing but the link, the buffer and the receive part of the trace. -/
theorem flush_ran (u : UART σ) (hd : Header) (fuel : Nat) (d : Driver σ) :
    Ran 0 d (HAL_uart_rx_flush u hd fuel d).2 := by
  induction fuel generalizing d with
  | zero => exact ran_refl d
  | succ fuel ih =>
    unfold HAL_uart_rx_flush
    simp only
    split_ifs
    · exact ran_trans (ran_Receive u d 0 1 _) (ih _)
    · exact ran_Receive u d 0 1 _

/-- The flush ends exactly when the drain of the link does, and leaves the link where the
drain leaves it. -/
theorem flush_drain (u : UART σ) (hd : Header) (fuel : Nat) (d : Driver σ) :
    (HAL_uart_rx_flush u hd fuel d).1
        = (u.drain hd.HM10_CLONE_CUSTOM_HAL_TIMEOUT fuel d.huart).isSome
      ∧ ∀ s, u.drain hd.HM10_CLONE_CUSTOM_HAL_TIMEOUT fuel d.huart = some s →
          (HAL_uart_rx_flush u hd fuel d).2.huart = s := by
  induction fuel generalizing d with
  | zero => simp [HAL_uart_rx_flush, UART.drain]
  | succ fuel ih =>
    unfold HAL_uart_rx_flush UART.drain
    simp only [Receive_status]
    split_ifs with h
    · have := ih (d.Receive u 0 1 hd.HM10_CLONE_CUSTOM_HAL_TIMEOUT).2
      simpa [Receive_huart] using this
    · simp [Receive_huart]

/-- More fuel does not change a drain that ended. -/
theorem drain_mono (u : UART σ) (t : Nat) (n k : Nat) (s s1 : σ)
    (h : u.drain t n s = some s1) : u.drain t (n + k) s = some s1 := by
  induction n generalizing s with
  | zero => simp [UART.drain] at h
  | succ n ih =>
    rw [Nat.add_right_comm]
    unfold UART.drain at h ⊢
    simp only at h ⊢
    split_ifs at h ⊢ with hc
    · exact ih _ h
    · exact h

/-- A flush whose drain ends: the state it leaves. -/
theorem flush_ok (u : UART σ) (hd : Header) (fuel : Nat) (d : Driver σ) (s1 : σ)
    (h : u.drain hd.HM10_CLONE_CUSTOM_HAL_TIMEOUT fuel d.huart = some s1) :
    ∃ d1, HAL_uart_rx_flush u hd fuel d = (true, d1) ∧ d1.huart = s1 ∧ Ran 0 d d1 := by
  refine ⟨(HAL_uart_rx_flush u hd fuel d).2, ?_, (flush_drain u hd fuel d).2 s1 h,
    flush_ran u hd fuel d⟩
  have h1 := (flush_drain u hd fuel d).1
  rw [h] at h1
  exact Prod.ext h1 rfl

/-! ## C1, C2: the status mapping and the test command -/

/-- C1: `HAL_ret_handler` is the status mapping. For a header in which `HM10_Clone_EC_OK`
has the value of `HAL_OK`, it gives `HM10_Clone_EC_NR` for `HAL_BUSY` and for
`HAL_TIMEOUT`, `HM10_Clone_EC_ERR` for `HAL_ERROR`, and `HM10_Clone_EC_OK` for `HAL_OK`. -/
theorem HAL_ret_handler_mapping (hd : Header) (hok : hd.HM10_Clone_EC_OK = HAL_OK) :
    HAL_ret_handler hd HAL_StatusTypeDef.HAL_BUSY = hd.HM10_Clone_EC_NR
      ∧ HAL_ret_handler hd HAL_StatusTypeDef.HAL_TIMEOUT = hd.HM10_Clone_EC_NR
      ∧ HAL_ret_handler hd HAL_StatusTypeDef.HAL_ERROR = hd.HM10_Clone_EC_ERR
      ∧ HAL_ret_handler hd HAL_StatusTypeDef.HAL_OK = hd.HM10_Clone_EC_OK := by
  refine ⟨rfl, rfl, rfl, ?_⟩
  rw [hok]
  rfl

theorem HAL_ret_handler_mapping_witness :
    example_header.HM10_Clone_EC_OK = HAL_OK
      ∧ (HAL_ret_handler example_header HAL_StatusTypeDef.HAL_BUSY = 2
        ∧ HAL_ret_handler example_header HAL_StatusTypeDef.HAL_TIMEOUT = 2
        ∧ HAL_ret_handler example_header HAL_StatusTypeDef.HAL_ERROR = 4
        ∧ HAL_ret_handler example_header HAL_StatusTypeDef.HAL_OK = 0) :=
  ⟨by decide, HAL_ret_handler_mapping example_header (by decide)⟩

/-- C2: when the flush ends, the transmit of `AT\r\n` succeeds and the 4-byte receive
succeeds delivering `b`, `send_hm10clone_test_cmd` returns `HM10_Clone_EC_OK` if `b` is
`OK\r\n` and `HM10_Clone_EC_ERR` for every other `b`. -/
theorem send_hm10clone_test_cmd_result (u : UART σ) (hd : Header) (fuel : Nat) (d : Driver σ)
    (s1 s2 s3 : σ) (b : List Nat)
    (hflush : u.drain hd.HM10_CLONE_CUSTOM_HAL_TIMEOUT fuel d.huart = some s1)
    (htx : u.HAL_UART_Transmit s1 [65, 84, 13, 10] hd.HM10_CLONE_CUSTOM_HAL_TIMEOUT
      = (HAL_StatusTypeDef.HAL_OK, s2))
    (hrx : u.HAL_UART_Receive s2 4 hd.HM10_CLONE_CUSTOM_HAL_TIMEOUT
      = (HAL_StatusTypeDef.HAL_OK, b, s3))
    (hb : b.length = 4) :
    (send_hm10clone_test_cmd u hd (fuel + 1) d).1
      = some (if b = [79, 75, 13, 10] then hd.HM10_Clone_EC_OK else hd.HM10_Clone_EC_ERR) := by
  obtain ⟨d1, hf, hs1, -⟩ := flush_ok u hd fuel (d.set_attempts 0) s1 hflush
  match b, hb with
  | [b0, b1, b2, b3], _ =>
    simp [send_hm10clone_test_cmd, send_test_cmd, hf, hs1, Driver.Transmit, Driver.Receive,
      Driver.store, Driver.bytes, HM10_CLONE_TEST_CMD_SIZE, HM10_CLONE_OK_RESPONSE_SIZE,
      List.range_succ, htx, hrx, HAL_ret_handler, HAL_OK, HAL_StatusTypeDef.toNat,
      Driver.differs, HM10_Clone_OK_resp]
    split_ifs <;> simp_all

theorem send_hm10clone_test_cmd_result_witness :
    (sim.drain 120 1 (⟨[], [(HAL_StatusTypeDef.HAL_OK, [79, 75, 13, 10])]⟩ : Sim)
        = some ⟨[], [(HAL_StatusTypeDef.HAL_OK, [79, 75, 13, 10])]⟩
      ∧ sim.HAL_UART_Transmit ⟨[], [(HAL_StatusTypeDef.HAL_OK, [79, 75, 13, 10])]⟩
          [65, 84, 13, 10] 120 = (HAL_StatusTypeDef.HAL_OK, ⟨[79, 75, 13, 10], []⟩)
      ∧ sim.HAL_UART_Receive ⟨[79, 75, 13, 10], []⟩ 4 120
          = (HAL_StatusTypeDef.HAL_OK, [79, 75, 13, 10], ⟨[], []⟩)
      ∧ [79, 75, 13, 10].length = 4)
    ∧ (send_hm10clone_test_cmd sim example_header 2
          (Driver.init ⟨[], [(HAL_StatusTypeDef.HAL_OK, [79, 75, 13, 10])]⟩)).1
        = some (if [79, 75, 13, 10] = [79, 75, 13, 10] then example_header.HM10_Clone_EC_OK
            else example_header.HM10_Clone_EC_ERR) :=
  ⟨⟨by decide, by decide, by decide, by decide⟩,
    send_hm10clone_test_cmd_result sim example_header 1
      (Driver.init ⟨[], [(HAL_StatusTypeDef.HAL_OK, [79, 75, 13, 10])]⟩)
      ⟨[], [(HAL_StatusTypeDef.HAL_OK, [79, 75, 13, 10])]⟩ ⟨[79, 75, 13, 10], []⟩ ⟨[], []⟩
      [79, 75, 13, 10] (by decide) (by decide) (by decide) (by decide)⟩

/-! ## C7 to C10: rejected arguments -/

theorem shape_reject (u : UART σ) (hd : Header) (c : Cmd) :
    (c.shape u hd).reject = true ↔ ¬ c.accepted hd := by
  cases c <;> simp [Cmd.shape, Cmd.accepted]

theorem set_attempts_tx_count (d : Driver σ) (v : Nat) :
    tx_count (d.set_attempts v).trace = tx_count d.trace := by
  simp [Driver.set_attempts, tx_count_append, tx_count]

theorem set_attempts_huart (d : Driver σ) (v : Nat) : (d.set_attempts v).huart = d.huart := rfl

/-- The events the flush adds to the trace are one-byte receives. -/
theorem flush_trace (u : UART σ) (hd : Header) (fuel : Nat) (d : Driver σ) :
    ∃ evs, (HAL_uart_rx_flush u hd fuel d).2.trace = d.trace ++ evs
      ∧ ∀ e ∈ evs, e.is_flush_rx hd := by
  induction fuel generalizing d with
  | zero => exact ⟨[], by simp [HAL_uart_rx_flush], by simp⟩
  | succ fuel ih =>
    unfold HAL_uart_rx_flush
    simp only
    split_ifs
    · obtain ⟨evs, h1, h2⟩ := ih (d.Receive u 0 1 hd.HM10_CLONE_CUSTOM_HAL_TIMEOUT).2
      refine ⟨_ :: evs, by rw [h1]; simp [Driver.Receive]; rfl, ?_⟩
      intro e he
      rcases List.mem_cons.1 he with rfl | he
      · exact ⟨rfl, rfl⟩
      · exact h2 e he
    · refine ⟨[_], rfl, ?_⟩
      intro e he
      rw [List.mem_singleton.1 he]
      exact ⟨rfl, rfl⟩

/-- A command whose arguments are rejected does nothing after the flush, for any fuel. -/
theorem exchange_reject_any (u : UART σ) (hd : Header) (sh : Shape σ) (hrej : sh.reject = true)
    (fuel : Nat) (d : Driver σ) :
    ∃ n, (exchange u hd sh fuel d).2 = (HAL_uart_rx_flush u hd n d).2 := by
  cases fuel with
  | zero => exact ⟨0, rfl⟩
  | succ fuel =>
    refine ⟨fuel, ?_⟩
    unfold exchange
    simp only [hrej, if_true]
    split_ifs <;> rfl

/-- A command whose arguments are rejected returns `HM10_Clone_EC_ERR` once the flush
has ended. -/
theorem exchange_reject_run (u : UART σ) (hd : Header) (sh : Shape σ) (hrej : sh.reject = true)
    (fuel : Nat) (d : Driver σ) (s1 : σ)
    (hflush : u.drain hd.HM10_CLONE_CUSTOM_HAL_TIMEOUT fuel d.huart = some s1) :
    exchange u hd sh (fuel + 1) d
      = (some hd.HM10_Clone_EC_ERR, (HAL_uart_rx_flush u hd fuel d).2) := by
  obtain ⟨d1, hf, -, -⟩ := flush_ok u hd fuel d s1 hflush
  unfold exchange
  simp [hf, hrej]

/-- What a public command with rejected arguments does: with any fuel it transmits
nothing and only extends the trace by the counter reset and one-byte receives, and once
the flush has ended in link state `s1` it returns `HM10_Clone_EC_ERR` with the link in
state `s1`. -/
theorem run_rejected (u : UART σ) (hd : Header) (c : Cmd) (hrej : ¬ c.accepted hd)
    (d : Driver σ) :
    (∀ n, tx_count (c.run u hd n d).2.trace = tx_count d.trace
        ∧ ∃ evs, (c.run u hd n d).2.trace = d.trace ++ Event.attempts 0 :: evs
          ∧ ∀ e ∈ evs, e.is_flush_rx hd)
      ∧ ∀ fuel s1, u.drain hd.HM10_CLONE_CUSTOM_HAL_TIMEOUT fuel d.huart = some s1 →
          (c.run u hd (fuel + 1) d).1 = some hd.HM10_Clone_EC_ERR
            ∧ (c.run u hd (fuel + 1) d).2.huart = s1 := by
  have hrun : ∀ n, c.run u hd n d = exchange u hd (c.shape u hd) n (d.set_attempts 0) := by
    intro n
    rw [← Cmd.send_eq_exchange]
    cases c <;> rfl
  have hsh := (shape_reject u hd c).2 hrej
  constructor
  · intro n
    rw [hrun]
    obtain ⟨k, hk⟩ := exchange_reject_any u hd _ hsh n (d.set_attempts 0)
    rw [hk]
    refine ⟨by rw [(flush_ran u hd k _).tx_count, set_attempts_tx_count, Nat.add_zero], ?_⟩
    obtain ⟨evs, h1, h2⟩ := flush_trace u hd k (d.set_attempts 0)
    exact ⟨evs, by rw [h1]; simp [Driver.set_attempts], h2⟩
  · intro fuel s1 hflush
    rw [hrun, exchange_reject_run u hd _ hsh fuel (d.set_attempts 0) s1 hflush]
    exact ⟨rfl, (flush_drain u hd fuel (d.set_attempts 0)).2 s1 hflush⟩

/-- C7: for a 6-byte pin with a byte outside `'0'..'9'` (48..57), `set_hm10clone_pin`
returns `HM10_Clone_EC_ERR` once the flush has ended, and with any UART and any fuel it
never calls `HAL_UART_Transmit`. -/
theorem set_hm10clone_pin_rejects_non_digit (u : UART σ) (hd : Header)
    (hsize : hd.HM10_CLONE_PIN_VALUE_SIZE = 6) (pin : List Nat) (hlen : pin.length = 6)
    (hbad : ∃ b ∈ pin, b < 48 ∨ 57 < b) (fuel : Nat) (d : Driver σ) (s1 : σ)
    (hflush : u.drain hd.HM10_CLONE_CUSTOM_HAL_TIMEOUT fuel d.huart = some s1) :
    (set_hm10clone_pin u hd pin (fuel + 1) d).1 = some hd.HM10_Clone_EC_ERR
      ∧ ∀ n, tx_count (set_hm10clone_pin u hd pin n d).2.trace = tx_count d.trace := by
  have hrej : ¬ (Cmd.set_pin pin).accepted hd := by
    obtain ⟨b, hb, hr⟩ := hbad
    obtain ⟨i, hi, rfl⟩ := List.mem_iff_getElem.1 hb
    intro h
    have := h i (by omega)
    rw [List.getD_eq_getElem _ _ hi] at this
    simp [Numbers_in_ASCII] at this
    omega
  have h := run_rejected u hd (Cmd.set_pin pin) hrej d
  exact ⟨(h.2 fuel s1 hflush).1, fun n => (h.1 n).1⟩

theorem set_hm10clone_pin_rejects_non_digit_witness :
    example_header.HM10_CLONE_PIN_VALUE_SIZE = 6
      ∧ [49, 50, 51, 52, 53, 97].length = 6
      ∧ (∃ b ∈ [49, 50, 51, 52, 53, 97], b < 48 ∨ 57 < b)
      ∧ sim.drain example_header.HM10_CLONE_CUSTOM_HAL_TIMEOUT 1
          (Driver.init (⟨[], []⟩ : Sim)).huart = some ⟨[], []⟩
      ∧ (set_hm10clone_pin sim example_header [49, 50, 51, 52, 53, 97] 2
            (Driver.init ⟨[], []⟩)).1 = some example_header.HM10_Clone_EC_ERR
      ∧ ∀ n, tx_count (set_hm10clone_pin sim example_header [49, 50, 51, 52, 53, 97] n
            (Driver.init ⟨[], []⟩)).2.trace = tx_count (Driver.init (⟨[], []⟩ : Sim)).trace :=
  ⟨rfl, rfl, ⟨97, by decide, by decide⟩, by decide,
    set_hm10clone_pin_rejects_non_digit sim example_header rfl [49, 50, 51, 52, 53, 97] rfl
      ⟨97, by decide, by decide⟩ 1 (Driver.init ⟨[], []⟩) ⟨[], []⟩ (by decide)⟩

/-- C8: for every name and every `size` above `HM10_CLONE_MAX_BLE_NAME_SIZE`,
`set_hm10clone_name` returns `HM10_Clone_EC_ERR` once the flush has ended, and with any
UART and any fuel it never calls `HAL_UART_Transmit`. -/
theorem set_hm10clone_name_rejects_long (u : UART σ) (hd : Header) (hm10_name : List Nat)
    (size : Nat) (hlong : size > hd.HM10_CLONE_MAX_BLE_NAME_SIZE) (fuel : Nat) (d : Driver σ)
    (s1 : σ) (hflush : u.drain hd.HM10_CLONE_CUSTOM_HAL_TIMEOUT fuel d.huart = some s1) :
    (set_hm10clone_name u hd hm10_name size (fuel + 1) d).1 = some hd.HM10_Clone_EC_ERR
      ∧ ∀ n, tx_count (set_hm10clone_name u hd hm10_name size n d).2.trace
          = tx_count d.trace := by
  have hrej : ¬ (Cmd.set_name hm10_name size).accepted hd := by
    simp only [Cmd.accepted]; omega
  have h := run_rejected u hd (Cmd.set_name hm10_name size) hrej d
  exact ⟨(h.2 fuel s1 hflush).1, fun n => (h.1 n).1⟩

theorem set_hm10clone_name_rejects_long_witness :
    13 > example_header.HM10_CLONE_MAX_BLE_NAME_SIZE
      ∧ sim.drain example_header.HM10_CLONE_CUSTOM_HAL_TIMEOUT 1
          (Driver.init (⟨[], []⟩ : Sim)).huart = some ⟨[], []⟩
      ∧ (set_hm10clone_name sim example_header (List.replicate 13 65) 13 2
            (Driver.init ⟨[], []⟩)).1 = some example_header.HM10_Clone_EC_ERR
      ∧ ∀ n, tx_count (set_hm10clone_name sim example_header (List.replicate 13 65) 13 n
            (Driver.init ⟨[], []⟩)).2.trace = tx_count (Driver.init (⟨[], []⟩ : Sim)).trace :=
  ⟨by decide, by decide,
    set_hm10clone_name_rejects_long sim example_header (List.replicate 13 65) 13 (by decide) 1
      (Driver.init ⟨[], []⟩) ⟨[], []⟩ (by decide)⟩

/-- C9: for a role other than Peripheral and Central `set_hm10clone_role`, and for a pin
code mode other than Disabled and Enabled `set_hm10clone_pin_code_mode`, returns
`HM10_Clone_EC_ERR` once the flush has ended, and with any UART and any fuel never calls
`HAL_UART_Transmit`. -/
theorem set_role_and_mode_reject_unknown (u : UART σ) (hd : Header) (ble_role : Nat)
    (hp : ble_role ≠ hd.HM10_Clone_Role_Peripheral) (hc : ble_role ≠ hd.HM10_Clone_Role_Central)
    (pin_code_mode : Nat) (hdis : pin_code_mode ≠ hd.HM10_Clone_Pin_Code_DISABLED)
    (hen : pin_code_mode ≠ hd.HM10_Clone_Pin_Code_ENABLED) (fuel : Nat) (d : Driver σ)
    (s1 : σ) (hflush : u.drain hd.HM10_CLONE_CUSTOM_HAL_TIMEOUT fuel d.huart = some s1) :
    ((set_hm10clone_role u hd ble_role (fuel + 1) d).1 = some hd.HM10_Clone_EC_ERR
        ∧ ∀ n, tx_count (set_hm10clone_role u hd ble_role n d).2.trace = tx_count d.trace)
      ∧ ((set_hm10clone_pin_code_mode u hd pin_code_mode (fuel + 1) d).1
            = some hd.HM10_Clone_EC_ERR
        ∧ ∀ n, tx_count (set_hm10clone_pin_code_mode u hd pin_code_mode n d).2.trace
            = tx_count d.trace) := by
  have hr : ¬ (Cmd.set_role ble_role).accepted hd := by
    simp only [Cmd.accepted]; tauto
  have hm : ¬ (Cmd.set_pin_code_mode pin_code_mode).accepted hd := by
    simp only [Cmd.accepted]; tauto
  have h1 := run_rejected u hd (Cmd.set_role ble_role) hr d
  have h2 := run_rejected u hd (Cmd.set_pin_code_mode pin_code_mode) hm d
  exact ⟨⟨(h1.2 fuel s1 hflush).1, fun n => (h1.1 n).1⟩,
    ⟨(h2.2 fuel s1 hflush).1, fun n => (h2.1 n).1⟩⟩

theorem set_role_and_mode_reject_unknown_witness :
    (50 ≠ example_header.HM10_Clone_Role_Peripheral ∧ 50 ≠ example_header.HM10_Clone_Role_Central
      ∧ 49 ≠ example_header.HM10_Clone_Pin_Code_DISABLED
      ∧ 49 ≠ example_header.HM10_Clone_Pin_Code_ENABLED
      ∧ sim.drain example_header.HM10_CLONE_CUSTOM_HAL_TIMEOUT 1
          (Driver.init (⟨[], []⟩ : Sim)).huart = some ⟨[], []⟩)
      ∧ ((set_hm10clone_role sim example_header 50 2 (Driver.init ⟨[], []⟩)).1
            = some example_header.HM10_Clone_EC_ERR
          ∧ ∀ n, tx_count (set_hm10clone_role sim example_header 50 n
              (Driver.init ⟨[], []⟩)).2.trace = tx_count (Driver.init (⟨[], []⟩ : Sim)).trace)
      ∧ ((set_hm10clone_pin_code_mode sim example_header 49 2 (Driver.init ⟨[], []⟩)).1
            = some example_header.HM10_Clone_EC_ERR
          ∧ ∀ n, tx_count (set_hm10clone_pin_code_mode sim example_header 49 n
              (Driver.init ⟨[], []⟩)).2.trace
            = tx_count (Driver.init (⟨[], []⟩ : Sim)).trace) :=
  ⟨⟨by decide, by decide, by decide, by decide, by decide⟩,
    set_role_and_mode_reject_unknown sim example_header 50 (by decide) (by decide) 49
      (by decide) (by decide) 1 (Driver.init ⟨[], []⟩) ⟨[], []⟩ (by decide)⟩

/-- C10, as stated, fails: `set_hm10clone_name` with the over-long size 13 on a link with
one pending input byte returns `HM10_Clone_EC_ERR` and transmits nothing, but the flush
that runs before the validation has consumed the pending byte, so the link state after
the call differs from the link state before it. -/
theorem rejected_call_consumes_pending_input :
    (set_hm10clone_name sim example_header (List.replicate 13 65) 13 3
        (Driver.init ⟨[7], []⟩)).1 = some example_header.HM10_Clone_EC_ERR
      ∧ (set_hm10clone_name sim example_header (List.replicate 13 65) 13 3
          (Driver.init ⟨[7], []⟩)).2.trace
        = [Event.attempts 0, Event.rx 1 120 HAL_StatusTypeDef.HAL_OK [7],
            Event.rx 1 120 HAL_StatusTypeDef.HAL_TIMEOUT []]
      ∧ (set_hm10clone_name sim example_header (List.replicate 13 65) 13 3
          (Driver.init ⟨[7], []⟩)).2.huart = ⟨[], []⟩
      ∧ (set_hm10clone_name sim example_header (List.replicate 13 65) 13 3
          (Driver.init ⟨[7], []⟩)).2.huart ≠ (Driver.init (⟨[7], []⟩ : Sim)).huart := by
  refine ⟨by decide, by decide, by decide, by decide⟩

/-- C10, amended: when `set_hm10clone_name`, `set_hm10clone_pin`, `set_hm10clone_role` or
`set_hm10clone_pin_code_mode` rejects its argument, nothing is transmitted, and the only
effect on the link is that of the flush which runs before the validation: the trace is
extended by the counter reset and one-byte receives only, and once the flush has ended
the link is in the state in which the drain of the pending input leaves it. -/
theorem rejected_call_only_flushes (u : UART σ) (hd : Header) (c : Cmd)
    (hrej : ¬ c.accepted hd) (fuel : Nat) (d : Driver σ) (s1 : σ)
    (hflush : u.drain hd.HM10_CLONE_CUSTOM_HAL_TIMEOUT fuel d.huart = some s1) :
    (c.run u hd (fuel + 1) d).1 = some hd.HM10_Clone_EC_ERR
      ∧ (c.run u hd (fuel + 1) d).2.huart = s1
      ∧ tx_count (c.run u hd (fuel + 1) d).2.trace = tx_count d.trace
      ∧ ∃ evs, (c.run u hd (fuel + 1) d).2.trace = d.trace ++ Event.attempts 0 :: evs
          ∧ ∀ e ∈ evs, e.is_flush_rx hd := by
  have h := run_rejected u hd c hrej d
  exact ⟨(h.2 fuel s1 hflush).1, (h.2 fuel s1 hflush).2, (h.1 _).1, (h.1 _).2⟩

theorem rejected_call_only_flushes_witness :
    (¬ (Cmd.set_name (List.replicate 13 65) 13).accepted example_header
      ∧ sim.drain example_header.HM10_CLONE_CUSTOM_HAL_TIMEOUT 2
          (Driver.init (⟨[7], []⟩ : Sim)).huart = some ⟨[], []⟩)
      ∧ ((Cmd.set_name (List.replicate 13 65) 13).run sim example_header 3
            (Driver.init ⟨[7], []⟩)).1 = some example_header.HM10_Clone_EC_ERR
      ∧ ((Cmd.set_name (List.replicate 13 65) 13).run sim example_header 3
            (Driver.init ⟨[7], []⟩)).2.huart = ⟨[], []⟩
      ∧ tx_count ((Cmd.set_name (List.replicate 13 65) 13).run sim example_header 3
            (Driver.init ⟨[7], []⟩)).2.trace = tx_count (Driver.init (⟨[7], []⟩ : Sim)).trace
      ∧ ∃ evs, ((Cmd.set_name (List.replicate 13 65) 13).run sim example_header 3
            (Driver.init ⟨[7], []⟩)).2.trace
              = (Driver.init (⟨[7], []⟩ : Sim)).trace ++ Event.attempts 0 :: evs
          ∧ ∀ e ∈ evs, e.is_flush_rx example_header :=
  ⟨⟨by simp [Cmd.accepted, example_header], by decide⟩,
    rejected_call_only_flushes sim example_header (Cmd.set_name (List.replicate 13 65) 13)
      (by simp [Cmd.accepted, example_header]) 2 (Driver.init ⟨[7], []⟩) ⟨[], []⟩ (by decide)⟩

/-! ## Request frames -/

theorem copy_loop_fst (src : List Nat) (n i bp : Nat) (d : Driver σ) :
    (copy_loop src n i bp d).1 = bp + n := by
  induction n generalizing i bp d with
  | zero => rfl
  | succ n ih => rw [copy_loop, ih]; omega

theorem copy_loop_buffer (src : List Nat) (n i bp : Nat) (d : Driver σ) (k : Nat) :
    (copy_loop src n i bp d).2.TxRx_Buffer k
      = if bp ≤ k ∧ k < bp + n then src.getD (i + (k - bp)) 0 else d.TxRx_Buffer k := by
  induction n generalizing i bp d with
  | zero => rw [copy_loop, if_neg (by omega)]
  | succ n ih =>
    rw [copy_loop, ih]
    simp only [Driver.store]
    by_cases h1 : bp + 1 ≤ k ∧ k < bp + 1 + n
    · rw [if_pos h1, if_pos (by omega)]
      congr 1; omega
    · rw [if_neg h1]
      by_cases h2 : k = bp
      · subst h2
        rw [if_pos rfl, if_pos (by omega)]
        simp
      · rw [if_neg h2, if_neg (by omega)]

theorem copy_loop_same (src : List Nat) (n i bp : Nat) (d : Driver σ) :
    (copy_loop src n i bp d).2
      = { d with TxRx_Buffer := (copy_loop src n i bp d).2.TxRx_Buffer } := by
  induction n generalizing i bp d with
  | zero => rfl
  | succ n ih =>
    rw [copy_loop, ih]
    rfl

theorem stores_same (d : Driver σ) (i : Nat) (bs : List Nat) :
    d.stores i bs = { d with TxRx_Buffer := (d.stores i bs).TxRx_Buffer } := by
  induction bs generalizing d i with
  | nil => rfl
  | cons b bs ih => rw [Driver.stores, ih]; rfl

/-- The stores of a request change the scratch buffer only. -/
theorem populate_same (u : UART σ) (hd : Header) (c : Cmd) (d : Driver σ) :
    ((c.shape u hd).populate d).2
      = { d with TxRx_Buffer := ((c.shape u hd).populate d).2.TxRx_Buffer } := by
  cases c
  case set_name n sz =>
    simp only [Cmd.shape, Driver.store]
    rw [copy_loop_same, stores_same]
  case set_pin p =>
    simp only [Cmd.shape, Driver.store]
    rw [copy_loop_same, stores_same]
  all_goals
    simp only [Cmd.shape]
    rw [stores_same]

theorem bytes_add (d : Driver σ) (off a b : Nat) :
    d.bytes off (a + b) = d.bytes off a ++ d.bytes (off + a) b := by
  simp [Driver.bytes, List.range_add, List.map_append, Nat.add_assoc]

/-- The bytes a command hands to `HAL_UART_Transmit` are its request frame. -/
theorem populate_request (u : UART σ) (hd : Header) (hw : hd.wf) (c : Cmd)
    (hacc : c.accepted hd) (d : Driver σ) :
    ((c.shape u hd).populate d).2.bytes 0 ((c.shape u hd).populate d).1 = c.request := by
  cases c
  case set_name n sz =>
    have hsz : sz ≤ 12 := le_trans hacc hw.2.2
    have e1 : (sz + 7) % 256 - 7 = sz := by omega
    simp only [Cmd.shape, e1, copy_loop_fst, Cmd.request]
    have e2 : (7 + sz + 2) % 256 = 7 + (sz + 2) := by omega
    have e3 : (7 + sz + 1) % 256 = 7 + sz + 1 := by omega
    rw [e2, e3, bytes_add, bytes_add]
    have h1 : (((copy_loop n sz 0 7 (d.stores 0 [65, 84, 43, 78, 65, 77, 69])).2.store
        (7 + sz) 13).store (7 + sz + 1) 10).bytes 0 7 = [65, 84, 43, 78, 65, 77, 69] := by
      simp only [Driver.bytes, List.range_succ, List.range_zero, List.map_append, List.map_cons,
        List.map_nil, List.nil_append, List.cons_append, Driver.store, Driver.stores,
        copy_loop_buffer, Nat.zero_add]
      simp only [if_neg (show ¬ (0 = 7 + sz + 1) by omega), if_neg (show ¬ (0 = 7 + sz) by omega),
        if_neg (show ¬ (1 = 7 + sz + 1) by omega), if_neg (show ¬ (1 = 7 + sz) by omega),
        if_neg (show ¬ (2 = 7 + sz + 1) by omega), if_neg (show ¬ (2 = 7 + sz) by omega),
        if_neg (show ¬ (3 = 7 + sz + 1) by omega), if_neg (show ¬ (3 = 7 + sz) by omega),
        if_neg (show ¬ (4 = 7 + sz + 1) by omega), if_neg (show ¬ (4 = 7 + sz) by omega),
        if_neg (show ¬ (5 = 7 + sz + 1) by omega), if_neg (show ¬ (5 = 7 + sz) by omega),
        if_neg (show ¬ (6 = 7 + sz + 1) by omega), if_neg (show ¬ (6 = 7 + sz) by omega),
        if_neg (show ¬ (7 ≤ 0 ∧ 0 < 7 + sz) by omega), if_neg (show ¬ (7 ≤ 1 ∧ 1 < 7 + sz) by omega),
        if_neg (show ¬ (7 ≤ 2 ∧ 2 < 7 + sz) by omega), if_neg (show ¬ (7 ≤ 3 ∧ 3 < 7 + sz) by omega),
        if_neg (show ¬ (7 ≤ 4 ∧ 4 < 7 + sz) by omega), if_neg (show ¬ (7 ≤ 5 ∧ 5 < 7 + sz) by omega),
        if_neg (show ¬ (7 ≤ 6 ∧ 6 < 7 + sz) by omega)]
      simp
    have h2 : (((copy_loop n sz 0 7 (d.stores 0 [65, 84, 43, 78, 65, 77, 69])).2.store
        (7 + sz) 13).store (7 + sz + 1) 10).bytes (0 + 7) sz
          = (List.range sz).map (fun i => n.getD i 0) := by
      simp only [Driver.bytes]
      apply List.map_congr_left
      intro k hk
      have hk1 : k < sz := List.mem_range.1 hk
      simp only [Driver.store, copy_loop_buffer]
      rw [if_neg (by omega), if_neg (by omega), if_pos (by omega)]
      congr 1; omega
    have h3 : (((copy_loop n sz 0 7 (d.stores 0 [65, 84, 43, 78, 65, 77, 69])).2.store
        (7 + sz) 13).store (7 + sz + 1) 10).bytes (0 + 7 + sz) 2 = [13, 10] := by
      simp [Driver.bytes, List.range_succ, Driver.store]
    rw [h1, h2, h3, List.append_assoc]
  case set_pin p =>
    simp [Cmd.shape, Cmd.request, Driver.bytes, List.range_succ, Driver.store, Driver.stores,
      copy_loop, HM10_CLONE_SET_PIN_CMD_SIZE]
  all_goals
    simp [Cmd.shape, Cmd.request, Driver.bytes, List.range_succ, Driver.store, Driver.stores,
      HM10_CLONE_TEST_CMD_SIZE, HM10_CLONE_RESET_CMD_SIZE, HM10_CLONE_GET_NAME_CMD_SIZE,
      HM10_CLONE_SET_ROLE_CMD_SIZE, HM10_CLONE_GET_ROLE_CMD_SIZE, HM10_CLONE_GET_PIN_CMD_SIZE,
      HM10_CLONE_SET_TYPE_CMD_SIZE, HM10_CLONE_GET_TYPE_CMD_SIZE]

/-! ## One attempt of the common skeleton -/

theorem ret_handler_fault (hd : Header) (hc : hd.codes_ok) (st : HAL_StatusTypeDef)
    (hst : st ≠ HAL_StatusTypeDef.HAL_OK) : HAL_ret_handler hd st ≠ HAL_OK := by
  cases st
  · exact absurd rfl hst
  · exact hc.2.2
  · exact hc.2.1
  · exact hc.2.1

theorem ret_handler_ok (hd : Header) : HAL_ret_handler hd HAL_StatusTypeDef.HAL_OK = HAL_OK :=
  rfl

theorem send_eq_run (u : UART σ) (hd : Header) (c : Cmd) (fuel : Nat) (d : Driver σ) :
    c.run u hd fuel d = c.send u hd fuel (d.set_attempts 0) := by
  cases c <;> rfl

/-- An attempt whose transmit reports a fault: with the retry counter at 0 the command
starts over with the counter at 1, otherwise it returns the mapped status. -/
theorem send_tx_fault (u : UART σ) (hd : Header) (hw : hd.wf) (c : Cmd) (hacc : c.accepted hd)
    (fuel : Nat) (d : Driver σ) (s1 s2 : σ) (st : HAL_StatusTypeDef)
    (hflush : u.drain hd.HM10_CLONE_CUSTOM_HAL_TIMEOUT fuel d.huart = some s1)
    (htx : u.HAL_UART_Transmit s1 c.request hd.HM10_CLONE_CUSTOM_HAL_TIMEOUT = (st, s2))
    (hst : st ≠ HAL_StatusTypeDef.HAL_OK) :
    ∃ d2, d2.huart = s2 ∧ Ran 1 d d2
      ∧ c.send u hd (fuel + 1) d
        = if d.resp_attempts = 0 then c.send u hd fuel (d2.set_attempts (d2.resp_attempts + 1))
          else (some (HAL_ret_handler hd st), d2) := by
  obtain ⟨d1, hf, hs1, hr1⟩ := flush_ok u hd fuel d s1 hflush
  have hrej : (c.shape u hd).reject = false := by
    have := shape_reject u hd c
    cases h : (c.shape u hd).reject
    · rfl
    · exact absurd hacc (this.1 h)
  have hp := populate_same u hd c d1
  have hq := populate_request u hd hw c hacc d1
  have hph : ((c.shape u hd).populate d1).2.huart = s1 := by rw [hp]; exact hs1
  refine ⟨(((c.shape u hd).populate d1).2.Transmit u ((c.shape u hd).populate d1).1
    hd.HM10_CLONE_CUSTOM_HAL_TIMEOUT).2, ?_, ?_, ?_⟩
  · simp [Driver.Transmit, hph, hq, htx]
  · have h2 := ran_Transmit u ((c.shape u hd).populate d1).2 ((c.shape u hd).populate d1).1
      hd.HM10_CLONE_CUSTOM_HAL_TIMEOUT
    have h3 : Ran 0 d ((c.shape u hd).populate d1).2 :=
      ran_congr hr1 (by rw [hp]) (by rw [hp])
    simpa using ran_trans h3 h2
  · have hst1 : (((c.shape u hd).populate d1).2.Transmit u ((c.shape u hd).populate d1).1
        hd.HM10_CLONE_CUSTOM_HAL_TIMEOUT).1 = st := by
      simp [Driver.Transmit, hph, hq, htx]
    have hatt : (((c.shape u hd).populate d1).2.Transmit u ((c.shape u hd).populate d1).1
        hd.HM10_CLONE_CUSTOM_HAL_TIMEOUT).2.resp_attempts = d.resp_attempts := by
      show ((c.shape u hd).populate d1).2.resp_attempts = d.resp_attempts
      rw [hp]; exact hr1.resp_attempts
    rw [Cmd.send_eq_exchange, exchange]
    simp only [hf, hrej, hst1, hatt, Bool.true_eq_false, Bool.false_eq_true, if_false,
      ret_handler_fault hd hw.1 st hst, ne_eq, not_false_eq_true, if_true,
      Cmd.send_eq_exchange]

theorem set_attempts_resp (d : Driver σ) (v : Nat) :
    (d.set_attempts v).resp_attempts = v % 256 := rfl

theorem set_attempts_log (d : Driver σ) (v : Nat) :
    attempts_log (d.set_attempts v).trace = attempts_log d.trace ++ [v % 256] := by
  simp [Driver.set_attempts, attempts_log_append, attempts_log]

/-! ## C4: two transmit timeouts -/

/-- C4: for every public command with accepted arguments: if, each time after the flush has
ended, the transmit of the request times out on the first attempt and again on the second
attempt, the command returns `HM10_Clone_EC_NR`, having called `HAL_UART_Transmit` exactly
twice. -/
theorem two_transmit_timeouts_give_no_response (u : UART σ) (hd : Header) (hw : hd.wf)
    (c : Cmd) (hacc : c.accepted hd) (fuel : Nat) (d : Driver σ) (s1 s2 s3 s4 : σ)
    (hflush1 : u.drain hd.HM10_CLONE_CUSTOM_HAL_TIMEOUT fuel d.huart = some s1)
    (htx1 : u.HAL_UART_Transmit s1 c.request hd.HM10_CLONE_CUSTOM_HAL_TIMEOUT
      = (HAL_StatusTypeDef.HAL_TIMEOUT, s2))
    (hflush2 : u.drain hd.HM10_CLONE_CUSTOM_HAL_TIMEOUT fuel s2 = some s3)
    (htx2 : u.HAL_UART_Transmit s3 c.request hd.HM10_CLONE_CUSTOM_HAL_TIMEOUT
      = (HAL_StatusTypeDef.HAL_TIMEOUT, s4)) :
    (c.run u hd (fuel + 2) d).1 = some hd.HM10_Clone_EC_NR
      ∧ tx_count (c.run u hd (fuel + 2) d).2.trace = tx_count d.trace + 2
      ∧ (c.run u hd (fuel + 2) d).2.huart = s4
      ∧ (c.run u hd (fuel + 2) d).2.resp_attempts = 1 := by
  obtain ⟨d2, h2s, h2r, h2e⟩ := send_tx_fault u hd hw c hacc (fuel + 1) (d.set_attempts 0) s1 s2
    HAL_StatusTypeDef.HAL_TIMEOUT (drain_mono u _ fuel 1 _ _ hflush1) htx1 (by decide)
  have h2a : d2.resp_attempts = 0 := h2r.resp_attempts
  obtain ⟨d4, h4s, h4r, h4e⟩ := send_tx_fault u hd hw c hacc fuel
    (d2.set_attempts (d2.resp_attempts + 1)) s3 s4 HAL_StatusTypeDef.HAL_TIMEOUT
    (by rw [set_attempts_huart, h2s]; exact hflush2) htx2 (by decide)
  have hrun : c.run u hd (fuel + 2) d = (some hd.HM10_Clone_EC_NR, d4) := by
    rw [send_eq_run, h2e, if_pos (by rfl), h4e, if_neg (by rw [set_attempts_resp, h2a]; decide)]
    rfl
  rw [hrun]
  refine ⟨rfl, ?_, h4s, ?_⟩
  · show tx_count d4.trace = _
    rw [h4r.tx_count, set_attempts_tx_count, h2r.tx_count, set_attempts_tx_count]
  · show d4.resp_attempts = 1
    rw [h4r.resp_attempts, set_attempts_resp, h2a]

theorem two_transmit_timeouts_give_no_response_witness :
    (example_header.wf ∧ Cmd.get_pin.accepted example_header
      ∧ sim.drain example_header.HM10_CLONE_CUSTOM_HAL_TIMEOUT 1 (Driver.init mute_link_0).huart
          = some mute_link_0
      ∧ sim.HAL_UART_Transmit mute_link_0 Cmd.get_pin.request
          example_header.HM10_CLONE_CUSTOM_HAL_TIMEOUT
          = (HAL_StatusTypeDef.HAL_TIMEOUT, mute_link_1)
      ∧ sim.drain example_header.HM10_CLONE_CUSTOM_HAL_TIMEOUT 1 mute_link_1 = some mute_link_1
      ∧ sim.HAL_UART_Transmit mute_link_1 Cmd.get_pin.request
          example_header.HM10_CLONE_CUSTOM_HAL_TIMEOUT = (HAL_StatusTypeDef.HAL_TIMEOUT, ⟨[], []⟩))
    ∧ (Cmd.get_pin.run sim example_header 3 (Driver.init mute_link_0)).1
        = some example_header.HM10_Clone_EC_NR
      ∧ tx_count (Cmd.get_pin.run sim example_header 3 (Driver.init mute_link_0)).2.trace
        = tx_count (Driver.init mute_link_0).trace + 2
      ∧ (Cmd.get_pin.run sim example_header 3 (Driver.init mute_link_0)).2.huart = ⟨[], []⟩
      ∧ (Cmd.get_pin.run sim example_header 3 (Driver.init mute_link_0)).2.resp_attempts = 1 :=
  ⟨⟨by decide, by simp [Cmd.accepted], by decide, by decide, by decide, by decide⟩,
    two_transmit_timeouts_give_no_response sim example_header (by decide) Cmd.get_pin
      (by simp [Cmd.accepted]) 1 (Driver.init mute_link_0) mute_link_0 mute_link_1 mute_link_1
      ⟨[], []⟩ (by decide) (by decide) (by decide) (by decide)⟩

/-! ## Successful exchanges -/

theorem sameOut_refl (d : Driver σ) : SameOut d d := ⟨rfl, rfl, rfl, rfl, rfl⟩

theorem sameOut_trans {d1 d2 d3 : Driver σ} (h12 : SameOut d1 d2) (h23 : SameOut d2 d3) :
    SameOut d1 d3 :=
  ⟨h23.hm10_name.trans h12.hm10_name, h23.size.trans h12.size,
    h23.ble_role.trans h12.ble_role, h23.pin.trans h12.pin,
    h23.pin_code_mode.trans h12.pin_code_mode⟩

theorem sameOut_Receive (u : UART σ) (d : Driver σ) (off n t : Nat) :
    SameOut d (d.Receive u off n t).2 := ⟨rfl, rfl, rfl, rfl, rfl⟩

theorem sameOut_Transmit (u : UART σ) (d : Driver σ) (n t : Nat) :
    SameOut d (d.Transmit u n t).2 := ⟨rfl, rfl, rfl, rfl, rfl⟩

theorem flush_sameOut (u : UART σ) (hd : Header) (fuel : Nat) (d : Driver σ) :
    SameOut d (HAL_uart_rx_flush u hd fuel d).2 := by
  induction fuel generalizing d with
  | zero => exact sameOut_refl d
  | succ fuel ih =>
    unfold HAL_uart_rx_flush
    simp only
    split_ifs
    · exact sameOut_trans (sameOut_Receive u d 0 1 _) (ih _)
    · exact sameOut_Receive u d 0 1 _

/-- What a receive that the UART answers with `(st, b, s1)` leaves in the driver. -/
theorem Receive_eq (u : UART σ) (d : Driver σ) (off n t : Nat) (st : HAL_StatusTypeDef)
    (b : List Nat) (s1 : σ) (h : u.HAL_UART_Receive d.huart n t = (st, b, s1))
    (hb : b.length = n) :
    (d.Receive u off n t).1 = st ∧ (d.Receive u off n t).2.huart = s1
      ∧ ∀ k, (d.Receive u off n t).2.TxRx_Buffer k
          = if off ≤ k ∧ k < off + n then b.getD (k - off) 0 else d.TxRx_Buffer k := by
  subst hb
  simp [Driver.Receive, h]

theorem receives_cons (u : UART σ) (t : Nat) (b : List Nat) (rest : List (List Nat))
    (s s2 : σ) (h : u.receives t (b :: rest) s = some s2) :
    ∃ s1, u.HAL_UART_Receive s b.length t = (HAL_StatusTypeDef.HAL_OK, b, s1)
      ∧ u.receives t rest s1 = some s2 := by
  unfold UART.receives at h
  simp only at h
  split_ifs at h with hc
  exact ⟨_, Prod.ext hc.1 (Prod.ext hc.2 rfl), h⟩

theorem receives_nil (u : UART σ) (t : Nat) (s s2 : σ) (h : u.receives t [] s = some s2) :
    s = s2 := by
  simpa [UART.receives] using h

/-- A receive step of the skeleton that succeeds and passes its validation. -/
theorem steps_cons_ok (u : UART σ) (hd : Header)
    (again tail : Driver σ → Option Nat × Driver σ) (n : Nat) (bad : Driver σ → Bool)
    (rest : List (Nat × (Driver σ → Bool))) (d : Driver σ)
    (hst : (d.Receive u 0 n hd.HM10_CLONE_CUSTOM_HAL_TIMEOUT).1 = HAL_StatusTypeDef.HAL_OK)
    (hbad : bad (d.Receive u 0 n hd.HM10_CLONE_CUSTOM_HAL_TIMEOUT).2 = false) :
    exchange_steps u hd again tail ((n, bad) :: rest) d
      = exchange_steps u hd again tail rest
          (d.Receive u 0 n hd.HM10_CLONE_CUSTOM_HAL_TIMEOUT).2 := by
  rw [exchange_steps]
  simp [hst, ret_handler_ok, hbad]

/-- A receive step of the skeleton that succeeds and fails its validation. -/
theorem steps_cons_bad (u : UART σ) (hd : Header)
    (again tail : Driver σ → Option Nat × Driver σ) (n : Nat) (bad : Driver σ → Bool)
    (rest : List (Nat × (Driver σ → Bool))) (d : Driver σ)
    (hst : (d.Receive u 0 n hd.HM10_CLONE_CUSTOM_HAL_TIMEOUT).1 = HAL_StatusTypeDef.HAL_OK)
    (hbad : bad (d.Receive u 0 n hd.HM10_CLONE_CUSTOM_HAL_TIMEOUT).2 = true) :
    exchange_steps u hd again tail ((n, bad) :: rest) d
      = (some hd.HM10_Clone_EC_ERR, (d.Receive u 0 n hd.HM10_CLONE_CUSTOM_HAL_TIMEOUT).2) := by
  rw [exchange_steps]
  simp [hst, ret_handler_ok, hbad]

/-- An attempt whose transmit succeeds goes on with the receive steps of the command. -/
theorem send_tx_ok (u : UART σ) (hd : Header) (hw : hd.wf) (c : Cmd) (hacc : c.accepted hd)
    (fuel : Nat) (d : Driver σ) (s1 s2 : σ)
    (hflush : u.drain hd.HM10_CLONE_CUSTOM_HAL_TIMEOUT fuel d.huart = some s1)
    (htx : u.HAL_UART_Transmit s1 c.request hd.HM10_CLONE_CUSTOM_HAL_TIMEOUT
      = (HAL_StatusTypeDef.HAL_OK, s2)) :
    ∃ d2, d2.huart = s2 ∧ Ran 1 d d2 ∧ SameOut d d2
      ∧ c.send u hd (fuel + 1) d
        = exchange_steps u hd (exchange u hd (c.shape u hd) fuel)
            ((c.shape u hd).tail (exchange u hd (c.shape u hd) fuel) fuel)
            (c.shape u hd).steps d2 := by
  obtain ⟨d1, hf, hs1, hr1⟩ := flush_ok u hd fuel d s1 hflush
  have ho1 : SameOut d d1 := by
    have := flush_sameOut u hd fuel d
    rwa [hf] at this
  have hrej : (c.shape u hd).reject = false := by
    have := shape_reject u hd c
    cases h : (c.shape u hd).reject
    · rfl
    · exact absurd hacc (this.1 h)
  have hp := populate_same u hd c d1
  have hq := populate_request u hd hw c hacc d1
  have hph : ((c.shape u hd).populate d1).2.huart = s1 := by rw [hp]; exact hs1
  refine ⟨(((c.shape u hd).populate d1).2.Transmit u ((c.shape u hd).populate d1).1
    hd.HM10_CLONE_CUSTOM_HAL_TIMEOUT).2, ?_, ?_, ?_, ?_⟩
  · simp [Driver.Transmit, hph, hq, htx]
  · have h2 := ran_Transmit u ((c.shape u hd).populate d1).2 ((c.shape u hd).populate d1).1
      hd.HM10_CLONE_CUSTOM_HAL_TIMEOUT
    have h3 : Ran 0 d ((c.shape u hd).populate d1).2 :=
      ran_congr hr1 (by rw [hp]) (by rw [hp])
    simpa using ran_trans h3 h2
  · have h3 : SameOut d1 ((c.shape u hd).populate d1).2 := by
      rw [hp]; exact ⟨rfl, rfl, rfl, rfl, rfl⟩
    exact sameOut_trans ho1 (sameOut_trans h3 (sameOut_Transmit u _ _ _))
  · have hst1 : (((c.shape u hd).populate d1).2.Transmit u ((c.shape u hd).populate d1).1
        hd.HM10_CLONE_CUSTOM_HAL_TIMEOUT).1 = HAL_StatusTypeDef.HAL_OK := by
      simp [Driver.Transmit, hph, hq, htx]
    rw [Cmd.send_eq_exchange, exchange]
    simp only [hf, hrej, hst1, Bool.true_eq_false, Bool.false_eq_true, if_false,
      ret_handler_ok, ne_eq, not_true_eq_false]

theorem steps_nil (u : UART σ) (hd : Header)
    (again tail : Driver σ → Option Nat × Driver σ) (d : Driver σ) :
    exchange_steps u hd again tail [] d = tail d := rfl

theorem pin_resp_size_eq (hd : Header) (hw : hd.wf) :
    pin_resp_size_without_pin_cr_and_lf hd = 5 := by
  simp [pin_resp_size_without_pin_cr_and_lf, hw.2.1, HM10_CLONE_PIN_RESPONSE_SIZE,
    CR_AND_LF_SIZE]

/-- The bytes of a response made of a tag, a value and `\r\n`. -/
theorem frame_getD (tag value : List Nat) (k : Nat) :
    (tag ++ value ++ [13, 10]).getD k 0
      = if k < tag.length then tag.getD k 0
        else if k < tag.length + value.length then value.getD (k - tag.length) 0
        else if k = tag.length + value.length then 13
        else if k = tag.length + value.length + 1 then 10 else 0 := by
  by_cases h1 : k < tag.length
  · rw [if_pos h1, List.append_assoc, List.getD_append _ _ _ _ h1]
  · rw [if_neg h1, List.append_assoc, List.getD_append_right _ _ _ _ (by omega)]
    by_cases h2 : k < tag.length + value.length
    · rw [if_pos h2, List.getD_append _ _ _ _ (by omega)]
    · rw [if_neg h2, List.getD_append_right _ _ _ _ (by omega)]
      by_cases h3 : k = tag.length + value.length
      · rw [if_pos h3]; subst h3; simp
      · rw [if_neg h3]
        by_cases h4 : k = tag.length + value.length + 1
        · rw [if_pos h4]; subst h4
          rw [show tag.length + value.length + 1 - tag.length - value.length = 1 by omega]
          rfl
        · rw [if_neg h4]
          rw [List.getD_eq_default]
          simp; omega

theorem compare_loop_eq (d : Driver σ) (src : List Nat) (m i bc : Nat)
    (h : ∀ k < m, d.TxRx_Buffer (bc + k) = src.getD (i + k) 0) :
    compare_loop d src m i bc = (false, bc + m) := by
  induction m generalizing i bc with
  | zero => rfl
  | succ m ih =>
    rw [compare_loop, if_neg (by simpa using h 0 (by omega)), ih]
    · congr 1; omega
    · intro k hk
      have := h (k + 1) (by omega)
      rw [show bc + 1 + k = bc + (k + 1) by omega, show i + 1 + k = i + (k + 1) by omega]
      exact this

/-- A receive step that the UART answers with `HAL_OK` and the bytes `b`, where the
validation of the step accepts every buffer starting with `b`. -/
theorem value_step (u : UART σ) (hd : Header)
    (again tail : Driver σ → Option Nat × Driver σ) (n : Nat) (bad : Driver σ → Bool)
    (rest : List (Nat × (Driver σ → Bool))) (d : Driver σ) (b : List Nat) (s1 : σ)
    (h : u.HAL_UART_Receive d.huart b.length hd.HM10_CLONE_CUSTOM_HAL_TIMEOUT
      = (HAL_StatusTypeDef.HAL_OK, b, s1))
    (hn : b.length = n)
    (hbad : ∀ d1 : Driver σ, (∀ k < n, d1.TxRx_Buffer k = b.getD k 0) → bad d1 = false) :
    ∃ d1, exchange_steps u hd again tail ((n, bad) :: rest) d
        = exchange_steps u hd again tail rest d1
      ∧ d1.huart = s1 ∧ Ran 0 d d1 ∧ SameOut d d1
      ∧ (∀ k < n, d1.TxRx_Buffer k = b.getD k 0)
      ∧ d1.trace = d.trace
          ++ [Event.rx n hd.HM10_CLONE_CUSTOM_HAL_TIMEOUT HAL_StatusTypeDef.HAL_OK b] := by
  subst hn
  have R := Receive_eq u d 0 b.length hd.HM10_CLONE_CUSTOM_HAL_TIMEOUT _ _ s1 h rfl
  have hbuf : ∀ k < b.length,
      (d.Receive u 0 b.length hd.HM10_CLONE_CUSTOM_HAL_TIMEOUT).2.TxRx_Buffer k = b.getD k 0 := by
    intro k hk
    rw [R.2.2, if_pos ⟨Nat.zero_le _, by omega⟩, Nat.sub_zero]
  exact ⟨_, steps_cons_ok u hd _ _ _ _ _ _ R.1 (hbad _ hbuf), R.2.1, ran_Receive u d 0 _ _,
    sameOut_Receive u d 0 _ _, hbuf, by simp [Driver.Receive, h]⟩

/-- The `OK\r\n` step on the response `OK\r\n`. -/
theorem ok_step_ok (u : UART σ) (hd : Header)
    (again tail : Driver σ → Option Nat × Driver σ)
    (rest : List (Nat × (Driver σ → Bool))) (d : Driver σ) (s1 : σ)
    (h : u.HAL_UART_Receive d.huart HM10_Clone_OK_resp.length hd.HM10_CLONE_CUSTOM_HAL_TIMEOUT
      = (HAL_StatusTypeDef.HAL_OK, HM10_Clone_OK_resp, s1)) :
    ∃ d1, exchange_steps u hd again tail (ok_step :: rest) d
        = exchange_steps u hd again tail rest d1
      ∧ d1.huart = s1 ∧ Ran 0 d d1 ∧ SameOut d d1 := by
  obtain ⟨d1, h1, h2, h3, h4, -⟩ := value_step u hd again tail 4
    (fun d => d.differs HM10_Clone_OK_resp HM10_CLONE_OK_RESPONSE_SIZE) rest d _ s1 h rfl
    (by
      intro d1 hk
      simp [HM10_CLONE_OK_RESPONSE_SIZE, Driver.differs, List.range_succ, hk,
        HM10_Clone_OK_resp])
  exact ⟨d1, h1, h2, h3, h4⟩

/-- After a successful transmit, the receive steps of each command other than
`get_name` pass on the response `Cmd.reply`. -/
theorem steps_success_fixed (u : UART σ) (hd : Header) (hw : hd.wf) (c : Cmd) (hc : c ≠ Cmd.get_name)
    (hacc : c.accepted hd) (v : List Nat) (hv : c.value_ok hd v) (fuel : Nat)
    (again : Driver σ → Option Nat × Driver σ) (d2 : Driver σ) (s3 : σ)
    (hrx : u.receives hd.HM10_CLONE_CUSTOM_HAL_TIMEOUT (c.reply v) d2.huart = some s3) :
    ∃ d3, exchange_steps u hd again ((c.shape u hd).tail again fuel)
        (c.shape u hd).steps d2 = (some hd.HM10_Clone_EC_OK, d3)
      ∧ d3.huart = s3 ∧ Ran 0 d2 d3 ∧ c.delivered v d2 d3 := by
  cases c
  case get_name => exact absurd rfl hc
  case test =>
    obtain ⟨s, h1, h2⟩ := receives_cons _ _ _ _ _ _ hrx
    have hs := receives_nil _ _ _ _ h2
    subst hs
    obtain ⟨d3, e1, e2, e3, -⟩ := ok_step_ok u hd again
      ((Cmd.test.shape u hd).tail again fuel) [] d2 s h1
    exact ⟨d3, e1, e2, e3, trivial⟩
  case reset =>
    obtain ⟨s, h1, h2⟩ := receives_cons _ _ _ _ _ _ hrx
    have hs := receives_nil _ _ _ _ h2
    subst hs
    obtain ⟨d3, e1, e2, e3, -⟩ := ok_step_ok u hd again
      ((Cmd.reset.shape u hd).tail again fuel) [] d2 s h1
    exact ⟨d3, e1, e2, e3, trivial⟩
  case set_role r =>
    obtain ⟨s, h1, h2⟩ := receives_cons _ _ _ _ _ _ hrx
    have hs := receives_nil _ _ _ _ h2
    subst hs
    obtain ⟨d3, e1, e2, e3, -, -⟩ := value_step u hd again
      (((Cmd.set_role r).shape u hd).tail again fuel) 9
      (fun d => d.differs HM10_Clone_Role_resp 6
        || decide (d.TxRx_Buffer 6 ≠ r ∨ d.TxRx_Buffer 7 ≠ 13 ∨ d.TxRx_Buffer 8 ≠ 10))
      [] d2 _ s h1 rfl
      (by
        intro d1 hk
        simp [Driver.differs, List.range_succ, hk, HM10_Clone_Role_resp])
    exact ⟨d3, e1, e2, e3, trivial⟩
  case get_role =>
    obtain ⟨r, rfl, hr⟩ := hv
    obtain ⟨s, h1, h2⟩ := receives_cons _ _ _ _ _ _ hrx
    have hs := receives_nil _ _ _ _ h2
    subst hs
    obtain ⟨d3, e1, e2, e3, -, e5, -⟩ := value_step u hd again
      ((Cmd.get_role.shape u hd).tail again fuel) 9
      (fun d => d.differs HM10_Clone_Role_resp 6
        || decide (¬ (d.TxRx_Buffer 6 = hd.HM10_Clone_Role_Peripheral
            ∨ d.TxRx_Buffer 6 = hd.HM10_Clone_Role_Central))
        || decide (d.TxRx_Buffer 7 ≠ 13 ∨ d.TxRx_Buffer 8 ≠ 10))
      [] d2 _ s h1 rfl
      (by
        intro d1 hk
        simp [Driver.differs, List.range_succ, hk, HM10_Clone_Role_resp, hr])
    refine ⟨{ d3 with ble_role := d3.TxRx_Buffer 6 }, ?_, e2, ran_congr e3 rfl rfl, ?_⟩
    · exact e1
    · simp [Cmd.delivered, e5, HM10_Clone_Role_resp]
  case set_pin_code_mode m =>
    obtain ⟨s, h1, h2⟩ := receives_cons _ _ _ _ _ _ hrx
    obtain ⟨s', h3, h4⟩ := receives_cons _ _ _ _ _ _ h2
    have hs := receives_nil _ _ _ _ h4
    subst hs
    obtain ⟨d3, e1, e2, e3, -, -⟩ := value_step u hd again
      (((Cmd.set_pin_code_mode m).shape u hd).tail again fuel) 9
      (fun d => d.differs HM10_Clone_Type_resp 6
        || decide (d.TxRx_Buffer 6 ≠ m)
        || decide (d.TxRx_Buffer 7 ≠ 13 ∨ d.TxRx_Buffer 8 ≠ 10))
      [ok_step] d2 _ s h1 rfl
      (by
        intro d1 hk
        simp [Driver.differs, List.range_succ, hk, HM10_Clone_Type_resp])
    obtain ⟨d4, f1, f2, f3, -⟩ := ok_step_ok u hd again
      (((Cmd.set_pin_code_mode m).shape u hd).tail again fuel) [] d3 s' (by rw [e2]; exact h3)
    exact ⟨d4, e1.trans f1, f2, by simpa using ran_trans e3 f3, trivial⟩
  case get_pin_code_mode =>
    obtain ⟨r, rfl, hr⟩ := hv
    obtain ⟨s, h1, h2⟩ := receives_cons _ _ _ _ _ _ hrx
    have hs := receives_nil _ _ _ _ h2
    subst hs
    obtain ⟨d3, e1, e2, e3, -, e5, -⟩ := value_step u hd again
      ((Cmd.get_pin_code_mode.shape u hd).tail again fuel) 9
      (fun d => d.differs HM10_Clone_Type_resp 6
        || decide (¬ (d.TxRx_Buffer 6 = hd.HM10_Clone_Pin_Code_DISABLED
            ∨ d.TxRx_Buffer 6 = hd.HM10_Clone_Pin_Code_ENABLED))
        || decide (d.TxRx_Buffer 7 ≠ 13 ∨ d.TxRx_Buffer 8 ≠ 10))
      [] d2 _ s h1 rfl
      (by
        intro d1 hk
        simp [Driver.differs, List.range_succ, hk, HM10_Clone_Type_resp, hr])
    refine ⟨{ d3 with pin_code_mode := d3.TxRx_Buffer 6 }, ?_, e2, ran_congr e3 rfl rfl, ?_⟩
    · exact e1
    · simp [Cmd.delivered, e5, HM10_Clone_Type_resp]
  case set_pin p =>
    obtain ⟨s, h1, h2⟩ := receives_cons _ _ _ _ _ _ hrx
    obtain ⟨s', h3, h4⟩ := receives_cons _ _ _ _ _ _ h2
    have hs := receives_nil _ _ _ _ h4
    subst hs
    obtain ⟨d3, e1, e2, e3, -, -⟩ := value_step u hd again
      (((Cmd.set_pin p).shape u hd).tail again fuel) 13
      (fun d => d.differs HM10_Clone_Pin_resp (pin_resp_size_without_pin_cr_and_lf hd)
        || (compare_loop d p (11 - pin_resp_size_without_pin_cr_and_lf hd) 0
              (pin_resp_size_without_pin_cr_and_lf hd)).1
        || decide (d.TxRx_Buffer (compare_loop d p
              (11 - pin_resp_size_without_pin_cr_and_lf hd) 0
              (pin_resp_size_without_pin_cr_and_lf hd)).2 ≠ 13
            ∨ d.TxRx_Buffer ((compare_loop d p
              (11 - pin_resp_size_without_pin_cr_and_lf hd) 0
              (pin_resp_size_without_pin_cr_and_lf hd)).2 + 1) ≠ 10))
      [ok_step] d2 _ s h1 rfl
      (by
        intro d1 hk
        simp [Driver.differs, List.range_succ, hk, HM10_Clone_Pin_resp, pin_resp_size_eq hd hw,
          compare_loop])
    obtain ⟨d4, f1, f2, f3, -⟩ := ok_step_ok u hd again
      (((Cmd.set_pin p).shape u hd).tail again fuel) [] d3 s' (by rw [e2]; exact h3)
    exact ⟨d4, e1.trans f1, f2, by simpa using ran_trans e3 f3, trivial⟩
  case get_pin =>
    obtain ⟨hlen, hdig⟩ := hv
    match v, hlen with
    | [v0, v1, v2, v3, v4, v5], _ =>
      obtain ⟨s, h1, h2⟩ := receives_cons _ _ _ _ _ _ hrx
      have hs := receives_nil _ _ _ _ h2
      subst hs
      obtain ⟨d3, e1, e2, e3, e4, e5, -⟩ := value_step u hd again
        ((Cmd.get_pin.shape u hd).tail again fuel) 13
        (fun d => d.differs HM10_Clone_Pin_resp (pin_resp_size_without_pin_cr_and_lf hd)
            || (List.range hd.HM10_CLONE_PIN_VALUE_SIZE).any
                (fun current_pin_character =>
                  decide (d.TxRx_Buffer
                    ((pin_resp_size_without_pin_cr_and_lf hd + current_pin_character) % 256)
                    ∉ Numbers_in_ASCII))
            || decide (d.TxRx_Buffer
                  ((pin_resp_size_without_pin_cr_and_lf hd + hd.HM10_CLONE_PIN_VALUE_SIZE) % 256)
                  ≠ 13
                ∨ d.TxRx_Buffer
                  ((pin_resp_size_without_pin_cr_and_lf hd + hd.HM10_CLONE_PIN_VALUE_SIZE) % 256
                    + 1) ≠ 10))
        [] d2 _ s h1 rfl
        (by
          intro d1 hk
          simp only [List.mem_cons, List.mem_singleton, forall_eq_or_imp, forall_eq,
            List.not_mem_nil, IsEmpty.forall_iff, implies_true, and_true] at hdig
          simp [Driver.differs, List.range_succ, hk, HM10_Clone_Pin_resp,
            pin_resp_size_eq hd hw, hw.2.1, hdig])
      refine ⟨{ d3 with pin := (d3.bytes (pin_resp_size_without_pin_cr_and_lf hd)
          hd.HM10_CLONE_PIN_VALUE_SIZE ++ d3.pin.drop hd.HM10_CLONE_PIN_VALUE_SIZE) },
        e1, e2, ran_congr e3 rfl rfl, ?_⟩
      simp [Cmd.delivered, e5, HM10_Clone_Pin_resp, pin_resp_size_eq hd hw, hw.2.1,
        Driver.bytes, List.range_succ, e4.pin]
  case set_name n sz =>
    have hsz : sz ≤ 12 := le_trans hacc hw.2.2
    obtain ⟨s, h1, h2⟩ := receives_cons _ _ _ _ _ _ hrx
    obtain ⟨s', h3, h4⟩ := receives_cons _ _ _ _ _ _ h2
    have hs := receives_nil _ _ _ _ h4
    subst hs
    have hlen : (HM10_Clone_Name_resp ++ (List.range sz).map (fun i => n.getD i 0)
        ++ [13, 10]).length = 8 + sz := by
      simp [HM10_Clone_Name_resp]; omega
    have hget := frame_getD HM10_Clone_Name_resp ((List.range sz).map (fun i => n.getD i 0))
    simp only [List.length_map, List.length_range,
      show HM10_Clone_Name_resp.length = 6 from rfl] at hget
    obtain ⟨d3, e1, e2, e3, -, -⟩ := value_step u hd again
      (((Cmd.set_name n sz).shape u hd).tail again fuel) ((8 + sz) % 256)
      (fun d => d.differs HM10_Clone_Name_resp 6
        || (compare_loop d n ((sz + 6) % 256 - 6) 0 6).1
        || decide (d.TxRx_Buffer (compare_loop d n ((sz + 6) % 256 - 6) 0 6).2 ≠ 13
            ∨ d.TxRx_Buffer ((compare_loop d n ((sz + 6) % 256 - 6) 0 6).2 + 1) ≠ 10))
      [ok_step] d2 _ s h1 (by rw [hlen]; omega)
      (by
        intro d1 hk
        have e6 : (sz + 6) % 256 - 6 = sz := by omega
        have e8 : (8 + sz) % 256 = 8 + sz := by omega
        rw [e8] at hk
        have hcmp : compare_loop d1 n sz 0 6 = (false, 6 + sz) := by
          apply compare_loop_eq
          intro k hk1
          rw [hk (6 + k) (by omega), hget, if_neg (by omega), if_pos (by omega)]
          simp [List.getD_eq_getElem?_getD, List.getElem?_map, List.getElem?_range hk1]
        have h13 : d1.TxRx_Buffer (6 + sz) = 13 := by
          rw [hk (6 + sz) (by omega), hget, if_neg (by omega), if_neg (by omega), if_pos rfl]
        have h10 : d1.TxRx_Buffer (6 + sz + 1) = 10 := by
          rw [hk (6 + sz + 1) (by omega), hget, if_neg (by omega), if_neg (by omega),
            if_neg (by omega), if_pos rfl]
        have hb : ∀ k < 6, d1.TxRx_Buffer k = HM10_Clone_Name_resp.getD k 0 := by
          intro k hk6
          rw [hk k (by omega), hget, if_pos hk6]
        have hdiff : d1.differs HM10_Clone_Name_resp 6 = false := by
          simp [Driver.differs, List.range_succ, hb, HM10_Clone_Name_resp]
        simp [e6, hcmp, h13, h10, hdiff])
    obtain ⟨d4, f1, f2, f3, -⟩ := ok_step_ok u hd again
      (((Cmd.set_name n sz).shape u hd).tail again fuel) [] d3 s' (by rw [e2]; exact h3)
    exact ⟨d4, e1.trans f1, f2, by simpa using ran_trans e3 f3, trivial⟩

theorem map_getD_eq_take_drop (S : List Nat) (off n : Nat) (h : off + n ≤ S.length) :
    (List.range n).map (fun k => S.getD (off + k) 0) = (S.drop off).take n := by
  apply List.ext_getElem
  · simp; omega
  · intro i h1 h2
    simp only [List.length_map, List.length_range] at h1
    simp [List.getElem_take, List.getElem_drop, List.getD_eq_getElem?_getD,
      List.getElem?_eq_getElem (show off + i < S.length by omega)]

/-- The byte-by-byte read of `send_get_name_cmd` on a response `S` of which `bp` bytes are
in the buffer: when the rest of `S` arrives byte by byte, `S` ends with `\r\n`, no pair of
bytes ending before the end of `S` is `\r\n`, and `S` is not longer than the longest name
allows, the loop returns `HM10_Clone_EC_OK` with the name and its length in the outputs. -/
theorem get_name_loop_ok (u : UART σ) (hd : Header)
    (again : Driver σ → Option Nat × Driver σ) (S : List Nat)
    (hS : S.length ≤ hd.HM10_CLONE_MAX_BLE_NAME_SIZE + 8) (hS20 : S.length ≤ 20)
    (hend : S.getD (S.length - 2) 0 = 13 ∧ S.getD (S.length - 1) 0 = 10)
    (hmid : ∀ j, 8 ≤ j → j + 1 < S.length → ¬ (S.getD (j - 1) 0 = 13 ∧ S.getD j 0 = 10))
    (m : Nat) :
    ∀ (fuel bp : Nat) (d : Driver σ) (s2 : σ), m + 1 ≤ fuel → 8 ≤ bp →
      bp + (m + 1) = S.length → d.size + 8 = bp →
      (∀ k < bp, d.TxRx_Buffer k = S.getD k 0) →
      u.receives hd.HM10_CLONE_CUSTOM_HAL_TIMEOUT ((S.drop bp).map fun b => [b]) d.huart
        = some s2 →
      ∃ d1, get_name_loop u hd again 6 fuel bp d = (some hd.HM10_Clone_EC_OK, d1)
        ∧ d1.huart = s2 ∧ Ran 0 d d1 ∧ d1.size = S.length - 8
        ∧ d1.hm10_name = (S.drop 6).take (S.length - 8) ++ d.hm10_name.drop (S.length - 8)
        ∧ d1.ble_role = d.ble_role ∧ d1.pin = d.pin ∧ d1.pin_code_mode = d.pin_code_mode
        ∧ d1.trace = d.trace ++ (S.drop bp).map fun b =>
            Event.rx 1 hd.HM10_CLONE_CUSTOM_HAL_TIMEOUT HAL_StatusTypeDef.HAL_OK [b] := by
  induction m with
  | zero =>
    intro fuel bp d s2 hfuel hbp hlen hsize hbuf hrx
    obtain ⟨fuel, rfl⟩ : ∃ f, fuel = f + 1 := ⟨fuel - 1, by omega⟩
    have hdrop : S.drop bp = [S.getD bp 0] := by
      apply List.ext_getElem
      · simp; omega
      · intro i h1 h2
        simp only [List.length_singleton] at h2
        obtain rfl : i = 0 := by omega
        simp [List.getElem_drop, List.getD_eq_getElem?_getD,
          List.getElem?_eq_getElem (show bp < S.length by omega)]
    rw [hdrop] at hrx
    obtain ⟨s1, h1, h2⟩ := receives_cons _ _ _ _ _ _ hrx
    obtain rfl := receives_nil _ _ _ _ h2
    have R := Receive_eq u d bp 1 hd.HM10_CLONE_CUSTOM_HAL_TIMEOUT _ _ s1 h1 rfl
    have e1 : (bp + 1) % 256 = bp + 1 := by omega
    have e2 : ((d.Receive u bp 1 hd.HM10_CLONE_CUSTOM_HAL_TIMEOUT).2.size + 1) % 256
        = S.length - 8 := by
      show (d.size + 1) % 256 = _
      omega
    have hb1 : (d.Receive u bp 1 hd.HM10_CLONE_CUSTOM_HAL_TIMEOUT).2.TxRx_Buffer (bp + 1 - 2)
        = 13 := by
      have hbl : S.length - 2 = bp + 1 - 2 := by omega
      rw [R.2.2, if_neg (by omega), hbuf _ (by omega), ← hend.1, hbl]
    have hb2 : (d.Receive u bp 1 hd.HM10_CLONE_CUSTOM_HAL_TIMEOUT).2.TxRx_Buffer (bp + 1 - 1)
        = 10 := by
      have hz : bp + 1 - 1 - bp = 0 := by omega
      have hbl : S.length - 1 = bp := by omega
      rw [R.2.2, if_pos (by omega), hz, ← hend.2, hbl]
      rfl
    rw [get_name_loop]
    simp only [R.1, ret_handler_ok, e1, e2, ne_eq, not_true_eq_false, if_false, hb1, hb2,
      and_self, if_true]
    have h1' : u.HAL_UART_Receive d.huart 1 hd.HM10_CLONE_CUSTOM_HAL_TIMEOUT
        = (HAL_StatusTypeDef.HAL_OK, [S.getD bp 0], s1) := h1
    refine ⟨_, rfl, R.2.1, ran_congr (ran_Receive u d bp 1 _) rfl rfl, rfl, ?_, rfl, rfl, rfl,
      ?_⟩
    · show Driver.bytes _ 6 (S.length - 8) ++ d.hm10_name.drop (S.length - 8) = _
      rw [← map_getD_eq_take_drop S 6 (S.length - 8) (by omega)]
      congr 1
      simp only [Driver.bytes]
      apply List.map_congr_left
      intro k hk
      have hk1 : k < S.length - 8 := List.mem_range.1 hk
      show (d.Receive u bp 1 hd.HM10_CLONE_CUSTOM_HAL_TIMEOUT).2.TxRx_Buffer (6 + k) = _
      rw [R.2.2, if_neg (by omega), hbuf _ (by omega)]
    · show (d.Receive u bp 1 hd.HM10_CLONE_CUSTOM_HAL_TIMEOUT).2.trace = _
      rw [hdrop]
      simp [Driver.Receive, h1']
  | succ m ih =>
    intro fuel bp d s2 hfuel hbp hlen hsize hbuf hrx
    obtain ⟨fuel, rfl⟩ : ∃ f, fuel = f + 1 := ⟨fuel - 1, by omega⟩
    have hdrop : S.drop bp = S.getD bp 0 :: S.drop (bp + 1) := by
      rw [List.drop_eq_getElem_cons (show bp < S.length by omega)]
      simp [List.getD_eq_getElem?_getD,
        List.getElem?_eq_getElem (show bp < S.length by omega)]
    rw [hdrop, List.map_cons] at hrx
    obtain ⟨s1, h1, h2⟩ := receives_cons _ _ _ _ _ _ hrx
    have R := Receive_eq u d bp 1 hd.HM10_CLONE_CUSTOM_HAL_TIMEOUT _ _ s1 h1 rfl
    have e1 : (bp + 1) % 256 = bp + 1 := by omega
    have e2 : ((d.Receive u bp 1 hd.HM10_CLONE_CUSTOM_HAL_TIMEOUT).2.size + 1) % 256
        = d.size + 1 := by
      show (d.size + 1) % 256 = _
      omega
    have hb1 : (d.Receive u bp 1 hd.HM10_CLONE_CUSTOM_HAL_TIMEOUT).2.TxRx_Buffer (bp + 1 - 2)
        = S.getD (bp - 1) 0 := by
      rw [R.2.2, if_neg (by omega), hbuf _ (by omega)]
      congr 1
    have hb2 : (d.Receive u bp 1 hd.HM10_CLONE_CUSTOM_HAL_TIMEOUT).2.TxRx_Buffer (bp + 1 - 1)
        = S.getD bp 0 := by
      rw [R.2.2, if_pos (by omega)]
      simp
    have hno := hmid bp hbp (by omega)
    have hover : ¬ (bp + 1 = hd.HM10_CLONE_MAX_BLE_NAME_SIZE
        + HM10_CLONE_NAME_RESPONSE_SIZE_WITHOUT_REQUESTED_NAME) := by
      simp only [HM10_CLONE_NAME_RESPONSE_SIZE_WITHOUT_REQUESTED_NAME]; omega
    have r1 : Ran 0 d { (d.Receive u bp 1 hd.HM10_CLONE_CUSTOM_HAL_TIMEOUT).2 with
        size := d.size + 1 } := ran_congr (ran_Receive u d bp 1 _) rfl rfl
    have h1' : u.HAL_UART_Receive d.huart 1 hd.HM10_CLONE_CUSTOM_HAL_TIMEOUT
        = (HAL_StatusTypeDef.HAL_OK, [S.getD bp 0], s1) := h1
    obtain ⟨d1, g1, g2, g3, g4, g5, g6, g7, g8, g9⟩ := ih fuel (bp + 1)
      { (d.Receive u bp 1 hd.HM10_CLONE_CUSTOM_HAL_TIMEOUT).2 with size := d.size + 1 } s2
      (by omega) (by omega) (by omega) (by show d.size + 1 + 8 = bp + 1; omega)
      (by
        intro k hk
        show (d.Receive u bp 1 hd.HM10_CLONE_CUSTOM_HAL_TIMEOUT).2.TxRx_Buffer k = _
        rw [R.2.2]
        by_cases hkb : k = bp
        · subst hkb; rw [if_pos (by omega)]; simp
        · rw [if_neg (by omega), hbuf _ (by omega)])
      (by
        show u.receives _ _ (d.Receive u bp 1 hd.HM10_CLONE_CUSTOM_HAL_TIMEOUT).2.huart = _
        rw [R.2.1]; exact h2)
    rw [get_name_loop]
    simp only [R.1, ret_handler_ok, e1, e2, ne_eq, not_true_eq_false, if_false, hb1, hb2,
      hno, hover]
    have r2 : Ran 0 d d1 := by simpa using ran_trans r1 g3
    refine ⟨d1, g1, g2, r2, g4, g5, g6, g7, g8, ?_⟩
    rw [g9, hdrop]
    show (d.Receive u bp 1 hd.HM10_CLONE_CUSTOM_HAL_TIMEOUT).2.trace ++ _ = _
    simp [Driver.Receive, h1']

theorem take_getD (S : List Nat) (n k : Nat) (hk : k < n) :
    (S.take n).getD k 0 = S.getD k 0 := by
  simp [List.getD_eq_getElem?_getD, List.getElem?_take, hk]

/-- After a successful transmit, `send_get_name_cmd` succeeds on the response
`+NAME=<name>\r\n` for every name that `Cmd.value_ok` admits. -/
theorem steps_success_name (u : UART σ) (hd : Header) (hw : hd.wf) (v : List Nat)
    (hv : Cmd.get_name.value_ok hd v) (fuel : Nat) (hfuel : v.length ≤ fuel)
    (again : Driver σ → Option Nat × Driver σ) (d2 : Driver σ) (s3 : σ)
    (hrx : u.receives hd.HM10_CLONE_CUSTOM_HAL_TIMEOUT (Cmd.get_name.reply v) d2.huart
      = some s3) :
    ∃ d3, exchange_steps u hd again ((Cmd.get_name.shape u hd).tail again fuel)
        (Cmd.get_name.shape u hd).steps d2 = (some hd.HM10_Clone_EC_OK, d3)
      ∧ d3.huart = s3 ∧ Ran 0 d2 d3 ∧ Cmd.get_name.delivered v d2 d3
      ∧ d3.trace = d2.trace ++ (Cmd.get_name.reply v).map fun b =>
          Event.rx b.length hd.HM10_CLONE_CUSTOM_HAL_TIMEOUT HAL_StatusTypeDef.HAL_OK b := by
  obtain ⟨hv1, hv2, hv3⟩ := hv
  have hmax := hw.2.2
  obtain ⟨s, h1, h2⟩ := receives_cons _ _ _ _ _ _ hrx
  have hlen : (HM10_Clone_Name_resp ++ v ++ [13, 10]).length = 8 + v.length := by
    simp [HM10_Clone_Name_resp]; omega
  have hget := frame_getD HM10_Clone_Name_resp v
  simp only [show HM10_Clone_Name_resp.length = 6 from rfl] at hget
  have htake : ((HM10_Clone_Name_resp ++ v ++ [13, 10]).take 8).length = 8 := by
    rw [List.length_take, hlen]; omega
  obtain ⟨d3, e1, e2, e3, e4, e5, e6⟩ := value_step u hd again
    ((Cmd.get_name.shape u hd).tail again fuel) 8
    (fun d => d.differs HM10_Clone_Name_resp 6) [] d2 _ s h1 htake
    (by
      intro d1 hk
      have hb : ∀ k < 6, d1.TxRx_Buffer k = HM10_Clone_Name_resp.getD k 0 := by
        intro k hk6
        rw [hk k (by omega), take_getD _ _ _ (by omega), hget, if_pos hk6]
      simp [Driver.differs, List.range_succ, hb, HM10_Clone_Name_resp])
  obtain ⟨d4, g1, g2, g3, g4, g5, -, -, -, g9⟩ := get_name_loop_ok u hd again
    (HM10_Clone_Name_resp ++ v ++ [13, 10]) (by rw [hlen]; omega) (by rw [hlen]; omega)
    (by
      rw [hlen, hget, hget]
      constructor
      · rw [if_neg (by omega), if_neg (by omega), if_pos (by omega)]
      · rw [if_neg (by omega), if_neg (by omega), if_neg (by omega), if_pos (by omega)])
    (by
      intro j hj1 hj2
      rw [hlen] at hj2
      rw [hget, hget, if_neg (by omega), if_pos (by omega), if_neg (by omega)]
      by_cases hj3 : j < 6 + v.length
      · rw [if_pos hj3]
        have := hv3 (j - 7) (by omega) (by omega) (by omega)
        rwa [show j - 1 - 6 = j - 7 by omega, show j - 6 = j - 7 + 1 by omega]
      · rw [if_neg hj3, if_pos (by omega)]
        intro h
        exact absurd h.2 (by decide))
    (v.length - 1) fuel 8 { d3 with size := 0 } s3 (by omega) (by omega)
    (by rw [hlen]; omega) rfl
    (by
      intro k hk
      show d3.TxRx_Buffer k = _
      rw [e5 k hk, take_getD _ _ _ hk])
    (by
      show u.receives _ _ d3.huart = _
      rw [e2]; exact h2)
  refine ⟨d4, e1.trans g1, g2, ?_, ⟨?_, ?_⟩, ?_⟩
  rotate_left
  rotate_left
  rotate_left
  · rw [g9]
    show d3.trace ++ _ = _
    rw [e6]
    have htake2 : (List.take 8 (HM10_Clone_Name_resp ++ (v ++ [13, 10]))).length = 8 := by
      rw [← List.append_assoc]; exact htake
    simp only [Cmd.reply, List.map_cons, List.map_map, htake2, List.append_assoc,
      List.singleton_append]
    rfl
  · have r1 : Ran 0 d2 { d3 with size := 0 } := ran_congr e3 rfl rfl
    simpa using ran_trans r1 g3
  · show d4.hm10_name = v ++ d2.hm10_name.drop v.length
    rw [g5, hlen, show 8 + v.length - 8 = v.length by omega]
    show _ ++ List.drop v.length d3.hm10_name = _
    rw [e4.hm10_name]
    congr 1
    simp [HM10_Clone_Name_resp]
  · show d4.size = v.length
    rw [g4, hlen]; omega

/-- A complete attempt: the flush ends, the transmit of the request succeeds and the
receives deliver the response `Cmd.reply`. The command returns `HM10_Clone_EC_OK` after one
transmit, with the retry counter unchanged and the received value in its output. -/
theorem send_success (u : UART σ) (hd : Header) (hw : hd.wf) (c : Cmd) (hacc : c.accepted hd)
    (v : List Nat) (hv : c.value_ok hd v) (fuel : Nat) (hfuel : v.length ≤ fuel)
    (d : Driver σ) (s1 s2 s3 : σ)
    (hflush : u.drain hd.HM10_CLONE_CUSTOM_HAL_TIMEOUT fuel d.huart = some s1)
    (htx : u.HAL_UART_Transmit s1 c.request hd.HM10_CLONE_CUSTOM_HAL_TIMEOUT
      = (HAL_StatusTypeDef.HAL_OK, s2))
    (hrx : u.receives hd.HM10_CLONE_CUSTOM_HAL_TIMEOUT (c.reply v) s2 = some s3) :
    ∃ d3, c.send u hd (fuel + 1) d = (some hd.HM10_Clone_EC_OK, d3)
      ∧ d3.huart = s3 ∧ Ran 1 d d3 ∧ c.delivered v d d3 := by
  obtain ⟨d2, h1, h2, h3, h4⟩ := send_tx_ok u hd hw c hacc fuel d s1 s2 hflush htx
  rw [← h1] at hrx
  have key : ∃ d3, exchange_steps u hd (exchange u hd (c.shape u hd) fuel)
        ((c.shape u hd).tail (exchange u hd (c.shape u hd) fuel) fuel)
        (c.shape u hd).steps d2 = (some hd.HM10_Clone_EC_OK, d3)
      ∧ d3.huart = s3 ∧ Ran 0 d2 d3 ∧ c.delivered v d2 d3 := by
    by_cases hc : c = Cmd.get_name
    · subst hc
      obtain ⟨d3, k1, k2, k3, k4, -⟩ := steps_success_name u hd hw v hv fuel hfuel
        (exchange u hd (Cmd.get_name.shape u hd) fuel) d2 s3 hrx
      exact ⟨d3, k1, k2, k3, k4⟩
    · exact steps_success_fixed u hd hw c hc hacc v hv fuel _ d2 s3 hrx
  obtain ⟨d3, k1, k2, k3, k4⟩ := key
  refine ⟨d3, h4.trans k1, k2, by simpa using ran_trans h2 k3, ?_⟩
  cases c
  case get_name => exact ⟨by rw [k4.1, h3.hm10_name], k4.2⟩
  case get_pin =>
    show d3.pin = v ++ d.pin.drop 6
    rw [show d3.pin = v ++ d2.pin.drop 6 from k4, h3.pin]
  all_goals exact k4

/-! ## C3: one retry after a transmit timeout -/

/-- C3: for every public command with accepted arguments: if the first transmit of the
request times out and, in the second attempt, the transmit succeeds and every receive of
the exchange succeeds delivering the response on which the command succeeds (each attempt
starting with a flush that ends), the command returns `HM10_Clone_EC_OK`, having called
`HAL_UART_Transmit` exactly twice, with the retry counter set to 0 and then to 1. -/
theorem retry_after_transmit_timeout (u : UART σ) (hd : Header) (hw : hd.wf) (c : Cmd)
    (hacc : c.accepted hd) (v : List Nat) (hv : c.value_ok hd v) (fuel : Nat)
    (hfuel : v.length ≤ fuel) (d : Driver σ) (s1 s2 s3 s4 s5 : σ)
    (hflush1 : u.drain hd.HM10_CLONE_CUSTOM_HAL_TIMEOUT fuel d.huart = some s1)
    (htx1 : u.HAL_UART_Transmit s1 c.request hd.HM10_CLONE_CUSTOM_HAL_TIMEOUT
      = (HAL_StatusTypeDef.HAL_TIMEOUT, s2))
    (hflush2 : u.drain hd.HM10_CLONE_CUSTOM_HAL_TIMEOUT fuel s2 = some s3)
    (htx2 : u.HAL_UART_Transmit s3 c.request hd.HM10_CLONE_CUSTOM_HAL_TIMEOUT
      = (HAL_StatusTypeDef.HAL_OK, s4))
    (hrx : u.receives hd.HM10_CLONE_CUSTOM_HAL_TIMEOUT (c.reply v) s4 = some s5) :
    (c.run u hd (fuel + 2) d).1 = some hd.HM10_Clone_EC_OK
      ∧ tx_count (c.run u hd (fuel + 2) d).2.trace = tx_count d.trace + 2
      ∧ (c.run u hd (fuel + 2) d).2.resp_attempts = 1
      ∧ attempts_log (c.run u hd (fuel + 2) d).2.trace = attempts_log d.trace ++ [0, 1]
      ∧ (c.run u hd (fuel + 2) d).2.huart = s5 := by
  obtain ⟨d2, h2s, h2r, h2e⟩ := send_tx_fault u hd hw c hacc (fuel + 1) (d.set_attempts 0) s1 s2
    HAL_StatusTypeDef.HAL_TIMEOUT (drain_mono u _ fuel 1 _ _ hflush1) htx1 (by decide)
  have h2a : d2.resp_attempts = 0 := h2r.resp_attempts
  obtain ⟨d5, h5e, h5s, h5r, -⟩ := send_success u hd hw c hacc v hv fuel hfuel
    (d2.set_attempts (d2.resp_attempts + 1)) s3 s4 s5
    (by rw [set_attempts_huart, h2s]; exact hflush2) htx2 hrx
  have hrun : c.run u hd (fuel + 2) d = (some hd.HM10_Clone_EC_OK, d5) := by
    rw [send_eq_run, h2e, if_pos (by rfl), h5e]
  rw [hrun]
  refine ⟨rfl, ?_, ?_, ?_, h5s⟩
  · show tx_count d5.trace = _
    rw [h5r.tx_count, set_attempts_tx_count, h2r.tx_count, set_attempts_tx_count]
  · show d5.resp_attempts = 1
    rw [h5r.resp_attempts, set_attempts_resp, h2a]
  · show attempts_log d5.trace = _
    rw [h5r.attempts_log, set_attempts_log, h2r.attempts_log, set_attempts_log, h2a]
    simp

theorem retry_after_transmit_timeout_witness :
    (example_header.wf ∧ Cmd.get_name.accepted example_header
      ∧ Cmd.get_name.value_ok example_header [65, 66] ∧ [65, 66].length ≤ 2
      ∧ sim.drain example_header.HM10_CLONE_CUSTOM_HAL_TIMEOUT 2
          (Driver.init name_link_0).huart = some name_link_0
      ∧ sim.HAL_UART_Transmit name_link_0 Cmd.get_name.request
          example_header.HM10_CLONE_CUSTOM_HAL_TIMEOUT = (HAL_StatusTypeDef.HAL_TIMEOUT, name_link_1)
      ∧ sim.drain example_header.HM10_CLONE_CUSTOM_HAL_TIMEOUT 2 name_link_1 = some name_link_1
      ∧ sim.HAL_UART_Transmit name_link_1 Cmd.get_name.request
          example_header.HM10_CLONE_CUSTOM_HAL_TIMEOUT = (HAL_StatusTypeDef.HAL_OK, name_link_2)
      ∧ sim.receives example_header.HM10_CLONE_CUSTOM_HAL_TIMEOUT
          (Cmd.get_name.reply [65, 66]) name_link_2 = some ⟨[], []⟩)
    ∧ (Cmd.get_name.run sim example_header 4 (Driver.init name_link_0)).1
        = some example_header.HM10_Clone_EC_OK
      ∧ tx_count (Cmd.get_name.run sim example_header 4 (Driver.init name_link_0)).2.trace
        = tx_count (Driver.init name_link_0).trace + 2
      ∧ (Cmd.get_name.run sim example_header 4 (Driver.init name_link_0)).2.resp_attempts = 1
      ∧ attempts_log (Cmd.get_name.run sim example_header 4 (Driver.init name_link_0)).2.trace
        = attempts_log (Driver.init name_link_0).trace ++ [0, 1]
      ∧ (Cmd.get_name.run sim example_header 4 (Driver.init name_link_0)).2.huart = ⟨[], []⟩ :=
  ⟨⟨by decide, by simp [Cmd.accepted], by simp only [Cmd.value_ok]; decide, by decide,
      by decide, by decide, by decide, by decide, by decide⟩,
    retry_after_transmit_timeout sim example_header (by decide) Cmd.get_name
      (by simp [Cmd.accepted]) [65, 66] (by simp only [Cmd.value_ok]; decide) 2 (by decide)
      (Driver.init name_link_0) name_link_0 name_link_1 name_link_1 name_link_2 ⟨[], []⟩
      (by decide) (by decide) (by decide) (by decide) (by decide)⟩

/-! ## C6: a response with a wrong tag -/

theorem differs_of_take_ne (d : Driver σ) (b tag : List Nat)
    (hbuf : ∀ k < tag.length, d.TxRx_Buffer k = b.getD k 0) (hlen : tag.length ≤ b.length)
    (hne : b.take tag.length ≠ tag) : d.differs tag tag.length = true := by
  by_contra hcon
  apply hne
  apply List.ext_getElem
  · simp [hlen]
  · intro i h1 h2
    have hi : d.TxRx_Buffer i = tag.getD i 0 := by
      by_contra hx
      apply hcon
      simp only [Driver.differs, List.any_eq_true, List.mem_range, bne_iff_ne, ne_eq]
      exact ⟨i, h2, hx⟩
    rw [hbuf i h2, List.getD_eq_getElem _ _ (by omega), List.getD_eq_getElem _ _ h2] at hi
    rw [List.getElem_take]
    exact hi

/-- After a successful transmit, a first response whose first bytes are not the tag of
the command is refused at once. -/
theorem steps_wrong_tag (u : UART σ) (hd : Header) (hw : hd.wf) (c : Cmd) (hacc : c.accepted hd)
    (htag : c.tag ≠ []) (fuel : Nat) (again : Driver σ → Option Nat × Driver σ)
    (d2 : Driver σ) (s3 : σ) (b : List Nat)
    (hrx : u.HAL_UART_Receive d2.huart c.first_size hd.HM10_CLONE_CUSTOM_HAL_TIMEOUT
      = (HAL_StatusTypeDef.HAL_OK, b, s3))
    (hb : b.length = c.first_size) (hdiff : b.take c.tag.length ≠ c.tag) :
    ∃ d3, exchange_steps u hd again ((c.shape u hd).tail again fuel)
        (c.shape u hd).steps d2 = (some hd.HM10_Clone_EC_ERR, d3)
      ∧ d3.huart = s3 ∧ Ran 0 d2 d3 := by
  cases c
  case test => exact absurd rfl htag
  case reset => exact absurd rfl htag
  case set_name n sz =>
    have hsz : sz ≤ 12 := le_trans hacc hw.2.2
    have e8 : (8 + sz) % 256 = 8 + sz := by omega
    simp only [Cmd.tag, Cmd.first_size] at hrx hb hdiff
    have R := Receive_eq u d2 0 (8 + sz) hd.HM10_CLONE_CUSTOM_HAL_TIMEOUT _ _ s3 hrx hb
    have hdf : (d2.Receive u 0 (8 + sz) hd.HM10_CLONE_CUSTOM_HAL_TIMEOUT).2.differs HM10_Clone_Name_resp 6
        = true :=
      differs_of_take_ne _ b HM10_Clone_Name_resp
        (by
          intro k hk
          have hk1 : k < 6 := hk
          rw [R.2.2, if_pos ⟨Nat.zero_le _, by omega⟩, Nat.sub_zero])
        (by rw [hb]; show 6 ≤ _; omega) hdiff
    refine ⟨_, ?_, R.2.1, ran_Receive u d2 0 _ _⟩
    simp only [Cmd.shape, HM10_CLONE_NAME_RESPONSE_SIZE_WITHOUT_REQUESTED_NAME, e8]
    exact steps_cons_bad u hd _ _ (8 + sz) _ _ d2 R.1 (by simp [hdf, pin_resp_size_eq hd hw])
  case get_name =>
    simp only [Cmd.tag, Cmd.first_size] at hrx hb hdiff
    have R := Receive_eq u d2 0 8 hd.HM10_CLONE_CUSTOM_HAL_TIMEOUT _ _ s3 hrx hb
    have hdf : (d2.Receive u 0 8 hd.HM10_CLONE_CUSTOM_HAL_TIMEOUT).2.differs HM10_Clone_Name_resp 6
        = true :=
      differs_of_take_ne _ b HM10_Clone_Name_resp
        (by
          intro k hk
          have hk1 : k < 6 := hk
          rw [R.2.2, if_pos ⟨Nat.zero_le _, by omega⟩, Nat.sub_zero])
        (by rw [hb]; show 6 ≤ _; omega) hdiff
    refine ⟨_, ?_, R.2.1, ran_Receive u d2 0 _ _⟩
    simp only [Cmd.shape, HM10_CLONE_NAME_RESPONSE_SIZE_WITHOUT_REQUESTED_NAME]
    exact steps_cons_bad u hd _ _ 8 _ _ d2 R.1 (by simp [hdf, pin_resp_size_eq hd hw])
  case set_role r =>
    simp only [Cmd.tag, Cmd.first_size] at hrx hb hdiff
    have R := Receive_eq u d2 0 9 hd.HM10_CLONE_CUSTOM_HAL_TIMEOUT _ _ s3 hrx hb
    have hdf : (d2.Receive u 0 9 hd.HM10_CLONE_CUSTOM_HAL_TIMEOUT).2.differs HM10_Clone_Role_resp 6
        = true :=
      differs_of_take_ne _ b HM10_Clone_Role_resp
        (by
          intro k hk
          have hk1 : k < 6 := hk
          rw [R.2.2, if_pos ⟨Nat.zero_le _, by omega⟩, Nat.sub_zero])
        (by rw [hb]; show 6 ≤ _; omega) hdiff
    refine ⟨_, ?_, R.2.1, ran_Receive u d2 0 _ _⟩
    simp only [Cmd.shape, HM10_CLONE_ROLE_RESPONSE_SIZE]
    exact steps_cons_bad u hd _ _ 9 _ _ d2 R.1 (by simp [hdf, pin_resp_size_eq hd hw])
  case get_role =>
    simp only [Cmd.tag, Cmd.first_size] at hrx hb hdiff
    have R := Receive_eq u d2 0 9 hd.HM10_CLONE_CUSTOM_HAL_TIMEOUT _ _ s3 hrx hb
    have hdf : (d2.Receive u 0 9 hd.HM10_CLONE_CUSTOM_HAL_TIMEOUT).2.differs HM10_Clone_Role_resp 6
        = true :=
      differs_of_take_ne _ b HM10_Clone_Role_resp
        (by
          intro k hk
          have hk1 : k < 6 := hk
          rw [R.2.2, if_pos ⟨Nat.zero_le _, by omega⟩, Nat.sub_zero])
        (by rw [hb]; show 6 ≤ _; omega) hdiff
    refine ⟨_, ?_, R.2.1, ran_Receive u d2 0 _ _⟩
    simp only [Cmd.shape, HM10_CLONE_ROLE_RESPONSE_SIZE]
    exact steps_cons_bad u hd _ _ 9 _ _ d2 R.1 (by simp [hdf, pin_resp_size_eq hd hw])
  case set_pin p =>
    simp only [Cmd.tag, Cmd.first_size] at hrx hb hdiff
    have R := Receive_eq u d2 0 13 hd.HM10_CLONE_CUSTOM_HAL_TIMEOUT _ _ s3 hrx hb
    have hdf : (d2.Receive u 0 13 hd.HM10_CLONE_CUSTOM_HAL_TIMEOUT).2.differs HM10_Clone_Pin_resp 5
        = true :=
      differs_of_take_ne _ b HM10_Clone_Pin_resp
        (by
          intro k hk
          have hk1 : k < 5 := hk
          rw [R.2.2, if_pos ⟨Nat.zero_le _, by omega⟩, Nat.sub_zero])
        (by rw [hb]; show 5 ≤ _; omega) hdiff
    refine ⟨_, ?_, R.2.1, ran_Receive u d2 0 _ _⟩
    simp only [Cmd.shape, HM10_CLONE_PIN_RESPONSE_SIZE]
    exact steps_cons_bad u hd _ _ 13 _ _ d2 R.1 (by simp [hdf, pin_resp_size_eq hd hw])
  case get_pin =>
    simp only [Cmd.tag, Cmd.first_size] at hrx hb hdiff
    have R := Receive_eq u d2 0 13 hd.HM10_CLONE_CUSTOM_HAL_TIMEOUT _ _ s3 hrx hb
    have hdf : (d2.Receive u 0 13 hd.HM10_CLONE_CUSTOM_HAL_TIMEOUT).2.differs HM10_Clone_Pin_resp 5
        = true :=
      differs_of_take_ne _ b HM10_Clone_Pin_resp
        (by
          intro k hk
          have hk1 : k < 5 := hk
          rw [R.2.2, if_pos ⟨Nat.zero_le _, by omega⟩, Nat.sub_zero])
        (by rw [hb]; show 5 ≤ _; omega) hdiff
    refine ⟨_, ?_, R.2.1, ran_Receive u d2 0 _ _⟩
    simp only [Cmd.shape, HM10_CLONE_PIN_RESPONSE_SIZE]
    exact steps_cons_bad u hd _ _ 13 _ _ d2 R.1 (by simp [hdf, pin_resp_size_eq hd hw])
  case set_pin_code_mode m =>
    simp only [Cmd.tag, Cmd.first_size] at hrx hb hdiff
    have R := Receive_eq u d2 0 9 hd.HM10_CLONE_CUSTOM_HAL_TIMEOUT _ _ s3 hrx hb
    have hdf : (d2.Receive u 0 9 hd.HM10_CLONE_CUSTOM_HAL_TIMEOUT).2.differs HM10_Clone_Type_resp 6
        = true :=
      differs_of_take_ne _ b HM10_Clone_Type_resp
        (by
          intro k hk
          have hk1 : k < 6 := hk
          rw [R.2.2, if_pos ⟨Nat.zero_le _, by omega⟩, Nat.sub_zero])
        (by rw [hb]; show 6 ≤ _; omega) hdiff
    refine ⟨_, ?_, R.2.1, ran_Receive u d2 0 _ _⟩
    simp only [Cmd.shape, HM10_CLONE_TYPE_RESPONSE_SIZE]
    exact steps_cons_bad u hd _ _ 9 _ _ d2 R.1 (by simp [hdf, pin_resp_size_eq hd hw])
  case get_pin_code_mode =>
    simp only [Cmd.tag, Cmd.first_size] at hrx hb hdiff
    have R := Receive_eq u d2 0 9 hd.HM10_CLONE_CUSTOM_HAL_TIMEOUT _ _ s3 hrx hb
    have hdf : (d2.Receive u 0 9 hd.HM10_CLONE_CUSTOM_HAL_TIMEOUT).2.differs HM10_Clone_Type_resp 6
        = true :=
      differs_of_take_ne _ b HM10_Clone_Type_resp
        (by
          intro k hk
          have hk1 : k < 6 := hk
          rw [R.2.2, if_pos ⟨Nat.zero_le _, by omega⟩, Nat.sub_zero])
        (by rw [hb]; show 6 ≤ _; omega) hdiff
    refine ⟨_, ?_, R.2.1, ran_Receive u d2 0 _ _⟩
    simp only [Cmd.shape, HM10_CLONE_TYPE_RESPONSE_SIZE]
    exact steps_cons_bad u hd _ _ 9 _ _ d2 R.1 (by simp [hdf, pin_resp_size_eq hd hw])

/-- C6: for every command that expects a tagged value response (set/get name, set/get role,
set/get pin, set/get pin code mode), with accepted arguments: if in the first attempt the
flush ends, the transmit succeeds and the first receive succeeds delivering bytes whose
first part differs from the tag of the command, the command returns `HM10_Clone_EC_ERR`
with the retry counter still 0, after exactly one transmit. -/
theorem wrong_tag_is_refused_without_retry (u : UART σ) (hd : Header) (hw : hd.wf) (c : Cmd)
    (hacc : c.accepted hd) (htag : c.tag ≠ []) (fuel : Nat) (d : Driver σ) (s1 s2 s3 : σ)
    (b : List Nat)
    (hflush : u.drain hd.HM10_CLONE_CUSTOM_HAL_TIMEOUT fuel d.huart = some s1)
    (htx : u.HAL_UART_Transmit s1 c.request hd.HM10_CLONE_CUSTOM_HAL_TIMEOUT
      = (HAL_StatusTypeDef.HAL_OK, s2))
    (hrx : u.HAL_UART_Receive s2 c.first_size hd.HM10_CLONE_CUSTOM_HAL_TIMEOUT
      = (HAL_StatusTypeDef.HAL_OK, b, s3))
    (hb : b.length = c.first_size) (hdiff : b.take c.tag.length ≠ c.tag) :
    (c.run u hd (fuel + 1) d).1 = some hd.HM10_Clone_EC_ERR
      ∧ (c.run u hd (fuel + 1) d).2.resp_attempts = 0
      ∧ attempts_log (c.run u hd (fuel + 1) d).2.trace = attempts_log d.trace ++ [0]
      ∧ tx_count (c.run u hd (fuel + 1) d).2.trace = tx_count d.trace + 1
      ∧ (c.run u hd (fuel + 1) d).2.huart = s3 := by
  obtain ⟨d2, h1, h2, -, h4⟩ := send_tx_ok u hd hw c hacc fuel (d.set_attempts 0) s1 s2 hflush htx
  rw [← h1] at hrx
  obtain ⟨d3, k1, k2, k3⟩ := steps_wrong_tag u hd hw c hacc htag fuel
    (exchange u hd (c.shape u hd) fuel) d2 s3 b hrx hb hdiff
  have hrun : c.run u hd (fuel + 1) d = (some hd.HM10_Clone_EC_ERR, d3) := by
    rw [send_eq_run, h4, k1]
  rw [hrun]
  refine ⟨rfl, ?_, ?_, ?_, k2⟩
  · show d3.resp_attempts = 0
    rw [k3.resp_attempts, h2.resp_attempts]; rfl
  · show attempts_log d3.trace = _
    rw [k3.attempts_log, h2.attempts_log, set_attempts_log]
  · show tx_count d3.trace = _
    rw [k3.tx_count, h2.tx_count, set_attempts_tx_count]

theorem wrong_tag_is_refused_without_retry_witness :
    (example_header.wf ∧ Cmd.get_role.accepted example_header ∧ Cmd.get_role.tag ≠ []
      ∧ sim.drain example_header.HM10_CLONE_CUSTOM_HAL_TIMEOUT 1
          (Driver.init role_link_0).huart = some role_link_0
      ∧ sim.HAL_UART_Transmit role_link_0 Cmd.get_role.request
          example_header.HM10_CLONE_CUSTOM_HAL_TIMEOUT = (HAL_StatusTypeDef.HAL_OK, role_link_1)
      ∧ sim.HAL_UART_Receive role_link_1 Cmd.get_role.first_size
          example_header.HM10_CLONE_CUSTOM_HAL_TIMEOUT
          = (HAL_StatusTypeDef.HAL_OK, [43, 82, 79, 76, 70, 61, 48, 13, 10], ⟨[], []⟩)
      ∧ [43, 82, 79, 76, 70, 61, 48, 13, 10].length = Cmd.get_role.first_size
      ∧ [43, 82, 79, 76, 70, 61, 48, 13, 10].take Cmd.get_role.tag.length ≠ Cmd.get_role.tag)
    ∧ (Cmd.get_role.run sim example_header 2 (Driver.init role_link_0)).1
        = some example_header.HM10_Clone_EC_ERR
      ∧ (Cmd.get_role.run sim example_header 2 (Driver.init role_link_0)).2.resp_attempts = 0
      ∧ attempts_log (Cmd.get_role.run sim example_header 2 (Driver.init role_link_0)).2.trace
        = attempts_log (Driver.init role_link_0).trace ++ [0]
      ∧ tx_count (Cmd.get_role.run sim example_header 2 (Driver.init role_link_0)).2.trace
        = tx_count (Driver.init role_link_0).trace + 1
      ∧ (Cmd.get_role.run sim example_header 2 (Driver.init role_link_0)).2.huart = ⟨[], []⟩ :=
  ⟨⟨by decide, by simp [Cmd.accepted], by decide, by decide, by decide, by decide, by decide,
      by decide⟩,
    wrong_tag_is_refused_without_retry sim example_header (by decide) Cmd.get_role
      (by simp [Cmd.accepted]) (by decide) 1 (Driver.init role_link_0) role_link_0 role_link_1 ⟨[], []⟩
      [43, 82, 79, 76, 70, 61, 48, 13, 10]
      (by decide) (by decide) (by decide) (by decide) (by decide)⟩

/-! ## C5: the retry counter and the number of transmits -/

theorem retries_of_ran {again : Driver σ → Option Nat × Driver σ} {k : Nat} {d r : Driver σ}
    (h : Ran k d r) : Retries again k d r := Or.inl h

theorem retries_pre {again : Driver σ → Option Nat × Driver σ} {j k : Nat} {d d1 r : Driver σ}
    (h1 : Ran j d d1) (h2 : Retries again k d1 r) : Retries again (j + k) d r := by
  rcases h2 with h2 | ⟨d2, h2, h3, h4, h5⟩
  · exact Or.inl (ran_trans h1 h2)
  · exact Or.inr ⟨d2, ran_trans h1 h2, h3, h4, h5⟩

/-- The retry block `if (resp_attempts == 0) { resp_attempts++; ret = again(); } return ret;`. -/
theorem retries_block (again : Driver σ → Option Nat × Driver σ) (ret : Nat) (d : Driver σ) :
    Retries again 0 d
      (if d.resp_attempts = 0 then again (d.set_attempts (d.resp_attempts + 1))
        else (some ret, d)).2 := by
  split_ifs with h
  · exact Or.inr ⟨d, ran_refl d, h, rfl, rfl⟩
  · exact Or.inl (ran_refl d)

/-- The byte-by-byte name read makes no transmit and retries at most through `again`. -/
theorem get_name_loop_retries (u : UART σ) (hd : Header)
    (again : Driver σ → Option Nat × Driver σ) (n : Nat) (fuel : Nat) :
    ∀ (bp : Nat) (d : Driver σ), Retries again 0 d (get_name_loop u hd again n fuel bp d).2 := by
  induction fuel with
  | zero => intro bp d; exact Or.inl (ran_refl d)
  | succ fuel ih =>
    intro bp d
    have r1 : Ran 0 d { (d.Receive u bp 1 hd.HM10_CLONE_CUSTOM_HAL_TIMEOUT).2 with
        size := ((d.Receive u bp 1 hd.HM10_CLONE_CUSTOM_HAL_TIMEOUT).2.size + 1) % 256 } :=
      ran_congr (ran_Receive u d bp 1 _) rfl rfl
    rw [get_name_loop]
    simp only
    split_ifs with h1 h2 h3 h4 h5
    · refine Or.inr ⟨_, r1, h2, ?_, ?_⟩
      · split <;> rfl
      · split <;> rfl
    · exact Or.inl (ran_congr r1 rfl rfl)
    · exact Or.inl (ran_congr r1 rfl rfl)
    · exact Or.inr ⟨_, r1, h5, rfl, rfl⟩
    · exact Or.inl r1
    · simpa using retries_pre r1 (ih _ _)

/-- The final part of every command makes no transmit and retries at most through `again`. -/
theorem tail_retries (u : UART σ) (hd : Header) (c : Cmd)
    (again : Driver σ → Option Nat × Driver σ) (fuel : Nat) (d : Driver σ) :
    Retries again 0 d ((c.shape u hd).tail again fuel d).2 := by
  cases c
  case get_name =>
    have r1 : Ran 0 d { d with size := 0 } := ran_congr (ran_refl d) rfl rfl
    simpa using retries_pre r1 (get_name_loop_retries u hd again 6 fuel 8 _)
  all_goals exact Or.inl (ran_congr (ran_refl d) rfl rfl)

/-- The receive steps make no transmit and retry at most through `again`. -/
theorem steps_retries (u : UART σ) (hd : Header)
    (again tail : Driver σ → Option Nat × Driver σ)
    (htail : ∀ d, Retries again 0 d (tail d).2)
    (steps : List (Nat × (Driver σ → Bool))) :
    ∀ d, Retries again 0 d (exchange_steps u hd again tail steps d).2 := by
  induction steps with
  | nil => intro d; exact htail d
  | cons st rest ih =>
    intro d
    obtain ⟨n, bad⟩ := st
    have r1 := ran_Receive u d 0 n hd.HM10_CLONE_CUSTOM_HAL_TIMEOUT
    rw [exchange_steps]
    split_ifs with h1 h2 h3
    · exact Or.inr ⟨_, r1, h2, rfl, rfl⟩
    · exact Or.inl r1
    · exact Or.inl r1
    · simpa using retries_pre r1 (ih _)

/-- One attempt of a command makes at most one transmit and retries at most through the
recursive call. -/
theorem send_retries (u : UART σ) (hd : Header) (c : Cmd) (fuel : Nat) (d : Driver σ) :
    ∃ k ≤ 1, Retries (c.send u hd fuel) k d (c.send u hd (fuel + 1) d).2 := by
  have hfun : c.send u hd fuel = exchange u hd (c.shape u hd) fuel :=
    funext (Cmd.send_eq_exchange u hd c fuel)
  rw [Cmd.send_eq_exchange, hfun, exchange]
  have r0 := flush_ran u hd fuel d
  have hp := populate_same u hd c (HAL_uart_rx_flush u hd fuel d).2
  have r1 : Ran 0 d ((c.shape u hd).populate (HAL_uart_rx_flush u hd fuel d).2).2 :=
    ran_congr r0 (by rw [hp]) (by rw [hp])
  have r2 := ran_trans r1 (ran_Transmit u ((c.shape u hd).populate
    (HAL_uart_rx_flush u hd fuel d).2).2 ((c.shape u hd).populate
    (HAL_uart_rx_flush u hd fuel d).2).1 hd.HM10_CLONE_CUSTOM_HAL_TIMEOUT)
  simp only
  split_ifs with h1 h2 h3 h4
  · exact ⟨0, by omega, Or.inl r0⟩
  · exact ⟨0, by omega, Or.inl r0⟩
  · exact ⟨1, by omega, Or.inr ⟨_, by simpa using r2, h4, rfl, rfl⟩⟩
  · exact ⟨1, by omega, Or.inl (by simpa using r2)⟩
  · refine ⟨1, by omega, ?_⟩
    simpa using retries_pre r2 (steps_retries u hd _ _
      (tail_retries u hd c _ fuel) (c.shape u hd).steps _)

/-- With a retry counter other than 0 a command makes at most one transmit and does not
touch the counter. -/
theorem send_spent (u : UART σ) (hd : Header) (c : Cmd) (fuel : Nat) (d : Driver σ)
    (hd0 : d.resp_attempts ≠ 0) : ∃ k ≤ 1, Ran k d (c.send u hd fuel d).2 := by
  cases fuel with
  | zero =>
    refine ⟨0, by omega, ?_⟩
    rw [Cmd.send_eq_exchange]
    exact ran_refl d
  | succ fuel =>
    obtain ⟨k, hk, h | ⟨d1, h1, h2, -, -⟩⟩ := send_retries u hd c fuel d
    · exact ⟨k, hk, h⟩
    · exact absurd (h1.resp_attempts ▸ h2) hd0

/-! ## Facts about lists -/

theorem range_map_getD (n : List Nat) :
    (List.range n.length).map (fun i => n.getD i 0) = n := by
  apply List.ext_getElem
  · simp
  · intro i h1 h2
    simp [List.getD_eq_getElem?_getD, List.getElem?_eq_getElem h2]

theorem flatten_singles (l : List Nat) : (l.map fun b => [b]).flatten = l := by
  induction l with
  | nil => rfl
  | cons a l ih => simp [ih]

/-! ## C11: the flush on pending input -/

/-- C11: for every `n` and every `n` bytes: on a link whose next `n` one-byte receives
succeed delivering those bytes and whose following receive times out, `HAL_uart_rx_flush`
returns (with any fuel above `n`), having made exactly those `n + 1` one-byte receive calls
and no transmit, and leaves the link in the state that follows the timed-out receive, in
which the `n` bytes have been consumed. -/
theorem HAL_uart_rx_flush_consumes_pending (u : UART σ) (hd : Header) (bytes : List Nat)
    (d : Driver σ) (s1 s2 : σ) (last : List Nat) (k : Nat)
    (hrx : u.receives hd.HM10_CLONE_CUSTOM_HAL_TIMEOUT (bytes.map fun b => [b]) d.huart
      = some s1)
    (hto : u.HAL_UART_Receive s1 1 hd.HM10_CLONE_CUSTOM_HAL_TIMEOUT
      = (HAL_StatusTypeDef.HAL_TIMEOUT, last, s2)) :
    (HAL_uart_rx_flush u hd (bytes.length + 1 + k) d).1 = true
      ∧ (HAL_uart_rx_flush u hd (bytes.length + 1 + k) d).2.huart = s2
      ∧ (HAL_uart_rx_flush u hd (bytes.length + 1 + k) d).2.trace
        = d.trace
          ++ bytes.map (fun b =>
              Event.rx 1 hd.HM10_CLONE_CUSTOM_HAL_TIMEOUT HAL_StatusTypeDef.HAL_OK [b])
          ++ [Event.rx 1 hd.HM10_CLONE_CUSTOM_HAL_TIMEOUT HAL_StatusTypeDef.HAL_TIMEOUT last]
      ∧ tx_count (HAL_uart_rx_flush u hd (bytes.length + 1 + k) d).2.trace
        = tx_count d.trace := by
  refine ⟨?_, ?_, ?_, (flush_ran u hd _ d).tx_count⟩
  all_goals
    induction bytes generalizing d with
    | nil =>
      obtain rfl := receives_nil _ _ _ _ hrx
      rw [show ([] : List Nat).length + 1 + k = k + 1 by simp; omega, HAL_uart_rx_flush]
      simp [Driver.Receive, hto]
    | cons b bs ih =>
      obtain ⟨s, h0, h2⟩ := receives_cons _ _ _ _ _ _ hrx
      have h1 : u.HAL_UART_Receive d.huart 1 hd.HM10_CLONE_CUSTOM_HAL_TIMEOUT
          = (HAL_StatusTypeDef.HAL_OK, [b], s) := h0
      rw [show (b :: bs).length + 1 + k = (bs.length + 1 + k) + 1 by simp; omega,
        HAL_uart_rx_flush]
      have h3 : (d.Receive u 0 1 hd.HM10_CLONE_CUSTOM_HAL_TIMEOUT).1
          = HAL_StatusTypeDef.HAL_OK := by simp [Driver.Receive, h1]
      have h4 : (d.Receive u 0 1 hd.HM10_CLONE_CUSTOM_HAL_TIMEOUT).2.huart = s := by
        simp [Driver.Receive, h1]
      simp only [h3, ne_eq, reduceCtorEq, not_false_eq_true, if_true]
      rw [ih _ (by rw [h4]; exact h2)]
      try simp [Driver.Receive, h1]

theorem HAL_uart_rx_flush_consumes_pending_witness :
    (sim.receives example_header.HM10_CLONE_CUSTOM_HAL_TIMEOUT ([7, 8, 9].map fun b => [b])
        (Driver.init (⟨[7, 8, 9], []⟩ : Sim)).huart = some ⟨[], []⟩
      ∧ sim.HAL_UART_Receive ⟨[], []⟩ 1 example_header.HM10_CLONE_CUSTOM_HAL_TIMEOUT
        = (HAL_StatusTypeDef.HAL_TIMEOUT, [], ⟨[], []⟩))
    ∧ (HAL_uart_rx_flush sim example_header ([7, 8, 9].length + 1 + 0)
        (Driver.init (⟨[7, 8, 9], []⟩ : Sim))).1 = true
      ∧ (HAL_uart_rx_flush sim example_header ([7, 8, 9].length + 1 + 0)
        (Driver.init (⟨[7, 8, 9], []⟩ : Sim))).2.huart = ⟨[], []⟩
      ∧ (HAL_uart_rx_flush sim example_header ([7, 8, 9].length + 1 + 0)
        (Driver.init (⟨[7, 8, 9], []⟩ : Sim))).2.trace
        = (Driver.init (⟨[7, 8, 9], []⟩ : Sim)).trace
          ++ [7, 8, 9].map (fun b =>
              Event.rx 1 example_header.HM10_CLONE_CUSTOM_HAL_TIMEOUT HAL_StatusTypeDef.HAL_OK [b])
          ++ [Event.rx 1 example_header.HM10_CLONE_CUSTOM_HAL_TIMEOUT
                HAL_StatusTypeDef.HAL_TIMEOUT []]
      ∧ tx_count (HAL_uart_rx_flush sim example_header ([7, 8, 9].length + 1 + 0)
        (Driver.init (⟨[7, 8, 9], []⟩ : Sim))).2.trace
        = tx_count (Driver.init (⟨[7, 8, 9], []⟩ : Sim)).trace :=
  ⟨⟨by decide, by decide⟩,
    HAL_uart_rx_flush_consumes_pending sim example_header [7, 8, 9]
      (Driver.init ⟨[7, 8, 9], []⟩) ⟨[], []⟩ ⟨[], []⟩ [] 0 (by decide) (by decide)⟩

/-! ## C12, C13: what the getters accept -/

/-- The two getters of a one-byte value: on a first response `b` of 9 bytes they return
`HM10_Clone_EC_OK` exactly when `b` is the tag, a known value byte and `\r\n`, storing that
byte, and `HM10_Clone_EC_ERR` for every other `b`. -/
theorem byte_getter_decode (u : UART σ) (hd : Header) (hw : hd.wf) (c : Cmd)
    (hc : c = Cmd.get_role ∨ c = Cmd.get_pin_code_mode) (fuel : Nat) (d : Driver σ)
    (s1 s2 s3 : σ) (b : List Nat)
    (hflush : u.drain hd.HM10_CLONE_CUSTOM_HAL_TIMEOUT fuel d.huart = some s1)
    (htx : u.HAL_UART_Transmit s1 c.request hd.HM10_CLONE_CUSTOM_HAL_TIMEOUT
      = (HAL_StatusTypeDef.HAL_OK, s2))
    (hrx : u.HAL_UART_Receive s2 9 hd.HM10_CLONE_CUSTOM_HAL_TIMEOUT
      = (HAL_StatusTypeDef.HAL_OK, b, s3))
    (hb : b.length = 9) :
    ((c.run u hd (fuel + 1) d).1 = some hd.HM10_Clone_EC_OK
        ↔ ∃ v, c.value_ok hd [v] ∧ b = c.tag ++ [v, 13, 10])
      ∧ (∀ v, b = c.tag ++ [v, 13, 10] → (c.run u hd (fuel + 1) d).1 = some hd.HM10_Clone_EC_OK →
          c.delivered [v] d (c.run u hd (fuel + 1) d).2)
      ∧ ((¬ ∃ v, c.value_ok hd [v] ∧ b = c.tag ++ [v, 13, 10]) →
          (c.run u hd (fuel + 1) d).1 = some hd.HM10_Clone_EC_ERR) := by
  have hne : hd.HM10_Clone_EC_ERR ≠ hd.HM10_Clone_EC_OK := by
    rw [hw.1.1]; exact hw.1.2.2
  have hacc : c.accepted hd := by rcases hc with rfl | rfl <;> trivial
  obtain ⟨d2, h1, -, -, h4⟩ := send_tx_ok u hd hw c hacc fuel (d.set_attempts 0) s1 s2 hflush htx
  rw [← h1] at hrx
  have R := Receive_eq u d2 0 9 hd.HM10_CLONE_CUSTOM_HAL_TIMEOUT _ _ s3 hrx hb
  rw [send_eq_run, h4]
  match b, hb with
  | [b0, b1, b2, b3, b4, b5, b6, b7, b8], _ =>
    have hbuf : ∀ k < 9, (d2.Receive u 0 9 hd.HM10_CLONE_CUSTOM_HAL_TIMEOUT).2.TxRx_Buffer k
        = [b0, b1, b2, b3, b4, b5, b6, b7, b8].getD k 0 := by
      intro k hk
      rw [R.2.2, if_pos ⟨Nat.zero_le _, by omega⟩, Nat.sub_zero]
    have q0 := hbuf 0 (by omega)
    have q1 := hbuf 1 (by omega)
    have q2 := hbuf 2 (by omega)
    have q3 := hbuf 3 (by omega)
    have q4 := hbuf 4 (by omega)
    have q5 := hbuf 5 (by omega)
    have q6 := hbuf 6 (by omega)
    have q7 := hbuf 7 (by omega)
    have q8 := hbuf 8 (by omega)
    simp only [List.getD_cons_zero, List.getD_cons_succ] at q0 q1 q2 q3 q4 q5 q6 q7 q8
    rcases hc with rfl | rfl
    · by_cases hg : (b0 = 43 ∧ b1 = 82 ∧ b2 = 79 ∧ b3 = 76 ∧ b4 = 69 ∧ b5 = 61)
          ∧ (b6 = hd.HM10_Clone_Role_Peripheral ∨ b6 = hd.HM10_Clone_Role_Central)
          ∧ b7 = 13 ∧ b8 = 10
      · obtain ⟨⟨rfl, rfl, rfl, rfl, rfl, rfl⟩, hv, rfl, rfl⟩ := hg
        have e := steps_cons_ok u hd (exchange u hd (Cmd.get_role.shape u hd) fuel)
          ((Cmd.get_role.shape u hd).tail (exchange u hd (Cmd.get_role.shape u hd) fuel) fuel)
          9 (fun d => d.differs HM10_Clone_Role_resp 6
            || decide (¬ (d.TxRx_Buffer 6 = hd.HM10_Clone_Role_Peripheral
                ∨ d.TxRx_Buffer 6 = hd.HM10_Clone_Role_Central))
            || decide (d.TxRx_Buffer 7 ≠ 13 ∨ d.TxRx_Buffer 8 ≠ 10)) [] d2 R.1
          (by simp [Driver.differs, List.range_succ, q0, q1, q2, q3, q4, q5, q6, q7, q8,
                HM10_Clone_Role_resp, hv])
        have e' : exchange_steps u hd (exchange u hd (Cmd.get_role.shape u hd) fuel)
            ((Cmd.get_role.shape u hd).tail (exchange u hd (Cmd.get_role.shape u hd) fuel) fuel)
            (Cmd.get_role.shape u hd).steps d2
            = (some hd.HM10_Clone_EC_OK,
                { (d2.Receive u 0 9 hd.HM10_CLONE_CUSTOM_HAL_TIMEOUT).2 with
                  ble_role := (d2.Receive u 0 9 hd.HM10_CLONE_CUSTOM_HAL_TIMEOUT).2.TxRx_Buffer 6 }) :=
          e
        rw [e']
        refine ⟨⟨fun _ => ⟨b6, ⟨b6, rfl, hv⟩, rfl⟩, fun _ => rfl⟩, ?_, ?_⟩
        · intro v hv' _
          have : b6 = v := by simpa [Cmd.tag, HM10_Clone_Role_resp] using hv'
          subst this
          show (d2.Receive u 0 9 hd.HM10_CLONE_CUSTOM_HAL_TIMEOUT).2.TxRx_Buffer 6 = _
          rw [q6]; rfl
        · intro hn
          exact absurd ⟨b6, ⟨b6, rfl, hv⟩, rfl⟩ hn
      · have e := steps_cons_bad u hd (exchange u hd (Cmd.get_role.shape u hd) fuel)
          ((Cmd.get_role.shape u hd).tail (exchange u hd (Cmd.get_role.shape u hd) fuel) fuel)
          9 (fun d => d.differs HM10_Clone_Role_resp 6
            || decide (¬ (d.TxRx_Buffer 6 = hd.HM10_Clone_Role_Peripheral
                ∨ d.TxRx_Buffer 6 = hd.HM10_Clone_Role_Central))
            || decide (d.TxRx_Buffer 7 ≠ 13 ∨ d.TxRx_Buffer 8 ≠ 10)) [] d2 R.1
          (by
            by_contra hcon
            apply hg
            simp [Driver.differs, List.range_succ, q0, q1, q2, q3, q4, q5, q6, q7, q8,
                HM10_Clone_Role_resp] at hcon
            tauto)
        have e' : exchange_steps u hd (exchange u hd (Cmd.get_role.shape u hd) fuel)
            ((Cmd.get_role.shape u hd).tail (exchange u hd (Cmd.get_role.shape u hd) fuel) fuel)
            (Cmd.get_role.shape u hd).steps d2
            = (some hd.HM10_Clone_EC_ERR, (d2.Receive u 0 9 hd.HM10_CLONE_CUSTOM_HAL_TIMEOUT).2) :=
          e
        rw [e']
        have hno : ¬ ∃ v, Cmd.get_role.value_ok hd [v]
            ∧ [b0, b1, b2, b3, b4, b5, b6, b7, b8] = Cmd.get_role.tag ++ [v, 13, 10] := by
          rintro ⟨v, ⟨r, hr1, hr2⟩, hv2⟩
          apply hg
          simp only [Cmd.tag, HM10_Clone_Role_resp, List.cons_append, List.nil_append,
            List.cons.injEq, and_true] at hv2 hr1
          obtain ⟨rfl, rfl, rfl, rfl, rfl, rfl, rfl, rfl, rfl⟩ := hv2
          subst hr1
          exact ⟨⟨rfl, rfl, rfl, rfl, rfl, rfl⟩, hr2, rfl, rfl⟩
        refine ⟨⟨fun h => absurd (Option.some.inj h) hne, fun h => absurd h hno⟩, ?_, fun _ => rfl⟩
        intro v _ h
        exact absurd (Option.some.inj h) hne
    · by_cases hg : (b0 = 43 ∧ b1 = 84 ∧ b2 = 89 ∧ b3 = 80 ∧ b4 = 69 ∧ b5 = 61)
          ∧ (b6 = hd.HM10_Clone_Pin_Code_DISABLED ∨ b6 = hd.HM10_Clone_Pin_Code_ENABLED)
          ∧ b7 = 13 ∧ b8 = 10
      · obtain ⟨⟨rfl, rfl, rfl, rfl, rfl, rfl⟩, hv, rfl, rfl⟩ := hg
        have e := steps_cons_ok u hd (exchange u hd (Cmd.get_pin_code_mode.shape u hd) fuel)
          ((Cmd.get_pin_code_mode.shape u hd).tail (exchange u hd (Cmd.get_pin_code_mode.shape u hd) fuel) fuel)
          9 (fun d => d.differs HM10_Clone_Type_resp 6
            || decide (¬ (d.TxRx_Buffer 6 = hd.HM10_Clone_Pin_Code_DISABLED
                ∨ d.TxRx_Buffer 6 = hd.HM10_Clone_Pin_Code_ENABLED))
            || decide (d.TxRx_Buffer 7 ≠ 13 ∨ d.TxRx_Buffer 8 ≠ 10)) [] d2 R.1
          (by simp [Driver.differs, List.range_succ, q0, q1, q2, q3, q4, q5, q6, q7, q8,
                HM10_Clone_Type_resp, hv])
        have e' : exchange_steps u hd (exchange u hd (Cmd.get_pin_code_mode.shape u hd) fuel)
            ((Cmd.get_pin_code_mode.shape u hd).tail (exchange u hd (Cmd.get_pin_code_mode.shape u hd) fuel) fuel)
            (Cmd.get_pin_code_mode.shape u hd).steps d2
            = (some hd.HM10_Clone_EC_OK,
                { (d2.Receive u 0 9 hd.HM10_CLONE_CUSTOM_HAL_TIMEOUT).2 with
                  pin_code_mode := (d2.Receive u 0 9 hd.HM10_CLONE_CUSTOM_HAL_TIMEOUT).2.TxRx_Buffer 6 }) :=
          e
        rw [e']
        refine ⟨⟨fun _ => ⟨b6, ⟨b6, rfl, hv⟩, rfl⟩, fun _ => rfl⟩, ?_, ?_⟩
        · intro v hv' _
          have : b6 = v := by simpa [Cmd.tag, HM10_Clone_Type_resp] using hv'
          subst this
          show (d2.Receive u 0 9 hd.HM10_CLONE_CUSTOM_HAL_TIMEOUT).2.TxRx_Buffer 6 = _
          rw [q6]; rfl
        · intro hn
          exact absurd ⟨b6, ⟨b6, rfl, hv⟩, rfl⟩ hn
      · have e := steps_cons_bad u hd (exchange u hd (Cmd.get_pin_code_mode.shape u hd) fuel)
          ((Cmd.get_pin_code_mode.shape u hd).tail (exchange u hd (Cmd.get_pin_code_mode.shape u hd) fuel) fuel)
          9 (fun d => d.differs HM10_Clone_Type_resp 6
            || decide (¬ (d.TxRx_Buffer 6 = hd.HM10_Clone_Pin_Code_DISABLED
                ∨ d.TxRx_Buffer 6 = hd.HM10_Clone_Pin_Code_ENABLED))
            || decide (d.TxRx_Buffer 7 ≠ 13 ∨ d.TxRx_Buffer 8 ≠ 10)) [] d2 R.1
          (by
            by_contra hcon
            apply hg
            simp [Driver.differs, List.range_succ, q0, q1, q2, q3, q4, q5, q6, q7, q8,
                HM10_Clone_Type_resp] at hcon
            tauto)
        have e' : exchange_steps u hd (exchange u hd (Cmd.get_pin_code_mode.shape u hd) fuel)
            ((Cmd.get_pin_code_mode.shape u hd).tail (exchange u hd (Cmd.get_pin_code_mode.shape u hd) fuel) fuel)
            (Cmd.get_pin_code_mode.shape u hd).steps d2
            = (some hd.HM10_Clone_EC_ERR, (d2.Receive u 0 9 hd.HM10_CLONE_CUSTOM_HAL_TIMEOUT).2) :=
          e
        rw [e']
        have hno : ¬ ∃ v, Cmd.get_pin_code_mode.value_ok hd [v]
            ∧ [b0, b1, b2, b3, b4, b5, b6, b7, b8] = Cmd.get_pin_code_mode.tag ++ [v, 13, 10] := by
          rintro ⟨v, ⟨r, hr1, hr2⟩, hv2⟩
          apply hg
          simp only [Cmd.tag, HM10_Clone_Type_resp, List.cons_append, List.nil_append,
            List.cons.injEq, and_true] at hv2 hr1
          obtain ⟨rfl, rfl, rfl, rfl, rfl, rfl, rfl, rfl, rfl⟩ := hv2
          subst hr1
          exact ⟨⟨rfl, rfl, rfl, rfl, rfl, rfl⟩, hr2, rfl, rfl⟩
        refine ⟨⟨fun h => absurd (Option.some.inj h) hne, fun h => absurd h hno⟩, ?_, fun _ => rfl⟩
        intro v _ h
        exact absurd (Option.some.inj h) hne

/-! ## C12: decoding of the role and of the pin code mode -/

/-- C12: for `get_hm10clone_role` and, separately, for `get_hm10clone_pin_code_mode`: when
the flush has ended, the transmit of the request of that getter succeeds and its 9-byte
receive succeeds delivering the bytes `b`, the getter returns `HM10_Clone_EC_OK` exactly
when `b` is the tag (`+ROLE=`, `+TYPE=`), one byte that is a value of the enumeration, and
`\r\n`; the output then is that byte; for every other `b` it returns `HM10_Clone_EC_ERR`. -/
theorem get_role_and_mode_decode (u : UART σ) (hd : Header) (hw : hd.wf) :
    (∀ (fuel : Nat) (d : Driver σ) (s1 s2 s3 : σ) (b : List Nat),
      u.drain hd.HM10_CLONE_CUSTOM_HAL_TIMEOUT fuel d.huart = some s1 →
      u.HAL_UART_Transmit s1 [65, 84, 43, 82, 79, 76, 69, 13, 10]
        hd.HM10_CLONE_CUSTOM_HAL_TIMEOUT = (HAL_StatusTypeDef.HAL_OK, s2) →
      u.HAL_UART_Receive s2 9 hd.HM10_CLONE_CUSTOM_HAL_TIMEOUT
        = (HAL_StatusTypeDef.HAL_OK, b, s3) →
      b.length = 9 →
      ((get_hm10clone_role u hd (fuel + 1) d).1 = some hd.HM10_Clone_EC_OK
          ↔ ∃ v, (v = hd.HM10_Clone_Role_Peripheral ∨ v = hd.HM10_Clone_Role_Central)
              ∧ b = [43, 82, 79, 76, 69, 61] ++ [v, 13, 10])
        ∧ (∀ v, b = [43, 82, 79, 76, 69, 61] ++ [v, 13, 10] →
            (get_hm10clone_role u hd (fuel + 1) d).1 = some hd.HM10_Clone_EC_OK →
            (get_hm10clone_role u hd (fuel + 1) d).2.ble_role = v)
        ∧ ((¬ ∃ v, (v = hd.HM10_Clone_Role_Peripheral ∨ v = hd.HM10_Clone_Role_Central)
              ∧ b = [43, 82, 79, 76, 69, 61] ++ [v, 13, 10]) →
            (get_hm10clone_role u hd (fuel + 1) d).1 = some hd.HM10_Clone_EC_ERR))
    ∧ (∀ (fuel : Nat) (d : Driver σ) (s1 s2 s3 : σ) (b : List Nat),
      u.drain hd.HM10_CLONE_CUSTOM_HAL_TIMEOUT fuel d.huart = some s1 →
      u.HAL_UART_Transmit s1 [65, 84, 43, 84, 89, 80, 69, 13, 10]
        hd.HM10_CLONE_CUSTOM_HAL_TIMEOUT = (HAL_StatusTypeDef.HAL_OK, s2) →
      u.HAL_UART_Receive s2 9 hd.HM10_CLONE_CUSTOM_HAL_TIMEOUT
        = (HAL_StatusTypeDef.HAL_OK, b, s3) →
      b.length = 9 →
      ((get_hm10clone_pin_code_mode u hd (fuel + 1) d).1 = some hd.HM10_Clone_EC_OK
          ↔ ∃ v, (v = hd.HM10_Clone_Pin_Code_DISABLED ∨ v = hd.HM10_Clone_Pin_Code_ENABLED)
              ∧ b = [43, 84, 89, 80, 69, 61] ++ [v, 13, 10])
        ∧ (∀ v, b = [43, 84, 89, 80, 69, 61] ++ [v, 13, 10] →
            (get_hm10clone_pin_code_mode u hd (fuel + 1) d).1 = some hd.HM10_Clone_EC_OK →
            (get_hm10clone_pin_code_mode u hd (fuel + 1) d).2.pin_code_mode = v)
        ∧ ((¬ ∃ v, (v = hd.HM10_Clone_Pin_Code_DISABLED ∨ v = hd.HM10_Clone_Pin_Code_ENABLED)
              ∧ b = [43, 84, 89, 80, 69, 61] ++ [v, 13, 10]) →
            (get_hm10clone_pin_code_mode u hd (fuel + 1) d).1
              = some hd.HM10_Clone_EC_ERR)) := by
  constructor
  · intro fuel d s1 s2 s3 b hflush htx hrx hb
    have hr := byte_getter_decode u hd hw Cmd.get_role (Or.inl rfl) fuel d s1 s2 s3 b hflush
      htx hrx hb
    simp only [Cmd.value_ok, List.cons.injEq, and_true, exists_eq_left', Cmd.tag,
      HM10_Clone_Role_resp, Cmd.delivered, List.getD_cons_zero] at hr
    exact hr
  · intro fuel d s1 s2 s3 b hflush htx hrx hb
    have ht := byte_getter_decode u hd hw Cmd.get_pin_code_mode (Or.inr rfl) fuel d s1 s2 s3 b
      hflush htx hrx hb
    simp only [Cmd.value_ok, List.cons.injEq, and_true, exists_eq_left', Cmd.tag,
      HM10_Clone_Type_resp, Cmd.delivered, List.getD_cons_zero] at ht
    exact ht

theorem get_role_and_mode_decode_witness :
    (example_header.wf
      ∧ sim.drain example_header.HM10_CLONE_CUSTOM_HAL_TIMEOUT 1
          (Driver.init role_ok_link_0).huart = some role_ok_link_0
      ∧ sim.HAL_UART_Transmit role_ok_link_0 [65, 84, 43, 82, 79, 76, 69, 13, 10]
          example_header.HM10_CLONE_CUSTOM_HAL_TIMEOUT
        = (HAL_StatusTypeDef.HAL_OK, role_ok_link_1)
      ∧ sim.HAL_UART_Receive role_ok_link_1 9 example_header.HM10_CLONE_CUSTOM_HAL_TIMEOUT
        = (HAL_StatusTypeDef.HAL_OK, [43, 82, 79, 76, 69, 61, 48, 13, 10], ⟨[], []⟩)
      ∧ [43, 82, 79, 76, 69, 61, 48, 13, 10].length = 9
      ∧ sim.drain example_header.HM10_CLONE_CUSTOM_HAL_TIMEOUT 1
          (Driver.init mode_link_0).huart = some mode_link_0
      ∧ sim.HAL_UART_Transmit mode_link_0 [65, 84, 43, 84, 89, 80, 69, 13, 10]
          example_header.HM10_CLONE_CUSTOM_HAL_TIMEOUT
        = (HAL_StatusTypeDef.HAL_OK, mode_link_1)
      ∧ sim.HAL_UART_Receive mode_link_1 9 example_header.HM10_CLONE_CUSTOM_HAL_TIMEOUT
        = (HAL_StatusTypeDef.HAL_OK, [43, 84, 89, 80, 69, 61, 48, 13, 10], ⟨[], []⟩)
      ∧ [43, 84, 89, 80, 69, 61, 48, 13, 10].length = 9
      ∧ sim.drain example_header.HM10_CLONE_CUSTOM_HAL_TIMEOUT 1
          (Driver.init role_link_0).huart = some role_link_0
      ∧ sim.HAL_UART_Transmit role_link_0 [65, 84, 43, 82, 79, 76, 69, 13, 10]
          example_header.HM10_CLONE_CUSTOM_HAL_TIMEOUT
        = (HAL_StatusTypeDef.HAL_OK, role_link_1)
      ∧ sim.HAL_UART_Receive role_link_1 9 example_header.HM10_CLONE_CUSTOM_HAL_TIMEOUT
        = (HAL_StatusTypeDef.HAL_OK, [43, 82, 79, 76, 70, 61, 48, 13, 10], ⟨[], []⟩)
      ∧ [43, 82, 79, 76, 70, 61, 48, 13, 10].length = 9
      ∧ sim.HAL_UART_Transmit role_ok_link_0 [65, 84, 43, 84, 89, 80, 69, 13, 10]
          example_header.HM10_CLONE_CUSTOM_HAL_TIMEOUT
        = (HAL_StatusTypeDef.HAL_OK, role_ok_link_1))
    ∧ ((get_hm10clone_role sim example_header (1 + 1) (Driver.init role_ok_link_0)).1
          = some example_header.HM10_Clone_EC_OK
        ∧ (get_hm10clone_role sim example_header (1 + 1)
            (Driver.init role_ok_link_0)).2.ble_role = 48)
    ∧ ((get_hm10clone_pin_code_mode sim example_header (1 + 1) (Driver.init mode_link_0)).1
          = some example_header.HM10_Clone_EC_OK
        ∧ (get_hm10clone_pin_code_mode sim example_header (1 + 1)
            (Driver.init mode_link_0)).2.pin_code_mode = 48)
    ∧ (get_hm10clone_role sim example_header (1 + 1) (Driver.init role_link_0)).1
        = some example_header.HM10_Clone_EC_ERR
    ∧ (get_hm10clone_pin_code_mode sim example_header (1 + 1) (Driver.init role_ok_link_0)).1
        = some example_header.HM10_Clone_EC_ERR :=
  have hrole := (get_role_and_mode_decode sim example_header (by decide)).1 1
    (Driver.init role_ok_link_0) role_ok_link_0 role_ok_link_1 ⟨[], []⟩
    [43, 82, 79, 76, 69, 61, 48, 13, 10] (by decide) (by decide) (by decide) (by decide)
  have hmode := (get_role_and_mode_decode sim example_header (by decide)).2 1
    (Driver.init mode_link_0) mode_link_0 mode_link_1 ⟨[], []⟩
    [43, 84, 89, 80, 69, 61, 48, 13, 10] (by decide) (by decide) (by decide) (by decide)
  have hrole2 := (get_role_and_mode_decode sim example_header (by decide)).1 1
    (Driver.init role_link_0) role_link_0 role_link_1 ⟨[], []⟩
    [43, 82, 79, 76, 70, 61, 48, 13, 10] (by decide) (by decide) (by decide) (by decide)
  have hmode2 := (get_role_and_mode_decode sim example_header (by decide)).2 1
    (Driver.init role_ok_link_0) role_ok_link_0 role_ok_link_1 ⟨[], []⟩
    [43, 82, 79, 76, 69, 61, 48, 13, 10] (by decide) (by decide) (by decide) (by decide)
  have ok1 := hrole.1.2 ⟨48, by decide, by decide⟩
  have ok2 := hmode.1.2 ⟨48, by decide, by decide⟩
  ⟨⟨by decide, by decide, by decide, by decide, by decide, by decide, by decide, by decide,
      by decide, by decide, by decide, by decide, by decide, by decide⟩,
    ⟨ok1, hrole.2.1 48 (by decide) ok1⟩,
    ⟨ok2, hmode.2.1 48 (by decide) ok2⟩,
    hrole2.2.2 (by simp),
    hmode2.2.2 (by simp)⟩

theorem mem_Numbers_in_ASCII (x : Nat) : x ∈ Numbers_in_ASCII ↔ 48 ≤ x ∧ x ≤ 57 := by
  simp only [Numbers_in_ASCII, List.mem_cons, List.mem_singleton, List.not_mem_nil, or_false]
  omega

/-! ## C13: decoding of the pin -/

/-- C13: for `get_hm10clone_pin`: when the flush has ended, the transmit of the request
succeeds and the 13-byte receive succeeds delivering the bytes `b`, it returns
`HM10_Clone_EC_OK` exactly when `b` is `+PIN=`, six bytes in `'0'..'9'` and `\r\n`; the pin
output then holds exactly those six bytes; for every other `b` (a wrong tag, a byte of the
six outside `'0'..'9'`, a wrong terminator) it returns `HM10_Clone_EC_ERR`. -/
theorem get_hm10clone_pin_decode (u : UART σ) (hd : Header) (hw : hd.wf) (fuel : Nat)
    (d : Driver σ) (s1 s2 s3 : σ) (b : List Nat)
    (hflush : u.drain hd.HM10_CLONE_CUSTOM_HAL_TIMEOUT fuel d.huart = some s1)
    (htx : u.HAL_UART_Transmit s1 [65, 84, 43, 80, 73, 78, 13, 10]
      hd.HM10_CLONE_CUSTOM_HAL_TIMEOUT = (HAL_StatusTypeDef.HAL_OK, s2))
    (hrx : u.HAL_UART_Receive s2 13 hd.HM10_CLONE_CUSTOM_HAL_TIMEOUT
      = (HAL_StatusTypeDef.HAL_OK, b, s3))
    (hb : b.length = 13) :
    ((get_hm10clone_pin u hd (fuel + 1) d).1 = some hd.HM10_Clone_EC_OK
        ↔ ∃ p : List Nat, p.length = 6 ∧ (∀ x ∈ p, 48 ≤ x ∧ x ≤ 57)
            ∧ b = [43, 80, 73, 78, 61] ++ p ++ [13, 10])
      ∧ (∀ p : List Nat, p.length = 6 → b = [43, 80, 73, 78, 61] ++ p ++ [13, 10] →
          (get_hm10clone_pin u hd (fuel + 1) d).1 = some hd.HM10_Clone_EC_OK →
          (get_hm10clone_pin u hd (fuel + 1) d).2.pin = p ++ d.pin.drop 6)
      ∧ ((¬ ∃ p : List Nat, p.length = 6 ∧ (∀ x ∈ p, 48 ≤ x ∧ x ≤ 57)
            ∧ b = [43, 80, 73, 78, 61] ++ p ++ [13, 10]) →
          (get_hm10clone_pin u hd (fuel + 1) d).1 = some hd.HM10_Clone_EC_ERR) := by
  have hne : hd.HM10_Clone_EC_ERR ≠ hd.HM10_Clone_EC_OK := by
    rw [hw.1.1]; exact hw.1.2.2
  obtain ⟨d2, h1, -, h3, h4⟩ := send_tx_ok u hd hw Cmd.get_pin trivial fuel (d.set_attempts 0)
    s1 s2 hflush htx
  rw [← h1] at hrx
  have R := Receive_eq u d2 0 13 hd.HM10_CLONE_CUSTOM_HAL_TIMEOUT _ _ s3 hrx hb
  have hrun : get_hm10clone_pin u hd (fuel + 1) d
      = exchange_steps u hd (exchange u hd (Cmd.get_pin.shape u hd) fuel)
          ((Cmd.get_pin.shape u hd).tail (exchange u hd (Cmd.get_pin.shape u hd) fuel) fuel)
          (Cmd.get_pin.shape u hd).steps d2 := h4
  rw [hrun]
  match b, hb with
  | [b0, b1, b2, b3, b4, b5, b6, b7, b8, b9, b10, b11, b12], _ =>
    have hbuf : ∀ k < 13, (d2.Receive u 0 13 hd.HM10_CLONE_CUSTOM_HAL_TIMEOUT).2.TxRx_Buffer k
        = [b0, b1, b2, b3, b4, b5, b6, b7, b8, b9, b10, b11, b12].getD k 0 := by
      intro k hk
      rw [R.2.2, if_pos ⟨Nat.zero_le _, by omega⟩, Nat.sub_zero]
    have q0 := hbuf 0 (by omega)
    have q1 := hbuf 1 (by omega)
    have q2 := hbuf 2 (by omega)
    have q3 := hbuf 3 (by omega)
    have q4 := hbuf 4 (by omega)
    have q5 := hbuf 5 (by omega)
    have q6 := hbuf 6 (by omega)
    have q7 := hbuf 7 (by omega)
    have q8 := hbuf 8 (by omega)
    have q9 := hbuf 9 (by omega)
    have q10 := hbuf 10 (by omega)
    have q11 := hbuf 11 (by omega)
    have q12 := hbuf 12 (by omega)
    simp only [List.getD_cons_zero, List.getD_cons_succ] at q0 q1 q2 q3 q4 q5 q6 q7 q8 q9
    simp only [List.getD_cons_zero, List.getD_cons_succ] at q10 q11 q12
    by_cases hg : (b0 = 43 ∧ b1 = 80 ∧ b2 = 73 ∧ b3 = 78 ∧ b4 = 61)
        ∧ (b5 ∈ Numbers_in_ASCII ∧ b6 ∈ Numbers_in_ASCII ∧ b7 ∈ Numbers_in_ASCII
          ∧ b8 ∈ Numbers_in_ASCII ∧ b9 ∈ Numbers_in_ASCII ∧ b10 ∈ Numbers_in_ASCII)
        ∧ b11 = 13 ∧ b12 = 10
    · obtain ⟨⟨rfl, rfl, rfl, rfl, rfl⟩, hv, rfl, rfl⟩ := hg
      have e := steps_cons_ok u hd (exchange u hd (Cmd.get_pin.shape u hd) fuel)
        ((Cmd.get_pin.shape u hd).tail (exchange u hd (Cmd.get_pin.shape u hd) fuel) fuel)
        13 (fun d => d.differs HM10_Clone_Pin_resp (pin_resp_size_without_pin_cr_and_lf hd)
            || (List.range hd.HM10_CLONE_PIN_VALUE_SIZE).any
                (fun current_pin_character =>
                  decide (d.TxRx_Buffer
                    ((pin_resp_size_without_pin_cr_and_lf hd + current_pin_character) % 256)
                    ∉ Numbers_in_ASCII))
            || decide (d.TxRx_Buffer
                  ((pin_resp_size_without_pin_cr_and_lf hd + hd.HM10_CLONE_PIN_VALUE_SIZE) % 256)
                  ≠ 13
                ∨ d.TxRx_Buffer
                  ((pin_resp_size_without_pin_cr_and_lf hd + hd.HM10_CLONE_PIN_VALUE_SIZE) % 256
                    + 1) ≠ 10)) [] d2 R.1
        (by simp [Driver.differs, List.range_succ, q0, q1, q2, q3, q4, q5, q6, q7, q8, q9, q10,
              q11, q12, HM10_Clone_Pin_resp, pin_resp_size_eq hd hw, hw.2.1, hv])
      have e' : exchange_steps u hd (exchange u hd (Cmd.get_pin.shape u hd) fuel)
          ((Cmd.get_pin.shape u hd).tail (exchange u hd (Cmd.get_pin.shape u hd) fuel) fuel)
          (Cmd.get_pin.shape u hd).steps d2
          = (some hd.HM10_Clone_EC_OK,
              { (d2.Receive u 0 13 hd.HM10_CLONE_CUSTOM_HAL_TIMEOUT).2 with
                pin := ((d2.Receive u 0 13 hd.HM10_CLONE_CUSTOM_HAL_TIMEOUT).2.bytes
                    (pin_resp_size_without_pin_cr_and_lf hd) hd.HM10_CLONE_PIN_VALUE_SIZE
                  ++ (d2.Receive u 0 13 hd.HM10_CLONE_CUSTOM_HAL_TIMEOUT).2.pin.drop
                    hd.HM10_CLONE_PIN_VALUE_SIZE) }) :=
        e
      rw [e']
      have hgood : ∃ p : List Nat, p.length = 6 ∧ (∀ x ∈ p, 48 ≤ x ∧ x ≤ 57)
          ∧ [43, 80, 73, 78, 61, b5, b6, b7, b8, b9, b10, 13, 10]
            = [43, 80, 73, 78, 61] ++ p ++ [13, 10] := by
        refine ⟨[b5, b6, b7, b8, b9, b10], rfl, ?_, rfl⟩
        intro x hx
        rw [← mem_Numbers_in_ASCII]
        simp only [List.mem_cons, List.mem_singleton, List.not_mem_nil, or_false] at hx
        rcases hx with rfl | rfl | rfl | rfl | rfl | rfl
        · exact hv.1
        · exact hv.2.1
        · exact hv.2.2.1
        · exact hv.2.2.2.1
        · exact hv.2.2.2.2.1
        · exact hv.2.2.2.2.2
      refine ⟨⟨fun _ => hgood, fun _ => rfl⟩, ?_, fun hn => absurd hgood hn⟩
      intro p hp hbp _
      have hpe : p = [b5, b6, b7, b8, b9, b10] := by
        match p, hp with
        | [p0, p1, p2, p3, p4, p5], _ =>
          simp only [List.cons_append, List.nil_append, List.cons.injEq, and_true,
            true_and] at hbp
          obtain ⟨rfl, rfl, rfl, rfl, rfl, rfl⟩ := hbp
          rfl
      subst hpe
      show Driver.bytes _ _ _ ++ List.drop _ d2.pin = _
      rw [h3.pin, pin_resp_size_eq hd hw, hw.2.1]
      simp [Driver.bytes, List.range_succ, q5, q6, q7, q8, q9, q10, Driver.set_attempts]
    · have e := steps_cons_bad u hd (exchange u hd (Cmd.get_pin.shape u hd) fuel)
        ((Cmd.get_pin.shape u hd).tail (exchange u hd (Cmd.get_pin.shape u hd) fuel) fuel)
        13 (fun d => d.differs HM10_Clone_Pin_resp (pin_resp_size_without_pin_cr_and_lf hd)
            || (List.range hd.HM10_CLONE_PIN_VALUE_SIZE).any
                (fun current_pin_character =>
                  decide (d.TxRx_Buffer
                    ((pin_resp_size_without_pin_cr_and_lf hd + current_pin_character) % 256)
                    ∉ Numbers_in_ASCII))
            || decide (d.TxRx_Buffer
                  ((pin_resp_size_without_pin_cr_and_lf hd + hd.HM10_CLONE_PIN_VALUE_SIZE) % 256)
                  ≠ 13
                ∨ d.TxRx_Buffer
                  ((pin_resp_size_without_pin_cr_and_lf hd + hd.HM10_CLONE_PIN_VALUE_SIZE) % 256
                    + 1) ≠ 10)) [] d2 R.1
        (by
          by_contra hcon
          apply hg
          simp [Driver.differs, List.range_succ, q0, q1, q2, q3, q4, q5, q6, q7, q8, q9, q10,
              q11, q12, HM10_Clone_Pin_resp, pin_resp_size_eq hd hw, hw.2.1] at hcon
          tauto)
      have e' : exchange_steps u hd (exchange u hd (Cmd.get_pin.shape u hd) fuel)
          ((Cmd.get_pin.shape u hd).tail (exchange u hd (Cmd.get_pin.shape u hd) fuel) fuel)
          (Cmd.get_pin.shape u hd).steps d2
          = (some hd.HM10_Clone_EC_ERR, (d2.Receive u 0 13 hd.HM10_CLONE_CUSTOM_HAL_TIMEOUT).2) :=
        e
      rw [e']
      have hno : ¬ ∃ p : List Nat, p.length = 6 ∧ (∀ x ∈ p, 48 ≤ x ∧ x ≤ 57)
          ∧ [b0, b1, b2, b3, b4, b5, b6, b7, b8, b9, b10, b11, b12]
            = [43, 80, 73, 78, 61] ++ p ++ [13, 10] := by
        rintro ⟨p, hp, hdig, hbp⟩
        apply hg
        match p, hp with
        | [p0, p1, p2, p3, p4, p5], _ =>
          simp only [List.cons_append, List.nil_append, List.cons.injEq, and_true] at hbp
          obtain ⟨rfl, rfl, rfl, rfl, rfl, rfl, rfl, rfl, rfl, rfl, rfl, rfl, rfl⟩ := hbp
          simp only [List.mem_cons, List.mem_singleton, List.not_mem_nil, or_false,
            forall_eq_or_imp, forall_eq, ← mem_Numbers_in_ASCII] at hdig
          exact ⟨⟨rfl, rfl, rfl, rfl, rfl⟩, hdig, rfl, rfl⟩
      refine ⟨⟨fun h => absurd (Option.some.inj h) hne, fun h => absurd h hno⟩, ?_, fun _ => rfl⟩
      intro p _ _ h
      exact absurd (Option.some.inj h) hne

theorem get_hm10clone_pin_decode_witness :
    (example_header.wf
      ∧ sim.drain example_header.HM10_CLONE_CUSTOM_HAL_TIMEOUT 1
          (Driver.init pin_bad_link_0).huart = some pin_bad_link_0
      ∧ sim.HAL_UART_Transmit pin_bad_link_0 [65, 84, 43, 80, 73, 78, 13, 10]
          example_header.HM10_CLONE_CUSTOM_HAL_TIMEOUT
        = (HAL_StatusTypeDef.HAL_OK, pin_bad_link_1)
      ∧ sim.HAL_UART_Receive pin_bad_link_1 13 example_header.HM10_CLONE_CUSTOM_HAL_TIMEOUT
        = (HAL_StatusTypeDef.HAL_OK, [43, 80, 73, 78, 61, 48, 49, 50, 51, 52, 120, 13, 10],
            ⟨[], []⟩)
      ∧ [43, 80, 73, 78, 61, 48, 49, 50, 51, 52, 120, 13, 10].length = 13)
    ∧ ((get_hm10clone_pin sim example_header (1 + 1) (Driver.init pin_bad_link_0)).1
          = some example_header.HM10_Clone_EC_OK
        ↔ ∃ p : List Nat, p.length = 6 ∧ (∀ x ∈ p, 48 ≤ x ∧ x ≤ 57)
            ∧ [43, 80, 73, 78, 61, 48, 49, 50, 51, 52, 120, 13, 10]
              = [43, 80, 73, 78, 61] ++ p ++ [13, 10])
      ∧ (∀ p : List Nat, p.length = 6 →
          [43, 80, 73, 78, 61, 48, 49, 50, 51, 52, 120, 13, 10]
            = [43, 80, 73, 78, 61] ++ p ++ [13, 10] →
          (get_hm10clone_pin sim example_header (1 + 1) (Driver.init pin_bad_link_0)).1
            = some example_header.HM10_Clone_EC_OK →
          (get_hm10clone_pin sim example_header (1 + 1) (Driver.init pin_bad_link_0)).2.pin
            = p ++ (Driver.init pin_bad_link_0).pin.drop 6)
      ∧ ((¬ ∃ p : List Nat, p.length = 6 ∧ (∀ x ∈ p, 48 ≤ x ∧ x ≤ 57)
            ∧ [43, 80, 73, 78, 61, 48, 49, 50, 51, 52, 120, 13, 10]
              = [43, 80, 73, 78, 61] ++ p ++ [13, 10]) →
          (get_hm10clone_pin sim example_header (1 + 1) (Driver.init pin_bad_link_0)).1
            = some example_header.HM10_Clone_EC_ERR) :=
  ⟨⟨by decide, by decide, by decide, by decide, by decide⟩,
    get_hm10clone_pin_decode sim example_header (by decide) 1 (Driver.init pin_bad_link_0)
      pin_bad_link_0 pin_bad_link_1 ⟨[], []⟩ [43, 80, 73, 78, 61, 48, 49, 50, 51, 52, 120, 13, 10]
      (by decide) (by decide) (by decide) (by decide)⟩

/-! ## The receives of a successful exchange -/

/-- When the receive steps of a command come to `HM10_Clone_EC_OK` and the UART answers the
receives with `chunks`, the steps have made exactly these receives. -/
theorem steps_ok_trace (u : UART σ) (hd : Header)
    (hne : hd.HM10_Clone_EC_ERR ≠ hd.HM10_Clone_EC_OK)
    (again tail : Driver σ → Option Nat × Driver σ)
    (htail : ∀ d, (tail d).2.trace = d.trace) :
    ∀ (steps : List (Nat × (Driver σ → Bool))) (chunks : List (List Nat)) (d2 d3 : Driver σ)
      (s3 : σ), steps.map Prod.fst = chunks.map List.length →
      u.receives hd.HM10_CLONE_CUSTOM_HAL_TIMEOUT chunks d2.huart = some s3 →
      exchange_steps u hd again tail steps d2 = (some hd.HM10_Clone_EC_OK, d3) →
      d3.trace = d2.trace ++ chunks.map (rx_ok hd) := by
  intro steps
  induction steps with
  | nil =>
    intro chunks d2 d3 s3 hsz _ hres
    cases chunks with
    | nil =>
      have := htail d2
      rw [steps_nil] at hres
      rw [hres] at this
      simpa using this
    | cons b cs => simp at hsz
  | cons st rest ih =>
    intro chunks d2 d3 s3 hsz hrx hres
    obtain ⟨n, bad⟩ := st
    cases chunks with
    | nil => simp at hsz
    | cons b cs =>
      simp only [List.map_cons, List.cons.injEq] at hsz
      obtain ⟨hn, hsz⟩ := hsz
      subst hn
      obtain ⟨s1, h1, h2⟩ := receives_cons _ _ _ _ _ _ hrx
      have R := Receive_eq u d2 0 b.length hd.HM10_CLONE_CUSTOM_HAL_TIMEOUT _ _ s1 h1 rfl
      have ht : (d2.Receive u 0 b.length hd.HM10_CLONE_CUSTOM_HAL_TIMEOUT).2.trace
          = d2.trace ++ [rx_ok hd b] := by
        simp [Driver.Receive, h1, rx_ok]
      cases hb : bad (d2.Receive u 0 b.length hd.HM10_CLONE_CUSTOM_HAL_TIMEOUT).2
      · rw [steps_cons_ok u hd again tail b.length bad rest d2 R.1 hb] at hres
        rw [ih cs _ d3 s3 hsz (by rw [R.2.1]; exact h2) hres, ht]
        simp
      · rw [steps_cons_bad u hd again tail b.length bad rest d2 R.1 hb] at hres
        exact absurd (Option.some.inj (congrArg Prod.fst hres)) hne

theorem tail_fixed_trace (u : UART σ) (hd : Header) (c : Cmd) (hc : c ≠ Cmd.get_name)
    (again : Driver σ → Option Nat × Driver σ) (fuel : Nat) (d : Driver σ) :
    ((c.shape u hd).tail again fuel d).2.trace = d.trace := by
  cases c
  case get_name => exact absurd rfl hc
  all_goals rfl

theorem steps_sizes (u : UART σ) (hd : Header) (hw : hd.wf) (c : Cmd) (hc : c ≠ Cmd.get_name)
    (hacc : c.accepted hd) (v : List Nat) (hv : c.value_ok hd v) :
    ((c.shape u hd).steps : List (Nat × (Driver σ → Bool))).map Prod.fst
      = (c.reply v).map List.length := by
  cases c
  case get_name => exact absurd rfl hc
  case set_name n sz =>
    have hsz : sz ≤ 12 := le_trans hacc hw.2.2
    simp [Cmd.shape, Cmd.reply, ok_step, HM10_Clone_Name_resp, HM10_Clone_OK_resp,
      HM10_CLONE_NAME_RESPONSE_SIZE_WITHOUT_REQUESTED_NAME, HM10_CLONE_OK_RESPONSE_SIZE]
    omega
  case get_role =>
    obtain ⟨r, rfl, -⟩ := hv
    rfl
  case get_pin_code_mode =>
    obtain ⟨r, rfl, -⟩ := hv
    rfl
  case get_pin =>
    simp [Cmd.shape, Cmd.reply, HM10_Clone_Pin_resp, HM10_CLONE_PIN_RESPONSE_SIZE, hv.1]
  all_goals rfl

/-- An attempt whose transmit succeeds, with the state in which the receive steps start. -/
theorem send_tx_ok_trace (u : UART σ) (hd : Header) (hw : hd.wf) (c : Cmd) (hacc : c.accepted hd)
    (fuel : Nat) (d : Driver σ) (s1 s2 : σ)
    (hflush : u.drain hd.HM10_CLONE_CUSTOM_HAL_TIMEOUT fuel d.huart = some s1)
    (htx : u.HAL_UART_Transmit s1 c.request hd.HM10_CLONE_CUSTOM_HAL_TIMEOUT
      = (HAL_StatusTypeDef.HAL_OK, s2)) :
    ∃ d2, d2.huart = s2 ∧ SameOut d d2
      ∧ d2.trace = (HAL_uart_rx_flush u hd fuel d).2.trace
          ++ [Event.tx c.request hd.HM10_CLONE_CUSTOM_HAL_TIMEOUT HAL_StatusTypeDef.HAL_OK]
      ∧ c.send u hd (fuel + 1) d
        = exchange_steps u hd (exchange u hd (c.shape u hd) fuel)
            ((c.shape u hd).tail (exchange u hd (c.shape u hd) fuel) fuel)
            (c.shape u hd).steps d2 := by
  obtain ⟨d1, hf, hs1, -⟩ := flush_ok u hd fuel d s1 hflush
  have ho1 : SameOut d d1 := by
    have := flush_sameOut u hd fuel d
    rwa [hf] at this
  have hrej : (c.shape u hd).reject = false := by
    cases h : (c.shape u hd).reject
    · rfl
    · exact absurd hacc ((shape_reject u hd c).1 h)
  have hp := populate_same u hd c d1
  have hq := populate_request u hd hw c hacc d1
  have hph : ((c.shape u hd).populate d1).2.huart = s1 := by rw [hp]; exact hs1
  have hpt : ((c.shape u hd).populate d1).2.trace = d1.trace := by rw [hp]
  refine ⟨(((c.shape u hd).populate d1).2.Transmit u ((c.shape u hd).populate d1).1
    hd.HM10_CLONE_CUSTOM_HAL_TIMEOUT).2, ?_, ?_, ?_, ?_⟩
  · simp [Driver.Transmit, hph, hq, htx]
  · have h3 : SameOut d1 ((c.shape u hd).populate d1).2 := by
      rw [hp]; exact ⟨rfl, rfl, rfl, rfl, rfl⟩
    exact sameOut_trans ho1 (sameOut_trans h3 (sameOut_Transmit u _ _ _))
  · rw [hf]
    simp [Driver.Transmit, hph, hq, htx, hpt]
  · have hst1 : (((c.shape u hd).populate d1).2.Transmit u ((c.shape u hd).populate d1).1
        hd.HM10_CLONE_CUSTOM_HAL_TIMEOUT).1 = HAL_StatusTypeDef.HAL_OK := by
      simp [Driver.Transmit, hph, hq, htx]
    rw [Cmd.send_eq_exchange, exchange]
    simp only [hf, hrej, hst1, Bool.true_eq_false, Bool.false_eq_true, if_false,
      ret_handler_ok, ne_eq, not_true_eq_false]

/-- A complete attempt, with what it did on the UART: after the flush, one transmit of the
request and exactly the receives of `Cmd.reply`. -/
theorem send_success_trace (u : UART σ) (hd : Header) (hw : hd.wf) (c : Cmd)
    (hacc : c.accepted hd) (v : List Nat) (hv : c.value_ok hd v) (fuel : Nat)
    (hfuel : v.length ≤ fuel) (d : Driver σ) (s1 s2 s3 : σ)
    (hflush : u.drain hd.HM10_CLONE_CUSTOM_HAL_TIMEOUT fuel d.huart = some s1)
    (htx : u.HAL_UART_Transmit s1 c.request hd.HM10_CLONE_CUSTOM_HAL_TIMEOUT
      = (HAL_StatusTypeDef.HAL_OK, s2))
    (hrx : u.receives hd.HM10_CLONE_CUSTOM_HAL_TIMEOUT (c.reply v) s2 = some s3) :
    ∃ d3, c.send u hd (fuel + 1) d = (some hd.HM10_Clone_EC_OK, d3)
      ∧ d3.huart = s3 ∧ c.delivered v d d3
      ∧ d3.trace = (HAL_uart_rx_flush u hd fuel d).2.trace
          ++ [Event.tx c.request hd.HM10_CLONE_CUSTOM_HAL_TIMEOUT HAL_StatusTypeDef.HAL_OK]
          ++ (c.reply v).map (rx_ok hd) := by
  have hne : hd.HM10_Clone_EC_ERR ≠ hd.HM10_Clone_EC_OK := by
    rw [hw.1.1]; exact hw.1.2.2
  obtain ⟨d2, h1, h3, ht, h4⟩ := send_tx_ok_trace u hd hw c hacc fuel d s1 s2 hflush htx
  rw [← h1] at hrx
  have key : ∃ d3, exchange_steps u hd (exchange u hd (c.shape u hd) fuel)
        ((c.shape u hd).tail (exchange u hd (c.shape u hd) fuel) fuel)
        (c.shape u hd).steps d2 = (some hd.HM10_Clone_EC_OK, d3)
      ∧ d3.huart = s3 ∧ c.delivered v d2 d3
      ∧ d3.trace = d2.trace ++ (c.reply v).map (rx_ok hd) := by
    by_cases hc : c = Cmd.get_name
    · subst hc
      obtain ⟨d3, k1, k2, -, k4, k5⟩ := steps_success_name u hd hw v hv fuel hfuel
        (exchange u hd (Cmd.get_name.shape u hd) fuel) d2 s3 hrx
      exact ⟨d3, k1, k2, k4, k5⟩
    · obtain ⟨d3, k1, k2, -, k4⟩ := steps_success_fixed u hd hw c hc hacc v hv fuel
        (exchange u hd (c.shape u hd) fuel) d2 s3 hrx
      exact ⟨d3, k1, k2, k4, steps_ok_trace u hd hne _ _
        (tail_fixed_trace u hd c hc _ fuel) _ _ d2 d3 s3
        (steps_sizes u hd hw c hc hacc v hv) hrx k1⟩
  obtain ⟨d3, k1, k2, k4, k5⟩ := key
  refine ⟨d3, h4.trans k1, k2, ?_, by rw [k5, ht]⟩
  cases c
  case get_name => exact ⟨by rw [k4.1, h3.hm10_name], k4.2⟩
  case get_pin =>
    show d3.pin = v ++ d.pin.drop 6
    rw [show d3.pin = v ++ d2.pin.drop 6 from k4, h3.pin]
  all_goals exact k4

/-! ## C14: the name that `get_hm10clone_name` reads -/

/-- C14 (counterexample): on the response `+NAME=\r\n` for the empty name (`L = 0`), delivered
on both attempts, `get_hm10clone_name` returns `HM10_Clone_EC_NR`; on the response
`+NAME=a\r\nb\r\n` for the 4-byte name `a\r\nb` it returns `HM10_Clone_EC_OK` with the name
`a` and the size 1, leaving `b\r\n` in the receiver. -/
theorem get_hm10clone_name_fails_on_some_names :
    ((get_hm10clone_name sim example_header 4 (Driver.init empty_name_link)).1
        = some example_header.HM10_Clone_EC_NR
      ∧ example_header.HM10_Clone_EC_NR ≠ example_header.HM10_Clone_EC_OK)
    ∧ (get_hm10clone_name sim example_header 4 (Driver.init crlf_name_link)).1
        = some example_header.HM10_Clone_EC_OK
      ∧ (get_hm10clone_name sim example_header 4 (Driver.init crlf_name_link)).2.hm10_name
        = [97]
      ∧ (get_hm10clone_name sim example_header 4 (Driver.init crlf_name_link)).2.size = 1
      ∧ (get_hm10clone_name sim example_header 4 (Driver.init crlf_name_link)).2.huart
        = ⟨[98, 13, 10], []⟩ := by
  decide

/-- C14 (amended): for every name `n` of length `L` with `1 ≤ L ≤ HM10_CLONE_MAX_BLE_NAME_SIZE`
in which no `\r\n` pair occurs at offsets `(k, k + 1)` with `k ≥ 1`: when the flush has
ended, the transmit succeeds and the receives (one of 8 bytes, then one byte at a time)
deliver the `8 + L` bytes `+NAME=`, `n`, `\r\n`, `get_hm10clone_name` returns
`HM10_Clone_EC_OK`, with `n` in the first `L` bytes of the name output and `L` in the size
output. -/
theorem get_hm10clone_name_reads_name (u : UART σ) (hd : Header) (hw : hd.wf) (n : List Nat)
    (L : Nat) (hn : n.length = L) (h1 : 1 ≤ L) (hL : L ≤ hd.HM10_CLONE_MAX_BLE_NAME_SIZE)
    (hmid : ∀ k, 1 ≤ k → k + 1 < L → ¬ (n.getD k 0 = 13 ∧ n.getD (k + 1) 0 = 10))
    (fuel : Nat) (hLf : L ≤ fuel) (d : Driver σ) (s1 s2 s3 : σ)
    (hflush : u.drain hd.HM10_CLONE_CUSTOM_HAL_TIMEOUT fuel d.huart = some s1)
    (htx : u.HAL_UART_Transmit s1 [65, 84, 43, 78, 65, 77, 69, 13, 10]
      hd.HM10_CLONE_CUSTOM_HAL_TIMEOUT = (HAL_StatusTypeDef.HAL_OK, s2))
    (hrx : u.receives hd.HM10_CLONE_CUSTOM_HAL_TIMEOUT
      (([43, 78, 65, 77, 69, 61] ++ n ++ [13, 10]).take 8
        :: (([43, 78, 65, 77, 69, 61] ++ n ++ [13, 10]).drop 8).map fun b => [b]) s2
      = some s3) :
    (get_hm10clone_name u hd (fuel + 1) d).1 = some hd.HM10_Clone_EC_OK
      ∧ (get_hm10clone_name u hd (fuel + 1) d).2.hm10_name = n ++ d.hm10_name.drop L
      ∧ (get_hm10clone_name u hd (fuel + 1) d).2.size = L := by
  subst hn
  obtain ⟨d3, e3, -, -, h3⟩ := send_success u hd hw Cmd.get_name trivial n
    ⟨h1, hL, fun k _ hk1 hk2 => hmid k hk1 hk2⟩ fuel hLf (d.set_attempts 0) s1 s2 s3 hflush htx
    hrx
  have hget : get_hm10clone_name u hd (fuel + 1) d = (some hd.HM10_Clone_EC_OK, d3) := e3
  rw [hget]
  exact ⟨rfl, h3.1, h3.2⟩

theorem get_hm10clone_name_reads_name_witness :
    (example_header.wf ∧ [65, 66].length = 2 ∧ 1 ≤ 2
      ∧ 2 ≤ example_header.HM10_CLONE_MAX_BLE_NAME_SIZE
      ∧ (∀ k, 1 ≤ k → k + 1 < 2 →
          ¬ (([65, 66] : List Nat).getD k 0 = 13 ∧ ([65, 66] : List Nat).getD (k + 1) 0 = 10))
      ∧ 2 ≤ 2
      ∧ sim.drain example_header.HM10_CLONE_CUSTOM_HAL_TIMEOUT 2
          (Driver.init name_link_1).huart = some name_link_1
      ∧ sim.HAL_UART_Transmit name_link_1 [65, 84, 43, 78, 65, 77, 69, 13, 10]
          example_header.HM10_CLONE_CUSTOM_HAL_TIMEOUT = (HAL_StatusTypeDef.HAL_OK, name_link_2)
      ∧ sim.receives example_header.HM10_CLONE_CUSTOM_HAL_TIMEOUT
          (([43, 78, 65, 77, 69, 61] ++ [65, 66] ++ [13, 10]).take 8
            :: (([43, 78, 65, 77, 69, 61] ++ [65, 66] ++ [13, 10]).drop 8).map fun b => [b])
          name_link_2 = some ⟨[], []⟩)
    ∧ (get_hm10clone_name sim example_header (2 + 1) (Driver.init name_link_1)).1
        = some example_header.HM10_Clone_EC_OK
      ∧ (get_hm10clone_name sim example_header (2 + 1) (Driver.init name_link_1)).2.hm10_name
        = [65, 66] ++ (Driver.init name_link_1).hm10_name.drop 2
      ∧ (get_hm10clone_name sim example_header (2 + 1) (Driver.init name_link_1)).2.size = 2 :=
  ⟨⟨by decide, by decide, by decide, by decide, fun k h1 h2 => absurd h2 (by omega),
      by decide, by decide, by decide, by decide⟩,
    get_hm10clone_name_reads_name sim example_header (by decide) [65, 66] 2 (by decide)
      (by decide) (by decide) (fun k h1 h2 => absurd h2 (by omega)) 2 (by decide)
      (Driver.init name_link_1) name_link_1 name_link_2 ⟨[], []⟩
      (by decide) (by decide) (by decide)⟩

/-! ## The ideal module -/

/-- The flush empties the receiver of the ideal link. -/
theorem ideal_drain (ack : Bool) (t : Nat) (n : Nat) :
    ∀ (m : Module) (k : Nat), m.pending.length = n →
      (ideal ack).drain t (n + 1 + k) m = some { m with pending := [] } := by
  induction n with
  | zero =>
    intro m k hm
    rw [show 0 + 1 + k = k + 1 by omega, UART.drain]
    simp [ideal, hm]
  | succ n ih =>
    intro m k hm
    rw [show n + 1 + 1 + k = (n + 1 + k) + 1 by omega, UART.drain]
    have h1 : ((ideal ack).HAL_UART_Receive m 1 t)
        = (HAL_StatusTypeDef.HAL_OK, m.pending.take 1, { m with pending := m.pending.drop 1 }) := by
      simp [ideal, hm]
    simp only [h1, ne_eq, reduceCtorEq, not_false_eq_true, if_true]
    rw [ih _ k (by simp [hm])]

/-- The ideal link delivers what is waiting in the pieces in which it is asked for. -/
theorem ideal_receives (ack : Bool) (t : Nat) (chunks : List (List Nat)) :
    ∀ (m : Module) (rest : List Nat), m.pending = chunks.flatten ++ rest →
      (ideal ack).receives t chunks m = some { m with pending := rest } := by
  induction chunks with
  | nil =>
    intro m rest hm
    simp only [List.flatten_nil, List.nil_append] at hm
    simp [UART.receives, ← hm]
  | cons b cs ih =>
    intro m rest hm
    simp only [List.flatten_cons, List.append_assoc] at hm
    rw [UART.receives]
    have h1 : (ideal ack).HAL_UART_Receive m b.length t
        = (HAL_StatusTypeDef.HAL_OK, b, { m with pending := cs.flatten ++ rest }) := by
      simp [ideal, hm]
    simp only [h1, and_self, if_true]
    exact ih _ rest rfl

theorem dropLast_dropLast (l : List Nat) (a b : Nat) : ((l ++ [a, b]).dropLast).dropLast = l := by
  rw [show l ++ [a, b] = (l ++ [a]) ++ [b] by simp, List.dropLast_concat, List.dropLast_concat]

/-! ## C15: the role round trip -/

/-- C15: for every role `r` of the enumeration (a byte): against the fault-free link to an
ideal module, whether or not the module follows the value response of a set-role request by
`OK\r\n`, and whatever is waiting in the receiver at the start (given fuel for the flushes),
`set_hm10clone_role` returns `HM10_Clone_EC_OK` and a following `get_hm10clone_role`
returns `HM10_Clone_EC_OK` with `r` in its output. -/
theorem role_round_trip (ack : Bool) (hd : Header) (hw : hd.wf) (r : Nat)
    (hr : r = hd.HM10_Clone_Role_Peripheral ∨ r = hd.HM10_Clone_Role_Central) (hr8 : r < 256)
    (fuel : Nat) (d : Driver Module) (hfuel : d.huart.pending.length + 1 ≤ fuel)
    (h5 : 5 ≤ fuel) :
    (set_hm10clone_role (ideal ack) hd r (fuel + 1) d).1 = some hd.HM10_Clone_EC_OK
      ∧ (get_hm10clone_role (ideal ack) hd (fuel + 1)
          (set_hm10clone_role (ideal ack) hd r (fuel + 1) d).2).1 = some hd.HM10_Clone_EC_OK
      ∧ (get_hm10clone_role (ideal ack) hd (fuel + 1)
          (set_hm10clone_role (ideal ack) hd r (fuel + 1) d).2).2.ble_role = r := by
  have hflush1 : (ideal ack).drain hd.HM10_CLONE_CUSTOM_HAL_TIMEOUT fuel (d.set_attempts 0).huart
      = some { d.huart with pending := [] } := by
    have := ideal_drain ack hd.HM10_CLONE_CUSTOM_HAL_TIMEOUT d.huart.pending.length d.huart
      (fuel - d.huart.pending.length - 1) rfl
    rwa [show d.huart.pending.length + 1 + (fuel - d.huart.pending.length - 1) = fuel by omega]
      at this
  have htx1 : (ideal ack).HAL_UART_Transmit { d.huart with pending := [] }
      (Cmd.set_role r).request hd.HM10_CLONE_CUSTOM_HAL_TIMEOUT
      = (HAL_StatusTypeDef.HAL_OK, { d.huart with
          role := r
          pending := ([HM10_Clone_Role_resp ++ [r, 13, 10]] : List (List Nat)).flatten
            ++ if ack then HM10_Clone_OK_resp else [] }) := by
    simp [ideal, Module.answer, Cmd.request, Nat.mod_eq_of_lt hr8, HM10_Clone_Role_resp]
  obtain ⟨d3, e3, h3, -, -⟩ := send_success (ideal ack) hd hw (Cmd.set_role r) hr [] trivial fuel
    (Nat.zero_le _) (d.set_attempts 0) _ _ _ hflush1 htx1
    (ideal_receives ack _ _ _ _ rfl)
  have hset : set_hm10clone_role (ideal ack) hd r (fuel + 1) d
      = (some hd.HM10_Clone_EC_OK, d3) := e3
  rw [hset]
  have hflush2 : (ideal ack).drain hd.HM10_CLONE_CUSTOM_HAL_TIMEOUT fuel (d3.set_attempts 0).huart
      = some { d.huart with role := r, pending := [] } := by
    have hlen : (if ack then HM10_Clone_OK_resp else []).length ≤ 4 := by
      cases ack <;> simp [HM10_Clone_OK_resp]
    have := ideal_drain ack hd.HM10_CLONE_CUSTOM_HAL_TIMEOUT
      (if ack then HM10_Clone_OK_resp else []).length
      { d.huart with role := r, pending := if ack then HM10_Clone_OK_resp else [] }
      (fuel - (if ack then HM10_Clone_OK_resp else []).length - 1) rfl
    rw [show (if ack then HM10_Clone_OK_resp else []).length + 1
      + (fuel - (if ack then HM10_Clone_OK_resp else []).length - 1) = fuel by omega] at this
    rw [set_attempts_huart, h3]
    exact this
  have htx2 : (ideal ack).HAL_UART_Transmit { d.huart with role := r, pending := [] }
      Cmd.get_role.request hd.HM10_CLONE_CUSTOM_HAL_TIMEOUT
      = (HAL_StatusTypeDef.HAL_OK, { d.huart with
          role := r
          pending := (Cmd.get_role.reply [r]).flatten ++ [] }) := by
    simp [ideal, Module.answer, Cmd.request, Cmd.reply, HM10_Clone_Role_resp]
  obtain ⟨d5, e5, -, -, h5⟩ := send_success (ideal ack) hd hw Cmd.get_role trivial [r]
    ⟨r, rfl, hr⟩ fuel (by simp; omega) (d3.set_attempts 0) _ _ _ hflush2 htx2
    (ideal_receives ack _ _ _ _ rfl)
  have hget : get_hm10clone_role (ideal ack) hd (fuel + 1) d3
      = (some hd.HM10_Clone_EC_OK, d5) := e5
  rw [hget]
  exact ⟨rfl, rfl, h5⟩

theorem role_round_trip_witness :
    (example_header.wf
      ∧ (49 = example_header.HM10_Clone_Role_Peripheral
          ∨ 49 = example_header.HM10_Clone_Role_Central)
      ∧ 49 < 256
      ∧ (Driver.init (⟨[], 48, [], 48, [1, 2]⟩ : Module)).huart.pending.length + 1 ≤ 5
      ∧ 5 ≤ 5)
    ∧ (set_hm10clone_role (ideal false) example_header 49 (5 + 1)
          (Driver.init ⟨[], 48, [], 48, [1, 2]⟩)).1 = some example_header.HM10_Clone_EC_OK
      ∧ (get_hm10clone_role (ideal false) example_header (5 + 1)
          (set_hm10clone_role (ideal false) example_header 49 (5 + 1)
            (Driver.init ⟨[], 48, [], 48, [1, 2]⟩)).2).1 = some example_header.HM10_Clone_EC_OK
      ∧ (get_hm10clone_role (ideal false) example_header (5 + 1)
          (set_hm10clone_role (ideal false) example_header 49 (5 + 1)
            (Driver.init ⟨[], 48, [], 48, [1, 2]⟩)).2).2.ble_role = 49 :=
  ⟨⟨by decide, by decide, by decide, by decide, by decide⟩,
    role_round_trip false example_header (by decide) 49 (by decide) (by decide) 5
      (Driver.init ⟨[], 48, [], 48, [1, 2]⟩) (by decide) (by decide)⟩

/-! ## C16: the pin round trip -/

/-- C16 (counterexample): against the ideal module that answers a set-pin request with the
value response `+PIN=<pin>\r\n` alone, `set_hm10clone_pin` with the pin `012345` does not
return `HM10_Clone_EC_OK`: it waits for `OK\r\n`, retries once and returns
`HM10_Clone_EC_NR`. -/
theorem pin_round_trip_fails_without_ok :
    (set_hm10clone_pin (ideal false) example_header [48, 49, 50, 51, 52, 53] 8
        (Driver.init ⟨[], 48, [], 48, []⟩)).1 = some example_header.HM10_Clone_EC_NR
      ∧ example_header.HM10_Clone_EC_NR ≠ example_header.HM10_Clone_EC_OK := by
  decide

/-- C16 (amended): for every pin `p` of six ASCII digits: against the fault-free link to an
ideal module that follows the value response of a set-pin request by `OK\r\n`, and whatever
is waiting in the receiver at the start (given fuel for the flushes), `set_hm10clone_pin`
returns `HM10_Clone_EC_OK` and a following `get_hm10clone_pin` returns `HM10_Clone_EC_OK`
with `p` in the six bytes of its output. -/
theorem pin_round_trip (hd : Header) (hw : hd.wf) (p : List Nat) (hp6 : p.length = 6)
    (hdig : ∀ x ∈ p, 48 ≤ x ∧ x ≤ 57) (fuel : Nat) (d : Driver Module)
    (hfuel : d.huart.pending.length + 1 ≤ fuel) (h6 : 6 ≤ fuel) :
    (set_hm10clone_pin (ideal true) hd p (fuel + 1) d).1 = some hd.HM10_Clone_EC_OK
      ∧ (get_hm10clone_pin (ideal true) hd (fuel + 1)
          (set_hm10clone_pin (ideal true) hd p (fuel + 1) d).2).1 = some hd.HM10_Clone_EC_OK
      ∧ (get_hm10clone_pin (ideal true) hd (fuel + 1)
          (set_hm10clone_pin (ideal true) hd p (fuel + 1) d).2).2.pin
        = p ++ (set_hm10clone_pin (ideal true) hd p (fuel + 1) d).2.pin.drop 6 := by
  have hnum : ∀ x ∈ p, x ∈ Numbers_in_ASCII := fun x hx => (mem_Numbers_in_ASCII x).2 (hdig x hx)
  have hmap : (List.range 6).map (fun i => p.getD i 0) = p := by
    have := range_map_getD p
    rwa [hp6] at this
  have hacc : (Cmd.set_pin p).accepted hd := by
    intro i hi
    rw [hw.2.1] at hi
    apply hnum
    rw [List.getD_eq_getElem _ _ (by omega)]
    exact List.getElem_mem _
  have hflush1 : (ideal true).drain hd.HM10_CLONE_CUSTOM_HAL_TIMEOUT fuel (d.set_attempts 0).huart
      = some { d.huart with pending := [] } := by
    have := ideal_drain true hd.HM10_CLONE_CUSTOM_HAL_TIMEOUT d.huart.pending.length d.huart
      (fuel - d.huart.pending.length - 1) rfl
    rwa [show d.huart.pending.length + 1 + (fuel - d.huart.pending.length - 1) = fuel by omega]
      at this
  have htx1 : (ideal true).HAL_UART_Transmit { d.huart with pending := [] }
      (Cmd.set_pin p).request hd.HM10_CLONE_CUSTOM_HAL_TIMEOUT
      = (HAL_StatusTypeDef.HAL_OK, { d.huart with
          pin := p
          pending := ((Cmd.set_pin p).reply []).flatten ++ [] }) := by
    simp only [Cmd.request, Cmd.reply, hmap]
    match p, hp6 with
    | [p0, p1, p2, p3, p4, p5], _ =>
      simp [ideal, Module.answer, HM10_Clone_Pin_resp, HM10_Clone_OK_resp]
  obtain ⟨d3, e3, h3, -, -⟩ := send_success (ideal true) hd hw (Cmd.set_pin p) hacc [] trivial fuel
    (Nat.zero_le _) (d.set_attempts 0) _ _ _ hflush1 htx1
    (ideal_receives true _ _ _ _ rfl)
  have hset : set_hm10clone_pin (ideal true) hd p (fuel + 1) d
      = (some hd.HM10_Clone_EC_OK, d3) := e3
  rw [hset]
  have hflush2 : (ideal true).drain hd.HM10_CLONE_CUSTOM_HAL_TIMEOUT fuel (d3.set_attempts 0).huart
      = some { d.huart with pin := p, pending := [] } := by
    have := ideal_drain true hd.HM10_CLONE_CUSTOM_HAL_TIMEOUT 0
      { d.huart with pin := p, pending := [] } (fuel - 1) rfl
    rw [show 0 + 1 + (fuel - 1) = fuel by omega] at this
    rw [set_attempts_huart, h3]
    exact this
  have htx2 : (ideal true).HAL_UART_Transmit { d.huart with pin := p, pending := [] }
      Cmd.get_pin.request hd.HM10_CLONE_CUSTOM_HAL_TIMEOUT
      = (HAL_StatusTypeDef.HAL_OK, { d.huart with
          pin := p
          pending := (Cmd.get_pin.reply p).flatten ++ [] }) := by
    simp [ideal, Module.answer, Cmd.request, Cmd.reply, HM10_Clone_Pin_resp]
  obtain ⟨d5, e5, -, -, h5⟩ := send_success (ideal true) hd hw Cmd.get_pin trivial p
    ⟨hp6, hnum⟩ fuel (by omega) (d3.set_attempts 0) _ _ _ hflush2 htx2
    (ideal_receives true _ _ _ _ rfl)
  have hget : get_hm10clone_pin (ideal true) hd (fuel + 1) d3
      = (some hd.HM10_Clone_EC_OK, d5) := e5
  rw [hget]
  exact ⟨rfl, rfl, h5⟩

theorem pin_round_trip_witness :
    (example_header.wf ∧ [48, 49, 50, 51, 52, 53].length = 6
      ∧ (∀ x ∈ [48, 49, 50, 51, 52, 53], 48 ≤ x ∧ x ≤ 57)
      ∧ (Driver.init (⟨[], 48, [], 48, [1, 2]⟩ : Module)).huart.pending.length + 1 ≤ 6
      ∧ 6 ≤ 6)
    ∧ (set_hm10clone_pin (ideal true) example_header [48, 49, 50, 51, 52, 53] (6 + 1)
          (Driver.init ⟨[], 48, [], 48, [1, 2]⟩)).1 = some example_header.HM10_Clone_EC_OK
      ∧ (get_hm10clone_pin (ideal true) example_header (6 + 1)
          (set_hm10clone_pin (ideal true) example_header [48, 49, 50, 51, 52, 53] (6 + 1)
            (Driver.init ⟨[], 48, [], 48, [1, 2]⟩)).2).1 = some example_header.HM10_Clone_EC_OK
      ∧ (get_hm10clone_pin (ideal true) example_header (6 + 1)
          (set_hm10clone_pin (ideal true) example_header [48, 49, 50, 51, 52, 53] (6 + 1)
            (Driver.init ⟨[], 48, [], 48, [1, 2]⟩)).2).2.pin
        = [48, 49, 50, 51, 52, 53]
          ++ (set_hm10clone_pin (ideal true) example_header [48, 49, 50, 51, 52, 53] (6 + 1)
            (Driver.init ⟨[], 48, [], 48, [1, 2]⟩)).2.pin.drop 6 :=
  ⟨⟨by decide, by decide, by decide, by decide, by decide⟩,
    pin_round_trip example_header (by decide) [48, 49, 50, 51, 52, 53] (by decide) (by decide) 6
      (Driver.init ⟨[], 48, [], 48, [1, 2]⟩) (by decide) (by decide)⟩

theorem answer_set_name (ack : Bool) (m : Module) (n : List Nat) (hn : n ≠ []) :
    m.answer ack ([65, 84, 43, 78, 65, 77, 69] ++ n ++ [13, 10])
      = { m with
          name := n
          pending := m.pending ++ (HM10_Clone_Name_resp ++ n ++ [13, 10] ++ HM10_Clone_OK_resp) } := by
  have h1 : ([65, 84, 43, 78, 65, 77, 69] ++ n ++ [13, 10]).take 7 = [65, 84, 43, 78, 65, 77, 69] := by
    simp
  have h2 : ((([65, 84, 43, 78, 65, 77, 69] ++ n ++ [13, 10]).drop 7).dropLast).dropLast = n := by
    show ((n ++ [13, 10]).dropLast).dropLast = n
    exact dropLast_dropLast n 13 10
  simp only [Module.answer, h1, h2, if_true, if_neg hn]

/-! ## C17: the name round trip -/

/-- C17 (counterexample): against the ideal module, `set_hm10clone_name` with the empty name
(`L = 0`) does not return `HM10_Clone_EC_OK` (its frame is the query `AT+NAME\r\n`); and
after `set_hm10clone_name` has stored the 4-byte name `a\r\nb`, `get_hm10clone_name` returns
`HM10_Clone_EC_OK` with the name `a` and the size 1. -/
theorem name_round_trip_fails_on_some_names :
    ((set_hm10clone_name (ideal false) example_header [] 0 8
        (Driver.init ⟨[], 48, [], 48, []⟩)).1 = some example_header.HM10_Clone_EC_NR
      ∧ example_header.HM10_Clone_EC_NR ≠ example_header.HM10_Clone_EC_OK)
    ∧ (set_hm10clone_name (ideal false) example_header [97, 13, 10, 98] 4 8
        (Driver.init ⟨[], 48, [], 48, []⟩)).1 = some example_header.HM10_Clone_EC_OK
      ∧ (get_hm10clone_name (ideal false) example_header 8
          (set_hm10clone_name (ideal false) example_header [97, 13, 10, 98] 4 8
            (Driver.init ⟨[], 48, [], 48, []⟩)).2).1 = some example_header.HM10_Clone_EC_OK
      ∧ (get_hm10clone_name (ideal false) example_header 8
          (set_hm10clone_name (ideal false) example_header [97, 13, 10, 98] 4 8
            (Driver.init ⟨[], 48, [], 48, []⟩)).2).2.hm10_name = [97]
      ∧ (get_hm10clone_name (ideal false) example_header 8
          (set_hm10clone_name (ideal false) example_header [97, 13, 10, 98] 4 8
            (Driver.init ⟨[], 48, [], 48, []⟩)).2).2.size = 1 := by
  decide

/-- C17 (amended): for every name `n` of length `L` with `1 ≤ L ≤ HM10_CLONE_MAX_BLE_NAME_SIZE`
in which no `\r\n` pair occurs at offsets `(k, k + 1)` with `k ≥ 1`: against the fault-free
link to an ideal module, and whatever is waiting in the receiver at the start (given fuel
for the flushes and the byte-by-byte read), `set_hm10clone_name` returns `HM10_Clone_EC_OK`
and a following `get_hm10clone_name` returns `HM10_Clone_EC_OK` with the name `n` and the
size `L` in its outputs. -/
theorem name_round_trip (ack : Bool) (hd : Header) (hw : hd.wf) (n : List Nat) (L : Nat)
    (hn : n.length = L) (h1 : 1 ≤ L) (hL : L ≤ hd.HM10_CLONE_MAX_BLE_NAME_SIZE)
    (hmid : ∀ k, 1 ≤ k → k + 1 < L → ¬ (n.getD k 0 = 13 ∧ n.getD (k + 1) 0 = 10))
    (fuel : Nat) (d : Driver Module) (hfuel : d.huart.pending.length + 1 ≤ fuel)
    (hLf : L ≤ fuel) :
    (set_hm10clone_name (ideal ack) hd n L (fuel + 1) d).1 = some hd.HM10_Clone_EC_OK
      ∧ (get_hm10clone_name (ideal ack) hd (fuel + 1)
          (set_hm10clone_name (ideal ack) hd n L (fuel + 1) d).2).1 = some hd.HM10_Clone_EC_OK
      ∧ (get_hm10clone_name (ideal ack) hd (fuel + 1)
          (set_hm10clone_name (ideal ack) hd n L (fuel + 1) d).2).2.hm10_name
        = n ++ (set_hm10clone_name (ideal ack) hd n L (fuel + 1) d).2.hm10_name.drop L
      ∧ (get_hm10clone_name (ideal ack) hd (fuel + 1)
          (set_hm10clone_name (ideal ack) hd n L (fuel + 1) d).2).2.size = L := by
  subst hn
  have hne : n ≠ [] := by
    intro h
    rw [h] at h1
    exact absurd h1 (by decide)
  have hflush1 : (ideal ack).drain hd.HM10_CLONE_CUSTOM_HAL_TIMEOUT fuel (d.set_attempts 0).huart
      = some { d.huart with pending := [] } := by
    have := ideal_drain ack hd.HM10_CLONE_CUSTOM_HAL_TIMEOUT d.huart.pending.length d.huart
      (fuel - d.huart.pending.length - 1) rfl
    rwa [show d.huart.pending.length + 1 + (fuel - d.huart.pending.length - 1) = fuel by omega]
      at this
  have htx1 : (ideal ack).HAL_UART_Transmit { d.huart with pending := [] }
      (Cmd.set_name n n.length).request hd.HM10_CLONE_CUSTOM_HAL_TIMEOUT
      = (HAL_StatusTypeDef.HAL_OK, { d.huart with
          name := n
          pending := ((Cmd.set_name n n.length).reply []).flatten ++ [] }) := by
    simp only [Cmd.request, Cmd.reply, range_map_getD]
    show (HAL_StatusTypeDef.HAL_OK, Module.answer ack _ _) = _
    rw [answer_set_name ack _ n hne]
    simp
  obtain ⟨d3, e3, h3, -, -⟩ := send_success (ideal ack) hd hw (Cmd.set_name n n.length) hL []
    trivial fuel (Nat.zero_le _) (d.set_attempts 0) _ _ _ hflush1 htx1
    (ideal_receives ack _ _ _ _ rfl)
  have hset : set_hm10clone_name (ideal ack) hd n n.length (fuel + 1) d
      = (some hd.HM10_Clone_EC_OK, d3) := e3
  rw [hset]
  have hflush2 : (ideal ack).drain hd.HM10_CLONE_CUSTOM_HAL_TIMEOUT fuel (d3.set_attempts 0).huart
      = some { d.huart with name := n, pending := [] } := by
    have := ideal_drain ack hd.HM10_CLONE_CUSTOM_HAL_TIMEOUT 0
      { d.huart with name := n, pending := [] } (fuel - 1) rfl
    rw [show 0 + 1 + (fuel - 1) = fuel by omega] at this
    rw [set_attempts_huart, h3]
    exact this
  have htx2 : (ideal ack).HAL_UART_Transmit { d.huart with name := n, pending := [] }
      Cmd.get_name.request hd.HM10_CLONE_CUSTOM_HAL_TIMEOUT
      = (HAL_StatusTypeDef.HAL_OK, { d.huart with
          name := n
          pending := (Cmd.get_name.reply n).flatten ++ [] }) := by
    have hrep : (Cmd.get_name.reply n).flatten = HM10_Clone_Name_resp ++ n ++ [13, 10] := by
      simp only [Cmd.reply, List.flatten_cons, flatten_singles, List.take_append_drop]
    rw [hrep]
    simp [ideal, Module.answer, Cmd.request]
  obtain ⟨d5, e5, -, -, h5⟩ := send_success (ideal ack) hd hw Cmd.get_name trivial n
    ⟨h1, hL, fun k _ hk1 hk2 => hmid k hk1 hk2⟩ fuel hLf (d3.set_attempts 0) _ _ _ hflush2 htx2
    (ideal_receives ack _ _ _ _ rfl)
  have hget : get_hm10clone_name (ideal ack) hd (fuel + 1) d3
      = (some hd.HM10_Clone_EC_OK, d5) := e5
  rw [hget]
  exact ⟨rfl, rfl, h5.1, h5.2⟩

theorem name_round_trip_witness :
    (example_header.wf ∧ [72, 105].length = 2 ∧ 1 ≤ 2
      ∧ 2 ≤ example_header.HM10_CLONE_MAX_BLE_NAME_SIZE
      ∧ (∀ k, 1 ≤ k → k + 1 < 2 →
          ¬ (([72, 105] : List Nat).getD k 0 = 13 ∧ ([72, 105] : List Nat).getD (k + 1) 0 = 10))
      ∧ (Driver.init (⟨[], 48, [], 48, [1, 2]⟩ : Module)).huart.pending.length + 1 ≤ 5
      ∧ 2 ≤ 5)
    ∧ (set_hm10clone_name (ideal false) example_header [72, 105] 2 (5 + 1)
          (Driver.init ⟨[], 48, [], 48, [1, 2]⟩)).1 = some example_header.HM10_Clone_EC_OK
      ∧ (get_hm10clone_name (ideal false) example_header (5 + 1)
          (set_hm10clone_name (ideal false) example_header [72, 105] 2 (5 + 1)
            (Driver.init ⟨[], 48, [], 48, [1, 2]⟩)).2).1 = some example_header.HM10_Clone_EC_OK
      ∧ (get_hm10clone_name (ideal false) example_header (5 + 1)
          (set_hm10clone_name (ideal false) example_header [72, 105] 2 (5 + 1)
            (Driver.init ⟨[], 48, [], 48, [1, 2]⟩)).2).2.hm10_name
        = [72, 105] ++ (set_hm10clone_name (ideal false) example_header [72, 105] 2 (5 + 1)
            (Driver.init ⟨[], 48, [], 48, [1, 2]⟩)).2.hm10_name.drop 2
      ∧ (get_hm10clone_name (ideal false) example_header (5 + 1)
          (set_hm10clone_name (ideal false) example_header [72, 105] 2 (5 + 1)
            (Driver.init ⟨[], 48, [], 48, [1, 2]⟩)).2).2.size = 2 :=
  ⟨⟨by decide, by decide, by decide, by decide, fun k h1 h2 => absurd h2 (by omega),
      by decide, by decide⟩,
    name_round_trip false example_header (by decide) [72, 105] 2 (by decide) (by decide)
      (by decide) (fun k h1 h2 => absurd h2 (by omega)) 5
      (Driver.init ⟨[], 48, [], 48, [1, 2]⟩) (by decide) (by decide)⟩

/-! ## The validations of the setters, as conditions on the received bytes -/

theorem ext_getD (a b : List Nat) (hl : a.length = b.length)
    (h : ∀ k < a.length, a.getD k 0 = b.getD k 0) : a = b := by
  apply List.ext_getElem hl
  intro i h1 h2
  have := h i h1
  rwa [List.getD_eq_getElem _ _ h1, List.getD_eq_getElem _ _ h2] at this

theorem differs_false (d : Driver σ) (tag : List Nat) (n : Nat) :
    d.differs tag n = false ↔ ∀ i < n, d.TxRx_Buffer i = tag.getD i 0 := by
  simp [Driver.differs]

theorem compare_loop_false (d : Driver σ) (src : List Nat) (m i bc : Nat)
    (h : (compare_loop d src m i bc).1 = false) :
    ∀ k < m, d.TxRx_Buffer (bc + k) = src.getD (i + k) 0 := by
  induction m generalizing i bc with
  | zero => intro k hk; omega
  | succ m ih =>
    rw [compare_loop] at h
    split_ifs at h with h0
    intro k hk
    cases k with
    | zero => simpa using h0
    | succ k =>
      have := ih (i + 1) (bc + 1) h k (by omega)
      rw [show bc + (k + 1) = bc + 1 + k by omega, show i + (k + 1) = i + 1 + k by omega]
      exact this

/-- The validation of a first response against a tag, the bytes of an argument and `\r\n`,
as `send_set_name_cmd` and `send_set_pin_cmd` make it, passes exactly on these bytes. -/
theorem echo_check (d : Driver σ) (tag src : List Nat) (sz : Nat) (b : List Nat)
    (hlen : b.length = tag.length + sz + 2)
    (hbuf : ∀ k < tag.length + sz + 2, d.TxRx_Buffer k = b.getD k 0) :
    (d.differs tag tag.length
        || (compare_loop d src sz 0 tag.length).1
        || decide (d.TxRx_Buffer (compare_loop d src sz 0 tag.length).2 ≠ 13
            ∨ d.TxRx_Buffer ((compare_loop d src sz 0 tag.length).2 + 1) ≠ 10)) = false
      ↔ b = tag ++ (List.range sz).map (fun i => src.getD i 0) ++ [13, 10] := by
  have hget := frame_getD tag ((List.range sz).map (fun i => src.getD i 0))
  simp only [List.length_map, List.length_range] at hget
  have hmap : ∀ k < sz, ((List.range sz).map (fun i => src.getD i 0)).getD k 0
      = src.getD k 0 := by
    intro k hk
    simp [List.getD_eq_getElem?_getD, List.getElem?_map, List.getElem?_range hk]
  constructor
  · intro h
    simp only [Bool.or_eq_false_iff, decide_eq_false_iff_not, not_or, not_not] at h
    obtain ⟨⟨h1, h2⟩, h3, h4⟩ := h
    have h1' := (differs_false d _ _).1 h1
    have h2' := compare_loop_false d src sz 0 tag.length h2
    rw [compare_loop_eq d src sz 0 tag.length h2'] at h3 h4
    apply ext_getD
    · simp [hlen]; omega
    · intro k hk
      rw [hlen] at hk
      rw [← hbuf k hk, hget]
      by_cases c1 : k < tag.length
      · rw [if_pos c1]; exact h1' k c1
      · rw [if_neg c1]
        by_cases c2 : k < tag.length + sz
        · rw [if_pos c2, hmap _ (by omega)]
          have := h2' (k - tag.length) (by omega)
          rwa [show tag.length + (k - tag.length) = k by omega, Nat.zero_add] at this
        · rw [if_neg c2]
          by_cases c3 : k = tag.length + sz
          · rw [if_pos c3, c3]; exact h3
          · rw [if_neg c3, if_pos (by omega), show k = tag.length + sz + 1 by omega]; exact h4
  · intro h
    subst h
    have hcmp : compare_loop d src sz 0 tag.length = (false, tag.length + sz) := by
      apply compare_loop_eq
      intro k hk1
      rw [hbuf (tag.length + k) (by omega), hget, if_neg (by omega), if_pos (by omega),
        show tag.length + k - tag.length = k by omega, hmap k hk1, Nat.zero_add]
    have h13 : d.TxRx_Buffer (tag.length + sz) = 13 := by
      rw [hbuf (tag.length + sz) (by omega), hget, if_neg (by omega), if_neg (by omega),
        if_pos rfl]
    have h10 : d.TxRx_Buffer (tag.length + sz + 1) = 10 := by
      rw [hbuf (tag.length + sz + 1) (by omega), hget, if_neg (by omega), if_neg (by omega),
        if_neg (by omega), if_pos rfl]
    have hb : ∀ k < tag.length, d.TxRx_Buffer k = tag.getD k 0 := by
      intro k hk6
      rw [hbuf k (by omega), hget, if_pos hk6]
    have hdiff : d.differs tag tag.length = false := (differs_false d _ _).2 hb
    simp [hcmp, h13, h10, hdiff]

/-- The validation of the first response of `send_set_type_cmd` passes exactly on
`+TYPE=<mode>\r\n`. -/
theorem type_check (d : Driver σ) (m : Nat) (b : List Nat)
    (hlen : b.length = 9) (hbuf : ∀ k < 9, d.TxRx_Buffer k = b.getD k 0) :
    (d.differs HM10_Clone_Type_resp 6
        || decide (d.TxRx_Buffer 6 ≠ m)
        || decide (d.TxRx_Buffer 7 ≠ 13 ∨ d.TxRx_Buffer 8 ≠ 10)) = false
      ↔ b = HM10_Clone_Type_resp ++ [m, 13, 10] := by
  match b, hlen with
  | [b0, b1, b2, b3, b4, b5, b6, b7, b8], _ =>
    have q0 := hbuf 0 (by omega)
    have q1 := hbuf 1 (by omega)
    have q2 := hbuf 2 (by omega)
    have q3 := hbuf 3 (by omega)
    have q4 := hbuf 4 (by omega)
    have q5 := hbuf 5 (by omega)
    have q6 := hbuf 6 (by omega)
    have q7 := hbuf 7 (by omega)
    have q8 := hbuf 8 (by omega)
    simp only [List.getD_cons_zero, List.getD_cons_succ] at q0 q1 q2 q3 q4 q5 q6 q7 q8
    simp [Driver.differs, List.range_succ, q0, q1, q2, q3, q4, q5, q6, q7, q8,
      HM10_Clone_Type_resp]
    tauto

/-- The validation of the `OK\r\n` response passes exactly on `OK\r\n`. -/
theorem ok_check (d : Driver σ) (b : List Nat)
    (hlen : b.length = 4) (hbuf : ∀ k < 4, d.TxRx_Buffer k = b.getD k 0) :
    d.differs HM10_Clone_OK_resp HM10_CLONE_OK_RESPONSE_SIZE = false
      ↔ b = HM10_Clone_OK_resp := by
  match b, hlen with
  | [b0, b1, b2, b3], _ =>
    have q0 := hbuf 0 (by omega)
    have q1 := hbuf 1 (by omega)
    have q2 := hbuf 2 (by omega)
    have q3 := hbuf 3 (by omega)
    simp only [List.getD_cons_zero, List.getD_cons_succ] at q0 q1 q2 q3
    simp [Driver.differs, List.range_succ, q0, q1, q2, q3, HM10_Clone_OK_resp,
      HM10_CLONE_OK_RESPONSE_SIZE]

/-- A value response followed by the `OK\r\n` response: when both receives succeed, the
result is `HM10_Clone_EC_OK` if both responses are the expected ones and
`HM10_Clone_EC_ERR` otherwise. -/
theorem two_step_result (u : UART σ) (hd : Header)
    (again tail : Driver σ → Option Nat × Driver σ)
    (htail : ∀ d, (tail d).1 = some hd.HM10_Clone_EC_OK)
    (n : Nat) (bad : Driver σ → Bool) (d2 : Driver σ) (b1 b2 expected : List Nat) (s3 s4 : σ)
    (hrx1 : u.HAL_UART_Receive d2.huart n hd.HM10_CLONE_CUSTOM_HAL_TIMEOUT
      = (HAL_StatusTypeDef.HAL_OK, b1, s3))
    (hlen1 : b1.length = n)
    (hcheck : ∀ d1 : Driver σ, (∀ k < n, d1.TxRx_Buffer k = b1.getD k 0) →
      (bad d1 = false ↔ b1 = expected))
    (hrx2 : u.HAL_UART_Receive s3 4 hd.HM10_CLONE_CUSTOM_HAL_TIMEOUT
      = (HAL_StatusTypeDef.HAL_OK, b2, s4))
    (hlen2 : b2.length = 4) :
    (exchange_steps u hd again tail [(n, bad), ok_step] d2).1
      = some (if b1 = expected ∧ b2 = HM10_Clone_OK_resp then hd.HM10_Clone_EC_OK
          else hd.HM10_Clone_EC_ERR) := by
  have R := Receive_eq u d2 0 n hd.HM10_CLONE_CUSTOM_HAL_TIMEOUT _ _ s3 hrx1 hlen1
  have hbuf : ∀ k < n,
      (d2.Receive u 0 n hd.HM10_CLONE_CUSTOM_HAL_TIMEOUT).2.TxRx_Buffer k = b1.getD k 0 := by
    intro k hk
    rw [R.2.2, if_pos ⟨Nat.zero_le _, by omega⟩, Nat.sub_zero]
  by_cases h1 : b1 = expected
  · rw [steps_cons_ok u hd again tail n bad [ok_step] d2 R.1 ((hcheck _ hbuf).2 h1)]
    rw [← R.2.1] at hrx2
    have R2 := Receive_eq u (d2.Receive u 0 n hd.HM10_CLONE_CUSTOM_HAL_TIMEOUT).2 0 4
      hd.HM10_CLONE_CUSTOM_HAL_TIMEOUT _ _ s4 hrx2 hlen2
    have hbuf2 : ∀ k < 4, ((d2.Receive u 0 n hd.HM10_CLONE_CUSTOM_HAL_TIMEOUT).2.Receive u 0 4
        hd.HM10_CLONE_CUSTOM_HAL_TIMEOUT).2.TxRx_Buffer k = b2.getD k 0 := by
      intro k hk
      rw [R2.2.2, if_pos ⟨Nat.zero_le _, by omega⟩, Nat.sub_zero]
    by_cases h2 : b2 = HM10_Clone_OK_resp
    · rw [if_pos ⟨h1, h2⟩]
      have e := steps_cons_ok u hd again tail 4
        (fun d => d.differs HM10_Clone_OK_resp HM10_CLONE_OK_RESPONSE_SIZE) []
        (d2.Receive u 0 n hd.HM10_CLONE_CUSTOM_HAL_TIMEOUT).2 R2.1
        ((ok_check _ b2 hlen2 hbuf2).2 h2)
      exact (congrArg Prod.fst e).trans (htail _)
    · rw [if_neg (fun h => h2 h.2)]
      have hb : (fun d : Driver σ => d.differs HM10_Clone_OK_resp HM10_CLONE_OK_RESPONSE_SIZE)
          ((d2.Receive u 0 n hd.HM10_CLONE_CUSTOM_HAL_TIMEOUT).2.Receive u 0 4
            hd.HM10_CLONE_CUSTOM_HAL_TIMEOUT).2 = true := by
        by_contra hcon
        exact h2 ((ok_check _ b2 hlen2 hbuf2).1 (by simpa using hcon))
      have e := steps_cons_bad u hd again tail 4
        (fun d => d.differs HM10_Clone_OK_resp HM10_CLONE_OK_RESPONSE_SIZE) []
        (d2.Receive u 0 n hd.HM10_CLONE_CUSTOM_HAL_TIMEOUT).2 R2.1 hb
      exact congrArg Prod.fst e
  · rw [if_neg (fun h => h1 h.1)]
    have hb : bad (d2.Receive u 0 n hd.HM10_CLONE_CUSTOM_HAL_TIMEOUT).2 = true := by
      by_contra hcon
      exact h1 ((hcheck _ hbuf).1 (by simpa using hcon))
    rw [steps_cons_bad u hd again tail n bad [ok_step] d2 R.1 hb]

/-! ## C18: which commands end with the value response -/

/-- The pieces of the response of a command with a single response make up its value
response: the tag, the value and `\r\n`. -/
theorem reply_flatten (c : Cmd) (hc : c.single_response) (v : List Nat) :
    (c.reply v).flatten = c.tag ++ c.echo v ++ [13, 10] := by
  cases c
  case get_name =>
    simp only [Cmd.reply, List.flatten_cons, flatten_singles, List.take_append_drop]
    rfl
  all_goals first
    | (simp [Cmd.single_response] at hc; done)
    | simp [Cmd.reply, Cmd.tag, Cmd.echo]

/-- C18 (counterexample): `set_hm10clone_pin`, answered `+PIN=012345\r\n` and nothing more on
each attempt, receives and accepts that value response and then asks for 4 more bytes; these
do not come, it retries once and returns `HM10_Clone_EC_NR`, not `HM10_Clone_EC_OK`. -/
theorem set_hm10clone_pin_waits_for_ok :
    (set_hm10clone_pin sim example_header [48, 49, 50, 51, 52, 53] 4 (Driver.init pin_link_0)).1
        = some example_header.HM10_Clone_EC_NR
      ∧ example_header.HM10_Clone_EC_NR ≠ example_header.HM10_Clone_EC_OK
      ∧ (set_hm10clone_pin sim example_header [48, 49, 50, 51, 52, 53] 4
          (Driver.init pin_link_0)).2.trace
        = [Event.attempts 0,
            Event.rx 1 120 HAL_StatusTypeDef.HAL_TIMEOUT [],
            Event.tx [65, 84, 43, 80, 73, 78, 48, 49, 50, 51, 52, 53, 13, 10] 120
              HAL_StatusTypeDef.HAL_OK,
            Event.rx 13 120 HAL_StatusTypeDef.HAL_OK
              [43, 80, 73, 78, 61, 48, 49, 50, 51, 52, 53, 13, 10],
            Event.rx 4 120 HAL_StatusTypeDef.HAL_TIMEOUT [],
            Event.attempts 1,
            Event.rx 1 120 HAL_StatusTypeDef.HAL_TIMEOUT [],
            Event.tx [65, 84, 43, 80, 73, 78, 48, 49, 50, 51, 52, 53, 13, 10] 120
              HAL_StatusTypeDef.HAL_OK,
            Event.rx 13 120 HAL_StatusTypeDef.HAL_OK
              [43, 80, 73, 78, 61, 48, 49, 50, 51, 52, 53, 13, 10],
            Event.rx 4 120 HAL_StatusTypeDef.HAL_TIMEOUT []] := by
  decide

/-- C18 (amended): `get_name`, `set_role`, `get_role`, `get_pin` and `get_pin_code_mode` end
with the value response: for each of them, when the flush has ended, the transmit succeeds
and the receives deliver the value response, the command returns `HM10_Clone_EC_OK` and,
after the flush and the one transmit, has made exactly the receives of that response and no
other. The command `set_pin` does not: when the flush has ended, its transmit succeeds and
its value response `+PIN=<pin>\r\n` has arrived, it receives 4 more bytes, and when that
receive succeeds it returns `HM10_Clone_EC_OK` exactly when they are `OK\r\n`, and
`HM10_Clone_EC_ERR` otherwise. -/
theorem value_response_ends_the_exchange (u : UART σ) (hd : Header) (hw : hd.wf) :
    (∀ (c : Cmd), c.single_response → c.accepted hd → ∀ (v : List Nat), c.value_ok hd v →
      ∀ (fuel : Nat), v.length ≤ fuel → ∀ (d : Driver σ) (s1 s2 s3 : σ),
      u.drain hd.HM10_CLONE_CUSTOM_HAL_TIMEOUT fuel d.huart = some s1 →
      u.HAL_UART_Transmit s1 c.request hd.HM10_CLONE_CUSTOM_HAL_TIMEOUT
        = (HAL_StatusTypeDef.HAL_OK, s2) →
      u.receives hd.HM10_CLONE_CUSTOM_HAL_TIMEOUT (c.reply v) s2 = some s3 →
      (c.run u hd (fuel + 1) d).1 = some hd.HM10_Clone_EC_OK
        ∧ (c.reply v).flatten = c.tag ++ c.echo v ++ [13, 10]
        ∧ ∃ evs, (∀ e ∈ evs, e.is_flush_rx hd)
            ∧ (c.run u hd (fuel + 1) d).2.trace
              = d.trace ++ [Event.attempts 0] ++ evs
                ++ [Event.tx c.request hd.HM10_CLONE_CUSTOM_HAL_TIMEOUT HAL_StatusTypeDef.HAL_OK]
                ++ (c.reply v).map (rx_ok hd))
    ∧ (∀ (pin : List Nat), (Cmd.set_pin pin).accepted hd →
      ∀ (fuel : Nat) (d : Driver σ) (s1 t2 t3 t4 : σ) (b2 : List Nat),
      u.drain hd.HM10_CLONE_CUSTOM_HAL_TIMEOUT fuel d.huart = some s1 →
      u.HAL_UART_Transmit s1 (Cmd.set_pin pin).request hd.HM10_CLONE_CUSTOM_HAL_TIMEOUT
        = (HAL_StatusTypeDef.HAL_OK, t2) →
      u.HAL_UART_Receive t2 13 hd.HM10_CLONE_CUSTOM_HAL_TIMEOUT
        = (HAL_StatusTypeDef.HAL_OK,
            HM10_Clone_Pin_resp ++ (List.range 6).map (fun i => pin.getD i 0) ++ [13, 10], t3) →
      u.HAL_UART_Receive t3 4 hd.HM10_CLONE_CUSTOM_HAL_TIMEOUT
        = (HAL_StatusTypeDef.HAL_OK, b2, t4) →
      b2.length = 4 →
      ((set_hm10clone_pin u hd pin (fuel + 1) d).1 = some hd.HM10_Clone_EC_OK
          ↔ b2 = [79, 75, 13, 10])
        ∧ (b2 ≠ [79, 75, 13, 10] →
            (set_hm10clone_pin u hd pin (fuel + 1) d).1 = some hd.HM10_Clone_EC_ERR)) := by
  have hne : hd.HM10_Clone_EC_ERR ≠ hd.HM10_Clone_EC_OK := by
    rw [hw.1.1]; exact hw.1.2.2
  refine ⟨?_, ?_⟩
  · intro c hc hacc v hv fuel hfuel d s1 s2 s3 hflush htx hrx
    obtain ⟨d3, k1, -, -, k4⟩ := send_success_trace u hd hw c hacc v hv fuel hfuel
      (d.set_attempts 0) s1 s2 s3 hflush htx hrx
    obtain ⟨evs, e1, e2⟩ := flush_trace u hd fuel (d.set_attempts 0)
    rw [send_eq_run, k1]
    refine ⟨rfl, reply_flatten c hc v, evs, e2, ?_⟩
    show d3.trace = _
    rw [k4, e1]
    rfl
  · intro pin hpin fuel d s1 t2 t3 t4 b2 hflush htxp hrxp hrxp2 hb2
    obtain ⟨d2, h1, -, -, h4⟩ := send_tx_ok u hd hw (Cmd.set_pin pin) hpin fuel
      (d.set_attempts 0) s1 t2 hflush htxp
    rw [← h1] at hrxp
    have hlen : (HM10_Clone_Pin_resp ++ (List.range 6).map (fun i => pin.getD i 0)
        ++ [13, 10]).length = 13 := by simp [HM10_Clone_Pin_resp]
    have key := two_step_result u hd (exchange u hd ((Cmd.set_pin pin).shape u hd) fuel)
      (((Cmd.set_pin pin).shape u hd).tail
        (exchange u hd ((Cmd.set_pin pin).shape u hd) fuel) fuel) (fun _ => rfl)
      13
      (fun d => d.differs HM10_Clone_Pin_resp (pin_resp_size_without_pin_cr_and_lf hd)
        || (compare_loop d pin (11 - pin_resp_size_without_pin_cr_and_lf hd) 0
              (pin_resp_size_without_pin_cr_and_lf hd)).1
        || decide (d.TxRx_Buffer (compare_loop d pin
              (11 - pin_resp_size_without_pin_cr_and_lf hd) 0
              (pin_resp_size_without_pin_cr_and_lf hd)).2 ≠ 13
            ∨ d.TxRx_Buffer ((compare_loop d pin
              (11 - pin_resp_size_without_pin_cr_and_lf hd) 0
              (pin_resp_size_without_pin_cr_and_lf hd)).2 + 1) ≠ 10))
      d2 _ b2 (HM10_Clone_Pin_resp ++ (List.range 6).map (fun i => pin.getD i 0) ++ [13, 10])
      t3 t4 hrxp hlen
      (by
        intro d1 hk
        rw [pin_resp_size_eq hd hw]
        exact echo_check d1 HM10_Clone_Pin_resp pin 6 _ hlen hk)
      hrxp2 hb2
    have hrun : (set_hm10clone_pin u hd pin (fuel + 1) d).1
        = some (if b2 = HM10_Clone_OK_resp then hd.HM10_Clone_EC_OK
            else hd.HM10_Clone_EC_ERR) := by
      refine ((congrArg Prod.fst h4).trans key).trans ?_
      simp
    rw [hrun]
    by_cases hb : b2 = HM10_Clone_OK_resp
    · rw [if_pos hb]
      exact ⟨⟨fun _ => hb, fun _ => rfl⟩, fun h => absurd hb h⟩
    · rw [if_neg hb]
      exact ⟨⟨fun h => absurd (Option.some.inj h) hne, fun h => absurd h hb⟩, fun _ => rfl⟩

theorem value_response_ends_the_exchange_witness :
    (example_header.wf
      ∧ (Cmd.set_role 48).single_response ∧ (Cmd.set_role 48).accepted example_header
      ∧ (Cmd.set_role 48).value_ok example_header [] ∧ ([] : List Nat).length ≤ 1
      ∧ sim.drain example_header.HM10_CLONE_CUSTOM_HAL_TIMEOUT 1
          (Driver.init role_ok_link_0).huart = some role_ok_link_0
      ∧ sim.HAL_UART_Transmit role_ok_link_0 (Cmd.set_role 48).request
          example_header.HM10_CLONE_CUSTOM_HAL_TIMEOUT
        = (HAL_StatusTypeDef.HAL_OK, role_ok_link_1)
      ∧ sim.receives example_header.HM10_CLONE_CUSTOM_HAL_TIMEOUT
          ((Cmd.set_role 48).reply []) role_ok_link_1 = some ⟨[], []⟩
      ∧ Cmd.get_pin.single_response ∧ Cmd.get_pin.accepted example_header
      ∧ Cmd.get_pin.value_ok example_header [48, 49, 50, 51, 52, 53]
      ∧ [48, 49, 50, 51, 52, 53].length ≤ 6
      ∧ sim.drain example_header.HM10_CLONE_CUSTOM_HAL_TIMEOUT 6
          (Driver.init pin_link_1).huart = some pin_link_1
      ∧ sim.HAL_UART_Transmit pin_link_1 Cmd.get_pin.request
          example_header.HM10_CLONE_CUSTOM_HAL_TIMEOUT = (HAL_StatusTypeDef.HAL_OK, pin_link_2)
      ∧ sim.receives example_header.HM10_CLONE_CUSTOM_HAL_TIMEOUT
          (Cmd.get_pin.reply [48, 49, 50, 51, 52, 53]) pin_link_2 = some ⟨[79, 75, 13, 10], []⟩
      ∧ (Cmd.set_pin [48, 49, 50, 51, 52, 53]).accepted example_header
      ∧ sim.HAL_UART_Transmit pin_link_1 (Cmd.set_pin [48, 49, 50, 51, 52, 53]).request
          example_header.HM10_CLONE_CUSTOM_HAL_TIMEOUT = (HAL_StatusTypeDef.HAL_OK, pin_link_2)
      ∧ sim.HAL_UART_Receive pin_link_2 13 example_header.HM10_CLONE_CUSTOM_HAL_TIMEOUT
        = (HAL_StatusTypeDef.HAL_OK,
            HM10_Clone_Pin_resp
              ++ (List.range 6).map (fun i => [48, 49, 50, 51, 52, 53].getD i 0) ++ [13, 10],
            ⟨[79, 75, 13, 10], []⟩)
      ∧ sim.HAL_UART_Receive ⟨[79, 75, 13, 10], []⟩ 4
          example_header.HM10_CLONE_CUSTOM_HAL_TIMEOUT
        = (HAL_StatusTypeDef.HAL_OK, [79, 75, 13, 10], ⟨[], []⟩)
      ∧ [79, 75, 13, 10].length = 4
      ∧ sim.drain example_header.HM10_CLONE_CUSTOM_HAL_TIMEOUT 1
          (Driver.init pin_ko_link_0).huart = some pin_ko_link_0
      ∧ sim.HAL_UART_Transmit pin_ko_link_0 (Cmd.set_pin [48, 49, 50, 51, 52, 53]).request
          example_header.HM10_CLONE_CUSTOM_HAL_TIMEOUT
        = (HAL_StatusTypeDef.HAL_OK, pin_ko_link_1)
      ∧ sim.HAL_UART_Receive pin_ko_link_1 13 example_header.HM10_CLONE_CUSTOM_HAL_TIMEOUT
        = (HAL_StatusTypeDef.HAL_OK,
            HM10_Clone_Pin_resp
              ++ (List.range 6).map (fun i => [48, 49, 50, 51, 52, 53].getD i 0) ++ [13, 10],
            ⟨[75, 79, 13, 10], []⟩)
      ∧ sim.HAL_UART_Receive ⟨[75, 79, 13, 10], []⟩ 4
          example_header.HM10_CLONE_CUSTOM_HAL_TIMEOUT
        = (HAL_StatusTypeDef.HAL_OK, [75, 79, 13, 10], ⟨[], []⟩)
      ∧ [75, 79, 13, 10].length = 4 ∧ [75, 79, 13, 10] ≠ [79, 75, 13, 10])
    ∧ ((set_hm10clone_role sim example_header 48 (1 + 1) (Driver.init role_ok_link_0)).1
          = some example_header.HM10_Clone_EC_OK
        ∧ ∃ evs, (∀ e ∈ evs, e.is_flush_rx example_header)
            ∧ (set_hm10clone_role sim example_header 48 (1 + 1)
                (Driver.init role_ok_link_0)).2.trace
              = (Driver.init role_ok_link_0).trace ++ [Event.attempts 0] ++ evs
                ++ [Event.tx (Cmd.set_role 48).request
                      example_header.HM10_CLONE_CUSTOM_HAL_TIMEOUT HAL_StatusTypeDef.HAL_OK]
                ++ ((Cmd.set_role 48).reply []).map (rx_ok example_header))
    ∧ ((Cmd.get_pin.run sim example_header (6 + 1) (Driver.init pin_link_1)).1
          = some example_header.HM10_Clone_EC_OK
        ∧ (Cmd.get_pin.reply [48, 49, 50, 51, 52, 53]).flatten
          = Cmd.get_pin.tag ++ Cmd.get_pin.echo [48, 49, 50, 51, 52, 53] ++ [13, 10]
        ∧ ∃ evs, (∀ e ∈ evs, e.is_flush_rx example_header)
            ∧ (Cmd.get_pin.run sim example_header (6 + 1) (Driver.init pin_link_1)).2.trace
              = (Driver.init pin_link_1).trace ++ [Event.attempts 0] ++ evs
                ++ [Event.tx Cmd.get_pin.request example_header.HM10_CLONE_CUSTOM_HAL_TIMEOUT
                      HAL_StatusTypeDef.HAL_OK]
                ++ (Cmd.get_pin.reply [48, 49, 50, 51, 52, 53]).map (rx_ok example_header))
    ∧ (set_hm10clone_pin sim example_header [48, 49, 50, 51, 52, 53] (6 + 1)
          (Driver.init pin_link_1)).1 = some example_header.HM10_Clone_EC_OK
    ∧ (set_hm10clone_pin sim example_header [48, 49, 50, 51, 52, 53] (1 + 1)
          (Driver.init pin_ko_link_0)).1 = some example_header.HM10_Clone_EC_ERR :=
  have hrole := (value_response_ends_the_exchange sim example_header (by decide)).1
    (Cmd.set_role 48) trivial (Or.inl rfl) [] trivial 1 (by decide)
    (Driver.init role_ok_link_0) role_ok_link_0 role_ok_link_1 ⟨[], []⟩
    (by decide) (by decide) (by decide)
  have hget := (value_response_ends_the_exchange sim example_header (by decide)).1
    Cmd.get_pin trivial trivial [48, 49, 50, 51, 52, 53] (by simp only [Cmd.value_ok]; decide)
    6 (by decide) (Driver.init pin_link_1) pin_link_1 pin_link_2 ⟨[79, 75, 13, 10], []⟩
    (by decide) (by decide) (by decide)
  have hpin := (value_response_ends_the_exchange sim example_header (by decide)).2
    [48, 49, 50, 51, 52, 53] (by simp only [Cmd.accepted]; decide) 6
    (Driver.init pin_link_1) pin_link_1 pin_link_2 ⟨[79, 75, 13, 10], []⟩ ⟨[], []⟩
    [79, 75, 13, 10] (by decide) (by decide) (by decide) (by decide) (by decide)
  have hko := (value_response_ends_the_exchange sim example_header (by decide)).2
    [48, 49, 50, 51, 52, 53] (by simp only [Cmd.accepted]; decide) 1
    (Driver.init pin_ko_link_0) pin_ko_link_0 pin_ko_link_1 ⟨[75, 79, 13, 10], []⟩ ⟨[], []⟩
    [75, 79, 13, 10] (by decide) (by decide) (by decide) (by decide) (by decide)
  ⟨⟨by decide, trivial, Or.inl rfl, trivial, by decide, by decide, by decide, by decide,
      trivial, trivial, by simp only [Cmd.value_ok]; decide, by decide, by decide,
      by decide, by decide, by simp only [Cmd.accepted]; decide, by decide, by decide,
      by decide, by decide, by decide, by decide, by decide, by decide, by decide,
      by decide⟩,
    ⟨hrole.1, hrole.2.2⟩, hget, hpin.1.2 rfl, hko.2 (by decide)⟩

/-! ## C19: the two responses of `set_hm10clone_name` and `set_hm10clone_pin_code_mode` -/

/-- C19: for `set_hm10clone_name` with a length `L` not above the maximum and, separately,
for `set_hm10clone_pin_code_mode` with a known mode `m`: when the flush has ended, the
transmit of the command succeeds, its first receive (of `8 + L`, of 9 bytes) succeeds
delivering `b1` and the following receive of 4 bytes succeeds delivering `b2`, the command
returns `HM10_Clone_EC_OK` exactly when the first response is `+NAME=<name>\r\n`
(`+TYPE=<m>\r\n`) and the second is `OK\r\n`; when the first response is that one and the
second is not `OK\r\n`, it returns `HM10_Clone_EC_ERR`. -/
theorem set_name_and_mode_need_both_responses (u : UART σ) (hd : Header) (hw : hd.wf) :
    (∀ (n : List Nat) (L : Nat), n.length = L → L ≤ hd.HM10_CLONE_MAX_BLE_NAME_SIZE →
      ∀ (fuel : Nat) (d : Driver σ) (s1 s2 s3 s4 : σ) (b1 b2 : List Nat),
      u.drain hd.HM10_CLONE_CUSTOM_HAL_TIMEOUT fuel d.huart = some s1 →
      u.HAL_UART_Transmit s1 ([65, 84, 43, 78, 65, 77, 69] ++ n ++ [13, 10])
        hd.HM10_CLONE_CUSTOM_HAL_TIMEOUT = (HAL_StatusTypeDef.HAL_OK, s2) →
      u.HAL_UART_Receive s2 (8 + L) hd.HM10_CLONE_CUSTOM_HAL_TIMEOUT
        = (HAL_StatusTypeDef.HAL_OK, b1, s3) →
      b1.length = 8 + L →
      u.HAL_UART_Receive s3 4 hd.HM10_CLONE_CUSTOM_HAL_TIMEOUT
        = (HAL_StatusTypeDef.HAL_OK, b2, s4) →
      b2.length = 4 →
      ((set_hm10clone_name u hd n L (fuel + 1) d).1 = some hd.HM10_Clone_EC_OK
          ↔ b1 = [43, 78, 65, 77, 69, 61] ++ n ++ [13, 10] ∧ b2 = [79, 75, 13, 10])
        ∧ (b1 = [43, 78, 65, 77, 69, 61] ++ n ++ [13, 10] → b2 ≠ [79, 75, 13, 10] →
            (set_hm10clone_name u hd n L (fuel + 1) d).1 = some hd.HM10_Clone_EC_ERR))
    ∧ (∀ (m : Nat), m = hd.HM10_Clone_Pin_Code_DISABLED ∨ m = hd.HM10_Clone_Pin_Code_ENABLED →
      ∀ (fuel : Nat) (d : Driver σ) (s1 s2 s3 s4 : σ) (b1 b2 : List Nat),
      u.drain hd.HM10_CLONE_CUSTOM_HAL_TIMEOUT fuel d.huart = some s1 →
      u.HAL_UART_Transmit s1 [65, 84, 43, 84, 89, 80, 69, m % 256, 13, 10]
        hd.HM10_CLONE_CUSTOM_HAL_TIMEOUT = (HAL_StatusTypeDef.HAL_OK, s2) →
      u.HAL_UART_Receive s2 9 hd.HM10_CLONE_CUSTOM_HAL_TIMEOUT
        = (HAL_StatusTypeDef.HAL_OK, b1, s3) →
      b1.length = 9 →
      u.HAL_UART_Receive s3 4 hd.HM10_CLONE_CUSTOM_HAL_TIMEOUT
        = (HAL_StatusTypeDef.HAL_OK, b2, s4) →
      b2.length = 4 →
      ((set_hm10clone_pin_code_mode u hd m (fuel + 1) d).1 = some hd.HM10_Clone_EC_OK
          ↔ b1 = [43, 84, 89, 80, 69, 61] ++ [m] ++ [13, 10] ∧ b2 = [79, 75, 13, 10])
        ∧ (b1 = [43, 84, 89, 80, 69, 61] ++ [m] ++ [13, 10] → b2 ≠ [79, 75, 13, 10] →
            (set_hm10clone_pin_code_mode u hd m (fuel + 1) d).1
              = some hd.HM10_Clone_EC_ERR)) := by
  have hne : hd.HM10_Clone_EC_ERR ≠ hd.HM10_Clone_EC_OK := by
    rw [hw.1.1]; exact hw.1.2.2
  have fin : ∀ (r : Option Nat) (P : Prop) [Decidable P],
      r = some (if P then hd.HM10_Clone_EC_OK else hd.HM10_Clone_EC_ERR) →
      (r = some hd.HM10_Clone_EC_OK ↔ P) := by
    intro r P _ h
    rw [h]
    by_cases hp : P
    · simp [hp]
    · simp [hp, hne]
  constructor
  · intro n L hn hL fuel d s1 s2 s3 s4 b1 b2 hflush htx hrx1 hb1 hrx2 hb2
    subst hn
    have hsz : n.length ≤ 12 := le_trans hL hw.2.2
    have hreq : (Cmd.set_name n n.length).request
        = [65, 84, 43, 78, 65, 77, 69] ++ n ++ [13, 10] := by
      simp only [Cmd.request, range_map_getD]
    obtain ⟨d2, h1, -, -, h4⟩ := send_tx_ok u hd hw (Cmd.set_name n n.length) hL fuel
      (d.set_attempts 0) s1 s2 hflush (by rw [hreq]; exact htx)
    rw [← h1] at hrx1
    have e6 : (n.length + 6) % 256 - 6 = n.length := by omega
    have e8 : (8 + n.length) % 256 = 8 + n.length := by omega
    have key := two_step_result u hd (exchange u hd ((Cmd.set_name n n.length).shape u hd) fuel)
      (((Cmd.set_name n n.length).shape u hd).tail
        (exchange u hd ((Cmd.set_name n n.length).shape u hd) fuel) fuel) (fun _ => rfl)
      ((8 + n.length) % 256)
      (fun d => d.differs HM10_Clone_Name_resp 6
        || (compare_loop d n ((n.length + 6) % 256 - 6) 0 6).1
        || decide (d.TxRx_Buffer (compare_loop d n ((n.length + 6) % 256 - 6) 0 6).2 ≠ 13
            ∨ d.TxRx_Buffer ((compare_loop d n ((n.length + 6) % 256 - 6) 0 6).2 + 1) ≠ 10))
      d2 b1 b2 ([43, 78, 65, 77, 69, 61] ++ n ++ [13, 10]) s3 s4
      (by rw [e8]; exact hrx1) (by rw [e8]; exact hb1)
      (by
        intro d1 hk
        rw [e8] at hk
        have := echo_check d1 HM10_Clone_Name_resp n n.length b1
          (by rw [hb1]; simp [HM10_Clone_Name_resp]; omega)
          (by
            intro k hk1
            exact hk k (by simp [HM10_Clone_Name_resp] at hk1; omega))
        rw [range_map_getD] at this
        rw [e6]
        exact this)
      hrx2 hb2
    have hrun : (set_hm10clone_name u hd n n.length (fuel + 1) d).1
        = some (if b1 = [43, 78, 65, 77, 69, 61] ++ n ++ [13, 10] ∧ b2 = HM10_Clone_OK_resp
            then hd.HM10_Clone_EC_OK else hd.HM10_Clone_EC_ERR) :=
      (congrArg Prod.fst h4).trans key
    refine ⟨fin _ _ hrun, ?_⟩
    intro g1 g2
    rw [hrun, if_neg (fun h => g2 h.2)]
  · intro m hm fuel d s1 t2 t3 t4 c1 c2 hflush htx' hrx1' hc1 hrx2' hc2
    have hreq : (Cmd.set_pin_code_mode m).request
        = [65, 84, 43, 84, 89, 80, 69, m % 256, 13, 10] := rfl
    obtain ⟨d2, h1, -, -, h4⟩ := send_tx_ok u hd hw (Cmd.set_pin_code_mode m) hm fuel
      (d.set_attempts 0) s1 t2 hflush (by rw [hreq]; exact htx')
    rw [← h1] at hrx1'
    have key := two_step_result u hd (exchange u hd ((Cmd.set_pin_code_mode m).shape u hd) fuel)
      (((Cmd.set_pin_code_mode m).shape u hd).tail
        (exchange u hd ((Cmd.set_pin_code_mode m).shape u hd) fuel) fuel) (fun _ => rfl)
      9
      (fun d => d.differs HM10_Clone_Type_resp 6
        || decide (d.TxRx_Buffer 6 ≠ m)
        || decide (d.TxRx_Buffer 7 ≠ 13 ∨ d.TxRx_Buffer 8 ≠ 10))
      d2 c1 c2 ([43, 84, 89, 80, 69, 61] ++ [m] ++ [13, 10]) t3 t4 hrx1' hc1
      (fun d1 hk => type_check d1 m c1 hc1 hk)
      hrx2' hc2
    have hrun : (set_hm10clone_pin_code_mode u hd m (fuel + 1) d).1
        = some (if c1 = [43, 84, 89, 80, 69, 61] ++ [m] ++ [13, 10] ∧ c2 = HM10_Clone_OK_resp
            then hd.HM10_Clone_EC_OK else hd.HM10_Clone_EC_ERR) :=
      (congrArg Prod.fst h4).trans key
    refine ⟨fin _ _ hrun, ?_⟩
    intro g1 g2
    rw [hrun, if_neg (fun h => g2 h.2)]

theorem set_name_and_mode_need_both_responses_witness :
    (example_header.wf
      ∧ [72, 105].length = 2 ∧ 2 ≤ example_header.HM10_CLONE_MAX_BLE_NAME_SIZE
      ∧ sim.drain example_header.HM10_CLONE_CUSTOM_HAL_TIMEOUT 1
          (Driver.init name_ok_link_0).huart = some name_ok_link_0
      ∧ sim.HAL_UART_Transmit name_ok_link_0 ([65, 84, 43, 78, 65, 77, 69] ++ [72, 105] ++ [13, 10])
          example_header.HM10_CLONE_CUSTOM_HAL_TIMEOUT
        = (HAL_StatusTypeDef.HAL_OK, name_ok_link_1)
      ∧ sim.HAL_UART_Receive name_ok_link_1 (8 + 2) example_header.HM10_CLONE_CUSTOM_HAL_TIMEOUT
        = (HAL_StatusTypeDef.HAL_OK, [43, 78, 65, 77, 69, 61, 72, 105, 13, 10],
            ⟨[79, 75, 13, 10], []⟩)
      ∧ [43, 78, 65, 77, 69, 61, 72, 105, 13, 10].length = 8 + 2
      ∧ sim.HAL_UART_Receive ⟨[79, 75, 13, 10], []⟩ 4
          example_header.HM10_CLONE_CUSTOM_HAL_TIMEOUT
        = (HAL_StatusTypeDef.HAL_OK, [79, 75, 13, 10], ⟨[], []⟩)
      ∧ [79, 75, 13, 10].length = 4
      ∧ sim.drain example_header.HM10_CLONE_CUSTOM_HAL_TIMEOUT 1
          (Driver.init name_ko_link_0).huart = some name_ko_link_0
      ∧ sim.HAL_UART_Transmit name_ko_link_0 ([65, 84, 43, 78, 65, 77, 69] ++ [72, 105] ++ [13, 10])
          example_header.HM10_CLONE_CUSTOM_HAL_TIMEOUT
        = (HAL_StatusTypeDef.HAL_OK, name_ko_link_1)
      ∧ sim.HAL_UART_Receive name_ko_link_1 (8 + 2) example_header.HM10_CLONE_CUSTOM_HAL_TIMEOUT
        = (HAL_StatusTypeDef.HAL_OK, [43, 78, 65, 77, 69, 61, 72, 105, 13, 10],
            ⟨[75, 79, 13, 10], []⟩)
      ∧ sim.HAL_UART_Receive ⟨[75, 79, 13, 10], []⟩ 4
          example_header.HM10_CLONE_CUSTOM_HAL_TIMEOUT
        = (HAL_StatusTypeDef.HAL_OK, [75, 79, 13, 10], ⟨[], []⟩)
      ∧ [75, 79, 13, 10].length = 4 ∧ [75, 79, 13, 10] ≠ [79, 75, 13, 10]
      ∧ (48 = example_header.HM10_Clone_Pin_Code_DISABLED
          ∨ 48 = example_header.HM10_Clone_Pin_Code_ENABLED)
      ∧ sim.drain example_header.HM10_CLONE_CUSTOM_HAL_TIMEOUT 1
          (Driver.init mode_ok_link_0).huart = some mode_ok_link_0
      ∧ sim.HAL_UART_Transmit mode_ok_link_0 [65, 84, 43, 84, 89, 80, 69, 48 % 256, 13, 10]
          example_header.HM10_CLONE_CUSTOM_HAL_TIMEOUT
        = (HAL_StatusTypeDef.HAL_OK, mode_ok_link_1)
      ∧ sim.HAL_UART_Receive mode_ok_link_1 9 example_header.HM10_CLONE_CUSTOM_HAL_TIMEOUT
        = (HAL_StatusTypeDef.HAL_OK, [43, 84, 89, 80, 69, 61, 48, 13, 10],
            ⟨[79, 75, 13, 10], []⟩)
      ∧ [43, 84, 89, 80, 69, 61, 48, 13, 10].length = 9
      ∧ sim.drain example_header.HM10_CLONE_CUSTOM_HAL_TIMEOUT 1
          (Driver.init mode_ko_link_0).huart = some mode_ko_link_0
      ∧ sim.HAL_UART_Transmit mode_ko_link_0 [65, 84, 43, 84, 89, 80, 69, 48 % 256, 13, 10]
          example_header.HM10_CLONE_CUSTOM_HAL_TIMEOUT
        = (HAL_StatusTypeDef.HAL_OK, mode_ko_link_1)
      ∧ sim.HAL_UART_Receive mode_ko_link_1 9 example_header.HM10_CLONE_CUSTOM_HAL_TIMEOUT
        = (HAL_StatusTypeDef.HAL_OK, [43, 84, 89, 80, 69, 61, 48, 13, 10],
            ⟨[75, 79, 13, 10], []⟩))
    ∧ (set_hm10clone_name sim example_header [72, 105] 2 (1 + 1)
          (Driver.init name_ok_link_0)).1 = some example_header.HM10_Clone_EC_OK
    ∧ (set_hm10clone_name sim example_header [72, 105] 2 (1 + 1)
          (Driver.init name_ko_link_0)).1 = some example_header.HM10_Clone_EC_ERR
    ∧ (set_hm10clone_pin_code_mode sim example_header 48 (1 + 1)
          (Driver.init mode_ok_link_0)).1 = some example_header.HM10_Clone_EC_OK
    ∧ (set_hm10clone_pin_code_mode sim example_header 48 (1 + 1)
          (Driver.init mode_ko_link_0)).1 = some example_header.HM10_Clone_EC_ERR :=
  have hname := (set_name_and_mode_need_both_responses sim example_header (by decide)).1
    [72, 105] 2 (by decide) (by decide) 1 (Driver.init name_ok_link_0) name_ok_link_0
    name_ok_link_1 ⟨[79, 75, 13, 10], []⟩ ⟨[], []⟩ [43, 78, 65, 77, 69, 61, 72, 105, 13, 10]
    [79, 75, 13, 10] (by decide) (by decide) (by decide) (by decide) (by decide) (by decide)
  have hname2 := (set_name_and_mode_need_both_responses sim example_header (by decide)).1
    [72, 105] 2 (by decide) (by decide) 1 (Driver.init name_ko_link_0) name_ko_link_0
    name_ko_link_1 ⟨[75, 79, 13, 10], []⟩ ⟨[], []⟩ [43, 78, 65, 77, 69, 61, 72, 105, 13, 10]
    [75, 79, 13, 10] (by decide) (by decide) (by decide) (by decide) (by decide) (by decide)
  have hmode := (set_name_and_mode_need_both_responses sim example_header (by decide)).2
    48 (by decide) 1 (Driver.init mode_ok_link_0) mode_ok_link_0
    mode_ok_link_1 ⟨[79, 75, 13, 10], []⟩ ⟨[], []⟩ [43, 84, 89, 80, 69, 61, 48, 13, 10]
    [79, 75, 13, 10] (by decide) (by decide) (by decide) (by decide) (by decide) (by decide)
  have hmode2 := (set_name_and_mode_need_both_responses sim example_header (by decide)).2
    48 (by decide) 1 (Driver.init mode_ko_link_0) mode_ko_link_0
    mode_ko_link_1 ⟨[75, 79, 13, 10], []⟩ ⟨[], []⟩ [43, 84, 89, 80, 69, 61, 48, 13, 10]
    [75, 79, 13, 10] (by decide) (by decide) (by decide) (by decide) (by decide) (by decide)
  ⟨⟨by decide, rfl, by decide, by decide, by decide, by decide, rfl, by decide,
      rfl, by decide, by decide, by decide, by decide, rfl, by decide, by decide,
      by decide, by decide, by decide, rfl, by decide, by decide, by decide⟩,
    hname.1.2 ⟨by decide, by decide⟩, hname2.2 (by decide) (by decide),
    hmode.1.2 ⟨by decide, by decide⟩, hmode2.2 (by decide) (by decide)⟩

/-! ## The frames handed to the transmit -/

theorem tx_frames_append (a b : List Event) :
    tx_frames (a ++ b) = tx_frames a ++ tx_frames b := by
  induction a with
  | nil => rfl
  | cons e a ih =>
    cases e
    · show _ :: tx_frames (a ++ b) = _ :: tx_frames a ++ tx_frames b
      rw [ih]; rfl
    · show tx_frames (a ++ b) = tx_frames a ++ tx_frames b
      exact ih
    · show tx_frames (a ++ b) = tx_frames a ++ tx_frames b
      exact ih

theorem tx_frames_length (a : List Event) : (tx_frames a).length = tx_count a := by
  induction a with
  | nil => rfl
  | cons e a ih =>
    cases e
    · show (tx_frames a).length + 1 = tx_count a + 1
      rw [ih]
    · exact ih
    · exact ih

theorem sent_same (f : List Nat) {d r : Driver σ} (h : tx_frames r.trace = tx_frames d.trace) :
    Sent f d r := ⟨0, by simpa using h⟩

theorem sent_trans {f : List Nat} {d1 d2 d3 : Driver σ} (h12 : Sent f d1 d2)
    (h23 : Sent f d2 d3) : Sent f d1 d3 := by
  obtain ⟨j, hj⟩ := h12
  obtain ⟨k, hk⟩ := h23
  exact ⟨j + k, by rw [hk, hj, List.append_assoc, List.replicate_add]⟩

theorem Receive_frames (u : UART σ) (d : Driver σ) (off n t : Nat) :
    tx_frames (d.Receive u off n t).2.trace = tx_frames d.trace := by
  show tx_frames (d.trace ++ [_]) = _
  rw [tx_frames_append]
  exact List.append_nil _

theorem set_attempts_frames (d : Driver σ) (v : Nat) :
    tx_frames (d.set_attempts v).trace = tx_frames d.trace := by
  show tx_frames (d.trace ++ [_]) = _
  rw [tx_frames_append]
  exact List.append_nil _

theorem Transmit_frames (u : UART σ) (d : Driver σ) (n t : Nat) :
    tx_frames (d.Transmit u n t).2.trace = tx_frames d.trace ++ [d.bytes 0 n] := by
  show tx_frames (d.trace ++ [_]) = _
  rw [tx_frames_append]
  rfl

theorem flush_frames (u : UART σ) (hd : Header) (fuel : Nat) (d : Driver σ) :
    tx_frames (HAL_uart_rx_flush u hd fuel d).2.trace = tx_frames d.trace := by
  induction fuel generalizing d with
  | zero => rfl
  | succ fuel ih =>
    unfold HAL_uart_rx_flush
    simp only
    split_ifs
    · rw [ih, Receive_frames]
    · exact Receive_frames u d 0 1 _

theorem sent_again (f : List Nat) (again : Driver σ → Option Nat × Driver σ)
    (hagain : ∀ d, Sent f d (again d).2) (d : Driver σ) (v : Nat) :
    Sent f d (again (d.set_attempts v)).2 :=
  sent_trans (sent_same f (set_attempts_frames d v)) (hagain _)

theorem get_name_loop_sent (u : UART σ) (hd : Header) (f : List Nat)
    (again : Driver σ → Option Nat × Driver σ) (hagain : ∀ d, Sent f d (again d).2)
    (n : Nat) (fuel : Nat) :
    ∀ (bp : Nat) (d : Driver σ), Sent f d (get_name_loop u hd again n fuel bp d).2 := by
  induction fuel with
  | zero => intro bp d; exact sent_same f rfl
  | succ fuel ih =>
    intro bp d
    have r1 : Sent f d { (d.Receive u bp 1 hd.HM10_CLONE_CUSTOM_HAL_TIMEOUT).2 with
        size := ((d.Receive u bp 1 hd.HM10_CLONE_CUSTOM_HAL_TIMEOUT).2.size + 1) % 256 } :=
      sent_same f (Receive_frames u d bp 1 _)
    rw [get_name_loop]
    simp only
    split_ifs with h1 h2 h3 h4 h5
    · split
      · exact sent_trans r1 (sent_again f again hagain _ _)
      · exact sent_trans r1 (sent_trans (sent_again f again hagain _ _) (sent_same f rfl))
    · exact sent_trans r1 (sent_same f rfl)
    · exact sent_trans r1 (sent_same f rfl)
    · exact sent_trans r1 (sent_again f again hagain _ _)
    · exact r1
    · exact sent_trans r1 (ih _ _)

theorem tail_sent (u : UART σ) (hd : Header) (c : Cmd) (f : List Nat)
    (again : Driver σ → Option Nat × Driver σ) (hagain : ∀ d, Sent f d (again d).2)
    (fuel : Nat) (d : Driver σ) :
    Sent f d ((c.shape u hd).tail again fuel d).2 := by
  cases c
  case get_name =>
    have r1 : Sent f d { d with size := 0 } := sent_same f rfl
    exact sent_trans r1 (get_name_loop_sent u hd f again hagain 6 fuel 8 _)
  all_goals exact sent_same f rfl

theorem steps_sent (u : UART σ) (hd : Header) (f : List Nat)
    (again tail : Driver σ → Option Nat × Driver σ)
    (hagain : ∀ d, Sent f d (again d).2) (htail : ∀ d, Sent f d (tail d).2)
    (steps : List (Nat × (Driver σ → Bool))) :
    ∀ d, Sent f d (exchange_steps u hd again tail steps d).2 := by
  induction steps with
  | nil => intro d; exact htail d
  | cons st rest ih =>
    intro d
    obtain ⟨n, bad⟩ := st
    have r1 : Sent f d (d.Receive u 0 n hd.HM10_CLONE_CUSTOM_HAL_TIMEOUT).2 :=
      sent_same f (Receive_frames u d 0 n _)
    rw [exchange_steps]
    split_ifs with h1 h2 h3
    · exact sent_trans r1 (sent_again f again hagain _ _)
    · exact r1
    · exact r1
    · exact sent_trans r1 (ih _)

/-- Every frame a command hands to `HAL_UART_Transmit` is its request frame. -/
theorem send_sent (u : UART σ) (hd : Header) (hw : hd.wf) (c : Cmd) (fuel : Nat) :
    ∀ d : Driver σ, Sent c.request d (c.send u hd fuel d).2 := by
  induction fuel with
  | zero =>
    intro d
    rw [Cmd.send_eq_exchange]
    exact sent_same _ rfl
  | succ fuel ih =>
    intro d
    have hfun : c.send u hd fuel = exchange u hd (c.shape u hd) fuel :=
      funext (Cmd.send_eq_exchange u hd c fuel)
    rw [hfun] at ih
    rw [Cmd.send_eq_exchange, exchange]
    have r0 : Sent c.request d (HAL_uart_rx_flush u hd fuel d).2 :=
      sent_same _ (flush_frames u hd fuel d)
    simp only
    split_ifs with h1 h2 h3 h4
    · exact r0
    · exact r0
    all_goals
      have hacc : c.accepted hd := by
        by_contra hn
        exact h2 ((shape_reject u hd c).2 hn)
      have hp := populate_same u hd c (HAL_uart_rx_flush u hd fuel d).2
      have hq := populate_request u hd hw c hacc (HAL_uart_rx_flush u hd fuel d).2
      have r2 : Sent c.request d (((c.shape u hd).populate (HAL_uart_rx_flush u hd fuel d).2).2.Transmit
          u ((c.shape u hd).populate (HAL_uart_rx_flush u hd fuel d).2).1
          hd.HM10_CLONE_CUSTOM_HAL_TIMEOUT).2 := by
        refine ⟨1, ?_⟩
        rw [Transmit_frames, hq, hp, flush_frames]
        rfl
    · exact sent_trans r2 (sent_again _ _ ih _ _)
    · exact r2
    · exact sent_trans r2 (steps_sent u hd _ _ _ ih (tail_sent u hd c _ _ ih fuel) _ _)

/-- Once its flush has ended, a command with accepted arguments hands its request frame to
`HAL_UART_Transmit` at least once. -/
theorem send_sent_flushed (u : UART σ) (hd : Header) (hw : hd.wf) (c : Cmd)
    (hacc : c.accepted hd) (fuel : Nat) (d : Driver σ) (s1 : σ)
    (hflush : u.drain hd.HM10_CLONE_CUSTOM_HAL_TIMEOUT fuel d.huart = some s1) :
    ∃ k, 1 ≤ k ∧ tx_frames (c.send u hd (fuel + 1) d).2.trace
      = tx_frames d.trace ++ List.replicate k c.request := by
  obtain ⟨d1, hf, -, -⟩ := flush_ok u hd fuel d s1 hflush
  have hfun : c.send u hd fuel = exchange u hd (c.shape u hd) fuel :=
    funext (Cmd.send_eq_exchange u hd c fuel)
  have ih := send_sent u hd hw c fuel
  rw [hfun] at ih
  have hrej : (c.shape u hd).reject = false := by
    cases h : (c.shape u hd).reject
    · rfl
    · exact absurd hacc ((shape_reject u hd c).1 h)
  have hp := populate_same u hd c d1
  have hq := populate_request u hd hw c hacc d1
  have hd1 : tx_frames d1.trace = tx_frames d.trace := by
    have := flush_frames u hd fuel d
    rwa [hf] at this
  have r2 : tx_frames (((c.shape u hd).populate d1).2.Transmit u ((c.shape u hd).populate d1).1
      hd.HM10_CLONE_CUSTOM_HAL_TIMEOUT).2.trace = tx_frames d.trace ++ [c.request] := by
    rw [Transmit_frames, hq, hp, hd1]
  have key : ∀ r : Driver σ, Sent c.request (((c.shape u hd).populate d1).2.Transmit u
      ((c.shape u hd).populate d1).1 hd.HM10_CLONE_CUSTOM_HAL_TIMEOUT).2 r →
      ∃ k, 1 ≤ k ∧ tx_frames r.trace = tx_frames d.trace ++ List.replicate k c.request := by
    rintro r ⟨k, hk⟩
    refine ⟨1 + k, by omega, ?_⟩
    rw [hk, r2, List.append_assoc, List.replicate_add]
    rfl
  rw [Cmd.send_eq_exchange, exchange]
  simp only [hf, hrej, Bool.true_eq_false, Bool.false_eq_true, if_false]
  split_ifs with h3 h4
  · exact key _ (sent_again _ _ ih _ _)
  · exact key _ (sent_same _ rfl)
  · exact key _ (steps_sent u hd _ _ _ ih (tail_sent u hd c _ _ ih fuel) _ _)

/-- A public command calls `HAL_UART_Transmit` at most twice. -/
theorem run_tx_count_le (u : UART σ) (hd : Header) (c : Cmd) (fuel : Nat) (d : Driver σ) :
    tx_count (c.run u hd fuel d).2.trace ≤ tx_count d.trace + 2 := by
  rw [send_eq_run]
  cases fuel with
  | zero =>
    rw [Cmd.send_eq_exchange]
    show tx_count (d.set_attempts 0).trace ≤ _
    rw [set_attempts_tx_count]; omega
  | succ fuel =>
    obtain ⟨k, hk, h | ⟨d1, h1, h2, h3, -⟩⟩ := send_retries u hd c fuel (d.set_attempts 0)
    · rw [h.tx_count, set_attempts_tx_count]; omega
    · obtain ⟨j, hj, g⟩ := send_spent u hd c fuel (d1.set_attempts (d1.resp_attempts + 1))
        (by rw [set_attempts_resp, h2]; decide)
      rw [h3, g.tx_count, set_attempts_tx_count, h1.tx_count, set_attempts_tx_count]; omega

/-! ## C20: the frame of `set_hm10clone_name` -/

/-- C20: for every name `n` of length `L` not above `HM10_CLONE_MAX_BLE_NAME_SIZE`: the
frame `AT+NAME`, `n`, `\r\n` has `7 + L + 2` bytes; on every UART and with every fuel `m`
the frames that `set_hm10clone_name` hands to `HAL_UART_Transmit` are at most two copies of
that frame and nothing else; and once the flush has ended it hands that frame over at least
once. -/
theorem set_hm10clone_name_frame (u : UART σ) (hd : Header) (hw : hd.wf) (n : List Nat)
    (L : Nat) (hlen : n.length = L) (hL : L ≤ hd.HM10_CLONE_MAX_BLE_NAME_SIZE)
    (m fuel : Nat) (d : Driver σ) (s1 : σ)
    (hflush : u.drain hd.HM10_CLONE_CUSTOM_HAL_TIMEOUT fuel d.huart = some s1) :
    ([65, 84, 43, 78, 65, 77, 69] ++ n ++ [13, 10]).length = 7 + L + 2
      ∧ (∃ k ≤ 2, tx_frames (set_hm10clone_name u hd n L m d).2.trace
          = tx_frames d.trace ++ List.replicate k ([65, 84, 43, 78, 65, 77, 69] ++ n ++ [13, 10]))
      ∧ ∃ k, 1 ≤ k ∧ k ≤ 2 ∧ tx_frames (set_hm10clone_name u hd n L (fuel + 1) d).2.trace
          = tx_frames d.trace
            ++ List.replicate k ([65, 84, 43, 78, 65, 77, 69] ++ n ++ [13, 10]) := by
  subst hlen
  have hreq : (Cmd.set_name n n.length).request = [65, 84, 43, 78, 65, 77, 69] ++ n ++ [13, 10] := by
    simp only [Cmd.request, range_map_getD]
  have hle : ∀ (j k : Nat), tx_frames (set_hm10clone_name u hd n n.length j d).2.trace
      = tx_frames d.trace ++ List.replicate k ([65, 84, 43, 78, 65, 77, 69] ++ n ++ [13, 10]) →
      k ≤ 2 := by
    intro j k hk
    have h1 : tx_count (set_hm10clone_name u hd n n.length j d).2.trace ≤ tx_count d.trace + 2 :=
      run_tx_count_le u hd (Cmd.set_name n n.length) j d
    have h2 := congrArg List.length hk
    rw [List.length_append, List.length_replicate, tx_frames_length, tx_frames_length] at h2
    omega
  refine ⟨by simp; omega, ?_, ?_⟩
  · obtain ⟨k, hk⟩ := send_sent u hd hw (Cmd.set_name n n.length) m (d.set_attempts 0)
    rw [set_attempts_frames, hreq] at hk
    exact ⟨k, hle m k hk, hk⟩
  · obtain ⟨k, hk1, hk⟩ := send_sent_flushed u hd hw (Cmd.set_name n n.length) hL fuel
      (d.set_attempts 0) s1 hflush
    rw [set_attempts_frames, hreq] at hk
    exact ⟨k, hk1, hle (fuel + 1) k hk, hk⟩

theorem set_hm10clone_name_frame_witness :
    (example_header.wf ∧ [72, 105].length = 2
      ∧ 2 ≤ example_header.HM10_CLONE_MAX_BLE_NAME_SIZE
      ∧ sim.drain example_header.HM10_CLONE_CUSTOM_HAL_TIMEOUT 1
          (Driver.init mute_link_0).huart = some mute_link_0)
    ∧ ([65, 84, 43, 78, 65, 77, 69] ++ [72, 105] ++ [13, 10]).length = 7 + 2 + 2
      ∧ (∃ k ≤ 2, tx_frames (set_hm10clone_name sim example_header [72, 105] 2 0
            (Driver.init mute_link_0)).2.trace
          = tx_frames (Driver.init mute_link_0).trace
            ++ List.replicate k ([65, 84, 43, 78, 65, 77, 69] ++ [72, 105] ++ [13, 10]))
      ∧ ∃ k, 1 ≤ k ∧ k ≤ 2 ∧ tx_frames (set_hm10clone_name sim example_header [72, 105] 2 (1 + 1)
            (Driver.init mute_link_0)).2.trace
          = tx_frames (Driver.init mute_link_0).trace
            ++ List.replicate k ([65, 84, 43, 78, 65, 77, 69] ++ [72, 105] ++ [13, 10]) :=
  ⟨⟨by decide, by decide, by decide, by decide⟩,
    set_hm10clone_name_frame sim example_header (by decide) [72, 105] 2 (by decide) (by decide)
      0 1 (Driver.init mute_link_0) mute_link_0 (by decide)⟩

/-! ## C21: the request frames of the fixed-size commands -/

/-- An invariant of the receive steps: `P` holds of the result when it holds of every result
of the recursive call and of the final part, and of every return with a mapped fault status
or with `HM10_Clone_EC_ERR`, in states that satisfy `Q`; `Q` is kept by a receive and by a
store to the retry counter. -/
theorem steps_inv (u : UART σ) (hd : Header) (Q : Driver σ → Prop)
    (P : Option Nat × Driver σ → Prop)
    (hrx : ∀ d off n t, Q d → Q (d.Receive u off n t).2)
    (hatt : ∀ d v, Q d → Q (d.set_attempts v))
    (hfault : ∀ st d, Q d → HAL_ret_handler hd st ≠ HAL_OK → P (some (HAL_ret_handler hd st), d))
    (herr : ∀ d, Q d → P (some hd.HM10_Clone_EC_ERR, d))
    (again tail : Driver σ → Option Nat × Driver σ)
    (hagain : ∀ d, Q d → P (again d)) (htail : ∀ d, Q d → P (tail d))
    (steps : List (Nat × (Driver σ → Bool))) :
    ∀ d, Q d → P (exchange_steps u hd again tail steps d) := by
  induction steps with
  | nil => intro d hq; exact htail d hq
  | cons st rest ih =>
    intro d hq
    obtain ⟨n, bad⟩ := st
    have q1 := hrx d 0 n hd.HM10_CLONE_CUSTOM_HAL_TIMEOUT hq
    rw [exchange_steps]
    split_ifs with h1 h2 h3
    · exact hagain _ (hatt _ _ q1)
    · exact hfault _ _ q1 h1
    · exact herr _ q1
    · exact ih _ q1

/-- The same for a whole `send_*_cmd`: `P` holds of its result when it holds of every return
before the final part (fuel exhausted, rejected arguments, a mapped fault status, a refused
response) and the final part keeps it; `Q` is kept by every step. -/
theorem exchange_inv (u : UART σ) (hd : Header) (sh : Shape σ) (Q : Driver σ → Prop)
    (P : Option Nat × Driver σ → Prop)
    (hrx : ∀ d off n t, Q d → Q (d.Receive u off n t).2)
    (hatt : ∀ d v, Q d → Q (d.set_attempts v))
    (htx : ∀ d n t, Q d → Q (d.Transmit u n t).2)
    (hpop : ∀ d, Q d → Q (sh.populate d).2)
    (hnone : ∀ d, Q d → P (none, d))
    (hfault : ∀ st d, Q d → HAL_ret_handler hd st ≠ HAL_OK → P (some (HAL_ret_handler hd st), d))
    (herr : ∀ d, Q d → P (some hd.HM10_Clone_EC_ERR, d))
    (htail : ∀ (again : Driver σ → Option Nat × Driver σ) (fuel : Nat),
      (∀ d, Q d → P (again d)) → ∀ d, Q d → P (sh.tail again fuel d))
    (fuel : Nat) :
    ∀ d, Q d → P (exchange u hd sh fuel d) := by
  have hflush : ∀ (n : Nat) (d : Driver σ), Q d → Q (HAL_uart_rx_flush u hd n d).2 := by
    intro n
    induction n with
    | zero => intro d hq; exact hq
    | succ n ih =>
      intro d hq
      unfold HAL_uart_rx_flush
      simp only
      split_ifs
      · exact ih _ (hrx d 0 1 _ hq)
      · exact hrx d 0 1 _ hq
  induction fuel with
  | zero => intro d hq; exact hnone d hq
  | succ fuel ih =>
    intro d hq
    have q0 := hflush fuel d hq
    have q1 := htx _ (sh.populate (HAL_uart_rx_flush u hd fuel d).2).1
      hd.HM10_CLONE_CUSTOM_HAL_TIMEOUT (hpop _ q0)
    rw [exchange]
    simp only
    split_ifs with h1 h2 h3 h4
    · exact hnone _ q0
    · exact herr _ q0
    · exact ih _ (hatt _ _ q1)
    · exact hfault _ _ q1 h3
    · exact steps_inv u hd Q P hrx hatt hfault herr _ _ ih (htail _ fuel ih) _ _ q1

/-! ## One pass and what follows it -/

theorem finish_plain (hd : Header) (again : Driver σ → Option Nat × Driver σ)
    (st : HAL_StatusTypeDef) (d : Driver σ) :
    finish hd again (Outcome.fault st false, d)
      = if d.resp_attempts = 0 then again (d.set_attempts (d.resp_attempts + 1))
        else (some (HAL_ret_handler hd st), d) := by
  unfold finish
  simp only [Outcome.retry, Outcome.settle, Outcome.result, if_true]
  split_ifs
  · split
    · rfl
    · next ret hx => rw [← hx]
  · rfl

theorem finish_returned (hd : Header) (again : Driver σ → Option Nat × Driver σ)
    (ret : Nat) (d : Driver σ) :
    finish hd again (Outcome.returned ret, d) = (some ret, d) := by
  simp [finish, Outcome.retry, Outcome.result]

theorem finish_starved (hd : Header) (again : Driver σ → Option Nat × Driver σ)
    (d : Driver σ) :
    finish hd again (Outcome.starved, d) = (none, d) := by
  simp [finish, Outcome.retry, Outcome.result]

theorem finish_overflow (hd : Header) (again : Driver σ → Option Nat × Driver σ)
    (d : Driver σ) :
    finish hd again (Outcome.overflow, d)
      = if d.resp_attempts = 0 then again (d.set_attempts (d.resp_attempts + 1))
        else (some hd.HM10_Clone_EC_ERR, d) := by
  unfold finish
  simp only [Outcome.retry, Outcome.settle, Outcome.result, if_true]
  split_ifs
  · split
    · rfl
    · next ret hx => rw [← hx]
  · rfl

/-- The receive steps are one pass through them followed by `finish`. -/
theorem steps_attempt (u : UART σ) (hd : Header)
    (again tail : Driver σ → Option Nat × Driver σ) (last : Driver σ → Outcome × Driver σ)
    (htail : ∀ d, tail d = finish hd again (last d)) :
    ∀ (steps : List (Nat × (Driver σ → Bool))) (d : Driver σ),
      exchange_steps u hd again tail steps d
        = finish hd again (attempt_steps u hd last steps d) := by
  intro steps
  induction steps with
  | nil => intro d; rw [exchange_steps, attempt_steps]; exact htail d
  | cons st rest ih =>
    intro d
    obtain ⟨n, bad⟩ := st
    rw [exchange_steps, attempt_steps]
    split_ifs with h1 h2 h3
    · rw [finish_plain, if_pos h2]
    · rw [finish_plain, if_neg h2]
    · rw [finish_returned]
    · exact ih _

/-- The name loop is one pass through it followed by `finish`. -/
theorem name_read_attempt (u : UART σ) (hd : Header)
    (again : Driver σ → Option Nat × Driver σ) :
    ∀ (fuel bp : Nat) (d : Driver σ),
      get_name_loop u hd again 6 fuel bp d = finish hd again (name_read u hd 6 fuel bp d) := by
  intro fuel
  induction fuel with
  | zero => intro bp d; rw [get_name_loop, name_read, finish_starved]
  | succ fuel ih =>
    intro bp d
    rw [get_name_loop, name_read]
    simp only
    split_ifs with h1 h2 h3 h4 h5
    · simp only [finish, Outcome.retry, Outcome.settle, if_true, if_pos h2]
    · simp only [finish, Outcome.retry, Outcome.settle, Outcome.result, if_true, if_neg h2]
    · rw [finish_returned]
    · rw [finish_overflow, if_pos h5]
    · rw [finish_overflow, if_neg h5]
    · exact ih _ _

/-- The final part of a command is one pass through it followed by `finish`. -/
theorem tail_attempt (u : UART σ) (hd : Header) (c : Cmd)
    (again : Driver σ → Option Nat × Driver σ) (fuel : Nat) (d : Driver σ) :
    (c.shape u hd).tail again fuel d = finish hd again (c.last u hd fuel d) := by
  cases c
  case get_name => exact name_read_attempt u hd again fuel 8 _
  all_goals simp only [Cmd.shape, Cmd.last, tail_ok, finish_returned, Cmd.output, id]

/-- Every `send_*_cmd` is one pass through its body followed by `finish`. -/
theorem send_attempt (u : UART σ) (hd : Header) (c : Cmd) (fuel : Nat) (d : Driver σ) :
    c.send u hd (fuel + 1) d = finish hd (c.send u hd fuel) (c.attempt u hd fuel d) := by
  have hs : c.send u hd fuel = exchange u hd (c.shape u hd) fuel := by
    funext d; exact Cmd.send_eq_exchange u hd c fuel d
  rw [Cmd.send_eq_exchange, exchange, Cmd.attempt, hs]
  simp only
  split_ifs with h1 h2 h3 h4
  · rw [finish_starved]
  · rw [finish_returned]
  · rw [finish_plain, if_pos h4]
  · rw [finish_plain, if_neg h4]
  · exact steps_attempt u hd _ _ _ (fun d => tail_attempt u hd c _ fuel d) _ _

/-! ## What one pass leaves in the trace and in the retry counter -/

theorem name_read_ran (u : UART σ) (hd : Header) :
    ∀ (fuel bp : Nat) (d : Driver σ), Ran 0 d (name_read u hd 6 fuel bp d).2 := by
  intro fuel
  induction fuel with
  | zero => intro bp d; rw [name_read]; exact ran_refl d
  | succ fuel ih =>
    intro bp d
    have h1 : Ran 0 d { (d.Receive u bp 1 hd.HM10_CLONE_CUSTOM_HAL_TIMEOUT).2 with
        size := ((d.Receive u bp 1 hd.HM10_CLONE_CUSTOM_HAL_TIMEOUT).2.size + 1) % 256 } :=
      ran_congr (ran_Receive u d bp 1 _) rfl rfl
    rw [name_read]
    simp only
    split_ifs
    · exact h1
    · exact ran_congr h1 rfl rfl
    · exact h1
    · exact ran_trans h1 (ih _ _)

theorem attempt_steps_ran (u : UART σ) (hd : Header) (last : Driver σ → Outcome × Driver σ)
    (hlast : ∀ d, Ran 0 d (last d).2) :
    ∀ (steps : List (Nat × (Driver σ → Bool))) (d : Driver σ),
      Ran 0 d (attempt_steps u hd last steps d).2 := by
  intro steps
  induction steps with
  | nil => intro d; rw [attempt_steps]; exact hlast d
  | cons st rest ih =>
    intro d
    obtain ⟨n, bad⟩ := st
    rw [attempt_steps]
    split_ifs
    · exact ran_Receive u d 0 n _
    · exact ran_Receive u d 0 n _
    · exact ran_trans (ran_Receive u d 0 n _) (ih _)

theorem last_ran (u : UART σ) (hd : Header) (c : Cmd) (fuel : Nat) (d : Driver σ) :
    Ran 0 d (c.last u hd fuel d).2 := by
  cases c
  case get_name =>
    exact ran_trans (ran_congr (ran_refl d) rfl rfl : Ran 0 d { d with size := 0 })
      (name_read_ran u hd fuel 8 _)
  all_goals exact ran_congr (ran_refl d) rfl rfl

/-- One pass makes at most one transmit and leaves the retry counter alone. -/
theorem attempt_ran (u : UART σ) (hd : Header) (c : Cmd) (fuel : Nat) (d : Driver σ) :
    ∃ k ≤ 1, Ran k d (c.attempt u hd fuel d).2 := by
  have h0 := flush_ran u hd fuel d
  have hp : Ran 0 (HAL_uart_rx_flush u hd fuel d).2
      ((c.shape u hd).populate (HAL_uart_rx_flush u hd fuel d).2).2 := by
    rw [populate_same]; exact ran_congr (ran_refl _) rfl rfl
  have h1 := ran_trans (ran_trans h0 hp) (ran_Transmit u
    ((c.shape u hd).populate (HAL_uart_rx_flush u hd fuel d).2).2
    ((c.shape u hd).populate (HAL_uart_rx_flush u hd fuel d).2).1
    hd.HM10_CLONE_CUSTOM_HAL_TIMEOUT)
  unfold Cmd.attempt
  simp only
  split_ifs
  · exact ⟨0, by omega, h0⟩
  · exact ⟨0, by omega, h0⟩
  · exact ⟨1, le_refl _, h1⟩
  · exact ⟨1, le_refl _, ran_trans h1 (attempt_steps_ran u hd _ (last_ran u hd c fuel) _ _)⟩

theorem attempt_counter (u : UART σ) (hd : Header) (c : Cmd) (fuel : Nat) (d : Driver σ) :
    (c.attempt u hd fuel d).2.resp_attempts = d.resp_attempts := by
  obtain ⟨k, _, h⟩ := attempt_ran u hd c fuel d
  exact h.resp_attempts

theorem settle_trace (o : Outcome) (d : Driver σ) : (o.settle d).trace = d.trace := by
  unfold Outcome.settle; split <;> rfl

theorem settle_counter (o : Outcome) (d : Driver σ) :
    (o.settle d).resp_attempts = d.resp_attempts := by
  unfold Outcome.settle; split <;> rfl

theorem settle_huart (o : Outcome) (d : Driver σ) : (o.settle d).huart = d.huart := by
  unfold Outcome.settle; split <;> rfl

theorem settle_not_retry (o : Outcome) (d : Driver σ) (h : o.retry = false) :
    o.settle d = d := by
  cases o <;> simp_all [Outcome.settle, Outcome.retry]

theorem result_none (hd : Header) (o : Outcome) : o.result hd = none ↔ o = Outcome.starved := by
  cases o <;> simp [Outcome.result]

/-- A pass that starts with the counter raised is the last one. -/
theorem send_last_pass (u : UART σ) (hd : Header) (c : Cmd) (fuel : Nat) (d : Driver σ)
    (hd0 : d.resp_attempts ≠ 0) :
    c.send u hd (fuel + 1) d
      = ((c.attempt u hd fuel d).1.result hd,
          (c.attempt u hd fuel d).1.settle (c.attempt u hd fuel d).2) := by
  have hc : (c.attempt u hd fuel d).2.resp_attempts ≠ 0 := by
    rw [attempt_counter]; exact hd0
  rw [send_attempt, finish]
  by_cases hr : (c.attempt u hd fuel d).1.retry = true
  · rw [if_pos hr, if_neg hc]
  · rw [if_neg hr, settle_not_retry _ _ (by simpa using hr)]

/-- A public command whose first pass does not end at a retry block is that pass. -/
theorem run_one_pass (u : UART σ) (hd : Header) (c : Cmd) (fuel : Nat) (d : Driver σ)
    (h : (c.attempt u hd fuel (d.set_attempts 0)).1.retry = false) :
    c.run u hd (fuel + 1) d
      = ((c.attempt u hd fuel (d.set_attempts 0)).1.result hd,
          (c.attempt u hd fuel (d.set_attempts 0)).2) := by
  rw [send_eq_run, send_attempt, finish, h]
  simp

/-- A public command whose first pass ends at a retry block is that pass and one more, which
starts with the counter at 1. -/
theorem run_two_passes (u : UART σ) (hd : Header) (c : Cmd) (fuel : Nat) (d : Driver σ)
    (h : (c.attempt u hd (fuel + 1) (d.set_attempts 0)).1.retry = true) :
    c.run u hd (fuel + 2) d
      = ((c.attempt u hd fuel
            ((c.attempt u hd (fuel + 1) (d.set_attempts 0)).2.set_attempts 1)).1.result hd,
          if (c.attempt u hd fuel
              ((c.attempt u hd (fuel + 1) (d.set_attempts 0)).2.set_attempts 1)).1
              = Outcome.starved then
            (c.attempt u hd fuel
              ((c.attempt u hd (fuel + 1) (d.set_attempts 0)).2.set_attempts 1)).2
          else
            (c.attempt u hd (fuel + 1) (d.set_attempts 0)).1.settle
              ((c.attempt u hd fuel
                ((c.attempt u hd (fuel + 1) (d.set_attempts 0)).2.set_attempts 1)).1.settle
              (c.attempt u hd fuel
                ((c.attempt u hd (fuel + 1) (d.set_attempts 0)).2.set_attempts 1)).2)) := by
  have hc : (c.attempt u hd (fuel + 1) (d.set_attempts 0)).2.resp_attempts = 0 := by
    rw [attempt_counter]; rfl
  have h1 : ((c.attempt u hd (fuel + 1) (d.set_attempts 0)).2.set_attempts 1).resp_attempts ≠ 0 := by
    simp [Driver.set_attempts]
  rw [send_eq_run, send_attempt, finish, if_pos h, if_pos hc, hc]
  simp only [Nat.zero_add]
  rw [send_last_pass u hd c fuel _ h1]
  simp only
  split
  · next hx =>
    rw [result_none] at hx
    rw [if_pos hx, hx]
    simp [Outcome.result, Outcome.settle]
  · next ret hx =>
    have hne : (c.attempt u hd fuel
        ((c.attempt u hd (fuel + 1) (d.set_attempts 0)).2.set_attempts 1)).1
        ≠ Outcome.starved := by
      intro h2
      rw [h2] at hx
      simp [Outcome.result] at hx
    rw [if_neg hne, hx]

/-! ## The events of one pass -/

theorem Receive_trace (u : UART σ) (d : Driver σ) (off n t : Nat) :
    (d.Receive u off n t).2.trace
      = d.trace ++ [Event.rx n t (d.Receive u off n t).1 (u.HAL_UART_Receive d.huart n t).2.1] :=
  rfl

theorem Transmit_trace (u : UART σ) (d : Driver σ) (n t : Nat) :
    (d.Transmit u n t).2.trace = d.trace ++ [Event.tx (d.bytes 0 n) t (d.Transmit u n t).1] :=
  rfl

/-- A flush that ended has made one-byte receives of which the last reported
`HAL_TIMEOUT`. -/
theorem flush_trace_end (u : UART σ) (hd : Header) :
    ∀ (fuel : Nat) (d : Driver σ), (HAL_uart_rx_flush u hd fuel d).1 = true →
      ∃ fl data, (HAL_uart_rx_flush u hd fuel d).2.trace = d.trace ++ fl
          ++ [Event.rx 1 hd.HM10_CLONE_CUSTOM_HAL_TIMEOUT HAL_StatusTypeDef.HAL_TIMEOUT data]
        ∧ ∀ e ∈ fl, e.is_flush_rx hd := by
  intro fuel
  induction fuel with
  | zero => intro d h; simp [HAL_uart_rx_flush] at h
  | succ fuel ih =>
    intro d h
    unfold HAL_uart_rx_flush at h ⊢
    simp only at h ⊢
    split_ifs at h ⊢ with h1
    · obtain ⟨fl, data, ht, hfl⟩ := ih _ h
      refine ⟨Event.rx 1 hd.HM10_CLONE_CUSTOM_HAL_TIMEOUT
        (d.Receive u 0 1 hd.HM10_CLONE_CUSTOM_HAL_TIMEOUT).1
        (u.HAL_UART_Receive d.huart 1 hd.HM10_CLONE_CUSTOM_HAL_TIMEOUT).2.1 :: fl, data, ?_, ?_⟩
      · rw [ht, Receive_trace]; simp
      · intro e he
        rcases List.mem_cons.mp he with rfl | he
        · exact ⟨rfl, rfl⟩
        · exact hfl e he
    · refine ⟨[], (u.HAL_UART_Receive d.huart 1 hd.HM10_CLONE_CUSTOM_HAL_TIMEOUT).2.1, ?_, ?_⟩
      · rw [Receive_trace]
        have h2 : (d.Receive u 0 1 hd.HM10_CLONE_CUSTOM_HAL_TIMEOUT).1
            = HAL_StatusTypeDef.HAL_TIMEOUT := by simpa using h1
        rw [h2]; simp
      · intro e he; simp at he

theorem ends_with_append (a b : List Event) (st : HAL_StatusTypeDef) (h : Ends_with b st) :
    Ends_with (a ++ b) st := by
  obtain ⟨init, ev, hb, hs⟩ := h
  exact ⟨a ++ init, ev, by rw [hb, List.append_assoc], hs⟩

/-- The name read makes receives only, and when it ends with a fault the last of them
reported the status of the fault. -/
theorem name_read_trace (u : UART σ) (hd : Header) :
    ∀ (fuel bp : Nat) (d : Driver σ),
      ∃ rxs, (name_read u hd 6 fuel bp d).2.trace = d.trace ++ rxs ∧ (∀ e ∈ rxs, e.is_rx)
        ∧ ∀ st b, (name_read u hd 6 fuel bp d).1 = Outcome.fault st b → Ends_with rxs st := by
  intro fuel
  induction fuel with
  | zero =>
    intro bp d
    refine ⟨[], by simp [name_read], by simp, ?_⟩
    intro st b h
    simp [name_read] at h
  | succ fuel ih =>
    intro bp d
    have hone : ∀ e ∈ [Event.rx 1 hd.HM10_CLONE_CUSTOM_HAL_TIMEOUT
        (d.Receive u bp 1 hd.HM10_CLONE_CUSTOM_HAL_TIMEOUT).1
        (u.HAL_UART_Receive d.huart 1 hd.HM10_CLONE_CUSTOM_HAL_TIMEOUT).2.1], e.is_rx := by
      intro e he
      rw [List.mem_singleton] at he
      subst he
      exact trivial
    rw [name_read]
    simp only
    split_ifs with h1 h2 h3
    · refine ⟨_, Receive_trace u d bp 1 _, hone, ?_⟩
      intro st b h
      have hst : (d.Receive u bp 1 hd.HM10_CLONE_CUSTOM_HAL_TIMEOUT).1 = st := by
        have h2 := h
        simp only [Outcome.fault.injEq] at h2
        exact h2.1
      exact ⟨[], _, rfl, by rw [← hst]; rfl⟩
    · refine ⟨_, Receive_trace u d bp 1 _, hone, ?_⟩
      intro st b h
      simp at h
    · refine ⟨_, Receive_trace u d bp 1 _, hone, ?_⟩
      intro st b h
      simp at h
    · obtain ⟨rxs, ht, hrx, hf⟩ := ih ((bp + 1) % 256)
        { (d.Receive u bp 1 hd.HM10_CLONE_CUSTOM_HAL_TIMEOUT).2 with
          size := ((d.Receive u bp 1 hd.HM10_CLONE_CUSTOM_HAL_TIMEOUT).2.size + 1) % 256 }
      refine ⟨Event.rx 1 hd.HM10_CLONE_CUSTOM_HAL_TIMEOUT
        (d.Receive u bp 1 hd.HM10_CLONE_CUSTOM_HAL_TIMEOUT).1
        (u.HAL_UART_Receive d.huart 1 hd.HM10_CLONE_CUSTOM_HAL_TIMEOUT).2.1 :: rxs, ?_, ?_, ?_⟩
      · rw [ht]
        show (d.Receive u bp 1 hd.HM10_CLONE_CUSTOM_HAL_TIMEOUT).2.trace ++ rxs = _
        rw [Receive_trace, List.append_assoc]
        rfl
      · intro e he
        rcases List.mem_cons.mp he with rfl | he
        · exact trivial
        · exact hrx e he
      · intro st b h
        exact ends_with_append [_] rxs st (hf st b h)

/-- The receive steps make receives only, and when they end with a fault the last of them
reported the status of the fault. -/
theorem attempt_steps_trace (u : UART σ) (hd : Header) (last : Driver σ → Outcome × Driver σ)
    (hlast : ∀ d, ∃ rxs, (last d).2.trace = d.trace ++ rxs ∧ (∀ e ∈ rxs, e.is_rx)
      ∧ ∀ st b, (last d).1 = Outcome.fault st b → Ends_with rxs st) :
    ∀ (steps : List (Nat × (Driver σ → Bool))) (d : Driver σ),
      ∃ rxs, (attempt_steps u hd last steps d).2.trace = d.trace ++ rxs
        ∧ (∀ e ∈ rxs, e.is_rx)
        ∧ ∀ st b, (attempt_steps u hd last steps d).1 = Outcome.fault st b →
            Ends_with rxs st := by
  intro steps
  induction steps with
  | nil => intro d; rw [attempt_steps]; exact hlast d
  | cons s rest ih =>
    intro d
    obtain ⟨n, bad⟩ := s
    have hone : ∀ e ∈ [Event.rx n hd.HM10_CLONE_CUSTOM_HAL_TIMEOUT
        (d.Receive u 0 n hd.HM10_CLONE_CUSTOM_HAL_TIMEOUT).1
        (u.HAL_UART_Receive d.huart n hd.HM10_CLONE_CUSTOM_HAL_TIMEOUT).2.1], e.is_rx := by
      intro e he
      rw [List.mem_singleton] at he
      subst he
      exact trivial
    rw [attempt_steps]
    split_ifs with h1 h2
    · refine ⟨_, Receive_trace u d 0 n _, hone, ?_⟩
      intro st b h
      have hst : (d.Receive u 0 n hd.HM10_CLONE_CUSTOM_HAL_TIMEOUT).1 = st := by
        have h2 := h
        simp only [Outcome.fault.injEq] at h2
        exact h2.1
      exact ⟨[], _, rfl, by rw [← hst]; rfl⟩
    · refine ⟨_, Receive_trace u d 0 n _, hone, ?_⟩
      intro st b h
      simp at h
    · obtain ⟨rxs, ht, hrx, hf⟩ := ih (d.Receive u 0 n hd.HM10_CLONE_CUSTOM_HAL_TIMEOUT).2
      refine ⟨Event.rx n hd.HM10_CLONE_CUSTOM_HAL_TIMEOUT
        (d.Receive u 0 n hd.HM10_CLONE_CUSTOM_HAL_TIMEOUT).1
        (u.HAL_UART_Receive d.huart n hd.HM10_CLONE_CUSTOM_HAL_TIMEOUT).2.1 :: rxs, ?_, ?_, ?_⟩
      · rw [ht, Receive_trace, List.append_assoc]
        rfl
      · intro e he
        rcases List.mem_cons.mp he with rfl | he
        · exact trivial
        · exact hrx e he
      · intro st b h
        exact ends_with_append [_] rxs st (hf st b h)

theorem last_trace (u : UART σ) (hd : Header) (c : Cmd) (fuel : Nat) (d : Driver σ) :
    ∃ rxs, (c.last u hd fuel d).2.trace = d.trace ++ rxs ∧ (∀ e ∈ rxs, e.is_rx)
      ∧ ∀ st b, (c.last u hd fuel d).1 = Outcome.fault st b → Ends_with rxs st := by
  cases c
  case get_name => exact name_read_trace u hd fuel 8 { d with size := 0 }
  all_goals
    refine ⟨[], by simp [Cmd.last, Cmd.output], by simp, ?_⟩
    intro st b h
    simp [Cmd.last] at h

/-- The events of one pass: the one-byte receives of the flush, and, unless the pass ends
before the transmit, which then is not at a retry block: a last flush receive that reported
`HAL_TIMEOUT`, the transmit, and receives; when the pass ends with a fault, the last of
these calls reported the status of the fault. -/
theorem attempt_trace (u : UART σ) (hd : Header) (c : Cmd) (fuel : Nat) (d : Driver σ) :
    ∃ fl ex, (c.attempt u hd fuel d).2.trace = d.trace ++ fl ++ ex
      ∧ (∀ e ∈ fl, e.is_flush_rx hd)
      ∧ (ex = [] ∧ (c.attempt u hd fuel d).1.retry = false
        ∨ ∃ fl1 data pData status rxs,
            fl = fl1 ++ [Event.rx 1 hd.HM10_CLONE_CUSTOM_HAL_TIMEOUT
              HAL_StatusTypeDef.HAL_TIMEOUT data]
            ∧ ex = Event.tx pData hd.HM10_CLONE_CUSTOM_HAL_TIMEOUT status :: rxs
            ∧ (∀ e ∈ rxs, e.is_rx)
            ∧ ∀ st b, (c.attempt u hd fuel d).1 = Outcome.fault st b → Ends_with ex st) := by
  obtain ⟨evs, hevs, hfl0⟩ := flush_trace u hd fuel d
  have hpt : ((c.shape u hd).populate (HAL_uart_rx_flush u hd fuel d).2).2.trace
      = (HAL_uart_rx_flush u hd fuel d).2.trace := by
    rw [populate_same]
  have hend := flush_trace_end u hd fuel d
  unfold Cmd.attempt
  simp only
  generalize (c.shape u hd).populate (HAL_uart_rx_flush u hd fuel d).2 = P at hpt ⊢
  generalize HAL_uart_rx_flush u hd fuel d = F at hevs hpt hend ⊢
  split_ifs with h1 h2 h3
  · exact ⟨evs, [], by rw [hevs]; simp, hfl0, Or.inl ⟨rfl, rfl⟩⟩
  · exact ⟨evs, [], by rw [hevs]; simp, hfl0, Or.inl ⟨rfl, rfl⟩⟩
  all_goals
    have hf : F.1 = true := by simpa using h1
    obtain ⟨fl, data, ht, hfl⟩ := hend hf
    have hall : ∀ e ∈ fl ++ [Event.rx 1 hd.HM10_CLONE_CUSTOM_HAL_TIMEOUT
        HAL_StatusTypeDef.HAL_TIMEOUT data], e.is_flush_rx hd := by
      intro e he
      rcases List.mem_append.mp he with he | he
      · exact hfl e he
      · rw [List.mem_singleton] at he
        subst he
        exact ⟨rfl, rfl⟩
  · refine ⟨fl ++ [Event.rx 1 hd.HM10_CLONE_CUSTOM_HAL_TIMEOUT HAL_StatusTypeDef.HAL_TIMEOUT data],
      [Event.tx (P.2.bytes 0 P.1) hd.HM10_CLONE_CUSTOM_HAL_TIMEOUT
        (P.2.Transmit u P.1 hd.HM10_CLONE_CUSTOM_HAL_TIMEOUT).1], ?_, hall,
      Or.inr ⟨fl, data, P.2.bytes 0 P.1,
        (P.2.Transmit u P.1 hd.HM10_CLONE_CUSTOM_HAL_TIMEOUT).1, [], rfl, rfl, by simp, ?_⟩⟩
    · rw [Transmit_trace, hpt, ht]
      simp
    · intro st b h
      refine ⟨[], _, rfl, ?_⟩
      have hst : (P.2.Transmit u P.1 hd.HM10_CLONE_CUSTOM_HAL_TIMEOUT).1 = st := by
        have h2 := h
        simp only [Outcome.fault.injEq] at h2
        exact h2.1
      rw [← hst]; rfl
  · obtain ⟨rxs, hr, hrx, hfault⟩ := attempt_steps_trace u hd (c.last u hd fuel)
      (last_trace u hd c fuel) (c.shape u hd).steps
      (P.2.Transmit u P.1 hd.HM10_CLONE_CUSTOM_HAL_TIMEOUT).2
    refine ⟨fl ++ [Event.rx 1 hd.HM10_CLONE_CUSTOM_HAL_TIMEOUT HAL_StatusTypeDef.HAL_TIMEOUT data],
      Event.tx (P.2.bytes 0 P.1) hd.HM10_CLONE_CUSTOM_HAL_TIMEOUT
        (P.2.Transmit u P.1 hd.HM10_CLONE_CUSTOM_HAL_TIMEOUT).1 :: rxs, ?_, hall,
      Or.inr ⟨fl, data, P.2.bytes 0 P.1,
        (P.2.Transmit u P.1 hd.HM10_CLONE_CUSTOM_HAL_TIMEOUT).1, rxs, rfl, rfl, hrx, ?_⟩⟩
    · rw [hr, Transmit_trace, hpt, ht]
      simp
    · intro st b h
      exact ends_with_append [_] rxs st (hfault st b h)

/-! ## C24: the two functions that pass data through -/

/-- C24: `send_hm10clone_ota_data` makes exactly one HAL call, a transmit of the first `size`
bytes of the caller's buffer with the caller's `timeout`, and `get_hm10clone_ota_data`
exactly one, a receive of `size` bytes with the caller's `timeout`; each returns the
`HAL_ret_handler` mapping of the status of that call, stores nothing to the retry counter
and leaves the counter and the scratch buffer as they were; the received bytes go to the
start of the caller's buffer. -/
theorem ota_data_pass_through (u : UART σ) (hd : Header) (ble_ota_data : List Nat)
    (size timeout : Nat) (d : Driver σ) :
    ((send_hm10clone_ota_data u hd ble_ota_data size timeout d).1
        = HAL_ret_handler hd (u.HAL_UART_Transmit d.huart
            ((List.range size).map fun i => ble_ota_data.getD i 0) timeout).1
      ∧ (send_hm10clone_ota_data u hd ble_ota_data size timeout d).2.trace
        = d.trace ++ [Event.tx ((List.range size).map fun i => ble_ota_data.getD i 0) timeout
            (u.HAL_UART_Transmit d.huart
              ((List.range size).map fun i => ble_ota_data.getD i 0) timeout).1]
      ∧ ((List.range size).map fun i => ble_ota_data.getD i 0).length = size
      ∧ (send_hm10clone_ota_data u hd ble_ota_data size timeout d).2.huart
        = (u.HAL_UART_Transmit d.huart
            ((List.range size).map fun i => ble_ota_data.getD i 0) timeout).2
      ∧ (send_hm10clone_ota_data u hd ble_ota_data size timeout d).2.resp_attempts
        = d.resp_attempts
      ∧ attempts_log (send_hm10clone_ota_data u hd ble_ota_data size timeout d).2.trace
        = attempts_log d.trace
      ∧ (send_hm10clone_ota_data u hd ble_ota_data size timeout d).2.TxRx_Buffer
        = d.TxRx_Buffer)
    ∧ ((get_hm10clone_ota_data u hd ble_ota_data size timeout d).1
        = HAL_ret_handler hd (u.HAL_UART_Receive d.huart size timeout).1
      ∧ (get_hm10clone_ota_data u hd ble_ota_data size timeout d).2.2.trace
        = d.trace ++ [Event.rx size timeout (u.HAL_UART_Receive d.huart size timeout).1
            (u.HAL_UART_Receive d.huart size timeout).2.1]
      ∧ (get_hm10clone_ota_data u hd ble_ota_data size timeout d).2.1
        = (u.HAL_UART_Receive d.huart size timeout).2.1.take size
          ++ ble_ota_data.drop ((u.HAL_UART_Receive d.huart size timeout).2.1.take size).length
      ∧ (get_hm10clone_ota_data u hd ble_ota_data size timeout d).2.2.huart
        = (u.HAL_UART_Receive d.huart size timeout).2.2
      ∧ (get_hm10clone_ota_data u hd ble_ota_data size timeout d).2.2.resp_attempts
        = d.resp_attempts
      ∧ attempts_log (get_hm10clone_ota_data u hd ble_ota_data size timeout d).2.2.trace
        = attempts_log d.trace
      ∧ (get_hm10clone_ota_data u hd ble_ota_data size timeout d).2.2.TxRx_Buffer
        = d.TxRx_Buffer) := by
  refine ⟨⟨rfl, rfl, by simp, rfl, rfl, ?_, rfl⟩, ⟨rfl, rfl, rfl, rfl, rfl, ?_, rfl⟩⟩
  · show attempts_log (d.trace ++ [Event.tx _ _ _]) = _
    rw [attempts_log_append]
    simp [attempts_log]
  · show attempts_log (d.trace ++ [Event.rx _ _ _ _]) = _
    rw [attempts_log_append]
    simp [attempts_log]

/-! ## C23: the size output after a retry of the name read -/

/-- C23: on a link that answers the first request `+NAME=AB` and then stays silent, and the
second request `+NAME=AB\r\n`, the first pass of `get_hm10clone_name` faults in the
byte-by-byte read (the ninth byte times out), the retry succeeds, and the function returns
`HM10_Clone_EC_OK` with the name output `AB` and the size output 0: the store `*size = 0`
that follows the retry block has overwritten the size 2 of the successful retry. -/
theorem get_hm10clone_name_size_after_retry :
    (get_hm10clone_name sim example_header 5 (Driver.init name_cut_link)).1
        = some example_header.HM10_Clone_EC_OK
      ∧ (get_hm10clone_name sim example_header 5 (Driver.init name_cut_link)).2.hm10_name
        = [65, 66]
      ∧ (get_hm10clone_name sim example_header 5 (Driver.init name_cut_link)).2.size = 0
      ∧ (Cmd.get_name.attempt sim example_header 4
          ((Driver.init name_cut_link).set_attempts 0)).1
        = Outcome.fault HAL_StatusTypeDef.HAL_TIMEOUT true
      ∧ (Cmd.get_name.attempt sim example_header 3
          ((Cmd.get_name.attempt sim example_header 4
            ((Driver.init name_cut_link).set_attempts 0)).2.set_attempts 1)).1
        = Outcome.returned example_header.HM10_Clone_EC_OK
      ∧ (Cmd.get_name.attempt sim example_header 3
          ((Cmd.get_name.attempt sim example_header 4
            ((Driver.init name_cut_link).set_attempts 0)).2.set_attempts 1)).2.size = 2 := by
  decide

/-! ## C26: the outputs of the getters after a failure -/

/-- A `send_*_cmd` other than `send_get_name_cmd` that does not return `HM10_Clone_EC_OK`
leaves the output memory as it was. -/
theorem send_keeps_outputs (u : UART σ) (hd : Header) (c : Cmd) (hc : c ≠ Cmd.get_name)
    (fuel : Nat) (d : Driver σ) :
    (c.send u hd fuel d).1 ≠ some hd.HM10_Clone_EC_OK → SameOut d (c.send u hd fuel d).2 := by
  rw [Cmd.send_eq_exchange]
  refine exchange_inv u hd (c.shape u hd) (fun x => SameOut d x)
    (fun r => r.1 ≠ some hd.HM10_Clone_EC_OK → SameOut d r.2)
    ?_ ?_ ?_ ?_ ?_ ?_ ?_ ?_ fuel d (sameOut_refl d)
  · intro x off n t hq
    exact sameOut_trans hq (sameOut_Receive u x off n t)
  · intro x v hq
    exact sameOut_trans hq ⟨rfl, rfl, rfl, rfl, rfl⟩
  · intro x n t hq
    exact sameOut_trans hq (sameOut_Transmit u x n t)
  · intro x hq
    rw [populate_same]
    exact sameOut_trans hq ⟨rfl, rfl, rfl, rfl, rfl⟩
  · intro x hq _
    exact hq
  · intro st x hq _ _
    exact hq
  · intro x hq _
    exact hq
  · intro again fuel _ x _ h
    exfalso
    apply h
    cases c <;> first | exact absurd rfl hc | rfl

/-- C26: when `get_hm10clone_role`, `get_hm10clone_pin` or `get_hm10clone_pin_code_mode` does
not return `HM10_Clone_EC_OK` (a failure status, or no status because the fuel ran out),
whatever the UART does, the output parameter of the function (and the other outputs too)
holds what it held before the call. -/
theorem getter_failure_keeps_output (u : UART σ) (hd : Header) (fuel1 fuel2 fuel3 : Nat)
    (d1 d2 d3 : Driver σ)
    (h1 : (get_hm10clone_role u hd fuel1 d1).1 ≠ some hd.HM10_Clone_EC_OK)
    (h2 : (get_hm10clone_pin u hd fuel2 d2).1 ≠ some hd.HM10_Clone_EC_OK)
    (h3 : (get_hm10clone_pin_code_mode u hd fuel3 d3).1 ≠ some hd.HM10_Clone_EC_OK) :
    ((get_hm10clone_role u hd fuel1 d1).2.ble_role = d1.ble_role
        ∧ SameOut d1 (get_hm10clone_role u hd fuel1 d1).2)
      ∧ ((get_hm10clone_pin u hd fuel2 d2).2.pin = d2.pin
        ∧ SameOut d2 (get_hm10clone_pin u hd fuel2 d2).2)
      ∧ ((get_hm10clone_pin_code_mode u hd fuel3 d3).2.pin_code_mode = d3.pin_code_mode
        ∧ SameOut d3 (get_hm10clone_pin_code_mode u hd fuel3 d3).2) := by
  have key : ∀ (c : Cmd) (fuel : Nat) (d : Driver σ), c ≠ Cmd.get_name →
      (c.run u hd fuel d).1 ≠ some hd.HM10_Clone_EC_OK → SameOut d (c.run u hd fuel d).2 := by
    intro c fuel d hc h
    rw [send_eq_run] at h ⊢
    exact sameOut_trans (⟨rfl, rfl, rfl, rfl, rfl⟩ : SameOut d (d.set_attempts 0))
      (send_keeps_outputs u hd c hc fuel _ h)
  have k1 := key Cmd.get_role fuel1 d1 (by decide) h1
  have k2 := key Cmd.get_pin fuel2 d2 (by decide) h2
  have k3 := key Cmd.get_pin_code_mode fuel3 d3 (by decide) h3
  exact ⟨⟨k1.ble_role, k1⟩, ⟨k2.pin, k2⟩, ⟨k3.pin_code_mode, k3⟩⟩

theorem getter_failure_keeps_output_witness :
    ((get_hm10clone_role sim example_header 3
          { Driver.init role_link_0 with ble_role := 49 }).1
        ≠ some example_header.HM10_Clone_EC_OK
      ∧ (get_hm10clone_pin sim example_header 3
          { Driver.init pin_bad_link_0 with pin := [57, 57, 57, 57, 57, 57] }).1
        ≠ some example_header.HM10_Clone_EC_OK
      ∧ (get_hm10clone_pin_code_mode sim example_header 3
          { Driver.init mute_link_0 with pin_code_mode := 50 }).1
        ≠ some example_header.HM10_Clone_EC_OK)
    ∧ ((get_hm10clone_role sim example_header 3
          { Driver.init role_link_0 with ble_role := 49 }).2.ble_role = 49
        ∧ SameOut { Driver.init role_link_0 with ble_role := 49 }
          (get_hm10clone_role sim example_header 3
            { Driver.init role_link_0 with ble_role := 49 }).2)
      ∧ ((get_hm10clone_pin sim example_header 3
          { Driver.init pin_bad_link_0 with pin := [57, 57, 57, 57, 57, 57] }).2.pin
          = [57, 57, 57, 57, 57, 57]
        ∧ SameOut { Driver.init pin_bad_link_0 with pin := [57, 57, 57, 57, 57, 57] }
          (get_hm10clone_pin sim example_header 3
            { Driver.init pin_bad_link_0 with pin := [57, 57, 57, 57, 57, 57] }).2)
      ∧ ((get_hm10clone_pin_code_mode sim example_header 3
          { Driver.init mute_link_0 with pin_code_mode := 50 }).2.pin_code_mode = 50
        ∧ SameOut { Driver.init mute_link_0 with pin_code_mode := 50 }
          (get_hm10clone_pin_code_mode sim example_header 3
            { Driver.init mute_link_0 with pin_code_mode := 50 }).2) :=
  ⟨⟨by decide, by decide, by decide⟩,
    getter_failure_keeps_output sim example_header 3 3 3
      { Driver.init role_link_0 with ble_role := 49 }
      { Driver.init pin_bad_link_0 with pin := [57, 57, 57, 57, 57, 57] }
      { Driver.init mute_link_0 with pin_code_mode := 50 }
      (by decide) (by decide) (by decide)⟩

/-! ## C28: every transmit follows the end of a flush -/

theorem flushed_append (hd : Header) (a b : List Event) (ha : Flushed hd a)
    (hb : Flushed hd b) : Flushed hd (a ++ b) := by
  intro pre pData Timeout status post h
  rcases List.append_eq_append_iff.mp h with ⟨a1, h1, h2⟩ | ⟨c1, h1, h2⟩
  · obtain ⟨pre1, data, hp⟩ := hb a1 pData Timeout status post h2
    exact ⟨a ++ pre1, data, by rw [h1, hp, List.append_assoc]⟩
  · cases c1 with
    | nil =>
      simp only [List.nil_append] at h2
      obtain ⟨pre1, data, hp⟩ := hb [] pData Timeout status post h2.symm
      simp at hp
    | cons e c2 =>
      simp only [List.cons_append, List.cons.injEq] at h2
      obtain ⟨he, _⟩ := h2
      subst he
      exact ha pre pData Timeout status c2 h1

theorem flushed_of_no_tx (hd : Header) (a : List Event)
    (h : ∀ e ∈ a, ∀ pData Timeout status, e ≠ Event.tx pData Timeout status) :
    Flushed hd a := by
  intro pre pData Timeout status post hp
  exact absurd rfl (h (Event.tx pData Timeout status) (by rw [hp]; simp) pData Timeout status)

theorem flushed_unit (hd : Header) (data pData : List Nat) (Timeout : Nat)
    (status : HAL_StatusTypeDef) :
    Flushed hd [Event.rx 1 hd.HM10_CLONE_CUSTOM_HAL_TIMEOUT HAL_StatusTypeDef.HAL_TIMEOUT data,
      Event.tx pData Timeout status] := by
  intro pre p t s post h
  match pre, h with
  | [], h => simp at h
  | [e], h =>
    simp only [List.cons_append, List.nil_append, List.cons.injEq] at h
    exact ⟨[], data, by rw [← h.1]; rfl⟩
  | e1 :: e2 :: rest, h =>
    simp only [List.cons_append, List.cons.injEq] at h
    have := h.2.2
    simp at this

/-- The events of one pass have every transmit right after the end of the flush. -/
theorem attempt_flushed (u : UART σ) (hd : Header) (c : Cmd) (fuel : Nat) (d : Driver σ) :
    ∃ own, (c.attempt u hd fuel d).2.trace = d.trace ++ own ∧ Flushed hd own := by
  obtain ⟨fl, ex, ht, hfl, hex⟩ := attempt_trace u hd c fuel d
  have hnotx : ∀ (l : List Event), (∀ e ∈ l, e.is_flush_rx hd) →
      ∀ e ∈ l, ∀ pData Timeout status, e ≠ Event.tx pData Timeout status := by
    intro l hl e he pData Timeout status heq
    have := hl e he
    rw [heq] at this
    exact this
  have hnotx2 : ∀ (l : List Event), (∀ e ∈ l, e.is_rx) →
      ∀ e ∈ l, ∀ pData Timeout status, e ≠ Event.tx pData Timeout status := by
    intro l hl e he pData Timeout status heq
    have := hl e he
    rw [heq] at this
    exact this
  refine ⟨fl ++ ex, by rw [ht, List.append_assoc], ?_⟩
  rcases hex with ⟨hex, _⟩ | ⟨fl1, data, pData, status, rxs, hfl1, hex, hrxs, _⟩
  · rw [hex, List.append_nil]
    exact flushed_of_no_tx hd fl (hnotx fl hfl)
  · have hfl1all : ∀ e ∈ fl1, e.is_flush_rx hd := by
      intro e he
      exact hfl e (by rw [hfl1]; exact List.mem_append_left _ he)
    have heq : fl ++ ex = fl1 ++ ([Event.rx 1 hd.HM10_CLONE_CUSTOM_HAL_TIMEOUT
        HAL_StatusTypeDef.HAL_TIMEOUT data,
        Event.tx pData hd.HM10_CLONE_CUSTOM_HAL_TIMEOUT status] ++ rxs) := by
      rw [hfl1, hex]; simp
    rw [heq]
    exact flushed_append hd _ _ (flushed_of_no_tx hd fl1 (hnotx fl1 hfl1all))
      (flushed_append hd _ _ (flushed_unit hd data pData _ status)
        (flushed_of_no_tx hd rxs (hnotx2 rxs hrxs)))

/-- The events of a `send_*_cmd` have every transmit right after the end of a flush. -/
theorem send_flushed (u : UART σ) (hd : Header) (c : Cmd) :
    ∀ (fuel : Nat) (d : Driver σ),
      ∃ new, (c.send u hd fuel d).2.trace = d.trace ++ new ∧ Flushed hd new := by
  intro fuel
  induction fuel with
  | zero =>
    intro d
    refine ⟨[], ?_, flushed_of_no_tx hd [] (by simp)⟩
    rw [Cmd.send_eq_exchange, exchange]
    simp
  | succ fuel ih =>
    intro d
    obtain ⟨own, hown, hfl⟩ := attempt_flushed u hd c fuel d
    obtain ⟨new, hnew, hfl2⟩ := ih ((c.attempt u hd fuel d).2.set_attempts
      ((c.attempt u hd fuel d).2.resp_attempts + 1))
    have hboth : Flushed hd (own ++ ([Event.attempts
        (((c.attempt u hd fuel d).2.resp_attempts + 1) % 256)] ++ new)) :=
      flushed_append hd _ _ hfl (flushed_append hd _ _
        (flushed_of_no_tx hd _ (by simp)) hfl2)
    have hagain : (c.send u hd fuel ((c.attempt u hd fuel d).2.set_attempts
        ((c.attempt u hd fuel d).2.resp_attempts + 1))).2.trace
        = d.trace ++ (own ++ ([Event.attempts
          (((c.attempt u hd fuel d).2.resp_attempts + 1) % 256)] ++ new)) := by
      rw [hnew]
      show ((c.attempt u hd fuel d).2.trace ++ [_]) ++ new = _
      rw [hown]
      simp
    rw [send_attempt, finish]
    split_ifs with h1 h2
    · simp only
      split
      · exact ⟨_, hagain, hboth⟩
      · exact ⟨_, by rw [settle_trace]; exact hagain, hboth⟩
    · exact ⟨own, by rw [settle_trace]; exact hown, hfl⟩
    · exact ⟨own, hown, hfl⟩

/-- C28: in the trace of every public AT command, whatever the UART does and whatever the
fuel, every call of `HAL_UART_Transmit` comes right after a one-byte receive with the driver
timeout that reported `HAL_TIMEOUT`, the last receive of the flush: wherever the events that
the command adds to the trace split as `pre`, a transmit, `post`, the part `pre` ends with
such a receive. -/
theorem transmit_follows_flush_timeout (u : UART σ) (hd : Header) (c : Cmd) (fuel : Nat)
    (d : Driver σ) (pre post : List Event) (pData : List Nat) (Timeout : Nat)
    (status : HAL_StatusTypeDef)
    (h : (c.run u hd fuel d).2.trace
      = d.trace ++ pre ++ Event.tx pData Timeout status :: post) :
    ∃ pre1 data, pre = pre1
      ++ [Event.rx 1 hd.HM10_CLONE_CUSTOM_HAL_TIMEOUT HAL_StatusTypeDef.HAL_TIMEOUT data] := by
  obtain ⟨new, hnew, hfl⟩ := send_flushed u hd c fuel (d.set_attempts 0)
  rw [send_eq_run, hnew] at h
  have h2 : [Event.attempts (0 % 256)] ++ new = pre ++ Event.tx pData Timeout status :: post := by
    have h3 : d.trace ++ ([Event.attempts (0 % 256)] ++ new)
        = d.trace ++ (pre ++ Event.tx pData Timeout status :: post) := by
      rw [← List.append_assoc, ← List.append_assoc]
      exact h
    exact List.append_cancel_left h3
  exact flushed_append hd _ _ (flushed_of_no_tx hd _ (by simp)) hfl pre pData Timeout status
    post h2

theorem transmit_follows_flush_timeout_witness :
    (get_hm10clone_name sim example_header 4 (Driver.init name_link_0)).2.trace
        = (Driver.init name_link_0).trace
          ++ [Event.attempts 0,
              Event.rx 1 120 HAL_StatusTypeDef.HAL_TIMEOUT [],
              Event.tx [65, 84, 43, 78, 65, 77, 69, 13, 10] 120 HAL_StatusTypeDef.HAL_TIMEOUT,
              Event.attempts 1,
              Event.rx 1 120 HAL_StatusTypeDef.HAL_TIMEOUT []]
          ++ Event.tx [65, 84, 43, 78, 65, 77, 69, 13, 10] 120 HAL_StatusTypeDef.HAL_OK
            :: [Event.rx 8 120 HAL_StatusTypeDef.HAL_OK [43, 78, 65, 77, 69, 61, 65, 66],
                Event.rx 1 120 HAL_StatusTypeDef.HAL_OK [13],
                Event.rx 1 120 HAL_StatusTypeDef.HAL_OK [10]]
    ∧ ∃ pre1 data, [Event.attempts 0,
          Event.rx 1 120 HAL_StatusTypeDef.HAL_TIMEOUT [],
          Event.tx [65, 84, 43, 78, 65, 77, 69, 13, 10] 120 HAL_StatusTypeDef.HAL_TIMEOUT,
          Event.attempts 1,
          Event.rx 1 120 HAL_StatusTypeDef.HAL_TIMEOUT []]
        = pre1 ++ [Event.rx 1 example_header.HM10_CLONE_CUSTOM_HAL_TIMEOUT
            HAL_StatusTypeDef.HAL_TIMEOUT data] :=
  ⟨by decide,
    transmit_follows_flush_timeout sim example_header Cmd.get_name 4 (Driver.init name_link_0)
      [Event.attempts 0,
        Event.rx 1 120 HAL_StatusTypeDef.HAL_TIMEOUT [],
        Event.tx [65, 84, 43, 78, 65, 77, 69, 13, 10] 120 HAL_StatusTypeDef.HAL_TIMEOUT,
        Event.attempts 1,
        Event.rx 1 120 HAL_StatusTypeDef.HAL_TIMEOUT []]
      [Event.rx 8 120 HAL_StatusTypeDef.HAL_OK [43, 78, 65, 77, 69, 61, 65, 66],
        Event.rx 1 120 HAL_StatusTypeDef.HAL_OK [13],
        Event.rx 1 120 HAL_StatusTypeDef.HAL_OK [10]]
      [65, 84, 43, 78, 65, 77, 69, 13, 10] 120 HAL_StatusTypeDef.HAL_OK (by decide)⟩

/-! ## The last pass of a public command -/

theorem attempt_zero (u : UART σ) (hd : Header) (c : Cmd) (d : Driver σ) :
    (c.attempt u hd 0 d).1 = Outcome.starved := by
  simp [Cmd.attempt, HAL_uart_rx_flush]

/-- A public command that returns a status has made a last pass, which gave that status and
left the trace as the command leaves it. -/
theorem run_last_pass (u : UART σ) (hd : Header) (c : Cmd) (fuel : Nat) (d : Driver σ)
    (r : Nat) (h : (c.run u hd fuel d).1 = some r) :
    ∃ f dl, (c.attempt u hd f dl).1.result hd = some r
      ∧ (c.run u hd fuel d).2.trace = (c.attempt u hd f dl).2.trace := by
  match fuel, h with
  | 0, h =>
    rw [send_eq_run, Cmd.send_eq_exchange, exchange] at h
    simp at h
  | 1, h =>
    have h0 : (c.attempt u hd 0 (d.set_attempts 0)).1.retry = false := by
      rw [attempt_zero]; rfl
    rw [run_one_pass u hd c 0 d h0, attempt_zero] at h
    simp [Outcome.result] at h
  | f + 2, h =>
    by_cases hr : (c.attempt u hd (f + 1) (d.set_attempts 0)).1.retry = true
    · rw [run_two_passes u hd c f d hr] at h ⊢
      refine ⟨f, _, h, ?_⟩
      simp only
      split_ifs
      · rfl
      · rw [settle_trace, settle_trace]
    · have hr2 : (c.attempt u hd (f + 1) (d.set_attempts 0)).1.retry = false := by
        simpa using hr
      rw [run_one_pass u hd c (f + 1) d hr2] at h ⊢
      exact ⟨f + 1, _, h, rfl⟩

theorem name_read_returned (u : UART σ) (hd : Header) :
    ∀ (fuel bp : Nat) (d : Driver σ) (r : Nat),
      (name_read u hd 6 fuel bp d).1 = Outcome.returned r → r = hd.HM10_Clone_EC_OK := by
  intro fuel
  induction fuel with
  | zero => intro bp d r h; simp [name_read] at h
  | succ fuel ih =>
    intro bp d r h
    rw [name_read] at h
    simp only at h
    split_ifs at h
    · exact (Outcome.returned.inj h).symm
    · exact ih _ _ r h

theorem attempt_steps_returned (u : UART σ) (hd : Header)
    (last : Driver σ → Outcome × Driver σ)
    (hlast : ∀ d r, (last d).1 = Outcome.returned r →
      r = hd.HM10_Clone_EC_OK ∨ r = hd.HM10_Clone_EC_ERR) :
    ∀ (steps : List (Nat × (Driver σ → Bool))) (d : Driver σ) (r : Nat),
      (attempt_steps u hd last steps d).1 = Outcome.returned r →
      r = hd.HM10_Clone_EC_OK ∨ r = hd.HM10_Clone_EC_ERR := by
  intro steps
  induction steps with
  | nil => intro d r h; rw [attempt_steps] at h; exact hlast d r h
  | cons s rest ih =>
    intro d r h
    obtain ⟨n, bad⟩ := s
    rw [attempt_steps] at h
    split_ifs at h
    · exact Or.inr (Outcome.returned.inj h).symm
    · exact ih _ r h

/-- A pass that ends with a `return` of its own returns `HM10_Clone_EC_OK` or
`HM10_Clone_EC_ERR`. -/
theorem attempt_returned (u : UART σ) (hd : Header) (c : Cmd) (fuel : Nat) (d : Driver σ)
    (r : Nat) (h : (c.attempt u hd fuel d).1 = Outcome.returned r) :
    r = hd.HM10_Clone_EC_OK ∨ r = hd.HM10_Clone_EC_ERR := by
  have hlast : ∀ x r, (c.last u hd fuel x).1 = Outcome.returned r →
      r = hd.HM10_Clone_EC_OK ∨ r = hd.HM10_Clone_EC_ERR := by
    intro x r hx
    cases c
    case get_name => exact Or.inl (name_read_returned u hd fuel 8 _ r hx)
    all_goals
      simp only [Cmd.last, Outcome.returned.injEq] at hx
      exact Or.inl hx.symm
  unfold Cmd.attempt at h
  simp only at h
  split_ifs at h
  · exact Or.inr (Outcome.returned.inj h).symm
  · exact attempt_steps_returned u hd _ hlast _ _ r h

/-! ## C25: the three results -/

/-- C25: the status a public command returns is `HM10_Clone_EC_OK`, `HM10_Clone_EC_NR` or
`HM10_Clone_EC_ERR`; and when it is `HM10_Clone_EC_NR`, the trace of the command ends with
a transmit followed by receives only (so all of them calls of the exchange of the last
pass, made after its flush), and the last of these calls reported `HAL_BUSY` or
`HAL_TIMEOUT`. The three codes are taken to be distinct and `HM10_Clone_EC_OK` to be
`HAL_OK`. -/
theorem result_is_one_of_three (u : UART σ) (hd : Header) (hc : hd.codes_ok)
    (hne : hd.HM10_Clone_EC_NR ≠ hd.HM10_Clone_EC_ERR) (c : Cmd) (fuel : Nat) (d : Driver σ)
    (r : Nat) (h : (c.run u hd fuel d).1 = some r) :
    (r = hd.HM10_Clone_EC_OK ∨ r = hd.HM10_Clone_EC_NR ∨ r = hd.HM10_Clone_EC_ERR)
      ∧ (r = hd.HM10_Clone_EC_NR →
          ∃ pre pData status rxs,
            (c.run u hd fuel d).2.trace
              = pre ++ Event.tx pData hd.HM10_CLONE_CUSTOM_HAL_TIMEOUT status :: rxs
            ∧ (∀ e ∈ rxs, e.is_rx)
            ∧ (Ends_with (Event.tx pData hd.HM10_CLONE_CUSTOM_HAL_TIMEOUT status :: rxs)
                HAL_StatusTypeDef.HAL_BUSY
              ∨ Ends_with (Event.tx pData hd.HM10_CLONE_CUSTOM_HAL_TIMEOUT status :: rxs)
                HAL_StatusTypeDef.HAL_TIMEOUT)) := by
  obtain ⟨f, dl, hres, htr⟩ := run_last_pass u hd c fuel d r h
  obtain ⟨fl, ex, ht, _, hex⟩ := attempt_trace u hd c f dl
  have hnr : hd.HM10_Clone_EC_NR ≠ hd.HM10_Clone_EC_OK := by
    rw [hc.1]; exact hc.2.1
  cases ho : (c.attempt u hd f dl).1 with
  | starved => rw [ho] at hres; simp [Outcome.result] at hres
  | returned ret =>
    rw [ho] at hres
    simp only [Outcome.result, Option.some.injEq] at hres
    subst hres
    rcases attempt_returned u hd c f dl ret ho with h1 | h1
    · exact ⟨Or.inl h1, fun h2 => absurd (h2.symm.trans h1) hnr⟩
    · exact ⟨Or.inr (Or.inr h1), fun h2 => absurd (h2.symm.trans h1) hne⟩
  | overflow =>
    rw [ho] at hres
    simp only [Outcome.result, Option.some.injEq] at hres
    subst hres
    exact ⟨Or.inr (Or.inr rfl), fun h2 => absurd h2.symm hne⟩
  | fault st b =>
    rw [ho] at hres
    simp only [Outcome.result, Option.some.injEq] at hres
    subst hres
    have hshape : ∃ pre pData status rxs,
        (c.run u hd fuel d).2.trace
          = pre ++ Event.tx pData hd.HM10_CLONE_CUSTOM_HAL_TIMEOUT status :: rxs
        ∧ (∀ e ∈ rxs, e.is_rx)
        ∧ Ends_with (Event.tx pData hd.HM10_CLONE_CUSTOM_HAL_TIMEOUT status :: rxs) st := by
      rcases hex with ⟨_, hno⟩ | ⟨_, _, pData, status, rxs, _, hex, hrxs, he⟩
      · rw [ho] at hno
        simp [Outcome.retry] at hno
      · refine ⟨dl.trace ++ fl, pData, status, rxs, ?_, hrxs, ?_⟩
        · rw [htr, ht, hex]
        · rw [← hex]; exact he st b ho
    cases st with
    | HAL_OK =>
      refine ⟨Or.inl ?_, fun h2 => absurd h2.symm ?_⟩
      · show HAL_OK = hd.HM10_Clone_EC_OK
        exact hc.1.symm
      · show hd.HM10_Clone_EC_NR ≠ HAL_OK
        exact hc.2.1
    | HAL_ERROR => exact ⟨Or.inr (Or.inr rfl), fun h2 => absurd h2.symm hne⟩
    | HAL_BUSY =>
      obtain ⟨pre, pData, status, rxs, h1, h2, h3⟩ := hshape
      exact ⟨Or.inr (Or.inl rfl), fun _ => ⟨pre, pData, status, rxs, h1, h2, Or.inl h3⟩⟩
    | HAL_TIMEOUT =>
      obtain ⟨pre, pData, status, rxs, h1, h2, h3⟩ := hshape
      exact ⟨Or.inr (Or.inl rfl), fun _ => ⟨pre, pData, status, rxs, h1, h2, Or.inr h3⟩⟩

theorem result_is_one_of_three_witness :
    (example_header.codes_ok
      ∧ example_header.HM10_Clone_EC_NR ≠ example_header.HM10_Clone_EC_ERR
      ∧ ((Cmd.set_pin [48, 49, 50, 51, 52, 53]).run sim example_header 3 (Driver.init pin_link_0)).1 = some 2)
    ∧ ((2 = example_header.HM10_Clone_EC_OK ∨ 2 = example_header.HM10_Clone_EC_NR
          ∨ 2 = example_header.HM10_Clone_EC_ERR)
      ∧ (2 = example_header.HM10_Clone_EC_NR →
          ∃ pre pData status rxs,
            ((Cmd.set_pin [48, 49, 50, 51, 52, 53]).run sim example_header 3 (Driver.init pin_link_0)).2.trace
              = pre ++ Event.tx pData example_header.HM10_CLONE_CUSTOM_HAL_TIMEOUT status :: rxs
            ∧ (∀ e ∈ rxs, e.is_rx)
            ∧ (Ends_with (Event.tx pData example_header.HM10_CLONE_CUSTOM_HAL_TIMEOUT status
                  :: rxs) HAL_StatusTypeDef.HAL_BUSY
              ∨ Ends_with (Event.tx pData example_header.HM10_CLONE_CUSTOM_HAL_TIMEOUT status
                  :: rxs) HAL_StatusTypeDef.HAL_TIMEOUT))) :=
  ⟨⟨by decide, by decide, by decide⟩,
    result_is_one_of_three sim example_header (by decide) (by decide) (Cmd.set_pin [48, 49, 50, 51, 52, 53]) 3
      (Driver.init pin_link_0) 2 (by decide)⟩

/-! ## The name read on a response without terminator -/

/-- The byte-by-byte read on a response `S` of `HM10_CLONE_MAX_BLE_NAME_SIZE + 8` bytes of
which `bp` are in the buffer: when the rest of `S` arrives byte by byte and no pair of
bytes that the loop looks at is `\r\n`, the pass ends at the retry block of the length
check. -/
theorem name_read_overflow (u : UART σ) (hd : Header) (S : List Nat)
    (hS : S.length = hd.HM10_CLONE_MAX_BLE_NAME_SIZE + 8) (hS20 : S.length ≤ 20)
    (hmid : ∀ j, 8 ≤ j → j < S.length → ¬ (S.getD (j - 1) 0 = 13 ∧ S.getD j 0 = 10))
    (m : Nat) :
    ∀ (fuel bp : Nat) (d : Driver σ) (s2 : σ), m + 1 ≤ fuel → 8 ≤ bp →
      bp + (m + 1) = S.length →
      (∀ k < bp, d.TxRx_Buffer k = S.getD k 0) →
      u.receives hd.HM10_CLONE_CUSTOM_HAL_TIMEOUT ((S.drop bp).map fun b => [b]) d.huart
        = some s2 →
      (name_read u hd 6 fuel bp d).1 = Outcome.overflow
        ∧ (name_read u hd 6 fuel bp d).2.huart = s2 := by
  induction m with
  | zero =>
    intro fuel bp d s2 hfuel hbp hlen hbuf hrx
    obtain ⟨fuel, rfl⟩ : ∃ f, fuel = f + 1 := ⟨fuel - 1, by omega⟩
    have hdrop : S.drop bp = [S.getD bp 0] := by
      apply List.ext_getElem
      · simp; omega
      · intro i h1 h2
        simp only [List.length_singleton] at h2
        obtain rfl : i = 0 := by omega
        simp [List.getElem_drop, List.getD_eq_getElem?_getD,
          List.getElem?_eq_getElem (show bp < S.length by omega)]
    rw [hdrop] at hrx
    obtain ⟨s1, h1, h2⟩ := receives_cons _ _ _ _ _ _ hrx
    obtain rfl := receives_nil _ _ _ _ h2
    have R := Receive_eq u d bp 1 hd.HM10_CLONE_CUSTOM_HAL_TIMEOUT _ _ s1 h1 rfl
    have e1 : (bp + 1) % 256 = bp + 1 := by omega
    have hb1 : (d.Receive u bp 1 hd.HM10_CLONE_CUSTOM_HAL_TIMEOUT).2.TxRx_Buffer (bp + 1 - 2)
        = S.getD (bp - 1) 0 := by
      rw [R.2.2, if_neg (by omega), hbuf _ (by omega)]
      congr 1
    have hb2 : (d.Receive u bp 1 hd.HM10_CLONE_CUSTOM_HAL_TIMEOUT).2.TxRx_Buffer (bp + 1 - 1)
        = S.getD bp 0 := by
      rw [R.2.2, if_pos (by omega)]
      simp
    have hno := hmid bp hbp (by omega)
    have hover : bp + 1 = hd.HM10_CLONE_MAX_BLE_NAME_SIZE
        + HM10_CLONE_NAME_RESPONSE_SIZE_WITHOUT_REQUESTED_NAME := by
      simp only [HM10_CLONE_NAME_RESPONSE_SIZE_WITHOUT_REQUESTED_NAME]; omega
    have hret : ¬ (HAL_ret_handler hd (d.Receive u bp 1 hd.HM10_CLONE_CUSTOM_HAL_TIMEOUT).1
        ≠ HAL_OK) := by
      rw [R.1, ret_handler_ok]; simp
    have hterm : ¬ ((d.Receive u bp 1 hd.HM10_CLONE_CUSTOM_HAL_TIMEOUT).2.TxRx_Buffer
          ((bp + 1) % 256 - 2) = 13
        ∧ (d.Receive u bp 1 hd.HM10_CLONE_CUSTOM_HAL_TIMEOUT).2.TxRx_Buffer
          ((bp + 1) % 256 - 1) = 10) := by
      rw [e1, hb1, hb2]; exact hno
    have hover1 : (bp + 1) % 256 = hd.HM10_CLONE_MAX_BLE_NAME_SIZE
        + HM10_CLONE_NAME_RESPONSE_SIZE_WITHOUT_REQUESTED_NAME := by
      rw [e1]; exact hover
    rw [name_read]
    simp only
    split_ifs
    exact ⟨rfl, R.2.1⟩
  | succ m ih =>
    intro fuel bp d s2 hfuel hbp hlen hbuf hrx
    obtain ⟨fuel, rfl⟩ : ∃ f, fuel = f + 1 := ⟨fuel - 1, by omega⟩
    have hdrop : S.drop bp = S.getD bp 0 :: S.drop (bp + 1) := by
      rw [List.drop_eq_getElem_cons (show bp < S.length by omega)]
      simp [List.getD_eq_getElem?_getD,
        List.getElem?_eq_getElem (show bp < S.length by omega)]
    rw [hdrop, List.map_cons] at hrx
    obtain ⟨s1, h1, h2⟩ := receives_cons _ _ _ _ _ _ hrx
    have R := Receive_eq u d bp 1 hd.HM10_CLONE_CUSTOM_HAL_TIMEOUT _ _ s1 h1 rfl
    have e1 : (bp + 1) % 256 = bp + 1 := by omega
    have hb1 : (d.Receive u bp 1 hd.HM10_CLONE_CUSTOM_HAL_TIMEOUT).2.TxRx_Buffer (bp + 1 - 2)
        = S.getD (bp - 1) 0 := by
      rw [R.2.2, if_neg (by omega), hbuf _ (by omega)]
      congr 1
    have hb2 : (d.Receive u bp 1 hd.HM10_CLONE_CUSTOM_HAL_TIMEOUT).2.TxRx_Buffer (bp + 1 - 1)
        = S.getD bp 0 := by
      rw [R.2.2, if_pos (by omega)]
      simp
    have hno := hmid bp hbp (by omega)
    have hover : ¬ (bp + 1 = hd.HM10_CLONE_MAX_BLE_NAME_SIZE
        + HM10_CLONE_NAME_RESPONSE_SIZE_WITHOUT_REQUESTED_NAME) := by
      simp only [HM10_CLONE_NAME_RESPONSE_SIZE_WITHOUT_REQUESTED_NAME]; omega
    have g := ih fuel (bp + 1)
      { (d.Receive u bp 1 hd.HM10_CLONE_CUSTOM_HAL_TIMEOUT).2 with
        size := ((d.Receive u bp 1 hd.HM10_CLONE_CUSTOM_HAL_TIMEOUT).2.size + 1) % 256 } s2
      (by omega) (by omega) (by omega)
      (by
        intro k hk
        show (d.Receive u bp 1 hd.HM10_CLONE_CUSTOM_HAL_TIMEOUT).2.TxRx_Buffer k = _
        rw [R.2.2]
        by_cases hkb : k = bp
        · subst hkb; rw [if_pos (by omega)]; simp
        · rw [if_neg (by omega), hbuf _ (by omega)])
      (by
        show u.receives _ _ (d.Receive u bp 1 hd.HM10_CLONE_CUSTOM_HAL_TIMEOUT).2.huart = _
        rw [R.2.1]; exact h2)
    have hret : ¬ (HAL_ret_handler hd (d.Receive u bp 1 hd.HM10_CLONE_CUSTOM_HAL_TIMEOUT).1
        ≠ HAL_OK) := by
      rw [R.1, ret_handler_ok]; simp
    have hterm : ¬ ((d.Receive u bp 1 hd.HM10_CLONE_CUSTOM_HAL_TIMEOUT).2.TxRx_Buffer
          ((bp + 1) % 256 - 2) = 13
        ∧ (d.Receive u bp 1 hd.HM10_CLONE_CUSTOM_HAL_TIMEOUT).2.TxRx_Buffer
          ((bp + 1) % 256 - 1) = 10) := by
      rw [e1, hb1, hb2]; exact hno
    have hover1 : ¬ ((bp + 1) % 256 = hd.HM10_CLONE_MAX_BLE_NAME_SIZE
        + HM10_CLONE_NAME_RESPONSE_SIZE_WITHOUT_REQUESTED_NAME) := by
      rw [e1]; exact hover
    rw [name_read]
    simp only
    split_ifs
    rw [e1]; exact g

/-- A pass whose flush ends and whose transmit succeeds goes on to the receive steps. -/
theorem attempt_tx_ok (u : UART σ) (hd : Header) (hw : hd.wf) (c : Cmd) (hacc : c.accepted hd)
    (fuel : Nat) (d : Driver σ) (s1 s2 : σ)
    (hflush : u.drain hd.HM10_CLONE_CUSTOM_HAL_TIMEOUT fuel d.huart = some s1)
    (htx : u.HAL_UART_Transmit s1 c.request hd.HM10_CLONE_CUSTOM_HAL_TIMEOUT
      = (HAL_StatusTypeDef.HAL_OK, s2)) :
    ∃ d2, d2.huart = s2
      ∧ c.attempt u hd fuel d
        = attempt_steps u hd (c.last u hd fuel) (c.shape u hd).steps d2 := by
  obtain ⟨d1, hf, hs1, hr1⟩ := flush_ok u hd fuel d s1 hflush
  have hrej : (c.shape u hd).reject = false := by
    have := shape_reject u hd c
    cases h : (c.shape u hd).reject
    · rfl
    · exact absurd hacc (this.1 h)
  have hp := populate_same u hd c d1
  have hq := populate_request u hd hw c hacc d1
  have hph : ((c.shape u hd).populate d1).2.huart = s1 := by rw [hp]; exact hs1
  refine ⟨(((c.shape u hd).populate d1).2.Transmit u ((c.shape u hd).populate d1).1
    hd.HM10_CLONE_CUSTOM_HAL_TIMEOUT).2, ?_, ?_⟩
  · simp [Driver.Transmit, hph, hq, htx]
  · have hst1 : (((c.shape u hd).populate d1).2.Transmit u ((c.shape u hd).populate d1).1
        hd.HM10_CLONE_CUSTOM_HAL_TIMEOUT).1 = HAL_StatusTypeDef.HAL_OK := by
      simp [Driver.Transmit, hph, hq, htx]
    unfold Cmd.attempt
    simp only [hf, hrej, hst1, ret_handler_ok, Bool.true_eq_false, Bool.false_eq_true,
      if_false, ne_eq, not_true_eq_false]

/-- A pass of `send_get_name_cmd` on a response that starts with `+NAME=` and goes on for
`HM10_CLONE_MAX_BLE_NAME_SIZE + 8` bytes without a `\r\n` that the loop sees ends at the
retry block of the length check. -/
theorem attempt_overflow (u : UART σ) (hd : Header) (hw : hd.wf)
    (hmax : 1 ≤ hd.HM10_CLONE_MAX_BLE_NAME_SIZE) (fuel : Nat)
    (hfuel : hd.HM10_CLONE_MAX_BLE_NAME_SIZE ≤ fuel) (d : Driver σ) (s1 s2 s3 : σ)
    (S : List Nat)
    (hflush : u.drain hd.HM10_CLONE_CUSTOM_HAL_TIMEOUT fuel d.huart = some s1)
    (htx : u.HAL_UART_Transmit s1 Cmd.get_name.request hd.HM10_CLONE_CUSTOM_HAL_TIMEOUT
      = (HAL_StatusTypeDef.HAL_OK, s2))
    (hS : S.length = hd.HM10_CLONE_MAX_BLE_NAME_SIZE + 8)
    (htag : S.take 6 = HM10_Clone_Name_resp)
    (hmid : ∀ j, 8 ≤ j → j < S.length → ¬ (S.getD (j - 1) 0 = 13 ∧ S.getD j 0 = 10))
    (hrx : u.receives hd.HM10_CLONE_CUSTOM_HAL_TIMEOUT
      (S.take 8 :: (S.drop 8).map fun b => [b]) s2 = some s3) :
    (Cmd.get_name.attempt u hd fuel d).1 = Outcome.overflow
      ∧ (Cmd.get_name.attempt u hd fuel d).2.huart = s3 := by
  have h12 := hw.2.2
  obtain ⟨d2, hd2, hatt⟩ := attempt_tx_ok u hd hw Cmd.get_name trivial fuel d s1 s2 hflush htx
  rw [← hd2] at hrx
  obtain ⟨s, h1, h2⟩ := receives_cons _ _ _ _ _ _ hrx
  have htake : (S.take 8).length = 8 := by
    rw [List.length_take, hS]; omega
  have h1' : u.HAL_UART_Receive d2.huart 8 hd.HM10_CLONE_CUSTOM_HAL_TIMEOUT
      = (HAL_StatusTypeDef.HAL_OK, S.take 8, s) := by
    rw [htake] at h1; exact h1
  have R := Receive_eq u d2 0 8 hd.HM10_CLONE_CUSTOM_HAL_TIMEOUT _ _ s h1' htake
  have hbuf : ∀ k < 8,
      (d2.Receive u 0 8 hd.HM10_CLONE_CUSTOM_HAL_TIMEOUT).2.TxRx_Buffer k = S.getD k 0 := by
    intro k hk
    rw [R.2.2, if_pos ⟨Nat.zero_le _, by omega⟩, Nat.sub_zero, take_getD _ _ _ hk]
  have hb : ∀ k < 6, (d2.Receive u 0 8 hd.HM10_CLONE_CUSTOM_HAL_TIMEOUT).2.TxRx_Buffer k
      = HM10_Clone_Name_resp.getD k 0 := by
    intro k hk6
    rw [hbuf k (by omega), ← htag, take_getD _ _ _ hk6]
  have hdiff : (d2.Receive u 0 8 hd.HM10_CLONE_CUSTOM_HAL_TIMEOUT).2.differs
      HM10_Clone_Name_resp 6 = false := by
    simp [Driver.differs, List.range_succ, hb, HM10_Clone_Name_resp]
  have hstep : attempt_steps u hd (Cmd.get_name.last u hd fuel) (Cmd.get_name.shape u hd).steps d2
      = name_read u hd 6 fuel 8
          { (d2.Receive u 0 8 hd.HM10_CLONE_CUSTOM_HAL_TIMEOUT).2 with size := 0 } := by
    simp only [Cmd.shape, attempt_steps, HM10_CLONE_NAME_RESPONSE_SIZE_WITHOUT_REQUESTED_NAME,
      R.1, ret_handler_ok, ne_eq, not_true_eq_false, if_false, hdiff, Bool.false_eq_true,
      Cmd.last]
  rw [hatt, hstep]
  exact name_read_overflow u hd S hS (by omega) hmid (hd.HM10_CLONE_MAX_BLE_NAME_SIZE - 1)
    fuel 8 _ s3 (by omega) (le_refl _) (by omega)
    (by
      intro k hk
      exact hbuf k hk)
    (by
      show u.receives _ _ (d2.Receive u 0 8 hd.HM10_CLONE_CUSTOM_HAL_TIMEOUT).2.huart = _
      rw [R.2.1]; exact h2)

/-! ## What a pass that ends at a retry block has done -/

theorem tx_count_rx (l : List Event) (h : ∀ e ∈ l, e.is_rx) : tx_count l = 0 := by
  induction l with
  | nil => rfl
  | cons e l ih =>
    have he := h e (List.mem_cons_self _ _)
    have hl := ih (fun x hx => h x (List.mem_cons_of_mem _ hx))
    cases e with
    | tx a b c => exact absurd he (by simp [Event.is_rx])
    | rx a b c d => simpa [tx_count] using hl
    | attempts v => exact absurd he (by simp [Event.is_rx])

theorem is_rx_of_flush (hd : Header) (e : Event) (h : e.is_flush_rx hd) : e.is_rx := by
  cases e with
  | tx a b c => exact absurd h (by simp [Event.is_flush_rx])
  | rx a b c d => trivial
  | attempts v => exact absurd h (by simp [Event.is_flush_rx])

/-- A pass that ends at a retry block has made exactly one transmit. -/
theorem attempt_retry_tx_count (u : UART σ) (hd : Header) (c : Cmd) (fuel : Nat)
    (d : Driver σ) (h : (c.attempt u hd fuel d).1.retry = true) :
    tx_count (c.attempt u hd fuel d).2.trace = tx_count d.trace + 1 := by
  obtain ⟨fl, ex, ht, hfl, hex⟩ := attempt_trace u hd c fuel d
  rcases hex with ⟨_, hno⟩ | ⟨_, _, pData, status, rxs, _, hex, hrxs, _⟩
  · rw [h] at hno; simp at hno
  · rw [ht, hex, tx_count_append, tx_count_append,
      tx_count_rx fl (fun e he => is_rx_of_flush hd e (hfl e he))]
    simp [tx_count, tx_count_rx rxs hrxs]

theorem tx_frames_rx (l : List Event) (h : ∀ e ∈ l, e.is_rx) : tx_frames l = [] := by
  have h0 := tx_count_rx l h
  rw [← tx_frames_length] at h0
  exact List.length_eq_zero.mp h0

/-- A pass that ends at a retry block has transmitted the request, once. -/
theorem attempt_retry_frames (u : UART σ) (hd : Header) (hw : hd.wf) (c : Cmd)
    (hacc : c.accepted hd) (fuel : Nat) (d : Driver σ)
    (h : (c.attempt u hd fuel d).1.retry = true) :
    tx_frames (c.attempt u hd fuel d).2.trace = tx_frames d.trace ++ [c.request] := by
  have hq := populate_request u hd hw c hacc (HAL_uart_rx_flush u hd fuel d).2
  have hpt : ((c.shape u hd).populate (HAL_uart_rx_flush u hd fuel d).2).2.trace
      = (HAL_uart_rx_flush u hd fuel d).2.trace := by
    rw [populate_same]
  have hfr : tx_frames (((c.shape u hd).populate (HAL_uart_rx_flush u hd fuel d).2).2.Transmit u
      ((c.shape u hd).populate (HAL_uart_rx_flush u hd fuel d).2).1
      hd.HM10_CLONE_CUSTOM_HAL_TIMEOUT).2.trace = tx_frames d.trace ++ [c.request] := by
    rw [Transmit_frames, hq, hpt, flush_frames]
  unfold Cmd.attempt at h ⊢
  simp only at h ⊢
  split_ifs at h ⊢ with h1 h2 h3
  · simp [Outcome.retry] at h
  · simp [Outcome.retry] at h
  · exact hfr
  · obtain ⟨rxs, hr, hrx, _⟩ := attempt_steps_trace u hd (c.last u hd fuel)
      (last_trace u hd c fuel) (c.shape u hd).steps
      (((c.shape u hd).populate (HAL_uart_rx_flush u hd fuel d).2).2.Transmit u
        ((c.shape u hd).populate (HAL_uart_rx_flush u hd fuel d).2).1
        hd.HM10_CLONE_CUSTOM_HAL_TIMEOUT).2
    rw [hr, tx_frames_append, hfr, tx_frames_rx rxs hrx, List.append_nil]

/-- The frames of a `send_*_cmd` that starts with the counter raised and whose flush ends:
the request, once. -/
theorem send_last_frames (u : UART σ) (hd : Header) (hw : hd.wf) (c : Cmd)
    (hacc : c.accepted hd) (fuel : Nat) (d : Driver σ) (s1 : σ)
    (hd0 : d.resp_attempts ≠ 0)
    (hflush : u.drain hd.HM10_CLONE_CUSTOM_HAL_TIMEOUT fuel d.huart = some s1) :
    tx_frames (c.send u hd (fuel + 1) d).2.trace = tx_frames d.trace ++ [c.request] := by
  obtain ⟨k, hk1, hk⟩ := send_sent_flushed u hd hw c hacc fuel d s1 hflush
  obtain ⟨j, hj1, hj⟩ := send_spent u hd c (fuel + 1) d hd0
  have hlen := congrArg List.length hk
  rw [tx_frames_length, List.length_append, tx_frames_length, List.length_replicate,
    hj.tx_count] at hlen
  obtain rfl : k = 1 := by omega
  exact hk

/-! ## C30: the length check of the name read -/

/-- C30: in `send_get_name_cmd`, the body of `get_hm10clone_name`, let the flush end, the
transmit succeed and the response start with `+NAME=` and go on, byte by byte, up to
`HM10_CLONE_MAX_BLE_NAME_SIZE + 8` bytes without a `\r\n` that the loop sees. Then, in the
state `d3` reached: with the retry counter at 0 the function stores 1 to the counter and
calls itself, and what it returns (status and state) is what that call returns; the request
is transmitted a second time (the retry's flush ending); with the counter not at 0 the
function returns `HM10_Clone_EC_ERR`. -/
theorem name_overflow_restarts_once (u : UART σ) (hd : Header) (hw : hd.wf)
    (hmax : 1 ≤ hd.HM10_CLONE_MAX_BLE_NAME_SIZE) (fuel : Nat)
    (hfuel : hd.HM10_CLONE_MAX_BLE_NAME_SIZE ≤ fuel + 1) (d : Driver σ) (s1 s2 s3 s4 : σ)
    (S : List Nat)
    (hflush : u.drain hd.HM10_CLONE_CUSTOM_HAL_TIMEOUT (fuel + 1) d.huart = some s1)
    (htx : u.HAL_UART_Transmit s1 [65, 84, 43, 78, 65, 77, 69, 13, 10]
      hd.HM10_CLONE_CUSTOM_HAL_TIMEOUT = (HAL_StatusTypeDef.HAL_OK, s2))
    (hS : S.length = hd.HM10_CLONE_MAX_BLE_NAME_SIZE + 8)
    (htag : S.take 6 = [43, 78, 65, 77, 69, 61])
    (hmid : ∀ j < S.length, 8 ≤ j → ¬ (S.getD (j - 1) 0 = 13 ∧ S.getD j 0 = 10))
    (hrx : u.receives hd.HM10_CLONE_CUSTOM_HAL_TIMEOUT
      (S.take 8 :: (S.drop 8).map fun b => [b]) s2 = some s3)
    (hflush2 : u.drain hd.HM10_CLONE_CUSTOM_HAL_TIMEOUT fuel s3 = some s4) :
    ∃ d3, d3.huart = s3 ∧ d3.resp_attempts = d.resp_attempts
      ∧ tx_frames d3.trace = tx_frames d.trace ++ [[65, 84, 43, 78, 65, 77, 69, 13, 10]]
      ∧ (d.resp_attempts = 0 →
          send_get_name_cmd u hd (fuel + 2) d
            = send_get_name_cmd u hd (fuel + 1) (d3.set_attempts 1)
          ∧ (d3.set_attempts 1).resp_attempts = 1
          ∧ tx_frames (send_get_name_cmd u hd (fuel + 2) d).2.trace
            = tx_frames d.trace ++ [[65, 84, 43, 78, 65, 77, 69, 13, 10],
                [65, 84, 43, 78, 65, 77, 69, 13, 10]])
      ∧ (d.resp_attempts ≠ 0 →
          send_get_name_cmd u hd (fuel + 2) d = (some hd.HM10_Clone_EC_ERR, d3)) := by
  obtain ⟨ho, hh⟩ := attempt_overflow u hd hw hmax (fuel + 1) hfuel d s1 s2 s3 S hflush htx hS
    htag (fun j h1 h2 => hmid j h2 h1) hrx
  have hcnt := attempt_counter u hd Cmd.get_name (fuel + 1) d
  have hsend : send_get_name_cmd u hd (fuel + 2) d
      = if (Cmd.get_name.attempt u hd (fuel + 1) d).2.resp_attempts = 0 then
          send_get_name_cmd u hd (fuel + 1)
            ((Cmd.get_name.attempt u hd (fuel + 1) d).2.set_attempts
              ((Cmd.get_name.attempt u hd (fuel + 1) d).2.resp_attempts + 1))
        else (some hd.HM10_Clone_EC_ERR, (Cmd.get_name.attempt u hd (fuel + 1) d).2) := by
    have h := send_attempt u hd Cmd.get_name (fuel + 1) d
    have hp : Cmd.get_name.attempt u hd (fuel + 1) d
        = (Outcome.overflow, (Cmd.get_name.attempt u hd (fuel + 1) d).2) := by
      rw [← ho]
    rw [hp, finish_overflow] at h
    exact h
  have hfr1 : tx_frames (Cmd.get_name.attempt u hd (fuel + 1) d).2.trace
      = tx_frames d.trace ++ [[65, 84, 43, 78, 65, 77, 69, 13, 10]] :=
    attempt_retry_frames u hd hw Cmd.get_name trivial (fuel + 1) d (by rw [ho]; rfl)
  refine ⟨(Cmd.get_name.attempt u hd (fuel + 1) d).2, hh, hcnt, hfr1, ?_, ?_⟩
  · intro h0
    have e1 : (Cmd.get_name.attempt u hd (fuel + 1) d).2.resp_attempts = 0 := by
      rw [hcnt]; exact h0
    have hs : send_get_name_cmd u hd (fuel + 2) d
        = send_get_name_cmd u hd (fuel + 1)
            ((Cmd.get_name.attempt u hd (fuel + 1) d).2.set_attempts 1) := by
      rw [hsend, if_pos e1, e1]
    refine ⟨hs, rfl, ?_⟩
    rw [hs]
    have h2 := send_last_frames u hd hw Cmd.get_name trivial fuel
      ((Cmd.get_name.attempt u hd (fuel + 1) d).2.set_attempts 1) s4
      (by simp [Driver.set_attempts]) (by
        show u.drain _ fuel (Cmd.get_name.attempt u hd (fuel + 1) d).2.huart = _
        rw [hh]; exact hflush2)
    have h3 : tx_frames (send_get_name_cmd u hd (fuel + 1)
        ((Cmd.get_name.attempt u hd (fuel + 1) d).2.set_attempts 1)).2.trace
        = tx_frames ((Cmd.get_name.attempt u hd (fuel + 1) d).2.set_attempts 1).trace
          ++ [Cmd.get_name.request] := h2
    rw [h3, set_attempts_frames, hfr1]
    simp [Cmd.request]
  · intro h0
    have e1 : ¬ (Cmd.get_name.attempt u hd (fuel + 1) d).2.resp_attempts = 0 := by
      rw [hcnt]; exact h0
    rw [hsend, if_neg e1]

theorem name_overflow_restarts_once_witness :
    (example_header.wf ∧ 1 ≤ example_header.HM10_CLONE_MAX_BLE_NAME_SIZE
      ∧ example_header.HM10_CLONE_MAX_BLE_NAME_SIZE ≤ 11 + 1
      ∧ sim.drain example_header.HM10_CLONE_CUSTOM_HAL_TIMEOUT (11 + 1)
          (Driver.init long_name_link).huart = some long_name_link
      ∧ sim.HAL_UART_Transmit long_name_link [65, 84, 43, 78, 65, 77, 69, 13, 10]
          example_header.HM10_CLONE_CUSTOM_HAL_TIMEOUT
        = (HAL_StatusTypeDef.HAL_OK, long_name_link_1)
      ∧ long_name_response.length = example_header.HM10_CLONE_MAX_BLE_NAME_SIZE + 8
      ∧ long_name_response.take 6 = [43, 78, 65, 77, 69, 61]
      ∧ (∀ j < long_name_response.length, 8 ≤ j →
          ¬ (long_name_response.getD (j - 1) 0 = 13 ∧ long_name_response.getD j 0 = 10))
      ∧ sim.receives example_header.HM10_CLONE_CUSTOM_HAL_TIMEOUT
          (long_name_response.take 8 :: (long_name_response.drop 8).map fun b => [b])
          long_name_link_1 = some long_name_link_2
      ∧ sim.drain example_header.HM10_CLONE_CUSTOM_HAL_TIMEOUT 11 long_name_link_2
        = some long_name_link_2)
    ∧ ∃ d3 : Driver Sim,
        d3.huart = long_name_link_2
        ∧ d3.resp_attempts = (Driver.init long_name_link).resp_attempts
        ∧ tx_frames d3.trace = tx_frames (Driver.init long_name_link).trace
            ++ [[65, 84, 43, 78, 65, 77, 69, 13, 10]]
        ∧ ((Driver.init long_name_link).resp_attempts = 0 →
            send_get_name_cmd sim example_header (11 + 2) (Driver.init long_name_link)
              = send_get_name_cmd sim example_header (11 + 1) (d3.set_attempts 1)
            ∧ (d3.set_attempts 1).resp_attempts = 1
            ∧ tx_frames (send_get_name_cmd sim example_header (11 + 2)
                (Driver.init long_name_link)).2.trace
              = tx_frames (Driver.init long_name_link).trace
                ++ [[65, 84, 43, 78, 65, 77, 69, 13, 10], [65, 84, 43, 78, 65, 77, 69, 13, 10]])
        ∧ ((Driver.init long_name_link).resp_attempts ≠ 0 →
            send_get_name_cmd sim example_header (11 + 2) (Driver.init long_name_link)
              = (some example_header.HM10_Clone_EC_ERR, d3)) :=
  ⟨⟨by decide, by decide, by decide, by decide, by decide, by decide, by decide, by decide,
      by decide, by decide⟩,
    name_overflow_restarts_once sim example_header (by decide) (by decide) 11 (by decide)
      (Driver.init long_name_link) long_name_link long_name_link_1 long_name_link_2
      long_name_link_2 long_name_response
      (by decide) (by decide) (by decide) (by decide) (by decide) (by decide) (by decide)⟩

/-! ## C22: the bound on the length of a received name -/

theorem name_read_fault_status (u : UART σ) (hd : Header) :
    ∀ (fuel bp : Nat) (d : Driver σ) (st : HAL_StatusTypeDef) (b : Bool),
      (name_read u hd 6 fuel bp d).1 = Outcome.fault st b → HAL_ret_handler hd st ≠ HAL_OK := by
  intro fuel
  induction fuel with
  | zero => intro bp d st b h; simp [name_read] at h
  | succ fuel ih =>
    intro bp d st b h
    rw [name_read] at h
    simp only at h
    split_ifs at h with h1
    · rw [← (Outcome.fault.inj h).1]; exact h1
    · exact ih _ _ st b h

theorem attempt_steps_fault_status (u : UART σ) (hd : Header)
    (last : Driver σ → Outcome × Driver σ)
    (hlast : ∀ d st b, (last d).1 = Outcome.fault st b → HAL_ret_handler hd st ≠ HAL_OK) :
    ∀ (steps : List (Nat × (Driver σ → Bool))) (d : Driver σ) (st : HAL_StatusTypeDef)
      (b : Bool), (attempt_steps u hd last steps d).1 = Outcome.fault st b →
      HAL_ret_handler hd st ≠ HAL_OK := by
  intro steps
  induction steps with
  | nil => intro d st b h; rw [attempt_steps] at h; exact hlast d st b h
  | cons s rest ih =>
    intro d st b h
    obtain ⟨n, bad⟩ := s
    rw [attempt_steps] at h
    split_ifs at h with h1
    · rw [← (Outcome.fault.inj h).1]; exact h1
    · exact ih _ st b h

/-- A pass ends with a fault only on a status whose mapping is not `HAL_OK`. -/
theorem attempt_fault_status (u : UART σ) (hd : Header) (c : Cmd) (fuel : Nat) (d : Driver σ)
    (st : HAL_StatusTypeDef) (b : Bool) (h : (c.attempt u hd fuel d).1 = Outcome.fault st b) :
    HAL_ret_handler hd st ≠ HAL_OK := by
  have hlast : ∀ x st b, (c.last u hd fuel x).1 = Outcome.fault st b →
      HAL_ret_handler hd st ≠ HAL_OK := by
    intro x st b hx
    cases c
    case get_name => exact name_read_fault_status u hd fuel 8 _ st b hx
    all_goals simp [Cmd.last] at hx
  unfold Cmd.attempt at h
  simp only at h
  split_ifs at h with h1 h2 h3
  · rw [← (Outcome.fault.inj h).1]; exact h3
  · exact attempt_steps_fault_status u hd _ hlast _ _ st b h

/-- The name read, entered with `bp = size + 8` bytes in the buffer and `bp` below the
bound, returns only with a size of at most `HM10_CLONE_MAX_BLE_NAME_SIZE`. -/
theorem name_read_size (u : UART σ) (hd : Header)
    (h255 : hd.HM10_CLONE_MAX_BLE_NAME_SIZE + 8 < 256) :
    ∀ (fuel bp : Nat) (d : Driver σ) (r : Nat), bp = d.size + 8 →
      bp < hd.HM10_CLONE_MAX_BLE_NAME_SIZE + 8 →
      (name_read u hd 6 fuel bp d).1 = Outcome.returned r →
      (name_read u hd 6 fuel bp d).2.size ≤ hd.HM10_CLONE_MAX_BLE_NAME_SIZE := by
  intro fuel
  induction fuel with
  | zero => intro bp d r _ _ h; simp [name_read] at h
  | succ fuel ih =>
    intro bp d r hbp hlt h
    have e1 : (bp + 1) % 256 = bp + 1 := by omega
    have e2 : ((d.Receive u bp 1 hd.HM10_CLONE_CUSTOM_HAL_TIMEOUT).2.size + 1) % 256
        = d.size + 1 := by
      show (d.size + 1) % 256 = _
      omega
    rw [name_read] at h ⊢
    simp only at h ⊢
    split_ifs at h ⊢ with h1 h2 h3
    · show ((d.Receive u bp 1 hd.HM10_CLONE_CUSTOM_HAL_TIMEOUT).2.size + 1) % 256 ≤ _
      rw [e2]; omega
    · refine ih _ _ r ?_ ?_ h
      · show (bp + 1) % 256
          = ((d.Receive u bp 1 hd.HM10_CLONE_CUSTOM_HAL_TIMEOUT).2.size + 1) % 256 + 8
        rw [e1, e2]; omega
      · rw [e1]
        simp only [HM10_CLONE_NAME_RESPONSE_SIZE_WITHOUT_REQUESTED_NAME, e1] at h3
        omega

/-- A pass of `send_get_name_cmd` that returns `HM10_Clone_EC_OK` leaves a size of at most
`HM10_CLONE_MAX_BLE_NAME_SIZE`. -/
theorem attempt_name_size (u : UART σ) (hd : Header) (hw : hd.wf)
    (hmax : 1 ≤ hd.HM10_CLONE_MAX_BLE_NAME_SIZE) (fuel : Nat) (d : Driver σ)
    (h : (Cmd.get_name.attempt u hd fuel d).1 = Outcome.returned hd.HM10_Clone_EC_OK) :
    (Cmd.get_name.attempt u hd fuel d).2.size ≤ hd.HM10_CLONE_MAX_BLE_NAME_SIZE := by
  have h12 := hw.2.2
  have hne : hd.HM10_Clone_EC_ERR ≠ hd.HM10_Clone_EC_OK := by
    rw [hw.1.1]; exact hw.1.2.2
  unfold Cmd.attempt at h ⊢
  simp only [Cmd.shape, attempt_steps, Cmd.last] at h ⊢
  split_ifs at h ⊢ with h1 h2 h3 h4
  · exact absurd (Outcome.returned.inj h) hne
  · exact absurd (Outcome.returned.inj h) hne
  · exact name_read_size u hd (by omega) fuel 8 _ _ rfl (by omega) h

/-- C22: with `1 ≤ HM10_CLONE_MAX_BLE_NAME_SIZE ≤ 12`: on every UART, with every fuel and
from every state, whenever `get_hm10clone_name` returns `HM10_Clone_EC_OK` the size output
is at most `HM10_CLONE_MAX_BLE_NAME_SIZE`; and, separately, when in both passes the flush
ends, the transmit succeeds and the response starts with `+NAME=` and goes on, byte by
byte, up to `HM10_CLONE_MAX_BLE_NAME_SIZE + 8` bytes (so more than the longest name and its
`\r\n`) without a `\r\n` that the loop sees, `get_hm10clone_name` returns
`HM10_Clone_EC_ERR`. -/
theorem name_length_is_bounded (u : UART σ) (hd : Header) (hw : hd.wf)
    (hmax : 1 ≤ hd.HM10_CLONE_MAX_BLE_NAME_SIZE) :
    (∀ (fuel0 : Nat) (d0 : Driver σ),
      (get_hm10clone_name u hd fuel0 d0).1 = some hd.HM10_Clone_EC_OK →
      (get_hm10clone_name u hd fuel0 d0).2.size ≤ hd.HM10_CLONE_MAX_BLE_NAME_SIZE)
    ∧ (∀ (fuel : Nat), hd.HM10_CLONE_MAX_BLE_NAME_SIZE ≤ fuel →
      ∀ (d : Driver σ) (s1 s2 s3 s4 s5 s6 : σ) (S1 S2 : List Nat),
      u.drain hd.HM10_CLONE_CUSTOM_HAL_TIMEOUT (fuel + 1) d.huart = some s1 →
      u.HAL_UART_Transmit s1 [65, 84, 43, 78, 65, 77, 69, 13, 10]
        hd.HM10_CLONE_CUSTOM_HAL_TIMEOUT = (HAL_StatusTypeDef.HAL_OK, s2) →
      S1.length = hd.HM10_CLONE_MAX_BLE_NAME_SIZE + 8 →
      S1.take 6 = [43, 78, 65, 77, 69, 61] →
      (∀ j < S1.length, 8 ≤ j → ¬ (S1.getD (j - 1) 0 = 13 ∧ S1.getD j 0 = 10)) →
      u.receives hd.HM10_CLONE_CUSTOM_HAL_TIMEOUT
        (S1.take 8 :: (S1.drop 8).map fun b => [b]) s2 = some s3 →
      u.drain hd.HM10_CLONE_CUSTOM_HAL_TIMEOUT fuel s3 = some s4 →
      u.HAL_UART_Transmit s4 [65, 84, 43, 78, 65, 77, 69, 13, 10]
        hd.HM10_CLONE_CUSTOM_HAL_TIMEOUT = (HAL_StatusTypeDef.HAL_OK, s5) →
      S2.length = hd.HM10_CLONE_MAX_BLE_NAME_SIZE + 8 →
      S2.take 6 = [43, 78, 65, 77, 69, 61] →
      (∀ j < S2.length, 8 ≤ j → ¬ (S2.getD (j - 1) 0 = 13 ∧ S2.getD j 0 = 10)) →
      u.receives hd.HM10_CLONE_CUSTOM_HAL_TIMEOUT
        (S2.take 8 :: (S2.drop 8).map fun b => [b]) s5 = some s6 →
      (get_hm10clone_name u hd (fuel + 2) d).1 = some hd.HM10_Clone_EC_ERR) := by
  have hOK : hd.HM10_Clone_EC_OK = HAL_OK := hw.1.1
  have hne : hd.HM10_Clone_EC_ERR ≠ hd.HM10_Clone_EC_OK := by
    rw [hw.1.1]; exact hw.1.2.2
  have pass_ok : ∀ (f : Nat) (x : Driver σ),
      (Cmd.get_name.attempt u hd f x).1.result hd = some hd.HM10_Clone_EC_OK →
      (Cmd.get_name.attempt u hd f x).1 = Outcome.returned hd.HM10_Clone_EC_OK := by
    intro f x h
    cases ho : (Cmd.get_name.attempt u hd f x).1 with
    | starved => rw [ho] at h; simp [Outcome.result] at h
    | returned ret =>
      rw [ho] at h
      simp only [Outcome.result, Option.some.injEq] at h
      rw [h]
    | overflow =>
      rw [ho] at h
      simp only [Outcome.result, Option.some.injEq] at h
      exact absurd h hne
    | fault st b =>
      rw [ho] at h
      simp only [Outcome.result, Option.some.injEq] at h
      exact absurd (h.trans hOK) (attempt_fault_status u hd Cmd.get_name f x st b ho)
  constructor
  · intro fuel0 d0 hok
    have hrun : (Cmd.get_name.run u hd fuel0 d0).1 = some hd.HM10_Clone_EC_OK := hok
    show (Cmd.get_name.run u hd fuel0 d0).2.size ≤ _
    match fuel0, hrun with
    | 0, h =>
      rw [send_eq_run, Cmd.send_eq_exchange, exchange] at h
      simp at h
    | 1, h =>
      have h0 : (Cmd.get_name.attempt u hd 0 (d0.set_attempts 0)).1.retry = false := by
        rw [attempt_zero]; rfl
      rw [run_one_pass u hd Cmd.get_name 0 d0 h0, attempt_zero] at h
      simp [Outcome.result] at h
    | f + 2, h =>
      by_cases hr : (Cmd.get_name.attempt u hd (f + 1) (d0.set_attempts 0)).1.retry = true
      · rw [run_two_passes u hd Cmd.get_name f d0 hr] at h ⊢
        have h2 := pass_ok _ _ h
        have hsz := attempt_name_size u hd hw hmax _ _ h2
        simp only
        rw [if_neg (by rw [h2]; simp), h2]
        simp only [Outcome.settle]
        split
        · exact Nat.zero_le _
        · exact hsz
      · have hr2 : (Cmd.get_name.attempt u hd (f + 1) (d0.set_attempts 0)).1.retry = false := by
          simpa using hr
        rw [run_one_pass u hd Cmd.get_name (f + 1) d0 hr2] at h ⊢
        exact attempt_name_size u hd hw hmax _ _ (pass_ok _ _ h)
  · intro fuel hfuel d s1 s2 s3 s4 s5 s6 S1 S2 hflush1 htx1 hS1 htag1 hmid1 hrx1 hflush2 htx2
      hS2 htag2 hmid2 hrx2
    obtain ⟨ho1, hh1⟩ := attempt_overflow u hd hw hmax (fuel + 1) (by omega)
      (d.set_attempts 0) s1 s2 s3 S1 hflush1 htx1 hS1 htag1 (fun j a b => hmid1 j b a) hrx1
    obtain ⟨ho2, _⟩ := attempt_overflow u hd hw hmax fuel hfuel
      ((Cmd.get_name.attempt u hd (fuel + 1) (d.set_attempts 0)).2.set_attempts 1)
      s4 s5 s6 S2 (by
        show u.drain _ fuel (Cmd.get_name.attempt u hd (fuel + 1) (d.set_attempts 0)).2.huart
          = _
        rw [hh1]; exact hflush2) htx2 hS2 htag2 (fun j a b => hmid2 j b a) hrx2
    show (Cmd.get_name.run u hd (fuel + 2) d).1 = _
    rw [run_two_passes u hd Cmd.get_name fuel d (by rw [ho1]; rfl), ho2]
    rfl

theorem name_length_is_bounded_witness :
    (example_header.wf ∧ 1 ≤ example_header.HM10_CLONE_MAX_BLE_NAME_SIZE
      ∧ (get_hm10clone_name sim example_header 4 (Driver.init name_link_0)).1
        = some example_header.HM10_Clone_EC_OK
      ∧ example_header.HM10_CLONE_MAX_BLE_NAME_SIZE ≤ 12
      ∧ sim.drain example_header.HM10_CLONE_CUSTOM_HAL_TIMEOUT (12 + 1)
          (Driver.init long_name_link).huart = some long_name_link
      ∧ sim.HAL_UART_Transmit long_name_link [65, 84, 43, 78, 65, 77, 69, 13, 10]
          example_header.HM10_CLONE_CUSTOM_HAL_TIMEOUT
        = (HAL_StatusTypeDef.HAL_OK, long_name_link_1)
      ∧ long_name_response.length = example_header.HM10_CLONE_MAX_BLE_NAME_SIZE + 8
      ∧ long_name_response.take 6 = [43, 78, 65, 77, 69, 61]
      ∧ (∀ j < long_name_response.length, 8 ≤ j →
          ¬ (long_name_response.getD (j - 1) 0 = 13 ∧ long_name_response.getD j 0 = 10))
      ∧ sim.receives example_header.HM10_CLONE_CUSTOM_HAL_TIMEOUT
          (long_name_response.take 8 :: (long_name_response.drop 8).map fun b => [b])
          long_name_link_1 = some long_name_link_2
      ∧ sim.drain example_header.HM10_CLONE_CUSTOM_HAL_TIMEOUT 12 long_name_link_2
        = some long_name_link_2
      ∧ sim.HAL_UART_Transmit long_name_link_2 [65, 84, 43, 78, 65, 77, 69, 13, 10]
          example_header.HM10_CLONE_CUSTOM_HAL_TIMEOUT
        = (HAL_StatusTypeDef.HAL_OK, long_name_link_3)
      ∧ sim.receives example_header.HM10_CLONE_CUSTOM_HAL_TIMEOUT
          (long_name_response.take 8 :: (long_name_response.drop 8).map fun b => [b])
          long_name_link_3 = some long_name_link_4)
    ∧ ((get_hm10clone_name sim example_header 4 (Driver.init name_link_0)).2.size
        ≤ example_header.HM10_CLONE_MAX_BLE_NAME_SIZE
      ∧ (get_hm10clone_name sim example_header (12 + 2) (Driver.init long_name_link)).1
        = some example_header.HM10_Clone_EC_ERR) :=
  ⟨⟨by decide, by decide, by decide, by decide, by decide, by decide, by decide, by decide,
      by decide, by decide, by decide, by decide, by decide⟩,
    (name_length_is_bounded sim example_header (by decide) (by decide)).1 4
      (Driver.init name_link_0) (by decide),
    (name_length_is_bounded sim example_header (by decide) (by decide)).2 12 (by decide)
      (Driver.init long_name_link)
      long_name_link long_name_link_1 long_name_link_2 long_name_link_2 long_name_link_3
      long_name_link_4 long_name_response long_name_response
      (by decide) (by decide) (by decide) (by decide) (by decide) (by decide)
      (by decide) (by decide) (by decide) (by decide) (by decide) (by decide)⟩

/-! ## More fuel changes nothing once a pass has ended -/

theorem flush_mono (u : UART σ) (hd : Header) (k : Nat) :
    ∀ (fuel : Nat) (d : Driver σ), (HAL_uart_rx_flush u hd fuel d).1 = true →
      HAL_uart_rx_flush u hd (fuel + k) d = HAL_uart_rx_flush u hd fuel d := by
  intro fuel
  induction fuel with
  | zero => intro d h; simp [HAL_uart_rx_flush] at h
  | succ fuel ih =>
    intro d h
    rw [Nat.add_right_comm]
    unfold HAL_uart_rx_flush at h ⊢
    simp only at h ⊢
    split_ifs at h ⊢ with h1
    · exact ih _ h
    · rfl

theorem name_read_mono (u : UART σ) (hd : Header) (k : Nat) :
    ∀ (fuel bp : Nat) (d : Driver σ), (name_read u hd 6 fuel bp d).1 ≠ Outcome.starved →
      name_read u hd 6 (fuel + k) bp d = name_read u hd 6 fuel bp d := by
  intro fuel
  induction fuel with
  | zero => intro bp d h; simp [name_read] at h
  | succ fuel ih =>
    intro bp d h
    rw [Nat.add_right_comm]
    rw [name_read] at h ⊢
    rw [name_read]
    simp only at h ⊢
    split_ifs at h ⊢
    · rfl
    · rfl
    · rfl
    · exact ih _ _ h

theorem attempt_steps_congr (u : UART σ) (hd : Header)
    (last last2 : Driver σ → Outcome × Driver σ)
    (hlast : ∀ x, (last x).1 ≠ Outcome.starved → last2 x = last x) :
    ∀ (steps : List (Nat × (Driver σ → Bool))) (d : Driver σ),
      (attempt_steps u hd last steps d).1 ≠ Outcome.starved →
      attempt_steps u hd last2 steps d = attempt_steps u hd last steps d := by
  intro steps
  induction steps with
  | nil => intro d h; rw [attempt_steps] at h ⊢; rw [attempt_steps]; exact hlast d h
  | cons s rest ih =>
    intro d h
    obtain ⟨n, bad⟩ := s
    rw [attempt_steps] at h ⊢
    rw [attempt_steps]
    split_ifs at h ⊢
    · rfl
    · rfl
    · exact ih _ h

theorem last_mono (u : UART σ) (hd : Header) (c : Cmd) (fuel k : Nat) (x : Driver σ)
    (h : (c.last u hd fuel x).1 ≠ Outcome.starved) :
    c.last u hd (fuel + k) x = c.last u hd fuel x := by
  cases c
  case get_name => exact name_read_mono u hd k fuel 8 _ h
  all_goals rfl

/-- A pass that ends within the fuel `fuel` is the same with more fuel. -/
theorem attempt_mono (u : UART σ) (hd : Header) (c : Cmd) (fuel k : Nat) (d : Driver σ)
    (h : (c.attempt u hd fuel d).1 ≠ Outcome.starved) :
    c.attempt u hd (fuel + k) d = c.attempt u hd fuel d := by
  have hf : (HAL_uart_rx_flush u hd fuel d).1 = true := by
    by_contra hf
    apply h
    unfold Cmd.attempt
    simp only
    rw [if_pos (by simpa using hf)]
  have hfl := flush_mono u hd k fuel d hf
  unfold Cmd.attempt at h ⊢
  simp only at h ⊢
  rw [hfl]
  split_ifs at h ⊢
  · rfl
  · rfl
  · rfl
  · exact attempt_steps_congr u hd _ _ (fun x hx => last_mono u hd c fuel k x hx) _ _ h

/-! ## Every pass ends -/

theorem name_read_ends (u : UART σ) (hd : Header)
    (h255 : hd.HM10_CLONE_MAX_BLE_NAME_SIZE + 8 < 256) :
    ∀ (fuel bp : Nat) (d : Driver σ), bp < hd.HM10_CLONE_MAX_BLE_NAME_SIZE + 8 →
      hd.HM10_CLONE_MAX_BLE_NAME_SIZE + 8 ≤ bp + fuel →
      (name_read u hd 6 fuel bp d).1 ≠ Outcome.starved := by
  intro fuel
  induction fuel with
  | zero => intro bp d h1 h2; omega
  | succ fuel ih =>
    intro bp d h1 h2
    have e1 : (bp + 1) % 256 = bp + 1 := by omega
    rw [name_read]
    simp only
    split_ifs with a b c
    · simp
    · simp
    · simp
    · simp only [HM10_CLONE_NAME_RESPONSE_SIZE_WITHOUT_REQUESTED_NAME, e1] at c
      rw [e1]
      exact ih _ _ (by omega) (by omega)

theorem attempt_steps_ends (u : UART σ) (hd : Header) (last : Driver σ → Outcome × Driver σ)
    (hlast : ∀ x, (last x).1 ≠ Outcome.starved) :
    ∀ (steps : List (Nat × (Driver σ → Bool))) (d : Driver σ),
      (attempt_steps u hd last steps d).1 ≠ Outcome.starved := by
  intro steps
  induction steps with
  | nil => intro d; rw [attempt_steps]; exact hlast d
  | cons s rest ih =>
    intro d
    obtain ⟨n, bad⟩ := s
    rw [attempt_steps]
    split_ifs
    · simp
    · simp
    · exact ih _

/-- A pass ends when the fuel covers the flush and the longest name. -/
theorem attempt_ends (u : UART σ) (hd : Header) (hw : hd.wf)
    (hmax : 1 ≤ hd.HM10_CLONE_MAX_BLE_NAME_SIZE) (c : Cmd) (fuel : Nat) (d : Driver σ)
    (s1 : σ) (hflush : u.drain hd.HM10_CLONE_CUSTOM_HAL_TIMEOUT fuel d.huart = some s1)
    (hfuel : hd.HM10_CLONE_MAX_BLE_NAME_SIZE ≤ fuel) :
    (c.attempt u hd fuel d).1 ≠ Outcome.starved := by
  have h12 := hw.2.2
  obtain ⟨d1, hf, _, _⟩ := flush_ok u hd fuel d s1 hflush
  have hlast : ∀ x, (c.last u hd fuel x).1 ≠ Outcome.starved := by
    intro x
    cases c
    case get_name => exact name_read_ends u hd (by omega) fuel 8 _ (by omega) (by omega)
    all_goals simp [Cmd.last]
  unfold Cmd.attempt
  simp only [hf, Bool.true_eq_false, if_false]
  split_ifs
  · simp
  · simp
  · exact attempt_steps_ends u hd _ hlast _ _

/-! ## C27: every public command runs to completion -/

/-- Every public command is at most two passes. -/
theorem run_passes (u : UART σ) (hd : Header) (c : Cmd) (fuel : Nat) (d : Driver σ) :
    c.run u hd (fuel + 2) d = c.passes u hd fuel d := by
  unfold Cmd.passes
  simp only
  by_cases h : (c.attempt u hd (fuel + 1) (d.set_attempts 0)).1.retry = true
  · rw [if_pos h]; exact run_two_passes u hd c fuel d h
  · rw [if_neg h]; exact run_one_pass u hd c (fuel + 1) d (by simpa using h)

theorem passes_mono (u : UART σ) (hd : Header) (c : Cmd) (fuel k : Nat) (d : Driver σ)
    (h : (c.passes u hd fuel d).1 ≠ none) :
    c.passes u hd (fuel + k) d = c.passes u hd fuel d := by
  unfold Cmd.passes at h ⊢
  simp only at h ⊢
  have h1 : (c.attempt u hd (fuel + 1) (d.set_attempts 0)).1 ≠ Outcome.starved := by
    intro h1
    rw [h1] at h
    simp [Outcome.retry, Outcome.result] at h
  have e1 : c.attempt u hd (fuel + k + 1) (d.set_attempts 0)
      = c.attempt u hd (fuel + 1) (d.set_attempts 0) := by
    rw [Nat.add_right_comm]
    exact attempt_mono u hd c (fuel + 1) k _ h1
  rw [e1]
  by_cases h2 : (c.attempt u hd (fuel + 1) (d.set_attempts 0)).1.retry = true
  · simp only [if_pos h2] at h ⊢
    have h3 : (c.attempt u hd fuel
        ((c.attempt u hd (fuel + 1) (d.set_attempts 0)).2.set_attempts 1)).1
        ≠ Outcome.starved := by
      intro h3
      rw [h3] at h
      simp [Outcome.result] at h
    rw [attempt_mono u hd c fuel k _ h3]
  · simp only [if_neg h2]

theorem passes_counts (u : UART σ) (hd : Header) (c : Cmd) (fuel : Nat) (d : Driver σ) :
    tx_count (c.passes u hd fuel d).2.trace ≤ tx_count d.trace + 2
      ∧ (attempts_log (c.passes u hd fuel d).2.trace = attempts_log d.trace ++ [0]
        ∨ attempts_log (c.passes u hd fuel d).2.trace = attempts_log d.trace ++ [0, 1]) := by
  obtain ⟨k1, hk1, ran1⟩ := attempt_ran u hd c (fuel + 1) (d.set_attempts 0)
  obtain ⟨k2, hk2, ran2⟩ := attempt_ran u hd c fuel
    ((c.attempt u hd (fuel + 1) (d.set_attempts 0)).2.set_attempts 1)
  have t2 : (c.passes u hd fuel d).2.trace
      = (c.attempt u hd (fuel + 1) (d.set_attempts 0)).2.trace
      ∨ (c.passes u hd fuel d).2.trace = (c.attempt u hd fuel
          ((c.attempt u hd (fuel + 1) (d.set_attempts 0)).2.set_attempts 1)).2.trace := by
    unfold Cmd.passes
    simp only
    by_cases h : (c.attempt u hd (fuel + 1) (d.set_attempts 0)).1.retry = true
    · rw [if_pos h]
      right
      simp only
      split_ifs
      · rfl
      · rw [settle_trace, settle_trace]
    · rw [if_neg h]
      exact Or.inl rfl
  rcases t2 with t | t
  · rw [t, ran1.tx_count, ran1.attempts_log, set_attempts_tx_count, set_attempts_log]
    exact ⟨by omega, Or.inl rfl⟩
  · rw [t, ran2.tx_count, ran2.attempts_log, set_attempts_tx_count, set_attempts_log,
      ran1.tx_count, ran1.attempts_log, set_attempts_tx_count, set_attempts_log]
    exact ⟨by omega, Or.inr (by simp)⟩

/-- C27: on a UART on which every flush ends (from every link state, some number of
one-byte receives reaches one that reports `HAL_TIMEOUT`), and with
`1 ≤ HM10_CLONE_MAX_BLE_NAME_SIZE ≤ 12`, every public command returns a status: there is
an amount of fuel from which on the command returns the same status in the same state,
whatever statuses and bytes the UART gives. The command is at most two passes through its
`send_*_cmd`, each with one flush and at most one transmit: it makes at most two transmits
and stores to the retry counter 0 and at most once 1. -/
theorem public_command_terminates (u : UART σ) (hd : Header) (hw : hd.wf)
    (hmax : 1 ≤ hd.HM10_CLONE_MAX_BLE_NAME_SIZE)
    (hdrain : ∀ s, ∃ n s1, u.drain hd.HM10_CLONE_CUSTOM_HAL_TIMEOUT n s = some s1)
    (c : Cmd) (d : Driver σ) :
    ∃ fuel r, ∀ k,
      (c.run u hd (fuel + k + 2) d).1 = some r
        ∧ c.run u hd (fuel + k + 2) d = c.run u hd (fuel + 2) d
        ∧ c.run u hd (fuel + k + 2) d = c.passes u hd (fuel + k) d
        ∧ tx_count (c.run u hd (fuel + k + 2) d).2.trace ≤ tx_count d.trace + 2
        ∧ (attempts_log (c.run u hd (fuel + k + 2) d).2.trace = attempts_log d.trace ++ [0]
          ∨ attempts_log (c.run u hd (fuel + k + 2) d).2.trace
            = attempts_log d.trace ++ [0, 1]) := by
  -- the first pass
  obtain ⟨n1, t1, hn1⟩ := hdrain (d.set_attempts 0).huart
  have pass : ∀ (x : Driver σ) (n : Nat) (t : σ),
      u.drain hd.HM10_CLONE_CUSTOM_HAL_TIMEOUT n x.huart = some t → ∀ f,
      n + hd.HM10_CLONE_MAX_BLE_NAME_SIZE ≤ f →
      (c.attempt u hd f x).1 ≠ Outcome.starved := by
    intro x n t hn f hf
    obtain ⟨j, rfl⟩ : ∃ j, f = n + j := ⟨f - n, by omega⟩
    exact attempt_ends u hd hw hmax c (n + j) x t (drain_mono u _ n j _ _ hn) (by omega)
  obtain ⟨n2, t2, hn2⟩ := hdrain ((c.attempt u hd
    (n1 + hd.HM10_CLONE_MAX_BLE_NAME_SIZE) (d.set_attempts 0)).2.set_attempts 1).huart
  have ha1 : ∀ j, c.attempt u hd (n1 + hd.HM10_CLONE_MAX_BLE_NAME_SIZE + j) (d.set_attempts 0)
      = c.attempt u hd (n1 + hd.HM10_CLONE_MAX_BLE_NAME_SIZE) (d.set_attempts 0) :=
    fun j => attempt_mono u hd c _ j _ (pass _ n1 t1 hn1 _ (le_refl _))
  have hsome : (c.passes u hd (n1 + n2 + hd.HM10_CLONE_MAX_BLE_NAME_SIZE) d).1 ≠ none := by
    unfold Cmd.passes
    simp only
    have e1 : c.attempt u hd (n1 + n2 + hd.HM10_CLONE_MAX_BLE_NAME_SIZE + 1) (d.set_attempts 0)
        = c.attempt u hd (n1 + hd.HM10_CLONE_MAX_BLE_NAME_SIZE) (d.set_attempts 0) := by
      rw [show n1 + n2 + hd.HM10_CLONE_MAX_BLE_NAME_SIZE + 1
        = n1 + hd.HM10_CLONE_MAX_BLE_NAME_SIZE + (n2 + 1) by omega]
      exact ha1 _
    rw [e1]
    by_cases h : (c.attempt u hd (n1 + hd.HM10_CLONE_MAX_BLE_NAME_SIZE)
        (d.set_attempts 0)).1.retry = true
    · rw [if_pos h]
      intro h2
      rw [result_none] at h2
      exact pass _ n2 t2 hn2 _ (by omega) h2
    · rw [if_neg h]
      intro h2
      rw [result_none] at h2
      exact pass _ n1 t1 hn1 _ (le_refl _) h2
  obtain ⟨r, hr⟩ : ∃ r, (c.passes u hd (n1 + n2 + hd.HM10_CLONE_MAX_BLE_NAME_SIZE) d).1
      = some r := by
    cases h : (c.passes u hd (n1 + n2 + hd.HM10_CLONE_MAX_BLE_NAME_SIZE) d).1 with
    | none => exact absurd h hsome
    | some r => exact ⟨r, rfl⟩
  refine ⟨n1 + n2 + hd.HM10_CLONE_MAX_BLE_NAME_SIZE, r, ?_⟩
  intro k
  have hk := passes_mono u hd c _ k d hsome
  have hrun : c.run u hd (n1 + n2 + hd.HM10_CLONE_MAX_BLE_NAME_SIZE + k + 2) d
      = c.passes u hd (n1 + n2 + hd.HM10_CLONE_MAX_BLE_NAME_SIZE + k) d := run_passes u hd c _ d
  have hcount := passes_counts u hd c (n1 + n2 + hd.HM10_CLONE_MAX_BLE_NAME_SIZE + k) d
  refine ⟨?_, ?_, hrun, ?_, ?_⟩
  · rw [hrun, hk]; exact hr
  · rw [hrun, hk, run_passes]
  · rw [hrun]; exact hcount.1
  · rw [hrun]; exact hcount.2

/-- On the simulated link every flush ends: it takes what is pending. -/
theorem sim_drain (t : Nat) (script : List (HAL_StatusTypeDef × List Nat)) :
    ∀ pending : List Nat,
      sim.drain t (pending.length + 1) ⟨pending, script⟩ = some ⟨[], script⟩ := by
  intro pending
  induction pending with
  | nil => simp [UART.drain, sim]
  | cons b rest ih =>
    rw [UART.drain]
    have h1 : sim.HAL_UART_Receive ⟨b :: rest, script⟩ 1 t
        = (HAL_StatusTypeDef.HAL_OK, [b], ⟨rest, script⟩) := by
      simp [sim]
    simp only [h1]
    rw [if_pos (by decide)]
    exact ih

theorem public_command_terminates_witness :
    (example_header.wf ∧ 1 ≤ example_header.HM10_CLONE_MAX_BLE_NAME_SIZE
      ∧ ∀ s, ∃ n s1, sim.drain example_header.HM10_CLONE_CUSTOM_HAL_TIMEOUT n s = some s1)
    ∧ ∃ fuel r, ∀ k,
      (Cmd.get_name.run sim example_header (fuel + k + 2) (Driver.init name_link_0)).1 = some r
        ∧ Cmd.get_name.run sim example_header (fuel + k + 2) (Driver.init name_link_0)
          = Cmd.get_name.run sim example_header (fuel + 2) (Driver.init name_link_0)
        ∧ Cmd.get_name.run sim example_header (fuel + k + 2) (Driver.init name_link_0)
          = Cmd.get_name.passes sim example_header (fuel + k) (Driver.init name_link_0)
        ∧ tx_count (Cmd.get_name.run sim example_header (fuel + k + 2)
            (Driver.init name_link_0)).2.trace ≤ tx_count (Driver.init name_link_0).trace + 2
        ∧ (attempts_log (Cmd.get_name.run sim example_header (fuel + k + 2)
              (Driver.init name_link_0)).2.trace
            = attempts_log (Driver.init name_link_0).trace ++ [0]
          ∨ attempts_log (Cmd.get_name.run sim example_header (fuel + k + 2)
              (Driver.init name_link_0)).2.trace
            = attempts_log (Driver.init name_link_0).trace ++ [0, 1]) :=
  ⟨⟨by decide, by decide, fun s => ⟨s.pending.length + 1, ⟨[], s.script⟩, sim_drain _ _ _⟩⟩,
    public_command_terminates sim example_header (by decide) (by decide)
      (fun s => ⟨s.pending.length + 1, ⟨[], s.script⟩, sim_drain _ _ _⟩) Cmd.get_name
      (Driver.init name_link_0)⟩

/-! ## C31: the flush stops on a timeout only -/

/-- A flush that returns has made one-byte receives of which the last, and only the last,
reported `HAL_TIMEOUT`. -/
theorem flush_trace_statuses (u : UART σ) (hd : Header) :
    ∀ (fuel : Nat) (d : Driver σ), (HAL_uart_rx_flush u hd fuel d).1 = true →
      ∃ fl data, (HAL_uart_rx_flush u hd fuel d).2.trace = d.trace ++ fl
          ++ [Event.rx 1 hd.HM10_CLONE_CUSTOM_HAL_TIMEOUT HAL_StatusTypeDef.HAL_TIMEOUT data]
        ∧ ∀ e ∈ fl, ∃ st dat, e = Event.rx 1 hd.HM10_CLONE_CUSTOM_HAL_TIMEOUT st dat
            ∧ st ≠ HAL_StatusTypeDef.HAL_TIMEOUT := by
  intro fuel
  induction fuel with
  | zero => intro d h; simp [HAL_uart_rx_flush] at h
  | succ fuel ih =>
    intro d h
    unfold HAL_uart_rx_flush at h ⊢
    simp only at h ⊢
    split_ifs at h ⊢ with h1
    · obtain ⟨fl, data, ht, hfl⟩ := ih _ h
      refine ⟨Event.rx 1 hd.HM10_CLONE_CUSTOM_HAL_TIMEOUT
        (d.Receive u 0 1 hd.HM10_CLONE_CUSTOM_HAL_TIMEOUT).1
        (u.HAL_UART_Receive d.huart 1 hd.HM10_CLONE_CUSTOM_HAL_TIMEOUT).2.1 :: fl, data, ?_, ?_⟩
      · rw [ht, Receive_trace]; simp
      · intro e he
        rcases List.mem_cons.mp he with rfl | he
        · exact ⟨_, _, rfl, h1⟩
        · exact hfl e he
    · refine ⟨[], (u.HAL_UART_Receive d.huart 1 hd.HM10_CLONE_CUSTOM_HAL_TIMEOUT).2.1, ?_, ?_⟩
      · rw [Receive_trace]
        have h2 : (d.Receive u 0 1 hd.HM10_CLONE_CUSTOM_HAL_TIMEOUT).1
            = HAL_StatusTypeDef.HAL_TIMEOUT := by simpa using h1
        rw [h2]; simp
      · intro e he; simp at he

/-- On a UART whose one-byte receives never report `HAL_TIMEOUT` the flush uses up any fuel:
with the fuel `fuel` it has made `fuel` receives and has not returned. -/
theorem flush_never_returns (v : UART σ) (hd : Header)
    (hnever : ∀ s, (v.HAL_UART_Receive s 1 hd.HM10_CLONE_CUSTOM_HAL_TIMEOUT).1
      ≠ HAL_StatusTypeDef.HAL_TIMEOUT) :
    ∀ (fuel : Nat) (d : Driver σ), (HAL_uart_rx_flush v hd fuel d).1 = false
      ∧ ∃ evs, (HAL_uart_rx_flush v hd fuel d).2.trace = d.trace ++ evs ∧ evs.length = fuel
        ∧ ∀ e ∈ evs, ∃ st dat, e = Event.rx 1 hd.HM10_CLONE_CUSTOM_HAL_TIMEOUT st dat
            ∧ st ≠ HAL_StatusTypeDef.HAL_TIMEOUT := by
  intro fuel
  induction fuel with
  | zero => intro d; exact ⟨rfl, [], by simp [HAL_uart_rx_flush], rfl, by simp⟩
  | succ fuel ih =>
    intro d
    have h1 : (d.Receive v 0 1 hd.HM10_CLONE_CUSTOM_HAL_TIMEOUT).1
        ≠ HAL_StatusTypeDef.HAL_TIMEOUT := hnever d.huart
    obtain ⟨g1, evs, g2, g3, g4⟩ := ih (d.Receive v 0 1 hd.HM10_CLONE_CUSTOM_HAL_TIMEOUT).2
    unfold HAL_uart_rx_flush
    simp only
    rw [if_pos h1]
    refine ⟨g1, Event.rx 1 hd.HM10_CLONE_CUSTOM_HAL_TIMEOUT
      (d.Receive v 0 1 hd.HM10_CLONE_CUSTOM_HAL_TIMEOUT).1
      (v.HAL_UART_Receive d.huart 1 hd.HM10_CLONE_CUSTOM_HAL_TIMEOUT).2.1 :: evs, ?_, ?_, ?_⟩
    · rw [g2, Receive_trace]; simp
    · simp [g3]
    · intro e he
      rcases List.mem_cons.mp he with rfl | he
      · exact ⟨_, _, rfl, h1⟩
      · exact g4 e he

/-- C31: `HAL_uart_rx_flush` stops on the first `HAL_TIMEOUT` and only then. Whenever it
returns (on a UART `u`), the calls it has made are one-byte receives with the driver
timeout of which the last reported `HAL_TIMEOUT` and none before it did: after every other
status (`HAL_OK`, `HAL_BUSY`, `HAL_ERROR`) it has made another receive. On a UART `v` whose
one-byte receives never report `HAL_TIMEOUT` it does not return: whatever the fuel, it has
used all of it, one receive for each unit, so the number of receive calls has no bound. -/
theorem flush_stops_only_on_timeout (u v : UART σ) (hd : Header) (fuel1 : Nat)
    (d1 : Driver σ) (hret : (HAL_uart_rx_flush u hd fuel1 d1).1 = true)
    (hnever : ∀ s, (v.HAL_UART_Receive s 1 hd.HM10_CLONE_CUSTOM_HAL_TIMEOUT).1
      ≠ HAL_StatusTypeDef.HAL_TIMEOUT) (fuel2 : Nat) (d2 : Driver σ) :
    (∃ fl data, (HAL_uart_rx_flush u hd fuel1 d1).2.trace = d1.trace ++ fl
          ++ [Event.rx 1 hd.HM10_CLONE_CUSTOM_HAL_TIMEOUT HAL_StatusTypeDef.HAL_TIMEOUT data]
        ∧ ∀ e ∈ fl, ∃ st dat, e = Event.rx 1 hd.HM10_CLONE_CUSTOM_HAL_TIMEOUT st dat
            ∧ st ≠ HAL_StatusTypeDef.HAL_TIMEOUT)
      ∧ (HAL_uart_rx_flush v hd fuel2 d2).1 = false
      ∧ ∃ evs, (HAL_uart_rx_flush v hd fuel2 d2).2.trace = d2.trace ++ evs
        ∧ evs.length = fuel2
        ∧ ∀ e ∈ evs, ∃ st dat, e = Event.rx 1 hd.HM10_CLONE_CUSTOM_HAL_TIMEOUT st dat
            ∧ st ≠ HAL_StatusTypeDef.HAL_TIMEOUT :=
  ⟨flush_trace_statuses u hd fuel1 d1 hret, flush_never_returns v hd hnever fuel2 d2⟩

theorem flush_stops_only_on_timeout_witness :
    ((HAL_uart_rx_flush status_line example_header 5
          (Driver.init [HAL_StatusTypeDef.HAL_BUSY, HAL_StatusTypeDef.HAL_ERROR,
            HAL_StatusTypeDef.HAL_OK])).1 = true
      ∧ ∀ s, (busy_line.HAL_UART_Receive s 1 example_header.HM10_CLONE_CUSTOM_HAL_TIMEOUT).1
          ≠ HAL_StatusTypeDef.HAL_TIMEOUT)
    ∧ (∃ fl data, (HAL_uart_rx_flush status_line example_header 5
          (Driver.init [HAL_StatusTypeDef.HAL_BUSY, HAL_StatusTypeDef.HAL_ERROR,
            HAL_StatusTypeDef.HAL_OK])).2.trace
          = (Driver.init [HAL_StatusTypeDef.HAL_BUSY, HAL_StatusTypeDef.HAL_ERROR,
            HAL_StatusTypeDef.HAL_OK]).trace ++ fl
            ++ [Event.rx 1 example_header.HM10_CLONE_CUSTOM_HAL_TIMEOUT
              HAL_StatusTypeDef.HAL_TIMEOUT data]
        ∧ ∀ e ∈ fl, ∃ st dat, e = Event.rx 1 example_header.HM10_CLONE_CUSTOM_HAL_TIMEOUT st dat
            ∧ st ≠ HAL_StatusTypeDef.HAL_TIMEOUT)
      ∧ (HAL_uart_rx_flush busy_line example_header 7 (Driver.init [])).1 = false
      ∧ ∃ evs, (HAL_uart_rx_flush busy_line example_header 7 (Driver.init [])).2.trace
          = (Driver.init ([] : List HAL_StatusTypeDef)).trace ++ evs
        ∧ evs.length = 7
        ∧ ∀ e ∈ evs, ∃ st dat, e = Event.rx 1 example_header.HM10_CLONE_CUSTOM_HAL_TIMEOUT st dat
            ∧ st ≠ HAL_StatusTypeDef.HAL_TIMEOUT :=
  ⟨⟨by decide, fun _ => by simp [busy_line]⟩,
    flush_stops_only_on_timeout status_line busy_line example_header 5
      (Driver.init [HAL_StatusTypeDef.HAL_BUSY, HAL_StatusTypeDef.HAL_ERROR,
        HAL_StatusTypeDef.HAL_OK]) (by decide) (fun _ => by simp [busy_line]) 7 (Driver.init [])⟩

/-! ## C32: a setter succeeds only on the echo of its argument -/

/-- The validation of the response of `send_set_role_cmd` passes exactly on
`+ROLE=<role>\r\n`. -/
theorem role_check (d : Driver σ) (r : Nat) (b : List Nat)
    (hlen : b.length = 9) (hbuf : ∀ k < 9, d.TxRx_Buffer k = b.getD k 0) :
    (d.differs HM10_Clone_Role_resp 6
        || decide (d.TxRx_Buffer 6 ≠ r ∨ d.TxRx_Buffer 7 ≠ 13 ∨ d.TxRx_Buffer 8 ≠ 10)) = false
      ↔ b = HM10_Clone_Role_resp ++ [r, 13, 10] := by
  match b, hlen with
  | [b0, b1, b2, b3, b4, b5, b6, b7, b8], _ =>
    have q0 := hbuf 0 (by omega)
    have q1 := hbuf 1 (by omega)
    have q2 := hbuf 2 (by omega)
    have q3 := hbuf 3 (by omega)
    have q4 := hbuf 4 (by omega)
    have q5 := hbuf 5 (by omega)
    have q6 := hbuf 6 (by omega)
    have q7 := hbuf 7 (by omega)
    have q8 := hbuf 8 (by omega)
    simp only [List.getD_cons_zero, List.getD_cons_succ] at q0 q1 q2 q3 q4 q5 q6 q7 q8
    simp [Driver.differs, List.range_succ, q0, q1, q2, q3, q4, q5, q6, q7, q8,
      HM10_Clone_Role_resp]
    tauto

/-- The first receive step of a setter: it asks for `Cmd.first_size` bytes, and its
validation passes exactly on the tag, the argument and `\r\n`; after it comes nothing or
the `OK\r\n` step. -/
theorem setter_check (u : UART σ) (hd : Header) (hw : hd.wf) (c : Cmd) (hset : c.setter)
    (hacc : c.accepted hd) :
    ∃ bad rest, (c.shape u hd).steps = (c.first_size, bad) :: rest
      ∧ (rest = [] ∨ rest = [ok_step])
      ∧ c.first_size = c.tag.length + (c.echo []).length + 2
      ∧ 5 ≤ c.tag.length
      ∧ ∀ (d1 : Driver σ) (b : List Nat), b.length = c.first_size →
          (∀ k < c.first_size, d1.TxRx_Buffer k = b.getD k 0) →
          (bad d1 = false ↔ b = c.tag ++ c.echo [] ++ [13, 10]) := by
  have h12 := hw.2.2
  cases c with
  | set_name n size =>
    have hs : size ≤ hd.HM10_CLONE_MAX_BLE_NAME_SIZE := hacc
    have e6 : (size + 6) % 256 - 6 = size := by omega
    have e8 : (HM10_CLONE_NAME_RESPONSE_SIZE_WITHOUT_REQUESTED_NAME + size) % 256 = 8 + size := by
      simp only [HM10_CLONE_NAME_RESPONSE_SIZE_WITHOUT_REQUESTED_NAME]; omega
    refine ⟨_, [ok_step], by simp only [Cmd.shape, e8, Cmd.first_size]; rfl, Or.inr rfl,
      by simp [Cmd.first_size, Cmd.tag, Cmd.echo, HM10_Clone_Name_resp]; omega,
      by simp [Cmd.tag, HM10_Clone_Name_resp], ?_⟩
    intro d1 b hlen hbuf
    rw [e6]
    exact echo_check d1 HM10_Clone_Name_resp n size b
      (by rw [hlen]; simp [Cmd.first_size, HM10_Clone_Name_resp]; omega)
      (fun k hk => hbuf k (by
        simp only [Cmd.first_size]
        simp only [HM10_Clone_Name_resp, List.length_cons, List.length_nil] at hk
        omega))
  | set_role r =>
    refine ⟨_, [], by simp only [Cmd.shape, Cmd.first_size, HM10_CLONE_ROLE_RESPONSE_SIZE]; rfl,
      Or.inl rfl, by simp [Cmd.first_size, Cmd.tag, Cmd.echo, HM10_Clone_Role_resp],
      by simp [Cmd.tag, HM10_Clone_Role_resp], ?_⟩
    intro d1 b hlen hbuf
    exact role_check d1 r b hlen hbuf
  | set_pin p =>
    have e5 := pin_resp_size_eq hd hw
    refine ⟨_, [ok_step], by simp only [Cmd.shape, Cmd.first_size, HM10_CLONE_PIN_RESPONSE_SIZE]; rfl,
      Or.inr rfl, by simp [Cmd.first_size, Cmd.tag, Cmd.echo, HM10_Clone_Pin_resp],
      by simp [Cmd.tag, HM10_Clone_Pin_resp], ?_⟩
    intro d1 b hlen hbuf
    rw [e5]
    exact echo_check d1 HM10_Clone_Pin_resp p 6 b hlen hbuf
  | set_pin_code_mode m =>
    refine ⟨_, [ok_step], by simp only [Cmd.shape, Cmd.first_size, HM10_CLONE_TYPE_RESPONSE_SIZE]; rfl,
      Or.inr rfl, by simp [Cmd.first_size, Cmd.tag, Cmd.echo, HM10_Clone_Type_resp],
      by simp [Cmd.tag, HM10_Clone_Type_resp], ?_⟩
    intro d1 b hlen hbuf
    exact type_check d1 m b hlen hbuf
  | _ => exact absurd hset (by simp [Cmd.setter])

theorem ret_handler_ok_inv (hd : Header) (hc : hd.codes_ok) (st : HAL_StatusTypeDef)
    (h : HAL_ret_handler hd st = HAL_OK) : st = HAL_StatusTypeDef.HAL_OK := by
  by_contra hst
  exact ret_handler_fault hd hc st hst h

theorem settle_buffer (o : Outcome) (d : Driver σ) :
    (o.settle d).TxRx_Buffer = d.TxRx_Buffer := by
  unfold Outcome.settle
  split <;> rfl

theorem settle_size (o : Outcome) (d : Driver σ) :
    (o.settle d).size = d.size ∨ (o.settle d).size = 0 := by
  unfold Outcome.settle
  split
  · exact Or.inr rfl
  · exact Or.inl rfl

/-- The result of a public command that returns is the result of its last pass, and so
are its trace and its scratch buffer; the size output is that of the last pass or 0. -/
theorem run_last_pass_buffer (u : UART σ) (hd : Header) (c : Cmd) (fuel : Nat) (d : Driver σ)
    (r : Nat) (h : (c.run u hd fuel d).1 = some r) :
    ∃ f dl, (c.attempt u hd f dl).1.result hd = some r
      ∧ (c.run u hd fuel d).2.trace = (c.attempt u hd f dl).2.trace
      ∧ (c.run u hd fuel d).2.TxRx_Buffer = (c.attempt u hd f dl).2.TxRx_Buffer
      ∧ ((c.run u hd fuel d).2.size = (c.attempt u hd f dl).2.size
        ∨ (c.run u hd fuel d).2.size = 0) := by
  match fuel, h with
  | 0, h =>
    rw [send_eq_run, Cmd.send_eq_exchange, exchange] at h
    simp at h
  | 1, h =>
    have h0 : (c.attempt u hd 0 (d.set_attempts 0)).1.retry = false := by
      rw [attempt_zero]; rfl
    rw [run_one_pass u hd c 0 d h0, attempt_zero] at h
    simp [Outcome.result] at h
  | f + 2, h =>
    by_cases hr : (c.attempt u hd (f + 1) (d.set_attempts 0)).1.retry = true
    · rw [run_two_passes u hd c f d hr] at h ⊢
      refine ⟨f, _, h, ?_, ?_, ?_⟩
      · simp only
        split_ifs
        · rfl
        · rw [settle_trace, settle_trace]
      · simp only
        split_ifs
        · rfl
        · rw [settle_buffer, settle_buffer]
      · simp only
        split_ifs
        · exact Or.inl rfl
        · rcases settle_size (c.attempt u hd (f + 1) (d.set_attempts 0)).1
            ((c.attempt u hd f ((c.attempt u hd (f + 1) (d.set_attempts 0)).2.set_attempts
              1)).1.settle (c.attempt u hd f
                ((c.attempt u hd (f + 1) (d.set_attempts 0)).2.set_attempts 1)).2) with h1 | h1
          · rw [h1]
            exact settle_size _ _
          · exact Or.inr h1
    · have hr2 : (c.attempt u hd (f + 1) (d.set_attempts 0)).1.retry = false := by
        simpa using hr
      rw [run_one_pass u hd c (f + 1) d hr2] at h ⊢
      exact ⟨f + 1, _, h, rfl, rfl, Or.inl rfl⟩

/-- A pass whose result is `HM10_Clone_EC_OK` ended with `return HM10_Clone_EC_OK`. -/
theorem attempt_result_ok (u : UART σ) (hd : Header) (hc : hd.codes_ok) (c : Cmd) (fuel : Nat)
    (d : Driver σ) (h : (c.attempt u hd fuel d).1.result hd = some hd.HM10_Clone_EC_OK) :
    (c.attempt u hd fuel d).1 = Outcome.returned hd.HM10_Clone_EC_OK := by
  cases ho : (c.attempt u hd fuel d).1 with
  | starved => rw [ho] at h; simp [Outcome.result] at h
  | returned ret =>
    rw [ho] at h
    simp only [Outcome.result, Option.some.injEq] at h
    rw [h]
  | fault st b =>
    rw [ho] at h
    simp only [Outcome.result, Option.some.injEq] at h
    exact absurd (h.trans hc.1) (attempt_fault_status u hd c fuel d st b ho)
  | overflow =>
    rw [ho] at h
    simp only [Outcome.result, Option.some.injEq] at h
    exact absurd (h.trans hc.1) hc.2.2

/-- A pass that returns a status other than `HM10_Clone_EC_ERR` went through its transmit
to the receive steps. -/
theorem attempt_to_steps (u : UART σ) (hd : Header) (c : Cmd) (fuel : Nat) (d : Driver σ)
    (r : Nat) (hr : r ≠ hd.HM10_Clone_EC_ERR)
    (h : (c.attempt u hd fuel d).1 = Outcome.returned r) :
    ∃ dT : Driver σ, c.attempt u hd fuel d
      = attempt_steps u hd (c.last u hd fuel) (c.shape u hd).steps dT := by
  unfold Cmd.attempt at h ⊢
  simp only at h ⊢
  split_ifs at h ⊢
  · exact absurd (Outcome.returned.inj h).symm hr
  · exact ⟨_, rfl⟩

/-- A receive step after which the pass returns a status other than `HM10_Clone_EC_ERR`:
the receive succeeded and its validation passed. -/
theorem attempt_steps_cons (u : UART σ) (hd : Header) (tail : Driver σ → Outcome × Driver σ)
    (n : Nat) (bad : Driver σ → Bool) (rest : List (Nat × (Driver σ → Bool))) (d : Driver σ)
    (r : Nat) (hr : r ≠ hd.HM10_Clone_EC_ERR)
    (h : (attempt_steps u hd tail ((n, bad) :: rest) d).1 = Outcome.returned r) :
    HAL_ret_handler hd (d.Receive u 0 n hd.HM10_CLONE_CUSTOM_HAL_TIMEOUT).1 = HAL_OK
      ∧ bad (d.Receive u 0 n hd.HM10_CLONE_CUSTOM_HAL_TIMEOUT).2 = false
      ∧ attempt_steps u hd tail ((n, bad) :: rest) d
        = attempt_steps u hd tail rest (d.Receive u 0 n hd.HM10_CLONE_CUSTOM_HAL_TIMEOUT).2 := by
  have key : attempt_steps u hd tail ((n, bad) :: rest) d
      = if HAL_ret_handler hd (d.Receive u 0 n hd.HM10_CLONE_CUSTOM_HAL_TIMEOUT).1 ≠ HAL_OK
        then (Outcome.fault (d.Receive u 0 n hd.HM10_CLONE_CUSTOM_HAL_TIMEOUT).1 false,
          (d.Receive u 0 n hd.HM10_CLONE_CUSTOM_HAL_TIMEOUT).2)
        else if bad (d.Receive u 0 n hd.HM10_CLONE_CUSTOM_HAL_TIMEOUT).2
        then (Outcome.returned hd.HM10_Clone_EC_ERR,
          (d.Receive u 0 n hd.HM10_CLONE_CUSTOM_HAL_TIMEOUT).2)
        else attempt_steps u hd tail rest
          (d.Receive u 0 n hd.HM10_CLONE_CUSTOM_HAL_TIMEOUT).2 := by
    rw [attempt_steps]
  rw [key] at h ⊢
  by_cases h1 : HAL_ret_handler hd (d.Receive u 0 n hd.HM10_CLONE_CUSTOM_HAL_TIMEOUT).1 = HAL_OK
  · cases h2 : bad (d.Receive u 0 n hd.HM10_CLONE_CUSTOM_HAL_TIMEOUT).2
    · simp [h1, h2]
    · simp [h1, h2] at h
      exact absurd h.symm hr
  · simp [h1] at h

theorem bytes_length (d : Driver σ) (off n : Nat) : (d.bytes off n).length = n := by
  simp [Driver.bytes]

theorem bytes_getD (d : Driver σ) (off n k : Nat) (hk : k < n) :
    (d.bytes off n).getD k 0 = d.TxRx_Buffer (off + k) := by
  unfold Driver.bytes
  rw [List.getD_eq_getElem _ _ (by simpa using hk)]
  simp

theorem bytes_congr (d e : Driver σ) (off n : Nat)
    (h : ∀ k, off ≤ k → k < off + n → d.TxRx_Buffer k = e.TxRx_Buffer k) :
    d.bytes off n = e.bytes off n := by
  unfold Driver.bytes
  apply List.map_congr_left
  intro k hk
  rw [List.mem_range] at hk
  exact h _ (by omega) (by omega)

/-- The bytes of a response that passed as tag, value, `\r\n`: the value field. -/
theorem bytes_value (d : Driver σ) (tag v : List Nat)
    (h : d.bytes 0 (tag.length + v.length + 2) = tag ++ v ++ [13, 10]) :
    d.bytes tag.length v.length = v := by
  rw [bytes_add, bytes_add] at h
  have h1 := List.append_inj h (by simp [bytes_length])
  have h2 := List.append_inj h1.1 (by simp [bytes_length])
  simpa using h2.2

theorem Receive_buffer_take (u : UART σ) (d : Driver σ) (n t : Nat) (k : Nat)
    (hk : k < n) (hlen : n ≤ (u.HAL_UART_Receive d.huart n t).2.1.length) :
    (d.Receive u 0 n t).2.TxRx_Buffer k
      = ((u.HAL_UART_Receive d.huart n t).2.1.take n).getD k 0 := by
  simp only [Driver.Receive]
  rw [if_pos]
  · simp
  · simp only [List.length_take]
    omega

theorem Receive_buffer_beyond (u : UART σ) (d : Driver σ) (n t : Nat) (k : Nat) (hk : n ≤ k) :
    (d.Receive u 0 n t).2.TxRx_Buffer k = d.TxRx_Buffer k := by
  simp only [Driver.Receive]
  rw [if_neg]
  simp only [List.length_take]
  omega

/-- A pass of a setter that ends with `return HM10_Clone_EC_OK`: its first receive
succeeded, the bytes then validated were the tag, the argument and `\r\n`, and the value
field is still in the scratch buffer when the pass ends. -/
theorem setter_pass_ok (u : UART σ) (hd : Header) (hw : hd.wf) (c : Cmd) (hset : c.setter)
    (hacc : c.accepted hd) (f : Nat) (dl : Driver σ)
    (h : (c.attempt u hd f dl).1 = Outcome.returned hd.HM10_Clone_EC_OK) :
    (∃ pre data rest, (c.attempt u hd f dl).2.trace
        = pre ++ Event.rx c.first_size hd.HM10_CLONE_CUSTOM_HAL_TIMEOUT
            HAL_StatusTypeDef.HAL_OK data :: rest
      ∧ (rest = [] ∨ ∃ data2, rest = [Event.rx HM10_CLONE_OK_RESPONSE_SIZE
          hd.HM10_CLONE_CUSTOM_HAL_TIMEOUT HAL_StatusTypeDef.HAL_OK data2])
      ∧ (c.first_size ≤ data.length →
          data.take c.first_size = c.tag ++ c.echo [] ++ [13, 10]))
    ∧ (c.attempt u hd f dl).2.bytes c.tag.length (c.echo []).length = c.echo [] := by
  have hc := hw.1
  obtain ⟨bad, rest, hsteps, hrest, hsize, htag, hiff⟩ := setter_check u hd hw c hset hacc
  have hne : hd.HM10_Clone_EC_OK ≠ hd.HM10_Clone_EC_ERR := by
    intro e
    exact hc.2.2 (e ▸ hc.1)
  obtain ⟨dT, hT⟩ := attempt_to_steps u hd c f dl _ hne h
  rw [hT, hsteps] at h ⊢
  obtain ⟨h1, h2, h3⟩ := attempt_steps_cons u hd _ _ _ _ dT _ hne h
  rw [h3] at h ⊢
  have hst := ret_handler_ok_inv hd hc _ h1
  have hlast : ∀ x : Driver σ, c.last u hd f x = (Outcome.returned hd.HM10_Clone_EC_OK, x) := by
    intro x
    cases c <;> first | rfl | exact absurd hset (by simp [Cmd.setter])
  have hval : (dT.Receive u 0 c.first_size hd.HM10_CLONE_CUSTOM_HAL_TIMEOUT).2.bytes
      c.tag.length (c.echo []).length = c.echo [] := by
    apply bytes_value
    rw [← hsize]
    exact (hiff _ _ (bytes_length _ _ _)
      (fun k hk => by rw [bytes_getD _ _ _ _ hk, Nat.zero_add])).mp h2
  have hdata : c.first_size
        ≤ (u.HAL_UART_Receive dT.huart c.first_size hd.HM10_CLONE_CUSTOM_HAL_TIMEOUT).2.1.length →
      (u.HAL_UART_Receive dT.huart c.first_size hd.HM10_CLONE_CUSTOM_HAL_TIMEOUT).2.1.take
        c.first_size = c.tag ++ c.echo [] ++ [13, 10] := by
    intro hlen
    exact (hiff _ _ (by rw [List.length_take]; omega)
      (fun k hk => Receive_buffer_take u dT _ _ k hk hlen)).mp h2
  have hst1 : (u.HAL_UART_Receive dT.huart c.first_size hd.HM10_CLONE_CUSTOM_HAL_TIMEOUT).1
      = HAL_StatusTypeDef.HAL_OK := hst
  rcases hrest with rfl | rfl
  · rw [attempt_steps, hlast]
    refine ⟨⟨dT.trace, _, [], ?_, Or.inl rfl, hdata⟩, hval⟩
    simp only [Driver.Receive, hst1]
  · obtain ⟨g1, g2, g3⟩ := attempt_steps_cons u hd (c.last u hd f) (@ok_step σ).1 (@ok_step σ).2 [] _ _ hne h
    have g3b : attempt_steps u hd (c.last u hd f) [ok_step]
          (dT.Receive u 0 c.first_size hd.HM10_CLONE_CUSTOM_HAL_TIMEOUT).2
        = attempt_steps u hd (c.last u hd f) []
          (((dT.Receive u 0 c.first_size hd.HM10_CLONE_CUSTOM_HAL_TIMEOUT).2.Receive u 0
            HM10_CLONE_OK_RESPONSE_SIZE hd.HM10_CLONE_CUSTOM_HAL_TIMEOUT).2) := g3
    rw [g3b, attempt_steps, hlast]
    have gst := ret_handler_ok_inv hd hc _ g1
    have gst1 : (u.HAL_UART_Receive
        (dT.Receive u 0 c.first_size hd.HM10_CLONE_CUSTOM_HAL_TIMEOUT).2.huart
        HM10_CLONE_OK_RESPONSE_SIZE hd.HM10_CLONE_CUSTOM_HAL_TIMEOUT).1
        = HAL_StatusTypeDef.HAL_OK := gst
    refine ⟨⟨dT.trace, _, [Event.rx HM10_CLONE_OK_RESPONSE_SIZE hd.HM10_CLONE_CUSTOM_HAL_TIMEOUT
      HAL_StatusTypeDef.HAL_OK (u.HAL_UART_Receive
        (dT.Receive u 0 c.first_size hd.HM10_CLONE_CUSTOM_HAL_TIMEOUT).2.huart
        HM10_CLONE_OK_RESPONSE_SIZE hd.HM10_CLONE_CUSTOM_HAL_TIMEOUT).2.1], ?_,
      Or.inr ⟨_, rfl⟩, hdata⟩, ?_⟩
    · simp only [Driver.Receive] at gst1 ⊢
      simp only [hst1, gst1, List.append_assoc, List.singleton_append]
    · have hb : ∀ k, c.tag.length ≤ k → k < c.tag.length + (c.echo []).length →
          ((dT.Receive u 0 c.first_size hd.HM10_CLONE_CUSTOM_HAL_TIMEOUT).2.Receive u 0
            HM10_CLONE_OK_RESPONSE_SIZE hd.HM10_CLONE_CUSTOM_HAL_TIMEOUT).2.TxRx_Buffer k
          = (dT.Receive u 0 c.first_size hd.HM10_CLONE_CUSTOM_HAL_TIMEOUT).2.TxRx_Buffer k := by
        intro k hk1 _
        exact Receive_buffer_beyond u _ _ _ k (by
          simp only [HM10_CLONE_OK_RESPONSE_SIZE]; omega)
      exact Eq.trans (bytes_congr _ _ _ _ hb) hval

/-- C32: a set command returns `HM10_Clone_EC_OK` only on the echo of its argument. For
every transport `u`, every setter `c` (`set_hm10clone_name`, `set_hm10clone_role`,
`set_hm10clone_pin`, `set_hm10clone_pin_code_mode`) with accepted arguments, every fuel and
state: if the command returns `HM10_Clone_EC_OK`, then its trace holds a successful receive
of `Cmd.first_size` bytes, followed by nothing or by the successful receive of `OK\r\n`; the
bytes it delivered, when there are `Cmd.first_size` of them, are the tag, the argument
(`Cmd.echo`) and `\r\n`; and the value field left in the scratch buffer, after the tag, is
byte for byte the argument. Conversely, when the flush ends, the transmit succeeds and the
first receive delivers tag, `v`, `\r\n` with `v` of the length of the argument but different
from it, the command returns `HM10_Clone_EC_ERR`. -/
theorem setter_ok_means_echo (u : UART σ) (hd : Header) (hw : hd.wf) (c : Cmd)
    (hset : c.setter) (hacc : c.accepted hd) :
    (∀ (fuel : Nat) (d : Driver σ),
      (c.run u hd fuel d).1 = some hd.HM10_Clone_EC_OK →
      (∃ pre data rest, (c.run u hd fuel d).2.trace
          = pre ++ Event.rx c.first_size hd.HM10_CLONE_CUSTOM_HAL_TIMEOUT
              HAL_StatusTypeDef.HAL_OK data :: rest
        ∧ (rest = [] ∨ ∃ data2, rest = [Event.rx HM10_CLONE_OK_RESPONSE_SIZE
            hd.HM10_CLONE_CUSTOM_HAL_TIMEOUT HAL_StatusTypeDef.HAL_OK data2])
        ∧ (c.first_size ≤ data.length →
            data.take c.first_size = c.tag ++ c.echo [] ++ [13, 10]))
      ∧ (c.run u hd fuel d).2.bytes c.tag.length (c.echo []).length = c.echo [])
    ∧ (∀ (fuel : Nat) (d : Driver σ) (v : List Nat) (s1 s2 s3 : σ),
      v.length = (c.echo []).length → v ≠ c.echo [] →
      u.drain hd.HM10_CLONE_CUSTOM_HAL_TIMEOUT fuel d.huart = some s1 →
      u.HAL_UART_Transmit s1 c.request hd.HM10_CLONE_CUSTOM_HAL_TIMEOUT
        = (HAL_StatusTypeDef.HAL_OK, s2) →
      u.HAL_UART_Receive s2 c.first_size hd.HM10_CLONE_CUSTOM_HAL_TIMEOUT
        = (HAL_StatusTypeDef.HAL_OK, c.tag ++ v ++ [13, 10], s3) →
      (c.run u hd (fuel + 1) d).1 = some hd.HM10_Clone_EC_ERR) := by
  constructor
  · intro fuel d hok
    obtain ⟨f, dl, hres, htr, hbuf, -⟩ := run_last_pass_buffer u hd c fuel d _ hok
    have hret := attempt_result_ok u hd hw.1 c f dl hres
    obtain ⟨⟨pre, data, rest, h1, h2, h3⟩, h4⟩ := setter_pass_ok u hd hw c hset hacc f dl hret
    refine ⟨⟨pre, data, rest, htr.trans h1, h2, h3⟩, ?_⟩
    exact Eq.trans (bytes_congr _ _ _ _ (fun k _ _ => by rw [hbuf])) h4
  · intro fuel d v s1 s2 s3 hv hne hflush htx hrx
    obtain ⟨bad, rest, hsteps, _, hsize, _, hiff⟩ := setter_check u hd hw c hset hacc
    obtain ⟨d2, hs2, _, _, hsend⟩ := send_tx_ok u hd hw c hacc fuel (d.set_attempts 0) s1 s2
      hflush htx
    have hlen : (c.tag ++ v ++ [13, 10]).length = c.first_size := by
      rw [hsize]; simp [hv]; omega
    have hst : (d2.Receive u 0 c.first_size hd.HM10_CLONE_CUSTOM_HAL_TIMEOUT).1
        = HAL_StatusTypeDef.HAL_OK := by
      simp [Driver.Receive, hs2, hrx]
    have hb : bad (d2.Receive u 0 c.first_size hd.HM10_CLONE_CUSTOM_HAL_TIMEOUT).2 = true := by
      cases hbd : bad (d2.Receive u 0 c.first_size hd.HM10_CLONE_CUSTOM_HAL_TIMEOUT).2
      · have hx := (hiff _ (c.tag ++ v ++ [13, 10]) hlen (fun k hk => by
          rw [Receive_buffer_take u d2 _ _ k hk (by rw [hs2, hrx]; exact hlen.ge)]
          rw [hs2, hrx]
          simp only
          rw [← hlen, List.take_length])).mp hbd
        have h1 := List.append_inj (List.append_inj hx (by simp [hv])).1 rfl
        exact absurd h1.2 hne
      · rfl
    rw [send_eq_run, hsend, hsteps, steps_cons_bad u hd _ _ _ bad rest d2 hst hb]

theorem setter_ok_means_echo_witness :
    (example_header.wf ∧ (Cmd.set_role 48).setter ∧ (Cmd.set_role 48).accepted example_header
      ∧ ((Cmd.set_role 48).run sim example_header 2 (Driver.init role_ok_link_0)).1
        = some example_header.HM10_Clone_EC_OK
      ∧ [49].length = ((Cmd.set_role 48).echo []).length ∧ [49] ≠ (Cmd.set_role 48).echo []
      ∧ sim.drain example_header.HM10_CLONE_CUSTOM_HAL_TIMEOUT 1
          (Driver.init role_one_link_0).huart = some role_one_link_0
      ∧ sim.HAL_UART_Transmit role_one_link_0 (Cmd.set_role 48).request
          example_header.HM10_CLONE_CUSTOM_HAL_TIMEOUT
        = (HAL_StatusTypeDef.HAL_OK, role_one_link_1)
      ∧ sim.HAL_UART_Receive role_one_link_1 (Cmd.set_role 48).first_size
          example_header.HM10_CLONE_CUSTOM_HAL_TIMEOUT
        = (HAL_StatusTypeDef.HAL_OK, (Cmd.set_role 48).tag ++ [49] ++ [13, 10], ⟨[], []⟩))
    ∧ (((∃ pre data rest,
          ((Cmd.set_role 48).run sim example_header 2 (Driver.init role_ok_link_0)).2.trace
            = pre ++ Event.rx (Cmd.set_role 48).first_size
                example_header.HM10_CLONE_CUSTOM_HAL_TIMEOUT HAL_StatusTypeDef.HAL_OK data :: rest
          ∧ (rest = [] ∨ ∃ data2, rest = [Event.rx HM10_CLONE_OK_RESPONSE_SIZE
              example_header.HM10_CLONE_CUSTOM_HAL_TIMEOUT HAL_StatusTypeDef.HAL_OK data2])
          ∧ ((Cmd.set_role 48).first_size ≤ data.length →
              data.take (Cmd.set_role 48).first_size
                = (Cmd.set_role 48).tag ++ (Cmd.set_role 48).echo [] ++ [13, 10]))
        ∧ ((Cmd.set_role 48).run sim example_header 2 (Driver.init role_ok_link_0)).2.bytes
            (Cmd.set_role 48).tag.length ((Cmd.set_role 48).echo []).length
          = (Cmd.set_role 48).echo [])
      ∧ ((Cmd.set_role 48).run sim example_header (1 + 1) (Driver.init role_one_link_0)).1
        = some example_header.HM10_Clone_EC_ERR) :=
  ⟨⟨by decide, True.intro, Or.inl rfl, by decide, by decide, by decide, by decide, by decide,
      by decide⟩,
    (setter_ok_means_echo sim example_header (by decide) (Cmd.set_role 48) True.intro
      (Or.inl rfl)).1 2 (Driver.init role_ok_link_0) (by decide),
    (setter_ok_means_echo sim example_header (by decide) (Cmd.set_role 48) True.intro
      (Or.inl rfl)).2 1 (Driver.init role_one_link_0) [49] role_one_link_0 role_one_link_1
      ⟨[], []⟩ (by decide) (by decide) (by decide) (by decide) (by decide)⟩

/-! ## C33: the frame of the retry -/

/-- A public command whose first pass ends at a retry block leaves the trace of the
`send_*_cmd` that it then runs with the counter at 1. -/
theorem run_retry_trace (u : UART σ) (hd : Header) (c : Cmd) (fuel : Nat) (d : Driver σ)
    (h : (c.attempt u hd (fuel + 1) (d.set_attempts 0)).1.retry = true) :
    (c.run u hd (fuel + 2) d).2.trace
      = (c.send u hd (fuel + 1)
          ((c.attempt u hd (fuel + 1) (d.set_attempts 0)).2.set_attempts 1)).2.trace := by
  have hc : (c.attempt u hd (fuel + 1) (d.set_attempts 0)).2.resp_attempts = 0 := by
    rw [attempt_counter]; rfl
  rw [send_eq_run, send_attempt, finish, if_pos h, if_pos hc, hc]
  simp only [Nat.zero_add]
  split
  · rfl
  · rw [settle_trace]

/-! ## C34: the names that `get_hm10clone_name` decodes -/

/-- C34: for every name `n` of length `L` with `1 ≤ L ≤ HM10_CLONE_MAX_BLE_NAME_SIZE` (the
maximum included) in which no `\r\n` pair occurs at offsets `(k, k + 1)` with `k ≥ 1`: when
the flush has ended, the transmit of `AT+NAME\r\n` succeeds and the link delivers
`+NAME=`, `n`, `\r\n` to the receives of the driver (8 bytes, then one byte at a time),
`get_hm10clone_name` returns `HM10_Clone_EC_OK` after that one transmit, without a retry,
with the name output holding `n`, the size output holding `L`, and the link in the state
after the last byte of the response. -/
theorem get_hm10clone_name_decodes (u : UART σ) (hd : Header) (hw : hd.wf) (n : List Nat)
    (L : Nat) (hn : n.length = L) (h1 : 1 ≤ L) (hL : L ≤ hd.HM10_CLONE_MAX_BLE_NAME_SIZE)
    (hmid : ∀ k < L, 1 ≤ k → k + 1 < L → ¬ (n.getD k 0 = 13 ∧ n.getD (k + 1) 0 = 10))
    (fuel : Nat) (hLf : L ≤ fuel) (d : Driver σ) (s1 s2 s3 : σ)
    (hflush : u.drain hd.HM10_CLONE_CUSTOM_HAL_TIMEOUT fuel d.huart = some s1)
    (htx : u.HAL_UART_Transmit s1 [65, 84, 43, 78, 65, 77, 69, 13, 10]
      hd.HM10_CLONE_CUSTOM_HAL_TIMEOUT = (HAL_StatusTypeDef.HAL_OK, s2))
    (hrx : u.receives hd.HM10_CLONE_CUSTOM_HAL_TIMEOUT
      (([43, 78, 65, 77, 69, 61] ++ n ++ [13, 10]).take 8
        :: (([43, 78, 65, 77, 69, 61] ++ n ++ [13, 10]).drop 8).map fun b => [b]) s2
      = some s3) :
    (get_hm10clone_name u hd (fuel + 1) d).1 = some hd.HM10_Clone_EC_OK
      ∧ (get_hm10clone_name u hd (fuel + 1) d).2.hm10_name.take L = n
      ∧ (get_hm10clone_name u hd (fuel + 1) d).2.hm10_name.drop L = d.hm10_name.drop L
      ∧ (get_hm10clone_name u hd (fuel + 1) d).2.size = L
      ∧ (get_hm10clone_name u hd (fuel + 1) d).2.huart = s3
      ∧ tx_count (get_hm10clone_name u hd (fuel + 1) d).2.trace = tx_count d.trace + 1
      ∧ (get_hm10clone_name u hd (fuel + 1) d).2.resp_attempts = 0 := by
  subst hn
  obtain ⟨d3, e3, e4, e5, h3⟩ := send_success u hd hw Cmd.get_name trivial n
    ⟨h1, hL, hmid⟩ fuel hLf (d.set_attempts 0) s1 s2 s3 hflush htx hrx
  have hget : get_hm10clone_name u hd (fuel + 1) d = (some hd.HM10_Clone_EC_OK, d3) := e3
  rw [hget]
  have hname : d3.hm10_name = n ++ d.hm10_name.drop n.length := h3.1
  refine ⟨rfl, ?_, ?_, h3.2, e4, ?_, ?_⟩
  · show d3.hm10_name.take n.length = n
    rw [hname]; simp
  · show d3.hm10_name.drop n.length = _
    rw [hname]; simp
  · show tx_count d3.trace = _
    rw [e5.tx_count, set_attempts_tx_count]
  · show d3.resp_attempts = 0
    rw [e5.resp_attempts]; rfl

theorem get_hm10clone_name_decodes_witness :
    (example_header.wf ∧ [65, 66, 67, 68, 69, 70, 71, 72, 73, 74, 75, 76].length = 12
      ∧ 1 ≤ 12 ∧ 12 ≤ example_header.HM10_CLONE_MAX_BLE_NAME_SIZE
      ∧ (∀ k < 12, 1 ≤ k → k + 1 < 12 →
          ¬ ([65, 66, 67, 68, 69, 70, 71, 72, 73, 74, 75, 76].getD k 0 = 13
            ∧ [65, 66, 67, 68, 69, 70, 71, 72, 73, 74, 75, 76].getD (k + 1) 0 = 10))
      ∧ 12 ≤ 12
      ∧ sim.drain example_header.HM10_CLONE_CUSTOM_HAL_TIMEOUT 12
          (Driver.init full_name_link_0).huart = some full_name_link_0
      ∧ sim.HAL_UART_Transmit full_name_link_0 [65, 84, 43, 78, 65, 77, 69, 13, 10]
          example_header.HM10_CLONE_CUSTOM_HAL_TIMEOUT
        = (HAL_StatusTypeDef.HAL_OK, full_name_link_1)
      ∧ sim.receives example_header.HM10_CLONE_CUSTOM_HAL_TIMEOUT
          (([43, 78, 65, 77, 69, 61] ++ [65, 66, 67, 68, 69, 70, 71, 72, 73, 74, 75, 76]
              ++ [13, 10]).take 8
            :: (([43, 78, 65, 77, 69, 61] ++ [65, 66, 67, 68, 69, 70, 71, 72, 73, 74, 75, 76]
              ++ [13, 10]).drop 8).map fun b => [b]) full_name_link_1
        = some ⟨[], []⟩)
    ∧ ((get_hm10clone_name sim example_header (12 + 1) (Driver.init full_name_link_0)).1
        = some example_header.HM10_Clone_EC_OK
      ∧ (get_hm10clone_name sim example_header (12 + 1)
          (Driver.init full_name_link_0)).2.hm10_name.take 12
        = [65, 66, 67, 68, 69, 70, 71, 72, 73, 74, 75, 76]
      ∧ (get_hm10clone_name sim example_header (12 + 1)
          (Driver.init full_name_link_0)).2.hm10_name.drop 12
        = (Driver.init full_name_link_0).hm10_name.drop 12
      ∧ (get_hm10clone_name sim example_header (12 + 1) (Driver.init full_name_link_0)).2.size
        = 12
      ∧ (get_hm10clone_name sim example_header (12 + 1) (Driver.init full_name_link_0)).2.huart
        = ⟨[], []⟩
      ∧ tx_count (get_hm10clone_name sim example_header (12 + 1)
          (Driver.init full_name_link_0)).2.trace
        = tx_count (Driver.init full_name_link_0).trace + 1
      ∧ (get_hm10clone_name sim example_header (12 + 1)
          (Driver.init full_name_link_0)).2.resp_attempts = 0) :=
  ⟨⟨by decide, by decide, by decide, by decide, by decide, by decide, by decide, by decide,
      by decide⟩,
    get_hm10clone_name_decodes sim example_header (by decide)
      [65, 66, 67, 68, 69, 70, 71, 72, 73, 74, 75, 76] 12 (by decide) (by decide) (by decide)
      (by decide) 12 (by decide) (Driver.init full_name_link_0) full_name_link_0
      full_name_link_1 ⟨[], []⟩ (by decide) (by decide) (by decide)⟩

/-! ## C35: a `\r\n` inside the name -/

/-- C35: `get_hm10clone_name` ends its read at the first `\r\n` pair that ends at or after
the ninth byte of the response. For a name `v`, `\r\n`, `w` whose part `v` has `1` to
`HM10_CLONE_MAX_BLE_NAME_SIZE` bytes and no `\r\n` pair at offsets `(k, k + 1)` with
`k ≥ 1`: when the flush has ended, the transmit succeeds and the link delivers the response
`+NAME=`, name, `\r\n` to the receives of the driver (8 bytes, then one byte at a time, which
the driver asks for up to the `\r\n` after `v`), the function returns `HM10_Clone_EC_OK`
with only `v` in the name output and with the size `v.length`, smaller than the length of
the name. -/
theorem get_hm10clone_name_stops_at_first_crlf (u : UART σ) (hd : Header) (hw : hd.wf)
    (v w : List Nat) (h1 : 1 ≤ v.length) (hL : v.length ≤ hd.HM10_CLONE_MAX_BLE_NAME_SIZE)
    (hmid : ∀ k < v.length, 1 ≤ k → k + 1 < v.length →
      ¬ (v.getD k 0 = 13 ∧ v.getD (k + 1) 0 = 10))
    (fuel : Nat) (hLf : v.length ≤ fuel) (d : Driver σ) (s1 s2 s3 : σ)
    (hflush : u.drain hd.HM10_CLONE_CUSTOM_HAL_TIMEOUT fuel d.huart = some s1)
    (htx : u.HAL_UART_Transmit s1 [65, 84, 43, 78, 65, 77, 69, 13, 10]
      hd.HM10_CLONE_CUSTOM_HAL_TIMEOUT = (HAL_StatusTypeDef.HAL_OK, s2))
    (hrx : u.receives hd.HM10_CLONE_CUSTOM_HAL_TIMEOUT
      (([43, 78, 65, 77, 69, 61] ++ (v ++ [13, 10] ++ w) ++ [13, 10]).take 8
        :: ((([43, 78, 65, 77, 69, 61] ++ (v ++ [13, 10] ++ w) ++ [13, 10]).take
            (8 + v.length)).drop 8).map fun b => [b]) s2
      = some s3) :
    (get_hm10clone_name u hd (fuel + 1) d).1 = some hd.HM10_Clone_EC_OK
      ∧ (get_hm10clone_name u hd (fuel + 1) d).2.hm10_name.take v.length = v
      ∧ (get_hm10clone_name u hd (fuel + 1) d).2.hm10_name.drop v.length
        = d.hm10_name.drop v.length
      ∧ (get_hm10clone_name u hd (fuel + 1) d).2.size = v.length
      ∧ (get_hm10clone_name u hd (fuel + 1) d).2.size < (v ++ [13, 10] ++ w).length
      ∧ (get_hm10clone_name u hd (fuel + 1) d).2.huart = s3 := by
  have hsplit : [43, 78, 65, 77, 69, 61] ++ (v ++ [13, 10] ++ w) ++ [13, 10]
      = ([43, 78, 65, 77, 69, 61] ++ v ++ [13, 10]) ++ (w ++ [13, 10]) := by
    simp
  have hlen : ([43, 78, 65, 77, 69, 61] ++ v ++ [13, 10]).length = 8 + v.length := by
    simp; omega
  have htake : ([43, 78, 65, 77, 69, 61] ++ (v ++ [13, 10] ++ w) ++ [13, 10]).take
      (8 + v.length) = [43, 78, 65, 77, 69, 61] ++ v ++ [13, 10] := by
    rw [hsplit, ← hlen, List.take_left]
  have htake8 : ([43, 78, 65, 77, 69, 61] ++ (v ++ [13, 10] ++ w) ++ [13, 10]).take 8
      = ([43, 78, 65, 77, 69, 61] ++ v ++ [13, 10]).take 8 := by
    rw [hsplit, List.take_append_of_le_length (by rw [hlen]; omega)]
  rw [htake, htake8] at hrx
  obtain ⟨d3, e3, e4, e5, h3⟩ := send_success u hd hw Cmd.get_name trivial v
    ⟨h1, hL, hmid⟩ fuel hLf (d.set_attempts 0) s1 s2 s3 hflush htx hrx
  have hget : get_hm10clone_name u hd (fuel + 1) d = (some hd.HM10_Clone_EC_OK, d3) := e3
  rw [hget]
  have hname : d3.hm10_name = v ++ d.hm10_name.drop v.length := h3.1
  have hsize : d3.size = v.length := h3.2
  refine ⟨rfl, ?_, ?_, hsize, ?_, e4⟩
  · show d3.hm10_name.take v.length = v
    rw [hname]; simp
  · show d3.hm10_name.drop v.length = _
    rw [hname]; simp
  · show d3.size < _
    rw [hsize]; simp

theorem get_hm10clone_name_stops_at_first_crlf_witness :
    (example_header.wf ∧ 1 ≤ [97].length
      ∧ [97].length ≤ example_header.HM10_CLONE_MAX_BLE_NAME_SIZE
      ∧ (∀ k < [97].length, 1 ≤ k → k + 1 < [97].length →
          ¬ ([97].getD k 0 = 13 ∧ [97].getD (k + 1) 0 = 10))
      ∧ [97].length ≤ 3
      ∧ sim.drain example_header.HM10_CLONE_CUSTOM_HAL_TIMEOUT 3
          (Driver.init crlf_name_link).huart = some crlf_name_link
      ∧ sim.HAL_UART_Transmit crlf_name_link [65, 84, 43, 78, 65, 77, 69, 13, 10]
          example_header.HM10_CLONE_CUSTOM_HAL_TIMEOUT
        = (HAL_StatusTypeDef.HAL_OK, crlf_name_link_1)
      ∧ sim.receives example_header.HM10_CLONE_CUSTOM_HAL_TIMEOUT
          (([43, 78, 65, 77, 69, 61] ++ ([97] ++ [13, 10] ++ [98]) ++ [13, 10]).take 8
            :: ((([43, 78, 65, 77, 69, 61] ++ ([97] ++ [13, 10] ++ [98]) ++ [13, 10]).take
                (8 + [97].length)).drop 8).map fun b => [b]) crlf_name_link_1
        = some ⟨[98, 13, 10], []⟩)
    ∧ ((get_hm10clone_name sim example_header (3 + 1) (Driver.init crlf_name_link)).1
        = some example_header.HM10_Clone_EC_OK
      ∧ (get_hm10clone_name sim example_header (3 + 1)
          (Driver.init crlf_name_link)).2.hm10_name.take [97].length = [97]
      ∧ (get_hm10clone_name sim example_header (3 + 1)
          (Driver.init crlf_name_link)).2.hm10_name.drop [97].length
        = (Driver.init crlf_name_link).hm10_name.drop [97].length
      ∧ (get_hm10clone_name sim example_header (3 + 1) (Driver.init crlf_name_link)).2.size
        = [97].length
      ∧ (get_hm10clone_name sim example_header (3 + 1) (Driver.init crlf_name_link)).2.size
        < ([97] ++ [13, 10] ++ [98]).length
      ∧ (get_hm10clone_name sim example_header (3 + 1) (Driver.init crlf_name_link)).2.huart
        = ⟨[98, 13, 10], []⟩) :=
  ⟨⟨by decide, by decide, by decide, by decide, by decide, by decide, by decide, by decide⟩,
    get_hm10clone_name_stops_at_first_crlf sim example_header (by decide) [97] [98]
      (by decide) (by decide) (by decide) 3 (by decide) (Driver.init crlf_name_link)
      crlf_name_link crlf_name_link_1 ⟨[98, 13, 10], []⟩ (by decide) (by decide) (by decide)⟩

/-! ## C36: the indices of the scratch buffer that a command uses -/

theorem graft_buffer (N : Nat) (d : Driver σ) (t : Nat → Nat) (k : Nat) (h : k < N) :
    (d.graft N t).TxRx_Buffer k = d.TxRx_Buffer k := by
  simp [Driver.graft, h]

theorem graft_buffer_beyond (N : Nat) (d : Driver σ) (t : Nat → Nat) (k : Nat) (h : N ≤ k) :
    (d.graft N t).TxRx_Buffer k = t k := by
  simp only [Driver.graft]
  rw [if_neg (by omega)]

theorem graft_self (N : Nat) (d : Driver σ) : d.graft N d.TxRx_Buffer = d := by
  cases d
  simp [Driver.graft]

theorem store_graft (N : Nat) (d : Driver σ) (t : Nat → Nat) (i v : Nat) (h : i < N) :
    (d.graft N t).store i v = (d.store i v).graft N t := by
  cases d
  simp only [Driver.graft, Driver.store, Driver.mk.injEq, true_and, and_true]
  funext k
  by_cases hk : k = i
  · simp [hk, h]
  · simp [hk]

theorem stores_graft (N : Nat) (t : Nat → Nat) :
    ∀ (l : List Nat) (d : Driver σ) (i : Nat), i + l.length ≤ N →
      (d.graft N t).stores i l = (d.stores i l).graft N t := by
  intro l
  induction l with
  | nil => intro d i _; rfl
  | cons b bs ih =>
    intro d i h
    simp only [List.length_cons] at h
    rw [Driver.stores, Driver.stores, store_graft N d t i b (by omega), ih _ _ (by omega)]

theorem copy_loop_graft (N : Nat) (t : Nat → Nat) (src : List Nat) :
    ∀ (n i bp : Nat) (d : Driver σ), bp + n ≤ N →
      copy_loop src n i bp (d.graft N t)
        = ((copy_loop src n i bp d).1, (copy_loop src n i bp d).2.graft N t) := by
  intro n
  induction n with
  | zero => intro i bp d _; rfl
  | succ n ih =>
    intro i bp d h
    rw [copy_loop, copy_loop, store_graft N d t bp _ (by omega), ih _ _ _ (by omega)]

theorem bytes_graft (N : Nat) (d : Driver σ) (t : Nat → Nat) (off n : Nat) (h : off + n ≤ N) :
    (d.graft N t).bytes off n = d.bytes off n :=
  bytes_congr _ _ _ _ (fun k _ hk => graft_buffer N d t k (by omega))

theorem differs_graft (N : Nat) (d : Driver σ) (t : Nat → Nat) (expected : List Nat) (n : Nat)
    (h : n ≤ N) : (d.graft N t).differs expected n = d.differs expected n := by
  unfold Driver.differs
  rw [Bool.eq_iff_iff, List.any_eq_true, List.any_eq_true]
  constructor
  · rintro ⟨i, hi, hx⟩
    have hi2 := List.mem_range.mp hi
    rw [graft_buffer N d t i (by omega)] at hx
    exact ⟨i, hi, hx⟩
  · rintro ⟨i, hi, hx⟩
    have hi2 := List.mem_range.mp hi
    refine ⟨i, hi, ?_⟩
    rw [graft_buffer N d t i (by omega)]
    exact hx

theorem compare_loop_graft (N : Nat) (d : Driver σ) (t : Nat → Nat) (src : List Nat) :
    ∀ (n i bc : Nat), bc + n ≤ N →
      compare_loop (d.graft N t) src n i bc = compare_loop d src n i bc := by
  intro n
  induction n with
  | zero => intro i bc _; rfl
  | succ n ih =>
    intro i bc h
    rw [compare_loop, compare_loop, graft_buffer N d t bc (by omega), ih _ _ (by omega)]

theorem compare_loop_snd_le (d : Driver σ) (src : List Nat) :
    ∀ (n i bc : Nat), (compare_loop d src n i bc).2 ≤ bc + n := by
  intro n
  induction n with
  | zero => intro i bc; simp [compare_loop]
  | succ n ih =>
    intro i bc
    rw [compare_loop]
    split_ifs
    · simp
    · have := ih (i + 1) (bc + 1)
      omega

theorem Receive_graft (u : UART σ) (N : Nat) (d : Driver σ) (t : Nat → Nat) (off n T : Nat)
    (h : off + n ≤ N) :
    (d.graft N t).Receive u off n T
      = ((d.Receive u off n T).1, (d.Receive u off n T).2.graft N t) := by
  have hl : ((u.HAL_UART_Receive d.huart n T).2.1.take n).length ≤ n := by
    simp only [List.length_take]; omega
  cases d
  simp only [Driver.graft, Driver.Receive, Prod.mk.injEq, Driver.mk.injEq, true_and, and_true]
  simp only at hl
  funext k
  by_cases hk : k < N
  · simp [hk]
  · simp only [hk, if_false]
    rw [if_neg]
    omega

theorem Transmit_graft (u : UART σ) (N : Nat) (d : Driver σ) (t : Nat → Nat) (n T : Nat)
    (h : n ≤ N) :
    (d.graft N t).Transmit u n T
      = ((d.Transmit u n T).1, (d.Transmit u n T).2.graft N t) := by
  have hb := bytes_graft N d t 0 n (by omega)
  cases d
  simp only [Driver.Transmit, hb]
  rfl

theorem flush_graft (u : UART σ) (hd : Header) (N : Nat) (t : Nat → Nat) (h : 1 ≤ N) :
    ∀ (fuel : Nat) (d : Driver σ),
      HAL_uart_rx_flush u hd fuel (d.graft N t)
        = ((HAL_uart_rx_flush u hd fuel d).1, (HAL_uart_rx_flush u hd fuel d).2.graft N t) := by
  intro fuel
  induction fuel with
  | zero => intro d; rfl
  | succ fuel ih =>
    intro d
    rw [HAL_uart_rx_flush, HAL_uart_rx_flush, Receive_graft u N d t 0 1 _ (by omega)]
    simp only
    split_ifs
    · exact ih _
    · rfl

theorem populate_graft (u : UART σ) (hd : Header) (hw : hd.wf) (c : Cmd)
    (hacc : c.accepted hd) (h1 : 1 ≤ hd.HM10_CLONE_MAX_BLE_NAME_SIZE) (N : Nat)
    (hN : c.reach hd ≤ N) (d : Driver σ) (t : Nat → Nat) :
    (c.shape u hd).populate (d.graft N t)
      = (((c.shape u hd).populate d).1, ((c.shape u hd).populate d).2.graft N t) := by
  have h12 := hw.2.2
  cases c with
  | set_name n size =>
    have hs : size ≤ hd.HM10_CLONE_MAX_BLE_NAME_SIZE := hacc
    simp only [Cmd.reach] at hN
    have e7 : (size + 7) % 256 - 7 = size := by omega
    simp only [Cmd.shape, e7]
    rw [stores_graft N t _ d 0 (by simp only [List.length_cons, List.length_nil]; omega),
      copy_loop_graft N t n size 0 7 _ (by omega)]
    simp only [copy_loop_fst]
    have e8 : (7 + size + 1) % 256 = 7 + size + 1 := by omega
    rw [e8, store_graft N _ t (7 + size) 13 (by omega),
      store_graft N _ t (7 + size + 1) 10 (by omega)]
  | set_pin p =>
    simp only [Cmd.reach] at hN
    simp only [Cmd.shape]
    rw [stores_graft N t _ d 0 (by simp only [List.length_cons, List.length_nil]; omega),
      copy_loop_graft N t p 6 0 6 _ (by omega)]
    simp only [copy_loop_fst]
    rw [store_graft N _ t (6 + 6) 13 (by omega), store_graft N _ t (6 + 6 + 1) 10 (by omega)]
  | _ =>
    simp only [Cmd.reach] at hN
    simp only [Cmd.shape]
    rw [stores_graft N t _ d 0 (by simp only [List.length_cons, List.length_nil]; omega)]

/-- The number of bytes handed to the transmit is below the reach of the command. -/
theorem populate_size_le (u : UART σ) (hd : Header) (hw : hd.wf) (c : Cmd)
    (hacc : c.accepted hd) (h1 : 1 ≤ hd.HM10_CLONE_MAX_BLE_NAME_SIZE) (d : Driver σ) :
    ((c.shape u hd).populate d).1 ≤ c.reach hd := by
  have h12 := hw.2.2
  cases c with
  | set_name n size =>
    have hs : size ≤ hd.HM10_CLONE_MAX_BLE_NAME_SIZE := hacc
    have e7 : (size + 7) % 256 - 7 = size := by omega
    simp only [Cmd.shape, e7, copy_loop_fst, Cmd.reach]
    omega
  | get_name =>
    simp only [Cmd.shape, Cmd.reach, HM10_CLONE_GET_NAME_CMD_SIZE]
    omega
  | _ =>
    simp [Cmd.shape, Cmd.reach, HM10_CLONE_TEST_CMD_SIZE, HM10_CLONE_RESET_CMD_SIZE,
      HM10_CLONE_SET_ROLE_CMD_SIZE, HM10_CLONE_GET_ROLE_CMD_SIZE, HM10_CLONE_SET_PIN_CMD_SIZE,
      HM10_CLONE_GET_PIN_CMD_SIZE, HM10_CLONE_SET_TYPE_CMD_SIZE, HM10_CLONE_GET_TYPE_CMD_SIZE]

/-- The reach of a command with accepted arguments is within the 21 bytes of the scratch
buffer. -/
theorem reach_le (hd : Header) (hw : hd.wf) (c : Cmd) (hacc : c.accepted hd) :
    c.reach hd ≤ 21 := by
  have h12 := hw.2.2
  cases c with
  | set_name n size =>
    have hs : size ≤ hd.HM10_CLONE_MAX_BLE_NAME_SIZE := hacc
    simp only [Cmd.reach]
    omega
  | get_name =>
    simp only [Cmd.reach]
    omega
  | _ => simp [Cmd.reach]

/-- Every fixed-size receive of a command asks for a number of bytes below the reach of the
command, and its validation reads below the reach only. -/
theorem steps_graft (u : UART σ) (hd : Header) (hw : hd.wf) (c : Cmd)
    (hacc : c.accepted hd) (N : Nat) (hN : c.reach hd ≤ N) :
    ∀ s ∈ (c.shape u hd).steps,
      s.1 ≤ N ∧ s.1 ≤ 20 ∧ ∀ (d : Driver σ) (t : Nat → Nat), s.2 (d.graft N t) = s.2 d := by
  have h12 := hw.2.2
  have hp6 := hw.2.1
  have e5 := pin_resp_size_eq hd hw
  have hb : ∀ (k : Nat), k < N → ∀ (d : Driver σ) (t : Nat → Nat),
      (d.graft N t).TxRx_Buffer k = d.TxRx_Buffer k :=
    fun k hk d t => graft_buffer N d t k hk
  have hdf : ∀ (n : Nat), n ≤ N → ∀ (d : Driver σ) (t : Nat → Nat) (e : List Nat),
      (d.graft N t).differs e n = d.differs e n :=
    fun n hn d t e => differs_graft N d t e n hn
  have hok : 4 ≤ N → (@ok_step σ).1 ≤ N ∧ (@ok_step σ).1 ≤ 20
      ∧ ∀ (d : Driver σ) (t : Nat → Nat), (@ok_step σ).2 (d.graft N t) = (@ok_step σ).2 d := by
    intro h4
    refine ⟨?_, ?_, fun d t => hdf _ ?_ d t _⟩ <;>
      simp only [ok_step, HM10_CLONE_OK_RESPONSE_SIZE] <;> omega
  cases c with
  | test =>
    simp only [Cmd.reach] at hN
    intro s hs
    simp only [Cmd.shape, List.mem_singleton] at hs
    subst hs
    exact hok (by omega)
  | reset =>
    simp only [Cmd.reach] at hN
    intro s hs
    simp only [Cmd.shape, List.mem_singleton] at hs
    subst hs
    exact hok (by omega)
  | set_name n size =>
    have hs : size ≤ hd.HM10_CLONE_MAX_BLE_NAME_SIZE := hacc
    simp only [Cmd.reach] at hN
    have e6 : (size + 6) % 256 - 6 = size := by omega
    have e8 : (HM10_CLONE_NAME_RESPONSE_SIZE_WITHOUT_REQUESTED_NAME + size) % 256 = 8 + size := by
      simp only [HM10_CLONE_NAME_RESPONSE_SIZE_WITHOUT_REQUESTED_NAME]; omega
    intro s hs
    simp only [Cmd.shape, e6, e8, List.mem_cons, List.mem_singleton, List.mem_nil_iff,
      or_false] at hs
    rcases hs with rfl | rfl
    · refine ⟨by simp only; omega, by simp only; omega, fun d t => ?_⟩
      have hle := compare_loop_snd_le d n size 0 6
      simp only [hdf 6 (by omega), compare_loop_graft N d t n size 0 6 (by omega),
        hb _ (show (compare_loop d n size 0 6).2 < N by omega),
        hb _ (show (compare_loop d n size 0 6).2 + 1 < N by omega)]
    · exact hok (by omega)
  | get_name =>
    simp only [Cmd.reach] at hN
    intro s hs
    simp only [Cmd.shape, List.mem_singleton] at hs
    subst hs
    refine ⟨?_, ?_, fun d t => ?_⟩
    · simp only [HM10_CLONE_NAME_RESPONSE_SIZE_WITHOUT_REQUESTED_NAME]; omega
    · simp only [HM10_CLONE_NAME_RESPONSE_SIZE_WITHOUT_REQUESTED_NAME]; omega
    · simp only [hdf 6 (by omega)]
  | set_role r =>
    simp only [Cmd.reach] at hN
    intro s hs
    simp only [Cmd.shape, List.mem_singleton] at hs
    subst hs
    refine ⟨?_, ?_, fun d t => ?_⟩
    · simp only [HM10_CLONE_ROLE_RESPONSE_SIZE]; omega
    · simp only [HM10_CLONE_ROLE_RESPONSE_SIZE]; omega
    · simp only [hdf 6 (by omega), hb 6 (by omega), hb 7 (by omega), hb 8 (by omega)]
  | get_role =>
    simp only [Cmd.reach] at hN
    intro s hs
    simp only [Cmd.shape, List.mem_singleton] at hs
    subst hs
    refine ⟨?_, ?_, fun d t => ?_⟩
    · simp only [HM10_CLONE_ROLE_RESPONSE_SIZE]; omega
    · simp only [HM10_CLONE_ROLE_RESPONSE_SIZE]; omega
    · simp only [hdf 6 (by omega), hb 6 (by omega), hb 7 (by omega), hb 8 (by omega)]
  | set_pin p =>
    simp only [Cmd.reach] at hN
    intro s hs
    simp only [Cmd.shape, e5, List.mem_cons, List.mem_singleton, List.mem_nil_iff,
      or_false] at hs
    rcases hs with rfl | rfl
    · refine ⟨by simp only [HM10_CLONE_PIN_RESPONSE_SIZE]; omega,
        by simp only [HM10_CLONE_PIN_RESPONSE_SIZE]; omega, fun d t => ?_⟩
      have hle := compare_loop_snd_le d p 6 0 5
      have e6 : 11 - 5 = 6 := rfl
      simp only [e6, hdf 5 (by omega), compare_loop_graft N d t p 6 0 5 (by omega),
        hb _ (show (compare_loop d p 6 0 5).2 < N by omega),
        hb _ (show (compare_loop d p 6 0 5).2 + 1 < N by omega)]
    · exact hok (by omega)
  | get_pin =>
    simp only [Cmd.reach] at hN
    intro s hs
    simp only [Cmd.shape, e5, hp6, List.mem_singleton] at hs
    subst hs
    refine ⟨?_, ?_, fun d t => ?_⟩
    · simp only [HM10_CLONE_PIN_RESPONSE_SIZE]; omega
    · simp only [HM10_CLONE_PIN_RESPONSE_SIZE]; omega
    · simp [List.range_succ, hdf 5 (by omega), hb 5 (by omega), hb 6 (by omega),
        hb 7 (by omega), hb 8 (by omega), hb 9 (by omega), hb 10 (by omega), hb 11 (by omega),
        hb 12 (by omega)]
  | set_pin_code_mode m =>
    simp only [Cmd.reach] at hN
    intro s hs
    simp only [Cmd.shape, List.mem_cons, List.mem_singleton, List.mem_nil_iff,
      or_false] at hs
    rcases hs with rfl | rfl
    · refine ⟨by simp only [HM10_CLONE_TYPE_RESPONSE_SIZE]; omega,
        by simp only [HM10_CLONE_TYPE_RESPONSE_SIZE]; omega, fun d t => ?_⟩
      simp only [hdf 6 (by omega), hb 6 (by omega), hb 7 (by omega), hb 8 (by omega)]
    · exact hok (by omega)
  | get_pin_code_mode =>
    simp only [Cmd.reach] at hN
    intro s hs
    simp only [Cmd.shape, List.mem_singleton] at hs
    subst hs
    refine ⟨?_, ?_, fun d t => ?_⟩
    · simp only [HM10_CLONE_TYPE_RESPONSE_SIZE]; omega
    · simp only [HM10_CLONE_TYPE_RESPONSE_SIZE]; omega
    · simp only [hdf 6 (by omega), hb 6 (by omega), hb 7 (by omega), hb 8 (by omega)]

/-- The byte-by-byte name read, entered with `bp = size + 8` below the bound, uses no index
of the scratch buffer from `HM10_CLONE_MAX_BLE_NAME_SIZE + 8` on. -/
theorem name_read_graft (u : UART σ) (hd : Header) (N : Nat) (t : Nat → Nat)
    (h255 : hd.HM10_CLONE_MAX_BLE_NAME_SIZE + 8 < 256)
    (hN : hd.HM10_CLONE_MAX_BLE_NAME_SIZE + 8 ≤ N) :
    ∀ (fuel bp : Nat) (d : Driver σ), bp = d.size + 8 →
      bp < hd.HM10_CLONE_MAX_BLE_NAME_SIZE + 8 →
      name_read u hd 6 fuel bp (d.graft N t)
        = ((name_read u hd 6 fuel bp d).1, (name_read u hd 6 fuel bp d).2.graft N t) := by
  intro fuel
  induction fuel with
  | zero => intro bp d _ _; rfl
  | succ fuel ih =>
    intro bp d hbp hlt
    have e1 : (bp + 1) % 256 = bp + 1 := Nat.mod_eq_of_lt (by omega)
    have hsz : (d.size + 1) % 256 = d.size + 1 := Nat.mod_eq_of_lt (by omega)
    have hrs : (d.Receive u bp 1 hd.HM10_CLONE_CUSTOM_HAL_TIMEOUT).2.size = d.size := rfl
    rw [name_read, name_read, Receive_graft u N d t bp 1 _ (by omega)]
    simp only [e1]
    generalize hr : d.Receive u bp 1 hd.HM10_CLONE_CUSTOM_HAL_TIMEOUT = r at hrs
    have hg : ∀ x : Nat, ({ r.2.graft N t with size := x } : Driver σ)
        = ({ r.2 with size := x } : Driver σ).graft N t := fun _ => rfl
    have hs2 : (r.2.graft N t).size = r.2.size := rfl
    simp only [hg, hs2]
    generalize hd2 : ({ r.2 with size := (r.2.size + 1) % 256 } : Driver σ) = d2
    have hd2s : d2.size = d.size + 1 := by rw [← hd2]; show (r.2.size + 1) % 256 = _; rw [hrs, hsz]
    rw [graft_buffer N r.2 t (bp + 1 - 2) (by omega), graft_buffer N r.2 t (bp + 1 - 1) (by omega),
      bytes_graft N d2 t 6 ((r.2.size + 1) % 256) (by rw [hrs, hsz]; omega)]
    split_ifs with c1 c2 c3
    · rfl
    · rfl
    · rfl
    · simp only [HM10_CLONE_NAME_RESPONSE_SIZE_WITHOUT_REQUESTED_NAME] at c3
      exact ih (bp + 1) d2 (by omega) (by omega)

/-- The final part of a pass uses no index of the scratch buffer from the reach of the
command on. -/
theorem last_graft (u : UART σ) (hd : Header) (hw : hd.wf) (c : Cmd)
    (h1 : 1 ≤ hd.HM10_CLONE_MAX_BLE_NAME_SIZE) (N : Nat) (hN : c.reach hd ≤ N) (fuel : Nat)
    (d : Driver σ) (t : Nat → Nat) :
    c.last u hd fuel (d.graft N t)
      = ((c.last u hd fuel d).1, (c.last u hd fuel d).2.graft N t) := by
  have h12 := hw.2.2
  have hp6 := hw.2.1
  have e5 := pin_resp_size_eq hd hw
  cases c with
  | get_name =>
    simp only [Cmd.reach] at hN
    exact name_read_graft u hd N t (by omega) hN fuel 8 { d with size := 0 } rfl (by omega)
  | get_role =>
    simp only [Cmd.reach] at hN
    simp only [Cmd.last, Cmd.output, graft_buffer N d t 6 (by omega)]
    rfl
  | get_pin =>
    simp only [Cmd.reach] at hN
    simp only [Cmd.last, Cmd.output, e5, hp6, bytes_graft N d t 5 6 (by omega)]
    rfl
  | get_pin_code_mode =>
    simp only [Cmd.reach] at hN
    simp only [Cmd.last, Cmd.output, graft_buffer N d t 6 (by omega)]
    rfl
  | _ => rfl

theorem attempt_steps_graft (u : UART σ) (hd : Header) (N : Nat) (t : Nat → Nat)
    (last : Driver σ → Outcome × Driver σ)
    (hlast : ∀ d, last (d.graft N t) = ((last d).1, (last d).2.graft N t)) :
    ∀ (steps : List (Nat × (Driver σ → Bool))),
      (∀ s ∈ steps, s.1 ≤ N ∧ ∀ (d : Driver σ) (t : Nat → Nat), s.2 (d.graft N t) = s.2 d) →
      ∀ d, attempt_steps u hd last steps (d.graft N t)
        = ((attempt_steps u hd last steps d).1,
          (attempt_steps u hd last steps d).2.graft N t) := by
  intro steps
  induction steps with
  | nil => intro _ d; rw [attempt_steps, attempt_steps]; exact hlast d
  | cons s rest ih =>
    intro hs d
    obtain ⟨n, bad⟩ := s
    have h0 := hs (n, bad) (List.mem_cons_self _ _)
    have hb2 : ∀ (d : Driver σ) (t : Nat → Nat), bad (d.graft N t) = bad d := h0.2
    rw [attempt_steps, attempt_steps, Receive_graft u N d t 0 n _ (by have := h0.1; omega)]
    simp only [hb2]
    split_ifs
    · rfl
    · rfl
    · exact ih (fun s hm => hs s (List.mem_cons_of_mem _ hm)) _

/-- One pass of a command with accepted arguments uses no index of the scratch buffer from
its reach on: replacing the buffer from there on by `t` changes nothing but that part of the
final state. -/
theorem attempt_graft (u : UART σ) (hd : Header) (hw : hd.wf) (c : Cmd)
    (hacc : c.accepted hd) (h1 : 1 ≤ hd.HM10_CLONE_MAX_BLE_NAME_SIZE) (N : Nat)
    (hN : c.reach hd ≤ N) (fuel : Nat) (d : Driver σ) (t : Nat → Nat) :
    c.attempt u hd fuel (d.graft N t)
      = ((c.attempt u hd fuel d).1, (c.attempt u hd fuel d).2.graft N t) := by
  have hpos : 1 ≤ c.reach hd := by
    cases c <;> simp only [Cmd.reach] <;> omega
  unfold Cmd.attempt
  simp only
  rw [flush_graft u hd N t (by omega) fuel d]
  simp only
  rw [populate_graft u hd hw c hacc h1 N hN]
  simp only
  rw [Transmit_graft u N _ t _ _
    (le_trans (populate_size_le u hd hw c hacc h1 _) hN)]
  simp only
  rw [attempt_steps_graft u hd N t _ (fun x => last_graft u hd hw c h1 N hN fuel x t) _
    (fun s hs => ⟨(steps_graft u hd hw c hacc N hN s hs).1,
      (steps_graft u hd hw c hacc N hN s hs).2.2⟩)]
  split_ifs <;> rfl

theorem settle_graft (o : Outcome) (N : Nat) (d : Driver σ) (t : Nat → Nat) :
    o.settle (d.graft N t) = (o.settle d).graft N t := by
  unfold Outcome.settle
  split <;> rfl

theorem finish_graft (hd : Header) (N : Nat) (t : Nat → Nat)
    (again : Driver σ → Option Nat × Driver σ)
    (hagain : ∀ d, again (d.graft N t) = ((again d).1, (again d).2.graft N t))
    (a : Outcome × Driver σ) :
    finish hd again (a.1, a.2.graft N t)
      = ((finish hd again a).1, (finish hd again a).2.graft N t) := by
  have hat : ∀ v, (a.2.graft N t).set_attempts v = (a.2.set_attempts v).graft N t :=
    fun _ => rfl
  have hra : (a.2.graft N t).resp_attempts = a.2.resp_attempts := rfl
  unfold finish
  simp only [hat, hra, hagain, settle_graft]
  split_ifs
  · cases h : (again (a.2.set_attempts (a.2.resp_attempts + 1))).1 <;> simp [h]
  · rfl
  · rfl

/-- A `send_*_cmd` with accepted arguments uses no index of the scratch buffer from the
reach of its command on. -/
theorem send_graft (u : UART σ) (hd : Header) (hw : hd.wf) (c : Cmd)
    (hacc : c.accepted hd) (h1 : 1 ≤ hd.HM10_CLONE_MAX_BLE_NAME_SIZE) (N : Nat)
    (hN : c.reach hd ≤ N) (t : Nat → Nat) :
    ∀ (fuel : Nat) (d : Driver σ),
      c.send u hd fuel (d.graft N t)
        = ((c.send u hd fuel d).1, (c.send u hd fuel d).2.graft N t) := by
  intro fuel
  induction fuel with
  | zero =>
    intro d
    rw [Cmd.send_eq_exchange, Cmd.send_eq_exchange, exchange, exchange]
  | succ fuel ih =>
    intro d
    rw [send_attempt, send_attempt, attempt_graft u hd hw c hacc h1 N hN fuel d t]
    exact finish_graft hd N t _ ih _

theorem run_graft (u : UART σ) (hd : Header) (hw : hd.wf) (c : Cmd)
    (hacc : c.accepted hd) (h1 : 1 ≤ hd.HM10_CLONE_MAX_BLE_NAME_SIZE) (N : Nat)
    (hN : c.reach hd ≤ N) (t : Nat → Nat) (fuel : Nat) (d : Driver σ) :
    c.run u hd fuel (d.graft N t)
      = ((c.run u hd fuel d).1, (c.run u hd fuel d).2.graft N t) := by
  rw [send_eq_run, send_eq_run]
  exact send_graft u hd hw c hacc h1 N hN t fuel (d.set_attempts 0)

theorem fits_refl (d : Driver σ) : Fits d d := ⟨[], by simp, by simp⟩

theorem fits_of_trace (d r : Driver σ) (h : r.trace = d.trace) : Fits d r :=
  ⟨[], by simp [h], by simp⟩

theorem fits_trans (a b c : Driver σ) (h1 : Fits a b) (h2 : Fits b c) : Fits a c := by
  obtain ⟨e1, t1, f1⟩ := h1
  obtain ⟨e2, t2, f2⟩ := h2
  refine ⟨e1 ++ e2, by rw [t2, t1, List.append_assoc], ?_⟩
  intro e he
  rcases List.mem_append.mp he with he | he
  · exact f1 e he
  · exact f2 e he

theorem Receive_fits (u : UART σ) (d : Driver σ) (off n T : Nat) (h : n ≤ 20) :
    Fits d (d.Receive u off n T).2 := by
  refine ⟨[_], rfl, ?_⟩
  intro e he
  rw [List.mem_singleton] at he
  subst he
  exact h

theorem Transmit_fits (u : UART σ) (d : Driver σ) (n T : Nat) (h : n ≤ 21) :
    Fits d (d.Transmit u n T).2 := by
  refine ⟨[_], rfl, ?_⟩
  intro e he
  rw [List.mem_singleton] at he
  subst he
  show (d.bytes 0 n).length ≤ 21
  rw [bytes_length]
  exact h

theorem set_attempts_fits (d : Driver σ) (v : Nat) : Fits d (d.set_attempts v) := by
  refine ⟨[_], rfl, ?_⟩
  intro e he
  rw [List.mem_singleton] at he
  subst he
  exact True.intro

theorem flush_fits (u : UART σ) (hd : Header) :
    ∀ (fuel : Nat) (d : Driver σ), Fits d (HAL_uart_rx_flush u hd fuel d).2 := by
  intro fuel
  induction fuel with
  | zero => intro d; exact fits_refl d
  | succ fuel ih =>
    intro d
    have h1 := Receive_fits u d 0 1 hd.HM10_CLONE_CUSTOM_HAL_TIMEOUT (by omega)
    rw [HAL_uart_rx_flush]
    split_ifs
    · exact fits_trans _ _ _ h1 (ih _)
    · exact h1

theorem name_read_fits (u : UART σ) (hd : Header) :
    ∀ (fuel bp : Nat) (d : Driver σ), Fits d (name_read u hd 6 fuel bp d).2 := by
  intro fuel
  induction fuel with
  | zero => intro bp d; exact fits_refl d
  | succ fuel ih =>
    intro bp d
    have h1 := Receive_fits u d bp 1 hd.HM10_CLONE_CUSTOM_HAL_TIMEOUT (by omega)
    rw [name_read]
    split_ifs
    · exact fits_trans _ _ _ h1 (fits_of_trace _ _ rfl)
    · exact fits_trans _ _ _ h1 (fits_of_trace _ _ rfl)
    · exact fits_trans _ _ _ h1 (fits_of_trace _ _ rfl)
    · exact fits_trans _ _ _ h1 (fits_trans _ _ _ (fits_of_trace _ _ rfl) (ih _ _))

theorem last_fits (u : UART σ) (hd : Header) (c : Cmd) (fuel : Nat) (d : Driver σ) :
    Fits d (c.last u hd fuel d).2 := by
  cases c
  case get_name =>
    exact fits_trans _ _ _ (fits_of_trace d { d with size := 0 } rfl) (name_read_fits u hd fuel 8 _)
  all_goals exact fits_of_trace _ _ rfl

theorem attempt_steps_fits (u : UART σ) (hd : Header) (last : Driver σ → Outcome × Driver σ)
    (hlast : ∀ d, Fits d (last d).2) :
    ∀ (steps : List (Nat × (Driver σ → Bool))), (∀ s ∈ steps, s.1 ≤ 20) →
      ∀ d, Fits d (attempt_steps u hd last steps d).2 := by
  intro steps
  induction steps with
  | nil => intro _ d; rw [attempt_steps]; exact hlast d
  | cons s rest ih =>
    intro hs d
    obtain ⟨n, bad⟩ := s
    have h1 := Receive_fits u d 0 n hd.HM10_CLONE_CUSTOM_HAL_TIMEOUT
      (hs (n, bad) (List.mem_cons_self _ _))
    rw [attempt_steps]
    split_ifs
    · exact h1
    · exact h1
    · exact fits_trans _ _ _ h1 (ih (fun s hm => hs s (List.mem_cons_of_mem _ hm)) _)

/-- The events of one pass of a command with accepted arguments fit the scratch buffer. -/
theorem attempt_fits (u : UART σ) (hd : Header) (hw : hd.wf) (c : Cmd)
    (hacc : c.accepted hd) (h1 : 1 ≤ hd.HM10_CLONE_MAX_BLE_NAME_SIZE) (fuel : Nat)
    (d : Driver σ) : Fits d (c.attempt u hd fuel d).2 := by
  have hf := flush_fits u hd fuel d
  have hp : Fits (HAL_uart_rx_flush u hd fuel d).2
      ((c.shape u hd).populate (HAL_uart_rx_flush u hd fuel d).2).2 :=
    fits_of_trace _ _ (by rw [populate_same])
  have ht := Transmit_fits u ((c.shape u hd).populate (HAL_uart_rx_flush u hd fuel d).2).2
    ((c.shape u hd).populate (HAL_uart_rx_flush u hd fuel d).2).1
    hd.HM10_CLONE_CUSTOM_HAL_TIMEOUT
    (le_trans (populate_size_le u hd hw c hacc h1 _) (reach_le hd hw c hacc))
  have h3 := fits_trans _ _ _ hf (fits_trans _ _ _ hp ht)
  unfold Cmd.attempt
  simp only
  split_ifs
  · exact hf
  · exact hf
  · exact h3
  · exact fits_trans _ _ _ h3 (attempt_steps_fits u hd _ (last_fits u hd c fuel) _
      (fun s hs => (steps_graft u hd hw c hacc 21 (reach_le hd hw c hacc) s hs).2.1) _)

theorem send_fits (u : UART σ) (hd : Header) (hw : hd.wf) (c : Cmd)
    (hacc : c.accepted hd) (h1 : 1 ≤ hd.HM10_CLONE_MAX_BLE_NAME_SIZE) :
    ∀ (fuel : Nat) (d : Driver σ), Fits d (c.send u hd fuel d).2 := by
  intro fuel
  induction fuel with
  | zero =>
    intro d
    rw [Cmd.send_eq_exchange, exchange]
    exact fits_refl d
  | succ fuel ih =>
    intro d
    have ha := attempt_fits u hd hw c hacc h1 fuel d
    rw [send_attempt]
    unfold finish
    split_ifs
    · have hx : Fits d (c.send u hd fuel ((c.attempt u hd fuel d).2.set_attempts
          ((c.attempt u hd fuel d).2.resp_attempts + 1))).2 :=
        fits_trans _ _ _ ha (fits_trans _ _ _ (set_attempts_fits _ _) (ih _))
      cases hr : (c.send u hd fuel ((c.attempt u hd fuel d).2.set_attempts
          ((c.attempt u hd fuel d).2.resp_attempts + 1))).1 with
      | none => simp only [hr]; exact hx
      | some ret =>
        simp only [hr]
        exact fits_trans _ _ _ hx (fits_of_trace _ _ (settle_trace _ _))
    · exact fits_trans _ _ _ ha (fits_of_trace _ _ (settle_trace _ _))
    · exact ha

theorem run_fits (u : UART σ) (hd : Header) (hw : hd.wf) (c : Cmd)
    (hacc : c.accepted hd) (h1 : 1 ≤ hd.HM10_CLONE_MAX_BLE_NAME_SIZE) (fuel : Nat)
    (d : Driver σ) : Fits d (c.run u hd fuel d).2 := by
  rw [send_eq_run]
  exact fits_trans _ _ _ (set_attempts_fits d 0) (send_fits u hd hw c hacc h1 fuel _)

/-- When the byte-by-byte name read returns, entered with `bp = size + 8` below the bound,
the last two bytes it stored are `\r\n`, at the indices `size + 6` and `size + 7`. -/
theorem name_read_terminator (u : UART σ) (hd : Header)
    (h255 : hd.HM10_CLONE_MAX_BLE_NAME_SIZE + 8 < 256) :
    ∀ (fuel bp : Nat) (d : Driver σ) (r : Nat), bp = d.size + 8 →
      bp < hd.HM10_CLONE_MAX_BLE_NAME_SIZE + 8 →
      (name_read u hd 6 fuel bp d).1 = Outcome.returned r →
      (name_read u hd 6 fuel bp d).2.TxRx_Buffer ((name_read u hd 6 fuel bp d).2.size + 6) = 13
        ∧ (name_read u hd 6 fuel bp d).2.TxRx_Buffer ((name_read u hd 6 fuel bp d).2.size + 7)
          = 10 := by
  intro fuel
  induction fuel with
  | zero => intro bp d r _ _ h; simp [name_read] at h
  | succ fuel ih =>
    intro bp d r hbp hlt h
    have e1 : (bp + 1) % 256 = bp + 1 := Nat.mod_eq_of_lt (by omega)
    have hsz : (d.size + 1) % 256 = d.size + 1 := Nat.mod_eq_of_lt (by omega)
    have hrs : (d.Receive u bp 1 hd.HM10_CLONE_CUSTOM_HAL_TIMEOUT).2.size = d.size := rfl
    rw [name_read] at h ⊢
    simp only [e1, hrs, hsz] at h ⊢
    split_ifs at h ⊢ with c1 c2 c3
    · simp only
      have e6 : d.size + 1 + 6 = bp + 1 - 2 := by omega
      have e7 : d.size + 1 + 7 = bp + 1 - 1 := by omega
      rw [e6, e7]
      exact c2
    · simp only [HM10_CLONE_NAME_RESPONSE_SIZE_WITHOUT_REQUESTED_NAME] at c3
      exact ih (bp + 1) _ r (by show bp + 1 = d.size + 1 + 8; omega) (by omega) h

/-- A name of the maximum length: the `\n` that ends the response is stored at the index
`HM10_CLONE_MAX_BLE_NAME_SIZE + 7` of the scratch buffer. -/
theorem name_terminator_index (u : UART σ) (hd : Header) (hw : hd.wf)
    (h1 : 1 ≤ hd.HM10_CLONE_MAX_BLE_NAME_SIZE) (n : List Nat)
    (hn : n.length = hd.HM10_CLONE_MAX_BLE_NAME_SIZE)
    (hmid : ∀ k < n.length, 1 ≤ k → k + 1 < n.length →
      ¬ (n.getD k 0 = 13 ∧ n.getD (k + 1) 0 = 10))
    (fuel : Nat) (hLf : hd.HM10_CLONE_MAX_BLE_NAME_SIZE ≤ fuel) (d : Driver σ) (s1 s2 s3 : σ)
    (hflush : u.drain hd.HM10_CLONE_CUSTOM_HAL_TIMEOUT fuel d.huart = some s1)
    (htx : u.HAL_UART_Transmit s1 Cmd.get_name.request hd.HM10_CLONE_CUSTOM_HAL_TIMEOUT
      = (HAL_StatusTypeDef.HAL_OK, s2))
    (hrx : u.receives hd.HM10_CLONE_CUSTOM_HAL_TIMEOUT (Cmd.get_name.reply n) s2 = some s3) :
    (Cmd.get_name.run u hd (fuel + 1) d).1 = some hd.HM10_Clone_EC_OK
      ∧ (Cmd.get_name.run u hd (fuel + 1) d).2.TxRx_Buffer
          (hd.HM10_CLONE_MAX_BLE_NAME_SIZE + 7) = 10 := by
  have h12 := hw.2.2
  have hc := hw.1
  obtain ⟨d3, e3, -, -, e6⟩ := send_success u hd hw Cmd.get_name trivial n
    ⟨by omega, by omega, hmid⟩ fuel (by omega) (d.set_attempts 0) s1 s2 s3 hflush htx hrx
  have hrun : Cmd.get_name.run u hd (fuel + 1) d = (some hd.HM10_Clone_EC_OK, d3) := by
    rw [send_eq_run]; exact e3
  have hok : (Cmd.get_name.run u hd (fuel + 1) d).1 = some hd.HM10_Clone_EC_OK := by
    rw [hrun]
  have hsize : (Cmd.get_name.run u hd (fuel + 1) d).2.size
      = hd.HM10_CLONE_MAX_BLE_NAME_SIZE := by
    rw [hrun]; exact e6.2.trans hn
  refine ⟨hok, ?_⟩
  obtain ⟨f, dl, hres, -, hbuf, hsz⟩ := run_last_pass_buffer u hd Cmd.get_name (fuel + 1) d _ hok
  have hs2 : (Cmd.get_name.attempt u hd f dl).2.size = hd.HM10_CLONE_MAX_BLE_NAME_SIZE := by
    rcases hsz with h | h
    · rw [← h]; exact hsize
    · rw [hsize] at h; omega
  have hret := attempt_result_ok u hd hc Cmd.get_name f dl hres
  have hne : hd.HM10_Clone_EC_OK ≠ hd.HM10_Clone_EC_ERR := by
    intro e
    exact hc.2.2 (e ▸ hc.1)
  obtain ⟨dT, hT⟩ := attempt_to_steps u hd Cmd.get_name f dl _ hne hret
  rw [hbuf]
  rw [hT] at hret hs2 ⊢
  have hsteps : (Cmd.get_name.shape u hd).steps
      = [(HM10_CLONE_NAME_RESPONSE_SIZE_WITHOUT_REQUESTED_NAME,
        fun d => d.differs HM10_Clone_Name_resp 6)] := rfl
  rw [hsteps] at hret hs2 ⊢
  obtain ⟨-, -, g3⟩ := attempt_steps_cons u hd _ _ _ _ dT _ hne hret
  rw [g3, attempt_steps] at hret hs2 ⊢
  have key := name_read_terminator u hd (by omega) f 8
    { (dT.Receive u 0 HM10_CLONE_NAME_RESPONSE_SIZE_WITHOUT_REQUESTED_NAME
        hd.HM10_CLONE_CUSTOM_HAL_TIMEOUT).2 with size := 0 } _ rfl (by omega) hret
  have hs3 : (name_read u hd 6 f 8
      { (dT.Receive u 0 HM10_CLONE_NAME_RESPONSE_SIZE_WITHOUT_REQUESTED_NAME
        hd.HM10_CLONE_CUSTOM_HAL_TIMEOUT).2 with size := 0 }).2.size
      = hd.HM10_CLONE_MAX_BLE_NAME_SIZE := hs2
  rw [hs3] at key
  exact key.2

/-- C36, the counterexample: with `HM10_CLONE_MAX_BLE_NAME_SIZE = 0`, which is at most 12,
the length check of the name read, made after the ninth byte, is never met. On the response
`+NAME=` followed by 16 bytes with no `\r\n`, `get_hm10clone_name` stores the 22nd byte at
index 21, past the 21 bytes of `TxRx_Buffer`. -/
theorem name_read_overruns_without_names :
    (zero_name_header.wf ∧ zero_name_header.HM10_CLONE_MAX_BLE_NAME_SIZE ≤ 12
      ∧ Cmd.get_name.accepted zero_name_header)
    ∧ (Driver.init unending_name_link).TxRx_Buffer 21 = 0
    ∧ (get_hm10clone_name sim zero_name_header 20 (Driver.init unending_name_link)).1
      = some zero_name_header.HM10_Clone_EC_NR
    ∧ (get_hm10clone_name sim zero_name_header 20
        (Driver.init unending_name_link)).2.TxRx_Buffer 21 = 65 :=
  ⟨⟨by decide, by decide, True.intro⟩, by decide, by decide, by decide⟩

/-- C36, amended: provided `1 ≤ HM10_CLONE_MAX_BLE_NAME_SIZE ≤ 12` (and a 6-byte pin), every
public AT command with accepted arguments, on every UART, with every fuel and from every
state, uses the scratch buffer below its reach `Cmd.reach` only, which is at most 21:
replacing the content of the buffer from any index `N` at or above the reach on (so from
21 on) changes neither the returned status nor the final state, in which the replaced part
is still as it was put, so no index from the reach on is read or written; the buffer of the
final state is that of the initial state there; and the events of the command fit: every
receive asks for at most 20 bytes and every transmit hands over at most 21. For
`get_hm10clone_name` the reach is `HM10_CLONE_MAX_BLE_NAME_SIZE + 8`, and the index
`HM10_CLONE_MAX_BLE_NAME_SIZE + 7` is written: it holds the `\n` that ends the response when
a name of the maximum length is received. The 8-bit lengths of `set_hm10clone_name` do not
wrap: `size + 9` bytes are transmitted and `size + 8` bytes, then 4, are asked for. -/
theorem scratch_buffer_bounds (u : UART σ) (hd : Header) (hw : hd.wf)
    (h1 : 1 ≤ hd.HM10_CLONE_MAX_BLE_NAME_SIZE) :
    (∀ (c : Cmd), c.accepted hd → ∀ (fuel : Nat) (d : Driver σ),
      c.reach hd ≤ 21
      ∧ (∀ (N : Nat), c.reach hd ≤ N → ∀ t : Nat → Nat,
          c.run u hd fuel (d.graft N t)
            = ((c.run u hd fuel d).1, (c.run u hd fuel d).2.graft N t))
      ∧ (∀ k, c.reach hd ≤ k → (c.run u hd fuel d).2.TxRx_Buffer k = d.TxRx_Buffer k)
      ∧ ∃ evs, (c.run u hd fuel d).2.trace = d.trace ++ evs ∧ ∀ e ∈ evs, e.fits)
    ∧ (Cmd.get_name.reach hd = hd.HM10_CLONE_MAX_BLE_NAME_SIZE + 8
      ∧ ∀ (n : List Nat) (fuel : Nat) (d : Driver σ) (s1 s2 s3 : σ),
        n.length = hd.HM10_CLONE_MAX_BLE_NAME_SIZE →
        (∀ k < n.length, 1 ≤ k → k + 1 < n.length →
          ¬ (n.getD k 0 = 13 ∧ n.getD (k + 1) 0 = 10)) →
        hd.HM10_CLONE_MAX_BLE_NAME_SIZE ≤ fuel →
        u.drain hd.HM10_CLONE_CUSTOM_HAL_TIMEOUT fuel d.huart = some s1 →
        u.HAL_UART_Transmit s1 [65, 84, 43, 78, 65, 77, 69, 13, 10]
          hd.HM10_CLONE_CUSTOM_HAL_TIMEOUT = (HAL_StatusTypeDef.HAL_OK, s2) →
        u.receives hd.HM10_CLONE_CUSTOM_HAL_TIMEOUT
          (([43, 78, 65, 77, 69, 61] ++ n ++ [13, 10]).take 8
            :: (([43, 78, 65, 77, 69, 61] ++ n ++ [13, 10]).drop 8).map fun b => [b]) s2
          = some s3 →
        (get_hm10clone_name u hd (fuel + 1) d).1 = some hd.HM10_Clone_EC_OK
          ∧ (get_hm10clone_name u hd (fuel + 1) d).2.TxRx_Buffer
              (hd.HM10_CLONE_MAX_BLE_NAME_SIZE + 7) = 10)
    ∧ (∀ (hm10_name : List Nat) (size : Nat), (Cmd.set_name hm10_name size).accepted hd →
      ∀ d : Driver σ,
        (((Cmd.set_name hm10_name size).shape u hd).populate d).1 = size + 9
        ∧ ((Cmd.set_name hm10_name size).shape u hd).steps.map Prod.fst = [size + 8, 4]) := by
  have h12 := hw.2.2
  refine ⟨?_, ⟨rfl, ?_⟩, ?_⟩
  · intro c hacc fuel d
    refine ⟨reach_le hd hw c hacc,
      fun N hN t => run_graft u hd hw c hacc h1 N hN t fuel d, ?_,
      run_fits u hd hw c hacc h1 fuel d⟩
    intro k hk
    have h := run_graft u hd hw c hacc h1 (c.reach hd) (le_refl _) d.TxRx_Buffer fuel d
    rw [graft_self] at h
    have h2 := congrArg (fun x => x.2.TxRx_Buffer k) h
    simp only at h2
    rw [h2, graft_buffer_beyond _ _ _ _ hk]
  · intro n fuel d s1 s2 s3 hn hmid hfuel hflush htx hrx
    exact name_terminator_index u hd hw h1 n hn hmid fuel hfuel d s1 s2 s3 hflush htx hrx
  · intro n size hacc d
    have hs : size ≤ hd.HM10_CLONE_MAX_BLE_NAME_SIZE := hacc
    have e7 : (size + 7) % 256 - 7 = size := by omega
    have e8 : (HM10_CLONE_NAME_RESPONSE_SIZE_WITHOUT_REQUESTED_NAME + size) % 256 = size + 8 := by
      simp only [HM10_CLONE_NAME_RESPONSE_SIZE_WITHOUT_REQUESTED_NAME]; omega
    constructor
    · simp only [Cmd.shape, e7, copy_loop_fst]
      omega
    · simp only [Cmd.shape, e8, List.map_cons, List.map_nil, ok_step,
        HM10_CLONE_OK_RESPONSE_SIZE]

theorem scratch_buffer_bounds_witness :
    (example_header.wf ∧ 1 ≤ example_header.HM10_CLONE_MAX_BLE_NAME_SIZE
      ∧ (Cmd.set_name [72, 105] 2).accepted example_header
      ∧ [65, 66, 67, 68, 69, 70, 71, 72, 73, 74, 75, 76].length
        = example_header.HM10_CLONE_MAX_BLE_NAME_SIZE
      ∧ (∀ k < [65, 66, 67, 68, 69, 70, 71, 72, 73, 74, 75, 76].length, 1 ≤ k →
          k + 1 < [65, 66, 67, 68, 69, 70, 71, 72, 73, 74, 75, 76].length →
          ¬ ([65, 66, 67, 68, 69, 70, 71, 72, 73, 74, 75, 76].getD k 0 = 13
            ∧ [65, 66, 67, 68, 69, 70, 71, 72, 73, 74, 75, 76].getD (k + 1) 0 = 10))
      ∧ example_header.HM10_CLONE_MAX_BLE_NAME_SIZE ≤ 12
      ∧ sim.drain example_header.HM10_CLONE_CUSTOM_HAL_TIMEOUT 12
          (Driver.init full_name_link_0).huart = some full_name_link_0
      ∧ sim.HAL_UART_Transmit full_name_link_0 [65, 84, 43, 78, 65, 77, 69, 13, 10]
          example_header.HM10_CLONE_CUSTOM_HAL_TIMEOUT
        = (HAL_StatusTypeDef.HAL_OK, full_name_link_1)
      ∧ sim.receives example_header.HM10_CLONE_CUSTOM_HAL_TIMEOUT
          (([43, 78, 65, 77, 69, 61] ++ [65, 66, 67, 68, 69, 70, 71, 72, 73, 74, 75, 76]
              ++ [13, 10]).take 8
            :: (([43, 78, 65, 77, 69, 61] ++ [65, 66, 67, 68, 69, 70, 71, 72, 73, 74, 75, 76]
              ++ [13, 10]).drop 8).map fun b => [b]) full_name_link_1
        = some ⟨[], []⟩)
    ∧ ((Cmd.set_name [72, 105] 2).reach example_header ≤ 21
      ∧ (∀ (N : Nat), (Cmd.set_name [72, 105] 2).reach example_header ≤ N → ∀ t : Nat → Nat,
          (Cmd.set_name [72, 105] 2).run sim example_header 3
              ((Driver.init name_ok_link_0).graft N t)
            = (((Cmd.set_name [72, 105] 2).run sim example_header 3
                (Driver.init name_ok_link_0)).1,
              ((Cmd.set_name [72, 105] 2).run sim example_header 3
                (Driver.init name_ok_link_0)).2.graft N t))
      ∧ (∀ k, (Cmd.set_name [72, 105] 2).reach example_header ≤ k →
          ((Cmd.set_name [72, 105] 2).run sim example_header 3
            (Driver.init name_ok_link_0)).2.TxRx_Buffer k
          = (Driver.init name_ok_link_0).TxRx_Buffer k)
      ∧ ∃ evs, ((Cmd.set_name [72, 105] 2).run sim example_header 3
            (Driver.init name_ok_link_0)).2.trace
          = (Driver.init name_ok_link_0).trace ++ evs ∧ ∀ e ∈ evs, e.fits)
    ∧ ((get_hm10clone_name sim example_header (12 + 1) (Driver.init full_name_link_0)).1
        = some example_header.HM10_Clone_EC_OK
      ∧ (get_hm10clone_name sim example_header (12 + 1)
          (Driver.init full_name_link_0)).2.TxRx_Buffer
            (example_header.HM10_CLONE_MAX_BLE_NAME_SIZE + 7) = 10)
    ∧ ((((Cmd.set_name [72, 105] 2).shape sim example_header).populate
          (Driver.init name_ok_link_0)).1 = 2 + 9
      ∧ ((Cmd.set_name [72, 105] 2).shape sim example_header).steps.map Prod.fst
        = [2 + 8, 4]) :=
  ⟨⟨by decide, by decide, by simp only [Cmd.accepted]; decide, by decide, by decide, by decide,
      by decide, by decide, by decide⟩,
    (scratch_buffer_bounds sim example_header (by decide) (by decide)).1
      (Cmd.set_name [72, 105] 2) (by simp only [Cmd.accepted]; decide) 3
      (Driver.init name_ok_link_0),
    (scratch_buffer_bounds sim example_header (by decide) (by decide)).2.1.2
      [65, 66, 67, 68, 69, 70, 71, 72, 73, 74, 75, 76] 12 (Driver.init full_name_link_0)
      full_name_link_0 full_name_link_1 ⟨[], []⟩ (by decide) (by decide) (by decide)
      (by decide) (by decide) (by decide),
    (scratch_buffer_bounds sim example_header (by decide) (by decide)).2.2
      [72, 105] 2 (by simp only [Cmd.accepted]; decide) (Driver.init name_ok_link_0)⟩

/-! ## The retry within the bounds of the scratch buffer -/

/-- One pass of any command, with accepted arguments or not, uses no index of the scratch
buffer from 21 on. -/
theorem attempt_graft_any (u : UART σ) (hd : Header) (hw : hd.wf)
    (h1 : 1 ≤ hd.HM10_CLONE_MAX_BLE_NAME_SIZE) (N : Nat) (hN : 21 ≤ N) (c : Cmd)
    (fuel : Nat) (d : Driver σ) (t : Nat → Nat) :
    c.attempt u hd fuel (d.graft N t)
      = ((c.attempt u hd fuel d).1, (c.attempt u hd fuel d).2.graft N t) := by
  by_cases hacc : c.accepted hd
  · exact attempt_graft u hd hw c hacc h1 N (le_trans (reach_le hd hw c hacc) hN) fuel d t
  · have hrej : (c.shape u hd).reject = true := (shape_reject u hd c).2 hacc
    unfold Cmd.attempt
    simp only
    rw [flush_graft u hd N t (by omega) fuel d]
    simp only [hrej, if_true]
    split_ifs <;> rfl

theorem send_graft_any (u : UART σ) (hd : Header) (hw : hd.wf)
    (h1 : 1 ≤ hd.HM10_CLONE_MAX_BLE_NAME_SIZE) (N : Nat) (hN : 21 ≤ N) (c : Cmd)
    (t : Nat → Nat) :
    ∀ (fuel : Nat) (d : Driver σ),
      c.send u hd fuel (d.graft N t)
        = ((c.send u hd fuel d).1, (c.send u hd fuel d).2.graft N t) := by
  intro fuel
  induction fuel with
  | zero =>
    intro d
    rw [Cmd.send_eq_exchange, Cmd.send_eq_exchange, exchange, exchange]
  | succ fuel ih =>
    intro d
    rw [send_attempt, send_attempt, attempt_graft_any u hd hw h1 N hN c fuel d t]
    exact finish_graft hd N t _ ih _

/-- A public command stores nothing from index 21 of the scratch buffer on, whatever its
arguments, the UART and the fuel: what lies behind the 21 bytes of `TxRx_Buffer` (the retry
counter among it) is changed by no store to the buffer. -/
theorem run_within_buffer (u : UART σ) (hd : Header) (hw : hd.wf)
    (h1 : 1 ≤ hd.HM10_CLONE_MAX_BLE_NAME_SIZE) (c : Cmd) (fuel : Nat) (d : Driver σ)
    (k : Nat) (hk : 21 ≤ k) :
    (c.run u hd fuel d).2.TxRx_Buffer k = d.TxRx_Buffer k := by
  have h := send_graft_any u hd hw h1 21 (le_refl _) c d.TxRx_Buffer fuel (d.set_attempts 0)
  have e : (d.set_attempts 0).graft 21 d.TxRx_Buffer = d.set_attempts 0 :=
    graft_self 21 (d.set_attempts 0)
  rw [e] at h
  have h2 := congrArg (fun x => x.2.TxRx_Buffer k) h
  simp only at h2
  rw [send_eq_run, h2, graft_buffer_beyond _ _ _ _ hk]

/-- C5: with a header as the driver relies on it and `1 ≤ HM10_CLONE_MAX_BLE_NAME_SIZE ≤ 12`:
for every public command, every UART and every fuel (so also when the call does not come to
an end): the retry counter is set to 0 at the start and after that at most once, to 1, so
that it only takes the values 0 and 1; and `HAL_UART_Transmit` is called at most twice.
Nothing is stored from index 21 of the scratch buffer on, so that the retry counter, which
lies behind the 21 bytes of `TxRx_Buffer`, is changed by these stores of 0 and 1 only. -/
theorem retry_counter_and_transmits_bounded (u : UART σ) (hd : Header) (hw : hd.wf)
    (hmax : 1 ≤ hd.HM10_CLONE_MAX_BLE_NAME_SIZE) (c : Cmd) (fuel : Nat) (d : Driver σ) :
    (attempts_log (c.run u hd fuel d).2.trace = attempts_log d.trace ++ [0]
        ∧ (c.run u hd fuel d).2.resp_attempts = 0
        ∧ tx_count (c.run u hd fuel d).2.trace ≤ tx_count d.trace + 1
      ∨ attempts_log (c.run u hd fuel d).2.trace = attempts_log d.trace ++ [0, 1]
        ∧ (c.run u hd fuel d).2.resp_attempts = 1
        ∧ tx_count (c.run u hd fuel d).2.trace ≤ tx_count d.trace + 2)
      ∧ d.trace <+: (c.run u hd fuel d).2.trace
      ∧ ∀ k, 21 ≤ k → (c.run u hd fuel d).2.TxRx_Buffer k = d.TxRx_Buffer k := by
  have main : (attempts_log (c.run u hd fuel d).2.trace = attempts_log d.trace ++ [0]
        ∧ (c.run u hd fuel d).2.resp_attempts = 0
        ∧ tx_count (c.run u hd fuel d).2.trace ≤ tx_count d.trace + 1
      ∨ attempts_log (c.run u hd fuel d).2.trace = attempts_log d.trace ++ [0, 1]
        ∧ (c.run u hd fuel d).2.resp_attempts = 1
        ∧ tx_count (c.run u hd fuel d).2.trace ≤ tx_count d.trace + 2)
      ∧ d.trace <+: (c.run u hd fuel d).2.trace := by
    rw [send_eq_run]
    have hpre : d.trace <+: (d.set_attempts 0).trace := by simp [Driver.set_attempts]
    cases fuel with
    | zero =>
      rw [Cmd.send_eq_exchange]
      exact ⟨Or.inl ⟨set_attempts_log d 0, rfl, by
        show tx_count (d.set_attempts 0).trace ≤ _
        rw [set_attempts_tx_count]; omega⟩, hpre⟩
    | succ fuel =>
      obtain ⟨k, hk, h | ⟨d1, h1, h2, h3, h4⟩⟩ := send_retries u hd c fuel (d.set_attempts 0)
      · refine ⟨Or.inl ⟨?_, ?_, ?_⟩, hpre.trans h.grows⟩
        · rw [h.attempts_log, set_attempts_log]
        · rw [h.resp_attempts]; rfl
        · rw [h.tx_count, set_attempts_tx_count]; omega
      · obtain ⟨j, hj, g⟩ := send_spent u hd c fuel (d1.set_attempts (d1.resp_attempts + 1))
          (by rw [set_attempts_resp, h2]; decide)
        have hgrow : d1.trace <+: (d1.set_attempts (d1.resp_attempts + 1)).trace := by
          simp [Driver.set_attempts]
        refine ⟨Or.inr ⟨?_, ?_, ?_⟩, ?_⟩
        · rw [h3, g.attempts_log, set_attempts_log, h1.attempts_log, set_attempts_log, h2]
          simp
        · rw [h4, g.resp_attempts, set_attempts_resp, h2]
        · rw [h3, g.tx_count, set_attempts_tx_count, h1.tx_count, set_attempts_tx_count]; omega
        · rw [h3]
          exact hpre.trans (h1.grows.trans (hgrow.trans g.grows))
  exact ⟨main.1, main.2, fun k hk => run_within_buffer u hd hw hmax c fuel d k hk⟩

theorem retry_counter_and_transmits_bounded_witness :
    (example_header.wf ∧ 1 ≤ example_header.HM10_CLONE_MAX_BLE_NAME_SIZE)
    ∧ ((attempts_log (Cmd.get_name.run sim example_header 4 (Driver.init name_link_0)).2.trace
          = attempts_log (Driver.init name_link_0).trace ++ [0]
        ∧ (Cmd.get_name.run sim example_header 4 (Driver.init name_link_0)).2.resp_attempts = 0
        ∧ tx_count (Cmd.get_name.run sim example_header 4 (Driver.init name_link_0)).2.trace
          ≤ tx_count (Driver.init name_link_0).trace + 1
      ∨ attempts_log (Cmd.get_name.run sim example_header 4 (Driver.init name_link_0)).2.trace
          = attempts_log (Driver.init name_link_0).trace ++ [0, 1]
        ∧ (Cmd.get_name.run sim example_header 4 (Driver.init name_link_0)).2.resp_attempts = 1
        ∧ tx_count (Cmd.get_name.run sim example_header 4 (Driver.init name_link_0)).2.trace
          ≤ tx_count (Driver.init name_link_0).trace + 2)
      ∧ (Driver.init name_link_0).trace
        <+: (Cmd.get_name.run sim example_header 4 (Driver.init name_link_0)).2.trace
      ∧ ∀ k, 21 ≤ k →
        (Cmd.get_name.run sim example_header 4 (Driver.init name_link_0)).2.TxRx_Buffer k
          = (Driver.init name_link_0).TxRx_Buffer k) :=
  ⟨⟨by decide, by decide⟩,
    retry_counter_and_transmits_bounded sim example_header (by decide) (by decide)
      Cmd.get_name 4 (Driver.init name_link_0)⟩

/-- C29: with a header as the driver relies on it and
`1 ≤ HM10_CLONE_MAX_BLE_NAME_SIZE ≤ 12` (then nothing is stored from index 21 of the scratch
buffer on, and the retry counter behind it is changed by the stores of 0 and 1 only): when
the first pass of a public command ends with a fault (a HAL call of the
exchange reported `st1`, whose mapping is not `HAL_OK`), the command stores 1 to the retry
counter and runs its `send_*_cmd` once more; when that second pass ends with a fault too (a
HAL call reported `st2`), the command returns `HAL_ret_handler` of `st2`, whatever `st1`
was: `HM10_Clone_EC_ERR` for `HAL_ERROR`, `HM10_Clone_EC_NR` for `HAL_BUSY` and
`HAL_TIMEOUT`. The trace is: the store of 0, the events of the first pass, whose last call
reported `st1`, the store of 1, the events of the second pass, whose last call reported
`st2`. -/
theorem second_fault_decides (u : UART σ) (hd : Header) (hw : hd.wf)
    (hmax : 1 ≤ hd.HM10_CLONE_MAX_BLE_NAME_SIZE) (c : Cmd) (fuel : Nat) (d : Driver σ)
    (st1 st2 : HAL_StatusTypeDef) (b1 b2 : Bool)
    (h1 : (c.attempt u hd (fuel + 1) (d.set_attempts 0)).1 = Outcome.fault st1 b1)
    (h2 : (c.attempt u hd fuel
      ((c.attempt u hd (fuel + 1) (d.set_attempts 0)).2.set_attempts 1)).1
        = Outcome.fault st2 b2) :
    (c.run u hd (fuel + 2) d).1
        = (c.send u hd (fuel + 1)
            ((c.attempt u hd (fuel + 1) (d.set_attempts 0)).2.set_attempts 1)).1
      ∧ (c.run u hd (fuel + 2) d).1 = some (HAL_ret_handler hd st2)
      ∧ (st2 = HAL_StatusTypeDef.HAL_ERROR →
          (c.run u hd (fuel + 2) d).1 = some hd.HM10_Clone_EC_ERR)
      ∧ (st2 = HAL_StatusTypeDef.HAL_BUSY ∨ st2 = HAL_StatusTypeDef.HAL_TIMEOUT →
          (c.run u hd (fuel + 2) d).1 = some hd.HM10_Clone_EC_NR)
      ∧ (∃ own1 own2, (c.run u hd (fuel + 2) d).2.trace
            = d.trace ++ Event.attempts 0 :: own1 ++ Event.attempts 1 :: own2
          ∧ Ends_with own1 st1 ∧ Ends_with own2 st2)
      ∧ attempts_log (c.run u hd (fuel + 2) d).2.trace = attempts_log d.trace ++ [0, 1]
      ∧ (c.run u hd (fuel + 2) d).2.resp_attempts = 1
      ∧ ∀ k, 21 ≤ k → (c.run u hd (fuel + 2) d).2.TxRx_Buffer k = d.TxRx_Buffer k := by
  have hr : (c.attempt u hd (fuel + 1) (d.set_attempts 0)).1.retry = true := by
    rw [h1]; rfl
  have hne : (c.attempt u hd fuel
      ((c.attempt u hd (fuel + 1) (d.set_attempts 0)).2.set_attempts 1)).1
      ≠ Outcome.starved := by
    rw [h2]; simp
  have hcnt : ((c.attempt u hd (fuel + 1) (d.set_attempts 0)).2.set_attempts 1).resp_attempts
      ≠ 0 := by
    simp [Driver.set_attempts]
  have hrun := run_two_passes u hd c fuel d hr
  rw [if_neg hne] at hrun
  have hres : (c.run u hd (fuel + 2) d).1 = some (HAL_ret_handler hd st2) := by
    rw [hrun, h2]; rfl
  have htr : (c.run u hd (fuel + 2) d).2.trace = (c.attempt u hd fuel
      ((c.attempt u hd (fuel + 1) (d.set_attempts 0)).2.set_attempts 1)).2.trace := by
    rw [hrun]
    simp only
    rw [settle_trace, settle_trace]
  have hcn : (c.run u hd (fuel + 2) d).2.resp_attempts = 1 := by
    rw [hrun]
    simp only
    rw [settle_counter, settle_counter, attempt_counter]
    rfl
  obtain ⟨k1, _, ran1⟩ := attempt_ran u hd c (fuel + 1) (d.set_attempts 0)
  obtain ⟨k2, _, ran2⟩ := attempt_ran u hd c fuel
    ((c.attempt u hd (fuel + 1) (d.set_attempts 0)).2.set_attempts 1)
  have ends : ∀ (f : Nat) (x : Driver σ) (st : HAL_StatusTypeDef) (b : Bool),
      (c.attempt u hd f x).1 = Outcome.fault st b →
      ∃ own, (c.attempt u hd f x).2.trace = x.trace ++ own ∧ Ends_with own st := by
    intro f x st b hx
    obtain ⟨fl, ex, ht, _, hex⟩ := attempt_trace u hd c f x
    refine ⟨fl ++ ex, by rw [ht, List.append_assoc], ?_⟩
    rcases hex with ⟨_, hno⟩ | ⟨_, _, _, _, _, _, _, _, he⟩
    · rw [hx] at hno
      simp [Outcome.retry] at hno
    · exact ends_with_append fl ex st (he st b hx)
  obtain ⟨own1, ho1, he1⟩ := ends _ _ st1 b1 h1
  obtain ⟨own2, ho2, he2⟩ := ends _ _ st2 b2 h2
  refine ⟨?_, hres, ?_, ?_, ⟨own1, own2, ?_, he1, he2⟩, ?_, hcn,
    fun k hk => run_within_buffer u hd hw hmax c (fuel + 2) d k hk⟩
  · rw [hres, send_last_pass u hd c fuel _ hcnt, h2]
    rfl
  · intro hst
    rw [hres, hst]; rfl
  · intro hst
    rw [hres]
    rcases hst with hst | hst <;> rw [hst] <;> rfl
  · rw [htr, ho2]
    show ((c.attempt u hd (fuel + 1) (d.set_attempts 0)).2.trace ++ [Event.attempts (1 % 256)])
      ++ own2 = _
    rw [ho1]
    show ((d.trace ++ [Event.attempts (0 % 256)]) ++ own1 ++ [Event.attempts (1 % 256)])
      ++ own2 = _
    simp
  · rw [htr, ran2.attempts_log, set_attempts_log, ran1.attempts_log, set_attempts_log]
    simp

theorem second_fault_decides_witness :
    (example_header.wf ∧ 1 ≤ example_header.HM10_CLONE_MAX_BLE_NAME_SIZE
      ∧ (Cmd.reset.attempt sim example_header (1 + 1) ((Driver.init fault_link_0).set_attempts 0)).1
        = Outcome.fault HAL_StatusTypeDef.HAL_TIMEOUT false
      ∧ (Cmd.reset.attempt sim example_header 1
          ((Cmd.reset.attempt sim example_header (1 + 1)
            ((Driver.init fault_link_0).set_attempts 0)).2.set_attempts 1)).1
        = Outcome.fault HAL_StatusTypeDef.HAL_ERROR false)
    ∧ ((Cmd.reset.run sim example_header (1 + 2) (Driver.init fault_link_0)).1
        = (Cmd.reset.send sim example_header (1 + 1)
            ((Cmd.reset.attempt sim example_header (1 + 1)
              ((Driver.init fault_link_0).set_attempts 0)).2.set_attempts 1)).1
      ∧ (Cmd.reset.run sim example_header (1 + 2) (Driver.init fault_link_0)).1
        = some (HAL_ret_handler example_header HAL_StatusTypeDef.HAL_ERROR)
      ∧ (HAL_StatusTypeDef.HAL_ERROR = HAL_StatusTypeDef.HAL_ERROR →
          (Cmd.reset.run sim example_header (1 + 2) (Driver.init fault_link_0)).1
            = some example_header.HM10_Clone_EC_ERR)
      ∧ (HAL_StatusTypeDef.HAL_ERROR = HAL_StatusTypeDef.HAL_BUSY
          ∨ HAL_StatusTypeDef.HAL_ERROR = HAL_StatusTypeDef.HAL_TIMEOUT →
          (Cmd.reset.run sim example_header (1 + 2) (Driver.init fault_link_0)).1
            = some example_header.HM10_Clone_EC_NR)
      ∧ (∃ own1 own2, (Cmd.reset.run sim example_header (1 + 2) (Driver.init fault_link_0)).2.trace
            = (Driver.init fault_link_0).trace
              ++ Event.attempts 0 :: own1 ++ Event.attempts 1 :: own2
          ∧ Ends_with own1 HAL_StatusTypeDef.HAL_TIMEOUT
          ∧ Ends_with own2 HAL_StatusTypeDef.HAL_ERROR)
      ∧ attempts_log (Cmd.reset.run sim example_header (1 + 2) (Driver.init fault_link_0)).2.trace
        = attempts_log (Driver.init fault_link_0).trace ++ [0, 1]
      ∧ (Cmd.reset.run sim example_header (1 + 2) (Driver.init fault_link_0)).2.resp_attempts
        = 1
      ∧ ∀ k, 21 ≤ k →
        (Cmd.reset.run sim example_header (1 + 2) (Driver.init fault_link_0)).2.TxRx_Buffer k
          = (Driver.init fault_link_0).TxRx_Buffer k) :=
  ⟨⟨by decide, by decide, by decide, by decide⟩,
    second_fault_decides sim example_header (by decide) (by decide) Cmd.reset 1
      (Driver.init fault_link_0)
      HAL_StatusTypeDef.HAL_TIMEOUT HAL_StatusTypeDef.HAL_ERROR false false
      (by decide) (by decide)⟩

/-- C33: the request frame does not change from the first pass to the retry. With a header
as the driver relies on it and `1 ≤ HM10_CLONE_MAX_BLE_NAME_SIZE ≤ 12`, for every command
`c` on every UART: with accepted arguments, when the first pass ends at a retry block (by
then the scratch buffer may hold received bytes) and the flush of the retry ends, the
frames handed to `HAL_UART_Transmit` are the request frame of the command and the same
frame again; whenever the public command has handed over two frames `f1` and `f2`, they
are equal, of the same length, and are the request frame; and nothing is stored from index
21 of the scratch buffer on, so that the retry counter behind the 21 bytes of `TxRx_Buffer`
is not changed by what is received. -/
theorem retry_sends_same_frame (u : UART σ) (hd : Header) (hw : hd.wf)
    (hmax : 1 ≤ hd.HM10_CLONE_MAX_BLE_NAME_SIZE) (c : Cmd) :
    (c.accepted hd → ∀ (fuel : Nat) (d : Driver σ) (s : σ),
      (c.attempt u hd (fuel + 1) (d.set_attempts 0)).1.retry = true →
      u.drain hd.HM10_CLONE_CUSTOM_HAL_TIMEOUT fuel
        (c.attempt u hd (fuel + 1) (d.set_attempts 0)).2.huart = some s →
      tx_frames (c.run u hd (fuel + 2) d).2.trace
        = tx_frames d.trace ++ [c.request, c.request])
    ∧ (∀ (m : Nat) (d : Driver σ) (f1 f2 : List Nat),
      tx_frames (c.run u hd m d).2.trace = tx_frames d.trace ++ [f1, f2] →
      f1 = f2 ∧ f1.length = f2.length ∧ f1 = c.request)
    ∧ (∀ (m : Nat) (d : Driver σ) (k : Nat), 21 ≤ k →
      (c.run u hd m d).2.TxRx_Buffer k = d.TxRx_Buffer k) := by
  refine ⟨?_, ?_, fun m d k hk => run_within_buffer u hd hw hmax c m d k hk⟩
  · intro hacc fuel d s hretry hflush
    have h1 : ((c.attempt u hd (fuel + 1) (d.set_attempts 0)).2.set_attempts 1).resp_attempts
        ≠ 0 := by
      simp [Driver.set_attempts]
    rw [run_retry_trace u hd c fuel d hretry,
      send_last_frames u hd hw c hacc fuel
        ((c.attempt u hd (fuel + 1) (d.set_attempts 0)).2.set_attempts 1) s h1 hflush,
      set_attempts_frames, attempt_retry_frames u hd hw c hacc (fuel + 1) _ hretry,
      set_attempts_frames]
    simp
  · intro m d f1 f2 hboth
    obtain ⟨k, hk⟩ := send_sent u hd hw c m (d.set_attempts 0)
    rw [set_attempts_frames, ← send_eq_run, hboth] at hk
    have h2 := List.append_cancel_left hk
    match k, h2 with
    | 0, h2 => simp at h2
    | 1, h2 => simp at h2
    | 2, h2 =>
      simp only [List.replicate, List.cons.injEq, and_true] at h2
      obtain ⟨e1, e2⟩ := h2
      exact ⟨e1.trans e2.symm, by rw [e1, e2], e1⟩
    | k + 3, h2 =>
      have := congrArg List.length h2
      simp at this

theorem retry_sends_same_frame_witness :
    (example_header.wf ∧ 1 ≤ example_header.HM10_CLONE_MAX_BLE_NAME_SIZE
      ∧ (Cmd.set_pin [48, 49, 50, 51, 52, 53]).accepted example_header
      ∧ ((Cmd.set_pin [48, 49, 50, 51, 52, 53]).attempt sim example_header (1 + 1)
          ((Driver.init pin_link_0).set_attempts 0)).1.retry = true
      ∧ sim.drain example_header.HM10_CLONE_CUSTOM_HAL_TIMEOUT 1
          ((Cmd.set_pin [48, 49, 50, 51, 52, 53]).attempt sim example_header (1 + 1)
            ((Driver.init pin_link_0).set_attempts 0)).2.huart
        = some ⟨[], [(HAL_StatusTypeDef.HAL_OK,
            [43, 80, 73, 78, 61, 48, 49, 50, 51, 52, 53, 13, 10])]⟩
      ∧ tx_frames ((Cmd.set_pin [48, 49, 50, 51, 52, 53]).run sim example_header 3
          (Driver.init pin_link_0)).2.trace
        = tx_frames (Driver.init pin_link_0).trace
          ++ [[65, 84, 43, 80, 73, 78, 48, 49, 50, 51, 52, 53, 13, 10],
            [65, 84, 43, 80, 73, 78, 48, 49, 50, 51, 52, 53, 13, 10]])
    ∧ (tx_frames ((Cmd.set_pin [48, 49, 50, 51, 52, 53]).run sim example_header (1 + 2)
          (Driver.init pin_link_0)).2.trace
        = tx_frames (Driver.init pin_link_0).trace
          ++ [(Cmd.set_pin [48, 49, 50, 51, 52, 53]).request,
              (Cmd.set_pin [48, 49, 50, 51, 52, 53]).request]
      ∧ [65, 84, 43, 80, 73, 78, 48, 49, 50, 51, 52, 53, 13, 10]
        = [65, 84, 43, 80, 73, 78, 48, 49, 50, 51, 52, 53, 13, 10]
      ∧ [65, 84, 43, 80, 73, 78, 48, 49, 50, 51, 52, 53, 13, 10].length
        = [65, 84, 43, 80, 73, 78, 48, 49, 50, 51, 52, 53, 13, 10].length
      ∧ [65, 84, 43, 80, 73, 78, 48, 49, 50, 51, 52, 53, 13, 10]
        = (Cmd.set_pin [48, 49, 50, 51, 52, 53]).request) :=
  ⟨⟨by decide, by decide, by simp only [Cmd.accepted]; decide, by decide, by decide,
      by decide⟩,
    (retry_sends_same_frame sim example_header (by decide) (by decide)
      (Cmd.set_pin [48, 49, 50, 51, 52, 53])).1
      (by simp only [Cmd.accepted]; decide) 1 (Driver.init pin_link_0)
      ⟨[], [(HAL_StatusTypeDef.HAL_OK, [43, 80, 73, 78, 61, 48, 49, 50, 51, 52, 53, 13, 10])]⟩
      (by decide) (by decide),
    (retry_sends_same_frame sim example_header (by decide) (by decide)
      (Cmd.set_pin [48, 49, 50, 51, 52, 53])).2.1 3 (Driver.init pin_link_0)
      [65, 84, 43, 80, 73, 78, 48, 49, 50, 51, 52, 53, 13, 10]
      [65, 84, 43, 80, 73, 78, 48, 49, 50, 51, 52, 53, 13, 10] (by decide)⟩

end AT09
